import Mathlib

/-!
TRDP message data (MD) ingress, process data (PD) interface, time and statistics

A shallow embedding of `trdp_mdcom.c` (`trdp_mdCheck`, `trdp_mdUpdate`, `trdp_mdRecv`,
`trdp_mdReceive`), of `trdp_if.c` (`trdp_isValidSession`, `tlc_init`, `tlc_terminate`,
`tlc_reinit`, `tlp_setRedundant`, `tlp_getRedundant`, `tlp_publish`, `tlp_unpublish`,
`tlp_put`, `tlp_subscribe`, `tlp_unsubscribe`, `tlp_get`, `tlc_getInterval`,
`tlc_process`), of the time functions of `vos_thread.c` (`vos_addTime`, `vos_subTime`,
`vos_divTime`, `vos_cyclicThread`) and of the list functions of `trdp_stats.c`
(`tlc_getSubsStatistics`, `tlc_getPubStatistics`) of the TCNopen TRDP prototype stack,
followed by the properties proved about them.

Conventions of the embedding

* Memory reached through a `UINT8 *` is a `List Nat`; a byte read is `get8`
  (value modulo 256, bytes past the end of the list read as 0).  Every element
  owns the memory of its frame: a copy into one element never reaches another
  object.
* `UINT32` counters and sums are naturals reduced modulo `2 ^ 32` where the
  C code can wrap.  The field declarations of `MD_ELE_T` and of the statistics are
  in `trdp_private.h` / `trdp_types.h`, which are not among the sources; the counters
  are taken to be `UINT32`, the integer type used throughout `trdp_mdcom.c`.
* A time value is a `struct timeval`; its fields have the types `time_t` and
  `suseconds_t` of the platform and are integers without a bound here.  The values
  that the sources declare as `UINT32`, `INT32` or `UINT16` are reduced to that type.
* The session (`appHandle`) is passed and returned explicitly.  Calls of the
  user callback are appended to the `callbacks` log of the session; the callback
  itself is not executed.
* What the platform delivers (socket reads, `vos_getTime`, `vos_memAlloc`, the
  indeterminate value of an uninitialised local) is an explicit input, `MD_RX_ENV`
  for the MD ingress and `PD_ENV` for the functions of `trdp_if.c`.
* Functions of the repository that are not among the sources (`vos_crc32`,
  `trdp_MDqueueDelElement`, the queue functions of `trdp_utils.c`) and the layout of
  `MD_HEADER_T` are modelled from the specification; constants without a known value
  are parameters (`TRDP_PARAMS`, `PD_PARAMS`), and so are the functions of
  `trdp_pdcom.c` (`PD_COM`).
* In `trdp_if.c` a queue is the list of its elements in the order of the `pNext`
  links and a pointer to a queue element is its position in the list.  A handle
  (`TRDP_PUB_T`, `TRDP_SUB_T`) points to the address tuple of an element and is
  represented by that tuple.  The list of sessions is the list of their addresses;
  a session address is a natural number, 0 is NULL.  A function that would read
  through a NULL pointer has the result `none`.
* An array of the caller (`pStatistics` in `trdp_stats.c`) is a map from the index to
  the element, so that a store at any index is visible.
-/

namespace TRDP

/-! ## Result codes, constants, wire layout -/

/-- Result codes `TRDP_ERR_T` that occur in the embedded sources. -/
inductive TRDP_ERR_T
  | TRDP_NO_ERR
  | TRDP_PARAM_ERR
  | TRDP_INIT_ERR
  | TRDP_NOINIT_ERR
  | TRDP_TIMEOUT_ERR
  | TRDP_NODATA_ERR
  | TRDP_SOCK_ERR
  | TRDP_IO_ERR
  | TRDP_MEM_ERR
  | TRDP_QUEUE_ERR
  | TRDP_NOSUB_ERR
  | TRDP_NOPUB_ERR
  | TRDP_CRC_ERR
  | TRDP_WIRE_ERR
  | TRDP_TOPO_ERR
  | TRDP_COMID_ERR
  | TRDP_UNKNOWN_ERR
  deriving DecidableEq, Repr

open TRDP_ERR_T

/-- Constants whose `#define` is in headers that are not part of the sources
at hand (`trdp_private.h`, `trdp_types.h`); the model is parametric in them. -/
structure TRDP_PARAMS where
  /-- Protocol version of the stack, a 16 bit value. -/
  TRDP_PROTO_VER : Nat
  /-- Largest MD packet accepted. -/
  TRDP_MAX_MD_PACKET_SIZE : Nat
  /-- Flag bit selecting TCP transport in `pktFlags` / `mdDefault.flags`. -/
  TRDP_FLAGS_TCP : Nat
  deriving DecidableEq, Repr

/-- Wrap-around modulus of a `UINT32`. -/
def UINT32_MOD : Nat := 4294967296

/-- The effect of `x++` on a `UINT32`. -/
def inc32 (x : Nat) : Nat := (x + 1) % UINT32_MOD

/-- Modelled from the spec: `sizeof(MD_HEADER_T)`.  The declaration of
`MD_HEADER_T` (trdp_private.h) is missing; the fields are the ones the code
names, with the widths of section 4.1: sequenceCounter(u32),
protocolVersion(u16), msgType(u16), comId(u32), topoCount(u32),
datasetLength(u32), replyStatus(u32), sessionID(16 bytes), replyTimeout(u32),
sourceURI(32 bytes), destinationURI(32 bytes), frameCheckSum(u32). -/
def sizeof_MD_HEADER_T : Nat := 112

/-- Modelled from the spec: byte offset of `sequenceCounter` in `MD_HEADER_T`. -/
def OFF_sequenceCounter : Nat := 0
/-- Modelled from the spec: byte offset of `protocolVersion` in `MD_HEADER_T`. -/
def OFF_protocolVersion : Nat := 4
/-- Modelled from the spec: byte offset of `msgType` in `MD_HEADER_T`. -/
def OFF_msgType : Nat := 6
/-- Modelled from the spec: byte offset of `comId` in `MD_HEADER_T`. -/
def OFF_comId : Nat := 8
/-- Modelled from the spec: byte offset of `topoCount` in `MD_HEADER_T`. -/
def OFF_topoCount : Nat := 12
/-- Modelled from the spec: byte offset of `datasetLength` in `MD_HEADER_T`. -/
def OFF_datasetLength : Nat := 16
/-- Modelled from the spec: byte offset of `replyStatus` in `MD_HEADER_T`. -/
def OFF_replyStatus : Nat := 20
/-- Modelled from the spec: byte offset of `sessionID` in `MD_HEADER_T`. -/
def OFF_sessionID : Nat := 24
/-- Modelled from the spec: byte offset of `replyTimeout` in `MD_HEADER_T`. -/
def OFF_replyTimeout : Nat := 40
/-- Modelled from the spec: byte offset of `sourceURI` in `MD_HEADER_T`. -/
def OFF_sourceURI : Nat := 44
/-- Modelled from the spec: byte offset of `destinationURI` in `MD_HEADER_T`. -/
def OFF_destinationURI : Nat := 76
/-- Modelled from the spec: byte offset of `frameCheckSum`, the last header word. -/
def OFF_frameCheckSum : Nat := 108

/-- Modelled from the spec: `TRDP_MAX_URI_USER_LEN`, the 32 byte URI fields. -/
def TRDP_MAX_URI_USER_LEN : Nat := 32

/-- Modelled from the spec: message type `Mn` (notify), two ASCII bytes as u16. -/
def TRDP_MSG_MN : Nat := 0x4D6E
/-- Modelled from the spec: message type `Mr` (request). -/
def TRDP_MSG_MR : Nat := 0x4D72
/-- Modelled from the spec: message type `Mp` (reply without confirmation). -/
def TRDP_MSG_MP : Nat := 0x4D70
/-- Modelled from the spec: message type `Mq` (reply with confirmation). -/
def TRDP_MSG_MQ : Nat := 0x4D71
/-- Modelled from the spec: message type `Mc` (confirm). -/
def TRDP_MSG_MC : Nat := 0x4D63
/-- Modelled from the spec: message type `Me` (reply error). -/
def TRDP_MSG_ME : Nat := 0x4D65

/-- The mask `TRDP_PROTOCOL_VERSION_CHECK_MASK` defined inside `trdp_mdCheck`. -/
def TRDP_PROTOCOL_VERSION_CHECK_MASK : Nat := 0xFF00

/-! ## Byte memory -/

/-- Read of one `UINT8` at offset `i`. -/
def get8 (buf : List Nat) (i : Nat) : Nat := buf.getD i 0 % 256

/-- The `len` bytes starting at offset `off`. -/
def memSpan (buf : List Nat) (off len : Nat) : List Nat :=
  (List.range len).map (fun i => get8 buf (off + i))

/-- Store the bytes `bs` at offset `off` (the memory is enlarged with zero
bytes when the store goes past the end of the list). -/
def memWrite (buf : List Nat) (off : Nat) (bs : List Nat) : List Nat :=
  (List.range (max buf.length (off + bs.length))).map
    (fun i => if off ≤ i ∧ i < off + bs.length then bs.getD (i - off) 0 else buf.getD i 0)

/-- The call `vos_ntohl(field)` for a 32 bit field at offset `off`: the big-endian value. -/
def vos_ntohl (buf : List Nat) (off : Nat) : Nat :=
  get8 buf off * 16777216 + get8 buf (off + 1) * 65536 + get8 buf (off + 2) * 256
    + get8 buf (off + 3)

/-- The call `vos_ntohs(field)` for a 16 bit field at offset `off`: the big-endian value. -/
def vos_ntohs (buf : List Nat) (off : Nat) : Nat :=
  get8 buf off * 256 + get8 buf (off + 1)

/-- The four bytes that a store of `MAKE_LE(x)` through a `UINT32 *` leaves in
memory: the little-endian representation of `x`, whatever the host order. -/
def le32 (x : Nat) : List Nat :=
  [x % 256, x / 256 % 256, x / 65536 % 256, x / 16777216 % 256]

/-! ## CRC32 -/

/-- Modelled from the spec: one bit of the IEEE 802.3 CRC32 (reflected
polynomial 0xEDB88320); `vos_crc32` (vos_utils.c) is not in the sources. -/
def crcBit (crc : Nat) : Nat :=
  if crc % 2 = 1 then (crc / 2) ^^^ 0xEDB88320 else crc / 2

/-- Modelled from the spec: one byte of the IEEE 802.3 CRC32, the byte is
xor-ed into the low bits of the running value and eight bit steps follow. -/
def crcByte (crc byte : Nat) : Nat :=
  crcBit (crcBit (crcBit (crcBit (crcBit (crcBit (crcBit (crcBit (crc ^^^ (byte % 256)))))))))

/-- Modelled from the spec: `vos_crc32(crc, pData, dataLen)` (vos_utils.c is
missing), the incremental IEEE 802.3 CRC32 over a byte span, start value given
by the caller, no final complement (section 4.1: a span that ends in its own
stored FCS yields zero). `pData` is the span of `dataLen` bytes. -/
def vos_crc32 (crc : Nat) (pData : List Nat) : Nat :=
  pData.foldl crcByte crc

/-! ## Statistics -/

/-- The counters of `appHandle->stats.udpMd` touched by MD ingress (all `UINT32`). -/
structure TRDP_MD_STATISTICS_T where
  numRcv : Nat
  numCrcErr : Nat
  numProtErr : Nat
  numTopoErr : Nat
  numNoListener : Nat
  deriving DecidableEq, Repr

/-! ## trdp_mdCheck -/

/-- Is `l_msgType` one of the six case labels of the switch in `trdp_mdCheck`. -/
def mdValidMsgType (t : Nat) : Bool :=
  t == TRDP_MSG_MN || t == TRDP_MSG_MR || t == TRDP_MSG_MP || t == TRDP_MSG_MQ
    || t == TRDP_MSG_MC || t == TRDP_MSG_ME

/-- Block "size shall be in MIN..MAX" of `trdp_mdCheck`. -/
def mdCheckSize (k : TRDP_PARAMS) (packetSize : Nat)
    (r : TRDP_ERR_T × TRDP_MD_STATISTICS_T) : TRDP_ERR_T × TRDP_MD_STATISTICS_T :=
  if r.1 = TRDP_NO_ERR then
    if packetSize < sizeof_MD_HEADER_T ∨ packetSize > k.TRDP_MAX_MD_PACKET_SIZE then
      (TRDP_WIRE_ERR, { r.2 with numProtErr := inc32 r.2.numProtErr })
    else r
  else r

/-- Block "crc check" of `trdp_mdCheck`: the header CRC, and then, also after
a header CRC error, the data CRC when `l_datasetLength > 0`. -/
def mdCheckCrc (pPacket : List Nat) (packetSize : Nat)
    (r : TRDP_ERR_T × TRDP_MD_STATISTICS_T) : TRDP_ERR_T × TRDP_MD_STATISTICS_T :=
  if r.1 = TRDP_NO_ERR then
    let l_datasetLength := vos_ntohl pPacket OFF_datasetLength
    let crc32 := vos_crc32 0xffffffff (memSpan pPacket 0 sizeof_MD_HEADER_T)
    let r1 : TRDP_ERR_T × TRDP_MD_STATISTICS_T :=
      if crc32 ≠ 0 then (TRDP_CRC_ERR, { r.2 with numCrcErr := inc32 r.2.numCrcErr }) else r
    if l_datasetLength > 0 then
      let crc32 := vos_crc32 0xffffffff (memSpan pPacket sizeof_MD_HEADER_T l_datasetLength)
      let le_crc32 := le32 crc32
      let pktCRC := memSpan pPacket (packetSize - 4) 4
      if le_crc32 ≠ pktCRC then
        (TRDP_CRC_ERR, { r1.2 with numCrcErr := inc32 r1.2.numCrcErr })
      else r1
    else r1
  else r

/-- Block "Check protocol version" of `trdp_mdCheck`. -/
def mdCheckVersion (k : TRDP_PARAMS) (pPacket : List Nat)
    (r : TRDP_ERR_T × TRDP_MD_STATISTICS_T) : TRDP_ERR_T × TRDP_MD_STATISTICS_T :=
  if r.1 = TRDP_NO_ERR then
    let l_protocolVersion := vos_ntohs pPacket OFF_protocolVersion
    if (l_protocolVersion &&& TRDP_PROTOCOL_VERSION_CHECK_MASK) ≠
        (k.TRDP_PROTO_VER &&& TRDP_PROTOCOL_VERSION_CHECK_MASK) then
      (TRDP_WIRE_ERR, { r.2 with numProtErr := inc32 r.2.numProtErr })
    else r
  else r

/-- Block "Check protocol type" of `trdp_mdCheck`. -/
def mdCheckType (pPacket : List Nat)
    (r : TRDP_ERR_T × TRDP_MD_STATISTICS_T) : TRDP_ERR_T × TRDP_MD_STATISTICS_T :=
  if r.1 = TRDP_NO_ERR then
    let l_msgType := vos_ntohs pPacket OFF_msgType
    if mdValidMsgType l_msgType then r
    else (TRDP_WIRE_ERR, { r.2 with numProtErr := inc32 r.2.numProtErr })
  else r

/-- The `UINT32 expectedLength` computed in block "check telegram length". -/
def mdExpectedLength (pPacket : List Nat) : Nat :=
  let l_datasetLength := vos_ntohl pPacket OFF_datasetLength
  if l_datasetLength > 0 then (sizeof_MD_HEADER_T + l_datasetLength + 4) % UINT32_MOD
  else sizeof_MD_HEADER_T

/-- Block "check telegram length" of `trdp_mdCheck`. -/
def mdCheckLength (pPacket : List Nat) (packetSize : Nat)
    (r : TRDP_ERR_T × TRDP_MD_STATISTICS_T) : TRDP_ERR_T × TRDP_MD_STATISTICS_T :=
  if r.1 = TRDP_NO_ERR then
    if packetSize < mdExpectedLength pPacket then
      (TRDP_WIRE_ERR, { r.2 with numProtErr := inc32 r.2.numProtErr })
    else r
  else r

/-- The function `trdp_mdCheck(appHandle, pPacket, packetSize)`: the five
blocks in source order, each guarded by `TRDP_NO_ERR == err`; returns `err`
and the statistics of `appHandle`. -/
def trdp_mdCheck (k : TRDP_PARAMS) (stats : TRDP_MD_STATISTICS_T) (pPacket : List Nat)
    (packetSize : Nat) : TRDP_ERR_T × TRDP_MD_STATISTICS_T :=
  mdCheckLength pPacket packetSize
    (mdCheckType pPacket
      (mdCheckVersion k pPacket
        (mdCheckCrc pPacket packetSize
          (mdCheckSize k packetSize (TRDP_NO_ERR, stats)))))

/-! ## Time values -/

/-- The type `TRDP_TIME_T` (`VOS_TIME_T`, a `struct timeval`). -/
structure TRDP_TIME_T where
  tv_sec : Int
  tv_usec : Int
  deriving DecidableEq, Repr

/-- The `timeradd` macro of `<sys/time.h>`, used by `vos_addTime`. -/
def timeradd (a b : TRDP_TIME_T) : TRDP_TIME_T :=
  let sec := a.tv_sec + b.tv_sec
  let usec := a.tv_usec + b.tv_usec
  if usec ≥ 1000000 then { tv_sec := sec + 1, tv_usec := usec - 1000000 }
  else { tv_sec := sec, tv_usec := usec }

/-- The function `vos_addTime(pTime, pAdd)` of vos_thread.c; the result is the
content of `*pTime` afterwards (`none` is a NULL pointer). -/
def vos_addTime (pTime pAdd : Option TRDP_TIME_T) : Option TRDP_TIME_T :=
  match pTime, pAdd with
  | some t, some a => some (timeradd t a)
  | _, _ => pTime

/-! ## MD elements and the session -/

/-- The states `TRDP_MD_ELE_ST_T` of an MD element (the enum is declared in
trdp_private.h, which is missing; these are the values the code names, with
the remaining armed states of section 4.4). -/
inductive TRDP_MD_ELE_ST_T
  | TRDP_MD_ELE_ST_NONE
  | TRDP_MD_ELE_ST_TX_NOTIFY_ARM
  | TRDP_MD_ELE_ST_TX_REQUEST_ARM
  | TRDP_MD_ELE_ST_TX_REPLY_ARM
  | TRDP_MD_ELE_ST_TX_REPLYQUERY_ARM
  | TRDP_MD_ELE_ST_TX_CONFIRM_ARM
  | TRDP_MD_ELE_ST_RX_ARM
  | TRDP_MD_ELE_ST_TX_REQUEST_W4Y
  | TRDP_MD_ELE_ST_RX_REQ_W4AP_REPLY
  | TRDP_MD_ELE_ST_TX_REPLYQUERY_W4C
  | TRDP_MD_ELE_ST_RX_REPLY_W4AP_CONF
  deriving DecidableEq, Repr

open TRDP_MD_ELE_ST_T

/-- The union `u` of `MD_ELE_T`: the fields of `u.listener` that the code
touches; `u.caller.comId` is the same `comId` field seen through the other arm. -/
structure MD_ELE_U where
  comId : Nat
  topoCount : Nat
  destIpAddr : Nat
  destURI : List Nat
  deriving DecidableEq, Repr

/-- The element type `MD_ELE_T` (listener, caller session or receive buffer): the fields
used by trdp_mdcom.c. `frame` is the memory from `frameHead` on (header, then `data[]`). -/
structure MD_ELE_T where
  addr_srcIpAddr : Nat
  pktFlags : Nat
  interval : TRDP_TIME_T
  timeToGo : TRDP_TIME_T
  dataSize : Nat
  grossSize : Nat
  socketIdx : Nat
  stateEle : TRDP_MD_ELE_ST_T
  sessionID : List Nat
  noOfRepliers : Nat
  numReplies : Nat
  numRetriesMax : Nat
  numRetries : Nat
  disableReplyRx : Nat
  numRepliesQuery : Nat
  numConfirmSent : Nat
  numConfirmTimeout : Nat
  u : MD_ELE_U
  frame : List Nat
  deriving DecidableEq, Repr

/-- An entry of `appHandle->iface[]` (`TRDP_SOCKETS_T`): the fields used on MD ingress. -/
structure TRDP_SOCKETS_T where
  sock : Int
  rcvOnly : Nat
  usage : Int
  cornerIp : Nat
  connectionTimeout : TRDP_TIME_T
  deriving DecidableEq, Repr

/-- The part of `appHandle->mdDefault` read on MD ingress; `pfCbFunction` tells
whether the callback pointer is non-NULL. -/
structure TRDP_MD_CONFIG_T where
  flags : Nat
  pfCbFunction : Bool
  connectTimeout : Nat
  deriving DecidableEq, Repr

/-- The record `TRDP_MD_INFO_T theMessage` handed to the user callback. -/
structure TRDP_MD_INFO_T where
  srcIpAddr : Nat
  destIpAddr : Nat
  seqCount : Nat
  protVersion : Nat
  msgType : Nat
  comId : Nat
  topoCount : Nat
  userStatus : Nat
  replyStatus : Nat
  sessionId : List Nat
  replyTimeout : Nat
  destURI : List Nat
  srcURI : List Nat
  noOfRepliers : Nat
  numReplies : Nat
  numRetriesMax : Nat
  numRetries : Nat
  disableReplyRx : Nat
  numRepliesQuery : Nat
  numConfirmSent : Nat
  numConfirmTimeout : Nat
  resultCode : TRDP_ERR_T
  deriving DecidableEq, Repr

/-- One call `appHandle->mdDefault.pfCbFunction(pRefCon, &theMessage, pData, lF)`. -/
structure MD_CALLBACK where
  pMsg : TRDP_MD_INFO_T
  pData : List Nat
  dataSize : Nat
  deriving DecidableEq, Repr

/-- The session `*appHandle` (`TRDP_SESSION_T`) as far as MD ingress uses it, together
with the log of callback invocations. The length of `iface` is `VOS_MAX_SOCKET_CNT`. -/
structure TRDP_SESSION where
  topoCount : Nat
  mdDefault : TRDP_MD_CONFIG_T
  iface : List TRDP_SOCKETS_T
  pMDRcvEle : Option MD_ELE_T
  pMDRcvQueue : List MD_ELE_T
  pMDSndQueue : List MD_ELE_T
  stats : TRDP_MD_STATISTICS_T
  callbacks : List MD_CALLBACK
  deriving DecidableEq, Repr

/-- What the platform delivers during one call of `trdp_mdReceive`. -/
structure MD_RX_ENV where
  /-- Does `vos_memAlloc` return a buffer. -/
  allocOk : Bool
  /-- Result of `vos_sockReceiveUDP`, or of the first `vos_sockReceiveTCP`. -/
  rcvErr : TRDP_ERR_T
  /-- The `size` reported by that call. -/
  rcvSize : Nat
  /-- TCP only: result of the second `vos_sockReceiveTCP` (data and CRC). -/
  rcvErr2 : TRDP_ERR_T
  /-- TCP only: `data_size` reported by the second call. -/
  rcvSize2 : Nat
  /-- Memory from `&pPacket->frameHead` on after the socket has been read. -/
  rcvFrame : List Nat
  /-- UDP only: source address stored by `vos_sockReceiveUDP`. -/
  rcvSrcIp : Nat
  /-- The reading of `vos_getTime`. -/
  now : TRDP_TIME_T
  /-- The indeterminate value of the uninitialised local `sockPosition`. -/
  sockPosition : Nat
  deriving DecidableEq, Repr

/-- The call `memcpy(dst, src + srcOff, n)`. -/
def memcpy (dst src : List Nat) (srcOff n : Nat) : List Nat :=
  memWrite dst 0 (memSpan src srcOff n)

/-- A zeroed `MD_ELE_T` (after `memset(..., 0, sizeof(MD_ELE_T))`). -/
def MD_ELE_T.zero : MD_ELE_T :=
  { addr_srcIpAddr := 0, pktFlags := 0, interval := ⟨0, 0⟩, timeToGo := ⟨0, 0⟩, dataSize := 0,
    grossSize := 0, socketIdx := 0, stateEle := TRDP_MD_ELE_ST_NONE, sessionID := [],
    noOfRepliers := 0, numReplies := 0, numRetriesMax := 0, numRetries := 0,
    disableReplyRx := 0, numRepliesQuery := 0, numConfirmSent := 0, numConfirmTimeout := 0,
    u := { comId := 0, topoCount := 0, destIpAddr := 0, destURI := [] }, frame := [] }

/-- A zero `iface` entry, read when an index is past the end of `iface`. -/
def TRDP_SOCKETS_T.zero : TRDP_SOCKETS_T :=
  { sock := 0, rcvOnly := 0, usage := 0, cornerIp := 0, connectionTimeout := ⟨0, 0⟩ }

/-! ## trdp_mdUpdate -/

/-- The function `trdp_mdUpdate(pPacket)`: stamps the header FCS over the first
`sizeof(MD_HEADER_T) - 4` bytes and, when `datasetLength` is non-zero (the
raw field is non-zero exactly when its `vos_ntohl` value is), the data CRC
at `frameHead + grossSize - 4`. With `grossSize < 4` that address lies before
`frameHead`: the first `4 - grossSize` bytes of the CRC go to the memory in front of
the frame, which `frame` does not hold, and the other bytes to the start of the frame. -/
def trdp_mdUpdate (pPacket : MD_ELE_T) : MD_ELE_T :=
  let myCRC := vos_crc32 0xffffffff []
  let myCRC1 := myCRC
  let myCRC := vos_crc32 myCRC (memSpan pPacket.frame 0 (sizeof_MD_HEADER_T - 4))
  let frame1 := memWrite pPacket.frame OFF_frameCheckSum (le32 myCRC)
  if vos_ntohl frame1 OFF_datasetLength > 0 then
    let myCRC1 := vos_crc32 myCRC1
      (memSpan frame1 sizeof_MD_HEADER_T (vos_ntohl frame1 OFF_datasetLength))
    if pPacket.grossSize < 4 then
      { pPacket with frame := memWrite frame1 0 ((le32 myCRC1).drop (4 - pPacket.grossSize)) }
    else { pPacket with frame := memWrite frame1 (pPacket.grossSize - 4) (le32 myCRC1) }
  else { pPacket with frame := frame1 }

/-! ## trdp_mdRecv -/

/-- The tail of `trdp_mdRecv` after the socket has been read: `dataSize` is stored,
socket errors are mapped, then `trdp_mdCheck` runs and the statistics switch follows. -/
def mdRecvCheck (k : TRDP_PARAMS) (stats : TRDP_MD_STATISTICS_T) (err : TRDP_ERR_T)
    (size : Nat) (pPacket : MD_ELE_T) : TRDP_ERR_T × TRDP_MD_STATISTICS_T × MD_ELE_T :=
  let pPacket := { pPacket with dataSize := size }
  if err = TRDP_NODATA_ERR then (TRDP_TIMEOUT_ERR, stats, pPacket)
  else if err ≠ TRDP_NO_ERR then (TRDP_IO_ERR, stats, pPacket)
  else
    let r := trdp_mdCheck k stats pPacket.frame size
    match r.1 with
    | TRDP_NO_ERR => (TRDP_NO_ERR, { r.2 with numRcv := inc32 r.2.numRcv }, pPacket)
    | TRDP_CRC_ERR => (TRDP_CRC_ERR, { r.2 with numCrcErr := inc32 r.2.numCrcErr }, pPacket)
    | TRDP_WIRE_ERR => (TRDP_WIRE_ERR, { r.2 with numProtErr := inc32 r.2.numProtErr }, pPacket)
    | e => (e, r.2, pPacket)

/-- The function `trdp_mdRecv(appHandle, mdSock, pPacket)`. The `VOS_ERR_T` results of
the socket calls are cast to `TRDP_ERR_T` by the code and appear here as such. -/
def trdp_mdRecv (k : TRDP_PARAMS) (stats : TRDP_MD_STATISTICS_T) (env : MD_RX_ENV)
    (pPacket : MD_ELE_T) : TRDP_ERR_T × TRDP_MD_STATISTICS_T × MD_ELE_T :=
  if pPacket.pktFlags &&& k.TRDP_FLAGS_TCP ≠ 0 then
    let pPacket := { pPacket with frame := env.rcvFrame }
    if env.rcvErr = TRDP_NODATA_ERR then (TRDP_NODATA_ERR, stats, pPacket)
    else if env.rcvErr ≠ TRDP_NO_ERR then (TRDP_IO_ERR, stats, pPacket)
    else mdRecvCheck k stats env.rcvErr2 ((env.rcvSize + env.rcvSize2) % UINT32_MOD) pPacket
  else
    mdRecvCheck k stats env.rcvErr env.rcvSize
      { pPacket with frame := env.rcvFrame, addr_srcIpAddr := env.rcvSrcIp }

/-! ## trdp_mdReceive -/

/-- First index of `iface` for which `p` holds: the value of `findSock` when one of
the `for(findSock = 0; findSock < VOS_MAX_SOCKET_CNT; findSock++)` loops breaks. -/
def mdFindSock (p : TRDP_SOCKETS_T → Bool) : List TRDP_SOCKETS_T → Option Nat
  | [] => none
  | x :: rest => if p x then some 0 else (mdFindSock p rest).map (fun i => i + 1)

/-- Update of `iface[i]` in place (no effect when `i` is past the end). -/
def mdIfaceUpdate (iface : List TRDP_SOCKETS_T) (i : Nat)
    (f : TRDP_SOCKETS_T → TRDP_SOCKETS_T) : List TRDP_SOCKETS_T :=
  match iface.get? i with
  | some x => iface.set i (f x)
  | none => iface

/-- The loop "check on opened caller session to pair received replay/error telegram":
position and value of the first element of the send queue with the comId and the
16 byte session id of the frame, `none` when `sender_ele` ends as NULL. -/
def mdFindSender (l_comId : Nat) (sessionID : List Nat) :
    List MD_ELE_T → Option (Nat × MD_ELE_T)
  | [] => none
  | sender_ele :: rest =>
    if sender_ele.u.comId ≠ l_comId then
      (mdFindSender l_comId sessionID rest).map (fun r => (r.1 + 1, r.2))
    else if memSpan sender_ele.sessionID 0 16 ≠ sessionID then
      (mdFindSender l_comId sessionID rest).map (fun r => (r.1 + 1, r.2))
    else some (0, sender_ele)

/-- Modelled from the spec: `trdp_MDqueueDelElement(&appHandle->pMDSndQueue, sender_ele)`
(trdp_utils.c is missing): the element found at position `idx` leaves the queue. -/
def trdp_MDqueueDelElement (queue : List MD_ELE_T) (idx : Nat) : List MD_ELE_T :=
  queue.eraseIdx idx

/-- The fields of `theMessage` that all three callback sites fill from the received
header `pH`, with the counters zeroed as at the notify/request and confirm sites.
`vos_ntohs(pH->replyStatus)` is applied to the leading half of the 32 bit field. -/
def mdInfo (rcvEle iterMD : MD_ELE_T) : TRDP_MD_INFO_T :=
  let pH := rcvEle.frame
  { srcIpAddr := rcvEle.addr_srcIpAddr
    destIpAddr := 0
    seqCount := vos_ntohl pH OFF_sequenceCounter
    protVersion := vos_ntohs pH OFF_protocolVersion
    msgType := vos_ntohs pH OFF_msgType
    comId := iterMD.u.comId
    topoCount := vos_ntohl pH OFF_topoCount
    userStatus := 0
    replyStatus := vos_ntohs pH OFF_replyStatus
    sessionId := memSpan pH OFF_sessionID 16
    replyTimeout := vos_ntohl pH OFF_replyTimeout
    destURI := memSpan pH OFF_destinationURI TRDP_MAX_URI_USER_LEN
    srcURI := memSpan pH OFF_sourceURI TRDP_MAX_URI_USER_LEN
    noOfRepliers := 0
    numReplies := 0
    numRetriesMax := 0
    numRetries := 0
    disableReplyRx := 0
    numRepliesQuery := 0
    numConfirmSent := 0
    numConfirmTimeout := 0
    resultCode := TRDP_NO_ERR }

/-- The block `if (appHandle->mdDefault.pfCbFunction != NULL) { ... }`: the callback
gets `data[0]` under TCP and the header `pH` otherwise, each time with length `lF`. -/
def mdCallback (k : TRDP_PARAMS) (appHandle : TRDP_SESSION) (rcvEle : MD_ELE_T)
    (theMessage : TRDP_MD_INFO_T) : TRDP_SESSION :=
  if appHandle.mdDefault.pfCbFunction then
    let lF := rcvEle.dataSize
    let off := if appHandle.mdDefault.flags &&& k.TRDP_FLAGS_TCP ≠ 0 then sizeof_MD_HEADER_T else 0
    { appHandle with
      callbacks := appHandle.callbacks ++
        [{ pMsg := theMessage, pData := memSpan rcvEle.frame off lF, dataSize := lF }] }
  else appHandle

/-- The block "TCP and Notify message" at the end of the notify/request arm: for a
request under TCP the socket with `rcvOnly == 1` is looked up, its usage is
incremented and its position saved in the listener. -/
def mdRequestSocket (k : TRDP_PARAMS) (appHandle : TRDP_SESSION) (env : MD_RX_ENV)
    (sock : Int) (l_msgType : Nat) (iterMD : MD_ELE_T) : MD_ELE_T × TRDP_SESSION :=
  if appHandle.mdDefault.flags &&& k.TRDP_FLAGS_TCP ≠ 0 then
    if TRDP_MSG_MR = l_msgType then
      let sockPosition := (mdFindSock
        (fun x => x.sock == sock && x.sock != -1 && x.rcvOnly == 1) appHandle.iface).getD
          env.sockPosition
      let appHandle := { appHandle with
        iface := mdIfaceUpdate appHandle.iface sockPosition
          (fun x => { x with usage := x.usage + 1 }) }
      ({ iterMD with socketIdx := sockPosition }, appHandle)
    else (iterMD, appHandle)
  else (iterMD, appHandle)

/-- Switch arm `case TRDP_MSG_MN: case TRDP_MSG_MR:` for the armed listener `iterMD`. -/
def mdDispatchRequest (k : TRDP_PARAMS) (appHandle : TRDP_SESSION) (env : MD_RX_ENV)
    (sock : Int) (rcvEle iterMD : MD_ELE_T) : MD_ELE_T × TRDP_SESSION :=
  let pH := rcvEle.frame
  let lF := rcvEle.dataSize
  let l_msgType := vos_ntohs pH OFF_msgType
  let iterMD := if TRDP_MSG_MR = l_msgType then
      { iterMD with stateEle := TRDP_MD_ELE_ST_RX_REQ_W4AP_REPLY } else iterMD
  let iterMD := { iterMD with
    timeToGo := env.now
    interval := { tv_sec := (vos_ntohl pH OFF_replyTimeout / 1000000 : Nat),
                  tv_usec := (vos_ntohl pH OFF_replyTimeout % 1000000 : Nat) }
    sessionID := memcpy iterMD.sessionID pH OFF_sessionID 16 }
  let iterMD := { iterMD with frame := memcpy iterMD.frame pH 0 lF }
  let appHandle := mdCallback k appHandle rcvEle (mdInfo rcvEle iterMD)
  mdRequestSocket k appHandle env sock l_msgType iterMD

/-- What an accepted reply of type `l_msgType` does to the caller session `sender_ele`:
the assignments to `sender_ele` in the reply branch, in source order (`numReplies++`,
on `Mq` `numRepliesQuery++`, then "Handle multiple replies"). -/
def mdSenderAfterReply (l_msgType : Nat) (sender_ele : MD_ELE_T) : MD_ELE_T :=
  let sender_ele := { sender_ele with numReplies := inc32 sender_ele.numReplies }
  let sender_ele := if l_msgType = TRDP_MSG_MQ then
      { sender_ele with numRepliesQuery := inc32 sender_ele.numRepliesQuery } else sender_ele
  if sender_ele.noOfRepliers = 1 then { sender_ele with disableReplyRx := 1 }
  else if sender_ele.noOfRepliers > 1 then
    if sender_ele.noOfRepliers = sender_ele.numReplies then
      { sender_ele with disableReplyRx := 1 }
    else sender_ele
  else sender_ele

/-- The assignments to the listener on a reply with confirm request (`Mq`): "move the
listener waiting for sending confirm telegram", session id, timeout and identification
taken from the caller session and the frame. -/
def mdListenerAfterReplyQuery (rcvEle iterMD sender_ele : MD_ELE_T) : MD_ELE_T :=
  let pH := rcvEle.frame
  { iterMD with
    stateEle := TRDP_MD_ELE_ST_RX_REPLY_W4AP_CONF
    sessionID := memcpy iterMD.sessionID sender_ele.sessionID 0 16
    timeToGo := sender_ele.timeToGo
    interval := sender_ele.interval
    u := { comId := vos_ntohl pH OFF_comId, topoCount := vos_ntohl pH OFF_topoCount,
           destIpAddr := rcvEle.addr_srcIpAddr,
           destURI := memcpy iterMD.u.destURI pH OFF_destinationURI TRDP_MAX_URI_USER_LEN } }

/-- The record `theMessage` of the reply branch: the header fields, and the counters
of the caller session as they are after the reply has been counted. -/
def mdReplyInfo (rcvEle iterMD sender_ele : MD_ELE_T) : TRDP_MD_INFO_T :=
  { mdInfo rcvEle iterMD with
    noOfRepliers := sender_ele.noOfRepliers
    numReplies := sender_ele.numReplies
    numRetriesMax := sender_ele.numRetriesMax
    numRetries := sender_ele.numRetries
    disableReplyRx := sender_ele.disableReplyRx
    numRepliesQuery := sender_ele.numRepliesQuery
    numConfirmSent := sender_ele.numConfirmSent
    numConfirmTimeout := sender_ele.numConfirmTimeout }

/-- The block "TCP and Reply/ReplyError message": the sending socket is looked up and
saved in the listener; on `Mp` and `Me` its usage is decremented and, when it drops to
0, the connection timeout of the socket is started. -/
def mdReplySocket (k : TRDP_PARAMS) (appHandle : TRDP_SESSION) (env : MD_RX_ENV)
    (sock : Int) (l_msgType : Nat) (iterMD : MD_ELE_T) : MD_ELE_T × TRDP_SESSION :=
  if appHandle.mdDefault.flags &&& k.TRDP_FLAGS_TCP ≠ 0 then
    let sockPosition := (mdFindSock
      (fun x => x.sock == sock && x.sock != -1 && x.rcvOnly == 0) appHandle.iface).getD
        env.sockPosition
    let iterMD := { iterMD with socketIdx := sockPosition }
    if TRDP_MSG_MP = l_msgType ∨ TRDP_MSG_ME = l_msgType then
      let iface := mdIfaceUpdate appHandle.iface sockPosition
        (fun x => { x with usage := x.usage - 1 })
      let x := iface.getD sockPosition TRDP_SOCKETS_T.zero
      let iface := if x.usage = 0 ∧ x.rcvOnly = 0 then
          let tmpt_interval : TRDP_TIME_T :=
            { tv_sec := (appHandle.mdDefault.connectTimeout / 1000000 : Nat),
              tv_usec := (appHandle.mdDefault.connectTimeout % 1000000 : Nat) }
          let tmpt_now := (vos_addTime (some env.now) (some tmpt_interval)).getD env.now
          mdIfaceUpdate iface sockPosition (fun y => { y with connectionTimeout := tmpt_now })
        else iface
      (iterMD, { appHandle with iface := iface })
    else (iterMD, appHandle)
  else (iterMD, appHandle)

/-- The accepted reply (`Mp`, `Mq`, `Me`) for a caller in `TX_REQUEST_W4Y` whose
`disableReplyRx` is 0: the caller session is updated in place (position `idx` of the
send queue), on `Mq` the listener is moved, the frame is copied to the listener, the
callback is called, and the TCP socket bookkeeping follows. -/
def mdDispatchReply (k : TRDP_PARAMS) (appHandle : TRDP_SESSION) (env : MD_RX_ENV)
    (sock : Int) (rcvEle iterMD : MD_ELE_T) (idx : Nat) (sender_ele : MD_ELE_T) :
    MD_ELE_T × TRDP_SESSION :=
  let pH := rcvEle.frame
  let lF := rcvEle.dataSize
  let l_msgType := vos_ntohs pH OFF_msgType
  let iterMD := if l_msgType = TRDP_MSG_MQ then
      mdListenerAfterReplyQuery rcvEle iterMD sender_ele else iterMD
  let sender_ele := mdSenderAfterReply l_msgType sender_ele
  let iterMD := { iterMD with frame := memcpy iterMD.frame pH 0 lF }
  let appHandle := { appHandle with pMDSndQueue := appHandle.pMDSndQueue.set idx sender_ele }
  let appHandle := mdCallback k appHandle rcvEle (mdReplyInfo rcvEle iterMD sender_ele)
  mdReplySocket k appHandle env sock l_msgType iterMD

/-- The block "TCP and Confirm message": the receiving socket is looked up, saved in
the listener, and its usage is decremented. -/
def mdConfirmSocket (k : TRDP_PARAMS) (appHandle : TRDP_SESSION) (env : MD_RX_ENV)
    (sock : Int) (iterMD : MD_ELE_T) : MD_ELE_T × TRDP_SESSION :=
  if appHandle.mdDefault.flags &&& k.TRDP_FLAGS_TCP ≠ 0 then
    let sockPosition := (mdFindSock
      (fun x => x.sock == sock && x.sock != -1 && x.rcvOnly == 1) appHandle.iface).getD
        env.sockPosition
    ({ iterMD with socketIdx := sockPosition },
     { appHandle with
       iface := mdIfaceUpdate appHandle.iface sockPosition
         (fun x => { x with usage := x.usage - 1 }) })
  else (iterMD, appHandle)

/-- The confirm `Mc` for a sender in `TX_REPLYQUERY_W4C`: frame copy, callback, TCP
bookkeeping, then the sender element is removed from the send queue and freed. -/
def mdDispatchConfirm (k : TRDP_PARAMS) (appHandle : TRDP_SESSION) (env : MD_RX_ENV)
    (sock : Int) (rcvEle iterMD : MD_ELE_T) (idx : Nat) : MD_ELE_T × TRDP_SESSION :=
  let pH := rcvEle.frame
  let lF := rcvEle.dataSize
  let iterMD := { iterMD with frame := memcpy iterMD.frame pH 0 lF }
  let appHandle := mdCallback k appHandle rcvEle (mdInfo rcvEle iterMD)
  let r := mdConfirmSocket k appHandle env sock iterMD
  (r.1, { r.2 with pMDSndQueue := trdp_MDqueueDelElement r.2.pMDSndQueue idx })

/-- The body executed for the first listener `iterMD` with the comId of the frame and
state `TRDP_MD_ELE_ST_RX_ARM`: the `switch(l_msgType)`; the loop is left afterwards.
Returns the listener and the session (whose receive queue is put together by the
caller). -/
def mdDispatch (k : TRDP_PARAMS) (appHandle : TRDP_SESSION) (env : MD_RX_ENV) (sock : Int)
    (rcvEle iterMD : MD_ELE_T) : MD_ELE_T × TRDP_SESSION :=
  let pH := rcvEle.frame
  let l_msgType := vos_ntohs pH OFF_msgType
  let l_comId := vos_ntohl pH OFF_comId
  if l_msgType = TRDP_MSG_MN ∨ l_msgType = TRDP_MSG_MR then
    mdDispatchRequest k appHandle env sock rcvEle iterMD
  else if l_msgType = TRDP_MSG_MP ∨ l_msgType = TRDP_MSG_MQ ∨ l_msgType = TRDP_MSG_MC
      ∨ l_msgType = TRDP_MSG_ME then
    match mdFindSender l_comId (memSpan pH OFF_sessionID 16) appHandle.pMDSndQueue with
    | none => (iterMD, appHandle)
    | some (idx, sender_ele) =>
      if sender_ele.stateEle = TRDP_MD_ELE_ST_TX_REQUEST_W4Y ∧
          (l_msgType = TRDP_MSG_MP ∨ l_msgType = TRDP_MSG_MQ ∨ l_msgType = TRDP_MSG_ME) then
        if sender_ele.disableReplyRx ≠ 0 then (iterMD, appHandle)
        else mdDispatchReply k appHandle env sock rcvEle iterMD idx sender_ele
      else if sender_ele.stateEle = TRDP_MD_ELE_ST_TX_REPLYQUERY_W4C ∧
          l_msgType = TRDP_MSG_MC then
        mdDispatchConfirm k appHandle env sock rcvEle iterMD idx
      else (iterMD, appHandle)
  else (iterMD, appHandle)

/-- The loop "seach for existing listener" over `appHandle->pMDRcvQueue`: elements
with another comId, or not in state `RX_ARM`, are passed over; the first armed
listener with the comId is dispatched to and the loop breaks.  `none` means the
loop ended with `iterMD == NULL`; otherwise the new receive queue and session. -/
def mdListenerLoop (k : TRDP_PARAMS) (appHandle : TRDP_SESSION) (env : MD_RX_ENV)
    (sock : Int) (rcvEle : MD_ELE_T) : List MD_ELE_T → Option (List MD_ELE_T × TRDP_SESSION)
  | [] => none
  | iterMD :: rest =>
    if vos_ntohl rcvEle.frame OFF_comId ≠ iterMD.u.comId then
      (mdListenerLoop k appHandle env sock rcvEle rest).map (fun r => (iterMD :: r.1, r.2))
    else if iterMD.stateEle = TRDP_MD_ELE_ST_RX_ARM then
      let r := mdDispatch k appHandle env sock rcvEle iterMD
      some (r.1 :: rest, r.2)
    else
      (mdListenerLoop k appHandle env sock rcvEle rest).map (fun r => (iterMD :: r.1, r.2))

/-- The block "process message" of `trdp_mdReceive`, entered when `trdp_mdRecv`
returned `TRDP_NO_ERR`; `rcvEle` is `*appHandle->pMDRcvEle`. -/
def mdProcess (k : TRDP_PARAMS) (appHandle : TRDP_SESSION) (env : MD_RX_ENV) (sock : Int)
    (rcvEle : MD_ELE_T) : TRDP_ERR_T × TRDP_SESSION :=
  let pH := rcvEle.frame
  let rcvEle :=
    if appHandle.mdDefault.flags &&& k.TRDP_FLAGS_TCP ≠ 0 then
      let findSock := (mdFindSock (fun x => decide (x.sock > -1) && x.sock == sock)
        appHandle.iface).getD appHandle.iface.length
      { rcvEle with
        addr_srcIpAddr := (appHandle.iface.getD findSock TRDP_SOCKETS_T.zero).cornerIp }
    else rcvEle
  let appHandle := { appHandle with pMDRcvEle := some rcvEle }
  let l_topoCount := vos_ntohl pH OFF_topoCount
  if l_topoCount ≠ 0 ∧ appHandle.topoCount ≠ 0 ∧ l_topoCount ≠ appHandle.topoCount then
    (TRDP_TOPO_ERR,
     { appHandle with
       stats := { appHandle.stats with numTopoErr := inc32 appHandle.stats.numTopoErr } })
  else
    match mdListenerLoop k appHandle env sock rcvEle appHandle.pMDRcvQueue with
    | some r => (TRDP_NO_ERR, { r.2 with pMDRcvQueue := r.1 })
    | none =>
      (TRDP_NO_ERR,
       { appHandle with
         stats := { appHandle.stats with
           numNoListener := inc32 appHandle.stats.numNoListener } })

/-- The block "get buffer at 1st call" of `trdp_mdReceive`: the receive element in
use, `none` when the allocation fails. -/
def mdRcvBuffer (k : TRDP_PARAMS) (appHandle : TRDP_SESSION) (env : MD_RX_ENV) :
    Option MD_ELE_T :=
  match appHandle.pMDRcvEle with
  | some e => some e
  | none =>
    if env.allocOk then
      some { MD_ELE_T.zero with
        grossSize := if appHandle.mdDefault.flags &&& k.TRDP_FLAGS_TCP ≠ 0
          then sizeof_MD_HEADER_T else k.TRDP_MAX_MD_PACKET_SIZE
        pktFlags := appHandle.mdDefault.flags }
    else none

/-- The function `trdp_mdReceive(appHandle, sock)`. -/
def trdp_mdReceive (k : TRDP_PARAMS) (appHandle : TRDP_SESSION) (env : MD_RX_ENV)
    (sock : Int) : TRDP_ERR_T × TRDP_SESSION :=
  match mdRcvBuffer k appHandle env with
  | none => (TRDP_MEM_ERR, appHandle)
  | some pMDRcvEle =>
    let r := trdp_mdRecv k appHandle.stats env pMDRcvEle
    let appHandle := { appHandle with pMDRcvEle := some r.2.2, stats := r.2.1 }
    if r.1 ≠ TRDP_NO_ERR then (r.1, appHandle)
    else mdProcess k appHandle env sock r.2.2

/-- The session after the frames of `envs` have been taken in, one call of
`trdp_mdReceive` each, on socket `sock`. -/
def mdReceiveAll (k : TRDP_PARAMS) (sock : Int) : TRDP_SESSION → List MD_RX_ENV → TRDP_SESSION
  | appHandle, [] => appHandle
  | appHandle, env :: rest => mdReceiveAll k sock (trdp_mdReceive k appHandle env sock).2 rest

/-! ## Derived notions used in the statements -/

/-- Header CRC of a packet as computed by `trdp_mdCheck`: the CRC over all
`sizeof(MD_HEADER_T)` bytes, the stored FCS word included. -/
def mdHeaderCrc (pPacket : List Nat) : Nat :=
  vos_crc32 0xffffffff (memSpan pPacket 0 sizeof_MD_HEADER_T)

/-- The data CRC comparison of `trdp_mdCheck` fails (it is made only if `datasetLength > 0`):
the CRC over `datasetLength` bytes after the header differs from the last four bytes
of the packet. -/
def mdBodyCrcBad (pPacket : List Nat) (packetSize : Nat) : Prop :=
  vos_ntohl pPacket OFF_datasetLength > 0 ∧
    le32 (vos_crc32 0xffffffff
      (memSpan pPacket sizeof_MD_HEADER_T (vos_ntohl pPacket OFF_datasetLength)))
      ≠ memSpan pPacket (packetSize - 4) 4

instance (pPacket : List Nat) (packetSize : Nat) :
    Decidable (mdBodyCrcBad pPacket packetSize) := by
  unfold mdBodyCrcBad; infer_instance

/-- The high byte of a 16 bit value. -/
def highByte (x : Nat) : Nat := x / 256 % 256

/-! ## Example values, used to instantiate the theorems -/

/-- Example constants: protocol version 1.0, packets of up to 65536 bytes, TCP flag 0x08. -/
def exParams : TRDP_PARAMS :=
  { TRDP_PROTO_VER := 0x0100, TRDP_MAX_MD_PACKET_SIZE := 65536, TRDP_FLAGS_TCP := 8 }

/-- Example header without its FCS word (108 bytes): sequence counter 0, protocol
version 1.0, message type `'M'` followed by the character `t`, the given comId,
topoCount and datasetLength (each below 256), everything else zero. -/
def exHead (t comId topoCount datasetLength : Nat) : List Nat :=
  [0, 0, 0, 0, 1, 0, 0x4D, t, 0, 0, 0, comId, 0, 0, 0, topoCount, 0, 0, 0, datasetLength]
    ++ List.replicate 88 0

/-- Example statistics, all counters zero. -/
def exStats : TRDP_MD_STATISTICS_T :=
  { numRcv := 0, numCrcErr := 0, numProtErr := 0, numTopoErr := 0, numNoListener := 0 }

/-- The frame offered by `env` is read and validated: a receive buffer is there
(or can be allocated) and `trdp_mdRecv` returns `TRDP_NO_ERR`, that is the socket
read succeeds and `trdp_mdCheck` accepts the frame. -/
def mdValidated (k : TRDP_PARAMS) (appHandle : TRDP_SESSION) (env : MD_RX_ENV) : Bool :=
  match mdRcvBuffer k appHandle env with
  | none => false
  | some pMDRcvEle => decide ((trdp_mdRecv k appHandle.stats env pMDRcvEle).1 = TRDP_NO_ERR)

/-- The condition of the topo counter check in `trdp_mdReceive`: the topoCount of the
header and that of the session are both non-zero and differ. -/
def mdTopoMismatch (appHandle : TRDP_SESSION) (env : MD_RX_ENV) : Prop :=
  vos_ntohl env.rcvFrame OFF_topoCount ≠ 0 ∧ appHandle.topoCount ≠ 0 ∧
    vos_ntohl env.rcvFrame OFF_topoCount ≠ appHandle.topoCount

instance (appHandle : TRDP_SESSION) (env : MD_RX_ENV) :
    Decidable (mdTopoMismatch appHandle env) := by
  unfold mdTopoMismatch; infer_instance

/-- The listener `l` is one the listener loop dispatches to: it has the comId of the
received frame and is in state `TRDP_MD_ELE_ST_RX_ARM`. -/
def mdArmedFor (env : MD_RX_ENV) (l : MD_ELE_T) : Prop :=
  l.u.comId = vos_ntohl env.rcvFrame OFF_comId ∧ l.stateEle = TRDP_MD_ELE_ST_RX_ARM

instance (env : MD_RX_ENV) (l : MD_ELE_T) : Decidable (mdArmedFor env l) := by
  unfold mdArmedFor; infer_instance

/-- The message type of the received frame is a reply kind: `Mp`, `Mq` or `Me`. -/
def mdIsReply (env : MD_RX_ENV) : Prop :=
  vos_ntohs env.rcvFrame OFF_msgType = TRDP_MSG_MP ∨
    vos_ntohs env.rcvFrame OFF_msgType = TRDP_MSG_MQ ∨
    vos_ntohs env.rcvFrame OFF_msgType = TRDP_MSG_ME

instance (env : MD_RX_ENV) : Decidable (mdIsReply env) := by
  unfold mdIsReply; infer_instance

/-- The caller session the received frame addresses: result of the search of the send
queue by the comId and session id of the frame. -/
def mdAddressed (appHandle : TRDP_SESSION) (env : MD_RX_ENV) : Option (Nat × MD_ELE_T) :=
  mdFindSender (vos_ntohl env.rcvFrame OFF_comId) (memSpan env.rcvFrame OFF_sessionID 16)
    appHandle.pMDSndQueue


/-- Example listener: comId 1, state `RX_ARM`. -/
def exListener : MD_ELE_T :=
  { MD_ELE_T.zero with
    stateEle := TRDP_MD_ELE_ST_RX_ARM
    u := { comId := 1, topoCount := 0, destIpAddr := 0, destURI := [] } }

/-- Example caller session: comId 1, session id of 16 zero bytes, request sent and
waiting for replies (`TX_REQUEST_W4Y`), `n` expected repliers, all counters 0. -/
def exCaller (n : Nat) : MD_ELE_T :=
  { MD_ELE_T.zero with
    stateEle := TRDP_MD_ELE_ST_TX_REQUEST_W4Y
    sessionID := List.replicate 16 0
    noOfRepliers := n
    u := { comId := 1, topoCount := 0, destIpAddr := 0, destURI := [] } }

/-- Example session: UDP, a callback installed, no receive buffer yet. -/
def exSession (topoCount : Nat) (listeners callers : List MD_ELE_T) : TRDP_SESSION :=
  { topoCount := topoCount
    mdDefault := { flags := 0, pfCbFunction := true, connectTimeout := 0 }
    iface := []
    pMDRcvEle := none
    pMDRcvQueue := listeners
    pMDSndQueue := callers
    stats := exStats
    callbacks := [] }

/-- Example platform input: the socket delivers the 112 byte datagram `frame` from
source address `ip`; allocation succeeds. -/
def exEnv (frame : List Nat) (ip : Nat) : MD_RX_ENV :=
  { allocOk := true
    rcvErr := TRDP_NO_ERR
    rcvSize := 112
    rcvErr2 := TRDP_NO_ERR
    rcvSize2 := 0
    rcvFrame := frame
    rcvSrcIp := ip
    now := { tv_sec := 100, tv_usec := 0 }
    sockPosition := 0 }

/-- Example frame: reply `Mp`, comId 1, topoCount 0, session id zero, no data, valid FCS. -/
def exFrameMp : List Nat := exHead 0x70 1 0 0 ++ [235, 232, 194, 180]

/-- Example frame: reply with confirm request `Mq`, otherwise as `exFrameMp`. -/
def exFrameMq : List Nat := exHead 0x71 1 0 0 ++ [212, 152, 9, 58]

/-- Example frame: confirm `Mc`, otherwise as `exFrameMp`. -/
def exFrameMc : List Nat := exHead 0x63 1 0 0 ++ [86, 80, 100, 125]

/-- Example frame: notify `Mn`, otherwise as `exFrameMp`. -/
def exFrameMn : List Nat := exHead 0x6E 1 0 0 ++ [40, 126, 108, 8]

/-- Example frame: reply `Mp` with topoCount 4, otherwise as `exFrameMp`. -/
def exFrameMpTopo4 : List Nat := exHead 0x70 1 4 0 ++ [206, 134, 139, 40]

/-- Example caller session as `exCaller n`, with `r` replies counted, `q` of them
reply queries. -/
def exCallerCounted (n r q : Nat) : MD_ELE_T :=
  { MD_ELE_T.zero with
    stateEle := TRDP_MD_ELE_ST_TX_REQUEST_W4Y
    sessionID := List.replicate 16 0
    noOfRepliers := n
    numReplies := r
    numRepliesQuery := q
    u := { comId := 1, topoCount := 0, destIpAddr := 0, destURI := [] } }

/-- The accounting of a caller session `e` after at most `m` frames have been processed
since its counters were zero: with a known number of repliers `N >= 1`,
`numReplies <= N`, `disableReplyRx` is set exactly when `numReplies = N`, and
`numRepliesQuery <= numReplies`; with an unknown number (`N = 0`) and `m` below `2 ^ 32`,
`numRepliesQuery <= numReplies <= m`. -/
def mdReplyAccounting (m : Nat) (e : MD_ELE_T) : Prop :=
  (e.noOfRepliers ≥ 1 →
    e.numReplies ≤ e.noOfRepliers
    ∧ (e.disableReplyRx ≠ 0 ↔ e.numReplies = e.noOfRepliers)
    ∧ e.numRepliesQuery ≤ e.numReplies)
  ∧ (e.noOfRepliers = 0 → m < UINT32_MOD →
    e.numRepliesQuery ≤ e.numReplies ∧ e.numReplies ≤ m)
  ∧ e.noOfRepliers < UINT32_MOD

instance (m : Nat) (e : MD_ELE_T) : Decidable (mdReplyAccounting m e) := by
  unfold mdReplyAccounting; infer_instance

/-! ## Process data interface (trdp_if.c): time macros -/

/-- The `timerisset` macro of `<sys/time.h>`. -/
def timerisset (t : TRDP_TIME_T) : Bool :=
  t.tv_sec != 0 || t.tv_usec != 0

/-- The `timerclear` macro of `<sys/time.h>` (`vos_clearTime` with a valid pointer). -/
def timerclear : TRDP_TIME_T :=
  { tv_sec := 0, tv_usec := 0 }

/-- The macro call `timercmp(a, b, <=)` of `<sys/time.h>`: the microseconds decide
when the seconds are equal, the seconds otherwise. -/
def timercmp_le (a b : TRDP_TIME_T) : Bool :=
  if a.tv_sec = b.tv_sec then decide (a.tv_usec ≤ b.tv_usec) else decide (a.tv_sec ≤ b.tv_sec)

/-- The macro call `timercmp(a, b, >)` of `<sys/time.h>`. -/
def timercmp_gt (a b : TRDP_TIME_T) : Bool :=
  if a.tv_sec = b.tv_sec then decide (a.tv_usec > b.tv_usec) else decide (a.tv_sec > b.tv_sec)

/-- The `timersub` macro of `<sys/time.h>`, used by `vos_subTime`. -/
def timersub (a b : TRDP_TIME_T) : TRDP_TIME_T :=
  let sec := a.tv_sec - b.tv_sec
  let usec := a.tv_usec - b.tv_usec
  if usec < 0 then { tv_sec := sec - 1, tv_usec := usec + 1000000 }
  else { tv_sec := sec, tv_usec := usec }

/-- The function `vos_subTime(pTime, pSub)` of vos_thread.c; the result is the
content of `*pTime` afterwards (`none` is a NULL pointer). -/
def vos_subTime (pTime pSub : Option TRDP_TIME_T) : Option TRDP_TIME_T :=
  match pTime, pSub with
  | some t, some b => some (timersub t b)
  | _, _ => pTime

/-- The call `vos_addTime(&t, &a)` on two objects: the content of `t` afterwards. -/
def addTime (t a : TRDP_TIME_T) : TRDP_TIME_T :=
  (vos_addTime (some t) (some a)).getD t

/-- The call `vos_subTime(&t, &b)` on two objects: the content of `t` afterwards. -/
def subTime (t b : TRDP_TIME_T) : TRDP_TIME_T :=
  (vos_subTime (some t) (some b)).getD t

/-! ## Process data interface: data model -/

/-- The address tuple `TRDP_ADDRESSES`; the initialiser
`{comId, srcIpAddr, destIpAddr, 0}` of tlp_publish gives the order of the fields. -/
structure TRDP_ADDRESSES where
  comId : Nat
  srcIpAddr : Nat
  destIpAddr : Nat
  mcGroup : Nat
  deriving DecidableEq, Repr

/-- The fields of `PD_HEADER_T frameHead` that trdp_if.c reads, each one the bytes
of the field as they are stored (network byte order). -/
structure PD_HEADER_T where
  sequenceCounter : List Nat
  protocolVersion : List Nat
  msgType : List Nat
  topoCount : List Nat
  subsAndReserved : List Nat
  offsetAddress : List Nat
  replyComId : List Nat
  replyIpAddress : List Nat
  deriving DecidableEq, Repr

/-- The element type `PD_ELE_T` of the send and the receive queue: the fields used by
trdp_if.c. `socketIdx` is an `INT32`, -1 stands for no socket; `data` is the payload
that follows the header in the frame buffer. -/
structure PD_ELE_T where
  addr : TRDP_ADDRESSES
  pktFlags : Nat
  privFlags : Nat
  interval : TRDP_TIME_T
  timeToGo : TRDP_TIME_T
  dataSize : Nat
  grossSize : Nat
  socketIdx : Int
  userRef : Nat
  frameHead : PD_HEADER_T
  data : List Nat
  deriving DecidableEq, Repr

/-- The configuration `TRDP_MARSHALL_CONFIG_T` of a session: three pointers. -/
structure TRDP_MARSHALL_CONFIG_T where
  pCbMarshall : Nat
  pCbUnmarshall : Nat
  pRefCon : Nat
  deriving DecidableEq, Repr

/-- The part of `appHandle->pdDefault` (`TRDP_PD_CONFIG_T`) that trdp_if.c reads;
`pCbFunction` tells whether the callback pointer is non-NULL. -/
structure TRDP_PD_CONFIG_T where
  pCbFunction : Bool
  pRefCon : Nat
  toBehavior : Nat
  deriving DecidableEq, Repr

/-- The record `TRDP_PD_INFO_T` filled by tlc_process and tlp_get. -/
structure TRDP_PD_INFO_T where
  comId : Nat
  srcIpAddr : Nat
  destIpAddr : Nat
  topoCount : Nat
  msgType : Nat
  seqCount : Nat
  protVersion : Nat
  subs : Nat
  offsetAddr : Nat
  replyComId : Nat
  replyIpAddr : Nat
  pUserRef : Nat
  resultCode : TRDP_ERR_T
  deriving DecidableEq, Repr

/-- One call `appHandle->pdDefault.pCbFunction(pRefCon, &theMessage, pData, dataSize)`;
`pData = none` is a NULL data pointer. -/
structure PD_CALLBACK where
  pRefCon : Nat
  pMsg : TRDP_PD_INFO_T
  pData : Option (List Nat)
  dataSize : Nat
  deriving DecidableEq, Repr

/-- One call `trdp_pdSend(sock, pPacket)`: the socket and the element as it is sent. -/
structure PD_SEND where
  sock : Int
  pPacket : PD_ELE_T
  deriving DecidableEq, Repr

/-- One call `vos_sockJoinMC(sock, mcGroup, 0)`. -/
structure PD_JOIN where
  sock : Int
  mcGroup : Nat
  deriving DecidableEq, Repr

/-- The session `*appHandle` (`TRDP_SESSION_T`) as far as the process data functions of
trdp_if.c use it. `mutexDepth` counts how often `appHandle->mutex` is held; `callbacks`,
`sent` and `joined` log the calls of the user callback, of `trdp_pdSend` and of
`vos_sockJoinMC`. -/
structure TRDP_SESSION_T where
  mutexDepth : Int
  option : Nat
  beQuiet : Bool
  redID : Nat
  marshall : TRDP_MARSHALL_CONFIG_T
  pdDefault : TRDP_PD_CONFIG_T
  iface : List TRDP_SOCKETS_T
  mdRcvSock : Int
  interval : TRDP_TIME_T
  nextJob : TRDP_TIME_T
  pSndQueue : List PD_ELE_T
  pRcvQueue : List PD_ELE_T
  callbacks : List PD_CALLBACK
  sent : List PD_SEND
  joined : List PD_JOIN
  deriving DecidableEq, Repr

/-- Constants and switches whose `#define` is in headers that are not among the sources
(`trdp_private.h`, `trdp_types.h`); the model is parametric in them. -/
structure PD_PARAMS where
  TIMER_GRANULARITY : Nat
  MAX_PD_PACKET_SIZE : Nat
  sizeof_PD_HEADER_T : Nat
  TRDP_MSG_PD : Nat
  TRDP_FLAGS_NONE : Nat
  TRDP_FLAGS_MARSHALL : Nat
  TRDP_FLAGS_REDUNDANT : Nat
  TRDP_PRIV_NONE : Nat
  TRDP_TIMED_OUT : Nat
  TRDP_MC_JOINT : Nat
  TRDP_OPTION_BLOCK : Nat
  TRDP_TO_SET_TO_ZERO : Nat
  /-- The switch `#if MD_SUPPORT`. -/
  MD_SUPPORT : Bool
  deriving DecidableEq, Repr

/-- The functions of trdp_pdcom.c that trdp_if.c calls. The file is not among the
sources, so the functions are parameters of the model; each one returns the part of
the state that section 4.3 of the specification lets it write: the header of an element
(`trdp_pdInit`, `trdp_pdUpdate`), header and payload (`trdp_pdPut`), the buffer of the
caller (`trdp_pdGet`), the receive queue and the callback log (`trdp_pdReceive`). -/
structure PD_COM where
  /-- The padded on-wire size `trdp_packetSizePD(dataSize)`. -/
  trdp_packetSizePD : Nat → Nat
  /-- The header after `trdp_pdInit(pPacket, type, topoCount)`. -/
  trdp_pdInit : PD_ELE_T → Nat → Nat → PD_HEADER_T
  /-- The header after `trdp_pdUpdate(pPacket)`. -/
  trdp_pdUpdate : PD_ELE_T → PD_HEADER_T
  /-- The result of `trdp_pdPut(pPacket, marshall, refCon, pData, dataSize)`, with the
  header and the payload of the element afterwards. -/
  trdp_pdPut : PD_ELE_T → Nat → Nat → List Nat → Nat → TRDP_ERR_T × PD_HEADER_T × List Nat
  /-- The result of `trdp_pdGet(pPacket, unmarshall, refCon, pData, dataSize)`, with the
  content of the buffer `pData` afterwards. -/
  trdp_pdGet : PD_ELE_T → Nat → Nat → List Nat → Nat → TRDP_ERR_T × List Nat
  /-- The result of `trdp_pdReceive(appHandle, sock)`, with the receive queue afterwards
  (entries are changed in place, the links are kept) and the callbacks it invoked. -/
  trdp_pdReceive : TRDP_SESSION_T → Int → TRDP_ERR_T × List PD_ELE_T × List PD_CALLBACK

/-- What the platform delivers during one call of a function of trdp_if.c. -/
structure PD_ENV where
  /-- Does `vos_mutexLock(sSessionMutex)` in `trdp_isValidSession` return `VOS_NO_ERR`. -/
  sessionLockOk : Bool
  /-- Does `vos_mutexLock(appHandle->mutex)` return `VOS_NO_ERR`. -/
  lockOk : Bool
  /-- The reading of the call number `i` of `vos_getTime` during the call. -/
  clock : Nat → TRDP_TIME_T
  /-- The block returned by `vos_memAlloc(sizeof(PD_ELE_T))` with the content it has
  (`none` is NULL). -/
  alloc : Option PD_ELE_T
  /-- Result of `trdp_requestSocket`. -/
  sockErr : TRDP_ERR_T
  /-- The index stored by `trdp_requestSocket`. -/
  sockIdx : Int
  /-- The socket pool `appHandle->iface` after `trdp_requestSocket`. -/
  sockIface : List TRDP_SOCKETS_T

/-- The handles `TRDP_PUB_T` and `TRDP_SUB_T` point to the `addr` field of a queue
element. A handle is represented by the address tuple it points to, `none` is NULL. -/
abbrev TRDP_PUB_T := Option TRDP_ADDRESSES

/-- The handle type `TRDP_SUB_T`, see `TRDP_PUB_T`. -/
abbrev TRDP_SUB_T := Option TRDP_ADDRESSES

/-- The successful `vos_mutexLock(appHandle->mutex)`. -/
def vos_mutexLock (s : TRDP_SESSION_T) : TRDP_SESSION_T :=
  { s with mutexDepth := s.mutexDepth + 1 }

/-- The call `vos_mutexUnlock(appHandle->mutex)`. -/
def vos_mutexUnlock (s : TRDP_SESSION_T) : TRDP_SESSION_T :=
  { s with mutexDepth := s.mutexDepth - 1 }

/-- The socket `appHandle->iface[socketIdx].sock`. -/
def ifaceSock (iface : List TRDP_SOCKETS_T) (socketIdx : Int) : Int :=
  (iface.getD socketIdx.toNat TRDP_SOCKETS_T.zero).sock

/-- The `IN_MULTICAST` macro of `<netinet/in.h>`: a class D address. -/
def IN_MULTICAST (a : Nat) : Bool :=
  a &&& 0xf0000000 == 0xe0000000

/-- Modelled from the spec: `vos_IsMulticast(ipAddress)` (vos_sock.c is missing), true
for an address in 224.0.0.0/4. -/
def vos_IsMulticast (ipAddress : Nat) : Bool :=
  IN_MULTICAST ipAddress

/-! ## Process data interface: queues (trdp_utils.c) -/

/-- The lookup key of the publish and the subscribe table: `comId`, `srcIpAddr` and
`destIpAddr` of an address tuple. -/
def addrKey (a : TRDP_ADDRESSES) : Nat × Nat × Nat :=
  (a.comId, a.srcIpAddr, a.destIpAddr)

/-- Modelled from the spec: `trdp_queue_find_addr(pHead, addr)` (trdp_utils.c is
missing). The address tuple is the lookup key of the publish and subscribe tables:
the result is the first element of the queue with the `comId`, `srcIpAddr` and
`destIpAddr` of `addr`, given by its position in the queue, or `none` (NULL). The
wildcard match of a zero source address belongs to the receive dispatch, which is
part of `trdp_pdReceive`. -/
def trdp_queue_find_addr : List PD_ELE_T → TRDP_ADDRESSES → Option Nat
  | [], _ => none
  | e :: rest, addr =>
    if addrKey e.addr = addrKey addr then some 0
    else (trdp_queue_find_addr rest addr).map (· + 1)

/-- Modelled from the spec: `trdp_queue_ins_first(&pHead, pNew)` (trdp_utils.c is
missing) links the element at the head of the queue. -/
def trdp_queue_ins_first (pHead : List PD_ELE_T) (pNew : PD_ELE_T) : List PD_ELE_T :=
  pNew :: pHead

/-- Modelled from the spec: `trdp_queue_app_last(&pHead, pNew)` (trdp_utils.c is
missing) appends the element to the queue. -/
def trdp_queue_app_last (pHead : List PD_ELE_T) (pNew : PD_ELE_T) : List PD_ELE_T :=
  pHead ++ [pNew]

/-- Modelled from the spec: `trdp_queue_del_element(&pHead, pDelete)` (trdp_utils.c is
missing) unlinks the element, here given by its position. -/
def trdp_queue_del_element (pHead : List PD_ELE_T) (pDelete : Nat) : List PD_ELE_T :=
  pHead.eraseIdx pDelete

/-! ## Session registry: trdp_isValidSession, tlc_init, tlc_terminate -/

/-- The loop `while (pSession)` of `trdp_isValidSession` over the session list; the
list `sSession` holds the addresses of the sessions in the order of the `pNext` links. -/
def sessionListFind : List Nat → Nat → Bool
  | [], _ => false
  | pSession :: rest, pSessionHandle =>
    if pSession = pSessionHandle then true else sessionListFind rest pSessionHandle

/-- The function `trdp_isValidSession(pSessionHandle)`; a pointer is a natural number,
0 is NULL. `sessionLockOk` tells whether `vos_mutexLock(sSessionMutex)` succeeds. -/
def trdp_isValidSession (sessionLockOk : Bool) (sSession : List Nat)
    (pSessionHandle : Nat) : Bool :=
  if pSessionHandle = 0 then false
  else if !sessionLockOk then false
  else sessionListFind sSession pSessionHandle

/-- What the platform delivers during one call of `tlc_init`. -/
structure INIT_ENV where
  /-- Does `vos_mutexCreate(&sSessionMutex)` return `VOS_NO_ERR` (first session only). -/
  createListMutexOk : Bool
  /-- The pointer returned by `vos_memAlloc(sizeof(TRDP_SESSION_T))`, 0 is NULL. -/
  alloc : Nat
  /-- Does `vos_mutexCreate(&pSession->mutex)` return `VOS_NO_ERR`. -/
  createMutexOk : Bool
  /-- Result of `trdp_initMD(pSession)` (compiled in with `MD_SUPPORT`). -/
  initMdErr : TRDP_ERR_T
  deriving DecidableEq, Repr

/-- The session after `memset(pSession, 0, sizeof(TRDP_SESSION_T))`. -/
def TRDP_SESSION_T.zero : TRDP_SESSION_T :=
  { mutexDepth := 0, option := 0, beQuiet := false, redID := 0,
    marshall := { pCbMarshall := 0, pCbUnmarshall := 0, pRefCon := 0 },
    pdDefault := { pCbFunction := false, pRefCon := 0, toBehavior := 0 },
    iface := [], mdRcvSock := 0, interval := timerclear, nextJob := timerclear,
    pSndQueue := [], pRcvQueue := [], callbacks := [], sent := [], joined := [] }

/-- The content of the new session of `tlc_init`: zeroed, then the marshalling and the
PD configuration are copied when they are given. The default QoS, TTL and port and the
MD configuration are fields that no embedded function reads. -/
def initSession (pMarshall : Option TRDP_MARSHALL_CONFIG_T)
    (pPdDefault : Option TRDP_PD_CONFIG_T) : TRDP_SESSION_T :=
  let s0 := TRDP_SESSION_T.zero
  let s1 := match pMarshall with
    | some m => { s0 with marshall := m }
    | none => s0
  let s2 := match pPdDefault with
    | some p => { s1 with pdDefault := p }
    | none => s1
  { s2 with interval := timerclear, nextJob := timerclear }

/-- The function `tlc_init`: the result code, the session list afterwards, and on
success the handle stored in `*pAppHandle` with the content of the new session.
`pAppHandle` tells whether that pointer is non-NULL. -/
def tlc_init (k : PD_PARAMS) (env : INIT_ENV) (sSession : List Nat) (pAppHandle : Bool)
    (pMarshall : Option TRDP_MARSHALL_CONFIG_T) (pPdDefault : Option TRDP_PD_CONFIG_T) :
    TRDP_ERR_T × List Nat × Option (Nat × TRDP_SESSION_T) :=
  if !pAppHandle then (TRDP_PARAM_ERR, sSession, none)
  else if sSession.isEmpty && !env.createListMutexOk then (TRDP_PARAM_ERR, sSession, none)
  else if env.alloc = 0 then (TRDP_MEM_ERR, sSession, none)
  else if !env.createMutexOk then (TRDP_PARAM_ERR, sSession, none)
  else if k.MD_SUPPORT && env.initMdErr != TRDP_NO_ERR then (env.initMdErr, sSession, none)
  else
    let ret := TRDP_NO_ERR
    let pSession := env.alloc
    (ret, pSession :: sSession, some (pSession, initSession pMarshall pPdDefault))

/-- The loop of `tlc_terminate` that looks for the session before `appHandle` and
unlinks `appHandle`: `found` and the list afterwards. -/
def sessionListUnlink : List Nat → Nat → Bool × List Nat
  | pSession :: pNext :: rest, appHandle =>
    if pNext = appHandle then (true, pSession :: rest)
    else
      let r := sessionListUnlink (pNext :: rest) appHandle
      (r.1, pSession :: r.2)
  | l, _ => (false, l)

/-- One release of `tlc_terminate`. -/
inductive PD_RELEASE
  /-- The call `trdp_releaseSocket(pSession->iface, socketIdx)`. -/
  | socket (socketIdx : Int)
  /-- The call `vos_memFree` of a queue element. -/
  | element (e : PD_ELE_T)
  /-- The call `vos_memFree(pSession)`. -/
  | session (pSession : Nat)
  deriving DecidableEq, Repr

/-- The loop `while (pSession->pSndQueue != NULL)` of `tlc_terminate`: the socket
and the memory of the head element are released, then the head moves on. -/
def terminateRelease : List PD_ELE_T → List PD_RELEASE
  | [] => []
  | e :: pNext => PD_RELEASE.socket e.socketIdx :: PD_RELEASE.element e :: terminateRelease pNext

/-- The function `tlc_terminate(appHandle)`: the result code, the session list
afterwards and the releases performed; `s` is the content of `*appHandle`. -/
def tlc_terminate (sSession : List Nat) (appHandle : Nat) (s : TRDP_SESSION_T) :
    TRDP_ERR_T × List Nat × List PD_RELEASE :=
  if appHandle = 0 then (TRDP_PARAM_ERR, sSession, [])
  else
    let r : Bool × List Nat :=
      match sSession with
      | pSession :: pNext => if pSession = appHandle then (true, pNext)
                             else sessionListUnlink sSession appHandle
      | [] => sessionListUnlink sSession appHandle
    if r.1 then
      (TRDP_NO_ERR, r.2, terminateRelease s.pSndQueue ++ [PD_RELEASE.session appHandle])
    else (TRDP_NOINIT_ERR, r.2, [])

/-! ## tlp_publish, tlp_unpublish, tlp_put -/

/-- The function `tlp_put`: the result code and the session afterwards. -/
def tlp_put (c : PD_COM) (env : PD_ENV) (sSession : List Nat) (appHandle : Nat)
    (s : TRDP_SESSION_T) (pubHandle : TRDP_PUB_T) (pData : Option (List Nat))
    (dataSize : Nat) : TRDP_ERR_T × TRDP_SESSION_T :=
  match pubHandle, pData with
  | some addr, some data =>
    if dataSize = 0 then (TRDP_PARAM_ERR, s)
    else if !trdp_isValidSession env.sessionLockOk sSession appHandle then (TRDP_NOINIT_ERR, s)
    else if !env.lockOk then (TRDP_NOINIT_ERR, s)
    else
      let s1 := vos_mutexLock s
      match trdp_queue_find_addr s1.pSndQueue addr with
      | some i =>
        match s1.pSndQueue[i]? with
        | some pElement =>
          let r := c.trdp_pdPut pElement s1.marshall.pCbMarshall s1.marshall.pRefCon data dataSize
          let e := { pElement with frameHead := r.2.1, data := r.2.2 }
          let s2 := { s1 with pSndQueue := s1.pSndQueue.set i e }
          (r.1, vos_mutexUnlock s2)
        | none => (TRDP_NOPUB_ERR, vos_mutexUnlock s1)
      | none => (TRDP_NOPUB_ERR, vos_mutexUnlock s1)
  | _, _ => (TRDP_PARAM_ERR, s)

/-- The early returns of `tlp_publish`: the checks of the arguments and of the
session, `none` when all of them pass. `pPubHandle` tells whether that pointer is
non-NULL. -/
def publishChecks (k : PD_PARAMS) (env : PD_ENV) (sSession : List Nat) (appHandle : Nat)
    (pPubHandle : Bool) (comId interval : Nat) (pData : Option (List Nat))
    (dataSize : Nat) : Option TRDP_ERR_T :=
  if comId = 0 then some TRDP_PARAM_ERR
  else if pData.isSome && (dataSize == 0 || decide (interval < k.TIMER_GRANULARITY)) then
    some TRDP_PARAM_ERR
  else if !pPubHandle then some TRDP_PARAM_ERR
  else if !trdp_isValidSession env.sessionLockOk sSession appHandle then some TRDP_NOINIT_ERR
  else if !env.lockOk then some TRDP_NOINIT_ERR
  else none

/-- The block `Look for existing element` of `tlp_publish`: the result code, the new
element `pNewElement` (`none` is NULL) and the socket pool afterwards. -/
def publishNew (c : PD_COM) (env : PD_ENV) (s : TRDP_SESSION_T) (pubHandle : TRDP_ADDRESSES)
    (dataSize : Nat) : TRDP_ERR_T × Option PD_ELE_T × List TRDP_SOCKETS_T :=
  match trdp_queue_find_addr s.pSndQueue pubHandle with
  | some _ => (TRDP_NOPUB_ERR, none, s.iface)
  | none =>
    match env.alloc with
    | none => (TRDP_MEM_ERR, none, s.iface)
    | some blk =>
      let e := { blk with dataSize := dataSize, grossSize := c.trdp_packetSizePD dataSize,
                          socketIdx := env.sockIdx }
      if env.sockErr ≠ TRDP_NO_ERR then (env.sockErr, none, env.sockIface)
      else (TRDP_NO_ERR, some e, env.sockIface)

/-- The block of `tlp_publish` that fills the new element: deadline, interval, flags
and header. -/
def publishElement (k : PD_PARAMS) (c : PD_COM) (env : PD_ENV) (pNewElement : PD_ELE_T)
    (pubHandle : TRDP_ADDRESSES) (topoCount interval pktFlags : Nat) : PD_ELE_T :=
  let nextTime := env.clock 0
  let tv_interval : TRDP_TIME_T :=
    { tv_sec := ((interval / 1000000 : Nat) : Int), tv_usec := ((interval % 1000000 : Nat) : Int) }
  let nextTime := addTime nextTime tv_interval
  let e := { pNewElement with addr := pubHandle, timeToGo := nextTime, interval := tv_interval,
                              pktFlags := pktFlags, privFlags := k.TRDP_PRIV_NONE }
  { e with frameHead := c.trdp_pdInit e k.TRDP_MSG_PD topoCount }

/-- The block of `tlp_publish` that is entered with `ret == TRDP_NO_ERR` and a new
element: the element is filled and inserted at the front of the send queue, the handle
is stored and the data is put with `tlp_put`, whose result is the result of
`tlp_publish`. `envPut` is what the platform delivers during the call of `tlp_put`. -/
def publishInsert (k : PD_PARAMS) (c : PD_COM) (env envPut : PD_ENV) (sSession : List Nat)
    (appHandle : Nat) (s : TRDP_SESSION_T) (pNewElement : PD_ELE_T) (pubHandle : TRDP_ADDRESSES)
    (topoCount interval pktFlags : Nat) (pData : Option (List Nat)) (dataSize : Nat) :
    TRDP_ERR_T × TRDP_SESSION_T × TRDP_PUB_T :=
  let e := publishElement k c env pNewElement pubHandle topoCount interval pktFlags
  let s3 := { s with pSndQueue := trdp_queue_ins_first s.pSndQueue e }
  let pPubHandle : TRDP_PUB_T := some e.addr
  let p := tlp_put c envPut sSession appHandle s3 pPubHandle pData dataSize
  (p.1, vos_mutexUnlock p.2, pPubHandle)

/-- The part of `tlp_publish` between `vos_mutexLock` and `vos_mutexUnlock`, on the
session `s` that holds the mutex: the result code, the session after `vos_mutexUnlock`
and the handle stored in `*pPubHandle`. -/
def publishLocked (k : PD_PARAMS) (c : PD_COM) (env envPut : PD_ENV) (sSession : List Nat)
    (appHandle : Nat) (s : TRDP_SESSION_T) (pubHandle : TRDP_ADDRESSES)
    (topoCount interval pktFlags : Nat) (pData : Option (List Nat)) (dataSize : Nat) :
    TRDP_ERR_T × TRDP_SESSION_T × TRDP_PUB_T :=
  let r := publishNew c env s pubHandle dataSize
  let s2 := { s with iface := r.2.2 }
  if r.1 = TRDP_NO_ERR then
    match r.2.1 with
    | some pNewElement =>
      publishInsert k c env envPut sSession appHandle s2 pNewElement pubHandle topoCount
        interval pktFlags pData dataSize
    | none => (r.1, vos_mutexUnlock s2, none)
  else (r.1, vos_mutexUnlock s2, none)

/-- The function `tlp_publish`: the result code, the session afterwards and the handle
stored in `*pPubHandle` (`none` when nothing is stored). The arguments `redId`, `subs`
and `offsetAddress` are not used by the function; `pSendParam` only selects the
parameters handed to `trdp_requestSocket`, whose result is part of `env`. -/
def tlp_publish (k : PD_PARAMS) (c : PD_COM) (env envPut : PD_ENV) (sSession : List Nat)
    (appHandle : Nat) (s : TRDP_SESSION_T) (pPubHandle : Bool)
    (comId topoCount srcIpAddr destIpAddr interval pktFlags : Nat)
    (pData : Option (List Nat)) (dataSize : Nat) :
    TRDP_ERR_T × TRDP_SESSION_T × TRDP_PUB_T :=
  let pubHandle : TRDP_ADDRESSES :=
    { comId := comId, srcIpAddr := srcIpAddr, destIpAddr := destIpAddr, mcGroup := 0 }
  match publishChecks k env sSession appHandle pPubHandle comId interval pData dataSize with
  | some err => (err, s, none)
  | none =>
    publishLocked k c env envPut sSession appHandle (vos_mutexLock s) pubHandle topoCount
      interval pktFlags pData dataSize

/-- The function `tlp_unpublish`: the result code, the session afterwards and the
element handed to `vos_memFree`, if any. -/
def tlp_unpublish (env : PD_ENV) (sSession : List Nat) (appHandle : Nat) (s : TRDP_SESSION_T)
    (pubHandle : TRDP_PUB_T) : TRDP_ERR_T × TRDP_SESSION_T × Option PD_ELE_T :=
  match pubHandle with
  | none => (TRDP_PARAM_ERR, s, none)
  | some addr =>
    if !trdp_isValidSession env.sessionLockOk sSession appHandle then (TRDP_NOINIT_ERR, s, none)
    else if !env.lockOk then (TRDP_NOINIT_ERR, s, none)
    else
      let s1 := vos_mutexLock s
      match trdp_queue_find_addr s1.pSndQueue addr with
      | some pElement =>
        let s2 := { s1 with pSndQueue := trdp_queue_del_element s1.pSndQueue pElement }
        (TRDP_NO_ERR, vos_mutexUnlock s2, s1.pSndQueue[pElement]?)
      | none => (TRDP_NOPUB_ERR, vos_mutexUnlock s1, none)

/-! ## tlp_subscribe, tlp_unsubscribe, tlp_get -/

/-- The block of `tlp_subscribe` that fills the new element `newPD`; `index` is the
socket found by `trdp_requestSocket`. The second component tells whether
`vos_sockJoinMC` is called. Fields that the function does not assign keep the content
of the allocated block. -/
def subscribeElement (k : PD_PARAMS) (env : PD_ENV) (newPD : PD_ELE_T) (pUserRef : Nat)
    (comId srcIpAddr1 destIpAddr timeout maxDataSize : Nat) (index : Int) : PD_ELE_T × Bool :=
  let grossDataSize := maxDataSize + k.sizeof_PD_HEADER_T + 4
  let mcGroup := if IN_MULTICAST destIpAddr then destIpAddr else newPD.addr.mcGroup
  let interval : TRDP_TIME_T :=
    { tv_sec := ((timeout / 1000000 : Nat) : Int), tv_usec := ((timeout % 1000000 : Nat) : Int) }
  let timeToGo := addTime (env.clock 1) interval
  let e := { newPD with
    addr := { comId := comId, srcIpAddr := srcIpAddr1, destIpAddr := destIpAddr, mcGroup := mcGroup },
    interval := interval, timeToGo := timeToGo, grossSize := grossDataSize,
    userRef := pUserRef, socketIdx := index }
  if vos_IsMulticast e.addr.mcGroup && e.privFlags &&& k.TRDP_MC_JOINT == 0 then
    ({ e with privFlags := e.privFlags ||| k.TRDP_MC_JOINT }, true)
  else (e, false)

/-- The part of `tlp_subscribe` from `Look for existing element` to `vos_mutexUnlock`,
on the session `s` that holds the mutex: the result code, the session after
`vos_mutexUnlock` and the handle stored in `*pSubHandle`. -/
def subscribeLocked (k : PD_PARAMS) (env : PD_ENV) (s : TRDP_SESSION_T) (pUserRef : Nat)
    (comId srcIpAddr1 destIpAddr timeout maxDataSize : Nat) :
    TRDP_ERR_T × TRDP_SESSION_T × TRDP_SUB_T :=
  let subHandle : TRDP_ADDRESSES :=
    { comId := comId, srcIpAddr := srcIpAddr1, destIpAddr := destIpAddr, mcGroup := 0 }
  match trdp_queue_find_addr s.pRcvQueue subHandle with
  | some _ => (TRDP_NOSUB_ERR, vos_mutexUnlock s, none)
  | none =>
    let s2 := { s with iface := env.sockIface }
    if env.sockErr ≠ TRDP_NO_ERR then (env.sockErr, vos_mutexUnlock s2, none)
    else
      match env.alloc with
      | none => (TRDP_MEM_ERR, vos_mutexUnlock s2, none)
      | some newPD =>
        let r := subscribeElement k env newPD pUserRef comId srcIpAddr1 destIpAddr timeout
          maxDataSize env.sockIdx
        let e := r.1
        let s3 := { s2 with pRcvQueue := trdp_queue_app_last s2.pRcvQueue e }
        let s4 := if r.2 then
            { s3 with joined := s3.joined ++
                [{ sock := ifaceSock s3.iface env.sockIdx, mcGroup := e.addr.mcGroup }] }
          else s3
        (TRDP_NO_ERR, vos_mutexUnlock s4, some e.addr)

/-- The function `tlp_subscribe`: the result code, the session afterwards and the handle
stored in `*pSubHandle` (`none` when nothing is stored). `pSubHandle` tells whether that
pointer is non-NULL. The arguments `topoCount`, `srcIpAddr2` and `toBehavior` are not
used by the function. The second check of the arguments returns while the session
mutex is held. -/
def tlp_subscribe (k : PD_PARAMS) (env : PD_ENV) (sSession : List Nat) (appHandle : Nat)
    (s : TRDP_SESSION_T) (pSubHandle : Bool) (pUserRef : Nat)
    (comId srcIpAddr1 destIpAddr timeout maxDataSize : Nat) :
    TRDP_ERR_T × TRDP_SESSION_T × TRDP_SUB_T :=
  if comId = 0 || !pSubHandle then (TRDP_PARAM_ERR, s, none)
  else if !trdp_isValidSession env.sessionLockOk sSession appHandle then (TRDP_NOINIT_ERR, s, none)
  else if !env.lockOk then (TRDP_NOINIT_ERR, s, none)
  else
    let s1 := vos_mutexLock s
    if comId = 0 || decide (maxDataSize > k.MAX_PD_PACKET_SIZE) ||
        decide (timeout < k.TIMER_GRANULARITY) then
      (TRDP_PARAM_ERR, s1, none)
    else
      subscribeLocked k env s1 pUserRef comId srcIpAddr1 destIpAddr timeout maxDataSize

/-- The function `tlp_unsubscribe`: the result code, the session afterwards and the
element handed to `vos_memFree`, if any. The element is looked up in, and removed
from, `appHandle->pSndQueue`, as in the source. -/
def tlp_unsubscribe (env : PD_ENV) (sSession : List Nat) (appHandle : Nat)
    (s : TRDP_SESSION_T) (subHandle : TRDP_SUB_T) :
    TRDP_ERR_T × TRDP_SESSION_T × Option PD_ELE_T :=
  match subHandle with
  | none => (TRDP_PARAM_ERR, s, none)
  | some addr =>
    if !trdp_isValidSession env.sessionLockOk sSession appHandle then (TRDP_NOINIT_ERR, s, none)
    else if !env.lockOk then (TRDP_NOINIT_ERR, s, none)
    else
      let s1 := vos_mutexLock s
      match trdp_queue_find_addr s1.pSndQueue addr with
      | some pElement =>
        let s2 := { s1 with pSndQueue := trdp_queue_del_element s1.pSndQueue pElement }
        (TRDP_NO_ERR, vos_mutexUnlock s2, s1.pSndQueue[pElement]?)
      | none => (TRDP_NOPUB_ERR, vos_mutexUnlock s1, none)

/-- The record stored through `pPdInfo` by `tlp_get`; the header fields are converted
with `vos_ntohl` and `vos_ntohs`. -/
def pdGetInfo (pElement : PD_ELE_T) : TRDP_PD_INFO_T :=
  { comId := pElement.addr.comId,
    srcIpAddr := pElement.addr.srcIpAddr,
    destIpAddr := pElement.addr.destIpAddr,
    topoCount := vos_ntohl pElement.frameHead.topoCount 0,
    msgType := vos_ntohs pElement.frameHead.msgType 0,
    seqCount := vos_ntohl pElement.frameHead.sequenceCounter 0,
    protVersion := vos_ntohs pElement.frameHead.protocolVersion 0,
    subs := vos_ntohs pElement.frameHead.subsAndReserved 0,
    offsetAddr := vos_ntohs pElement.frameHead.offsetAddress 0,
    replyComId := vos_ntohl pElement.frameHead.replyComId 0,
    replyIpAddr := vos_ntohl pElement.frameHead.replyIpAddress 0,
    pUserRef := pElement.userRef,
    resultCode := TRDP_NO_ERR }

/-- The call `memset(pData, 0, size)` on the buffer `pData`. -/
def memset0 (pData : List Nat) (size : Nat) : List Nat :=
  List.replicate size 0 ++ pData.drop size

/-- The branch `pElement != NULL` of `tlp_get` for the element at position `i` of the
receive queue: the result code, the session and the buffer `pData` afterwards. The
result is `none` when the element is no longer in the queue after `trdp_pdReceive`. -/
def getElement (k : PD_PARAMS) (c : PD_COM) (env : PD_ENV) (s : TRDP_SESSION_T) (i : Nat)
    (pElement : PD_ELE_T) (pktFlags : Nat) (pData : List Nat) (dataSize : Nat) :
    Option (TRDP_ERR_T × TRDP_SESSION_T × List Nat) :=
  let _ret := if pElement.dataSize > dataSize then TRDP_PARAM_ERR else TRDP_NOSUB_ERR
  let s1 :=
    if s.option &&& k.TRDP_OPTION_BLOCK == 0 then
      let r := c.trdp_pdReceive s (ifaceSock s.iface pElement.socketIdx)
      { s with pRcvQueue := r.2.1, callbacks := s.callbacks ++ r.2.2 }
    else s
  match s1.pRcvQueue[i]? with
  | none => none
  | some e =>
    let now := env.clock 0
    if timercmp_gt e.timeToGo now then
      let buf := if s1.pdDefault.toBehavior = k.TRDP_TO_SET_TO_ZERO then memset0 pData dataSize
                 else pData
      some (TRDP_TIMEOUT_ERR, s1, buf)
    else if pktFlags = k.TRDP_FLAGS_MARSHALL then
      let g := c.trdp_pdGet e s1.marshall.pCbUnmarshall s1.marshall.pRefCon pData dataSize
      some (g.1, s1, g.2)
    else
      let g := c.trdp_pdGet e 0 0 pData dataSize
      some (g.1, s1, g.2)

/-- The function `tlp_get`: the result code, the session, the buffer `pData` and the
record stored through `pPdInfo` afterwards. `pPdInfo` tells whether that pointer is
non-NULL, `pDataSize` is the value `*pDataSize`. The result is `none` when the function
reads through a NULL pointer. -/
def tlp_get (k : PD_PARAMS) (c : PD_COM) (env : PD_ENV) (sSession : List Nat) (appHandle : Nat)
    (s : TRDP_SESSION_T) (subHandle : TRDP_SUB_T) (pktFlags : Nat) (pPdInfo : Bool)
    (pData : Option (List Nat)) (pDataSize : Option Nat) :
    Option (TRDP_ERR_T × TRDP_SESSION_T × Option (List Nat) × Option TRDP_PD_INFO_T) :=
  match subHandle, pData, pDataSize with
  | some addr, some data, some dataSize =>
    if !trdp_isValidSession env.sessionLockOk sSession appHandle then
      some (TRDP_NOINIT_ERR, s, pData, none)
    else if !env.lockOk then some (TRDP_NOINIT_ERR, s, pData, none)
    else
      let s1 := vos_mutexLock s
      match trdp_queue_find_addr s1.pRcvQueue addr with
      | none =>
        let ret := TRDP_NOSUB_ERR
        if pPdInfo then none
        else some (ret, vos_mutexUnlock s1, pData, none)
      | some i =>
        match s1.pRcvQueue[i]? with
        | none => none
        | some pElement =>
          match getElement k c env s1 i pElement pktFlags data dataSize with
          | none => none
          | some r =>
            match r.2.1.pRcvQueue[i]? with
            | none => none
            | some e =>
              some (r.1, vos_mutexUnlock r.2.1, some r.2.2,
                    if pPdInfo then some (pdGetInfo e) else none)
  | _, _, _ => some (TRDP_PARAM_ERR, s, pData, none)

/-! ## tlc_getInterval -/

/-- The test of both loops of `tlc_getInterval`: the deadline replaces
`appHandle->interval` when that is still clear or not earlier. -/
def intervalTakes (interval timeToGo : TRDP_TIME_T) : Bool :=
  !timerisset interval || timercmp_le timeToGo interval

/-- The loop of `tlc_getInterval` over the receive queue: `appHandle->interval` and
the descriptor set afterwards. A descriptor set `fd_set` is the list of its members,
`none` is a NULL `pFileDesc`. -/
def getIntervalRcv (k : PD_PARAMS) (s : TRDP_SESSION_T) :
    List PD_ELE_T → TRDP_TIME_T → Option (List Int) → TRDP_TIME_T × Option (List Int)
  | [], interval, pFileDesc => (interval, pFileDesc)
  | iterPD :: pNext, interval, pFileDesc =>
    if intervalTakes interval iterPD.timeToGo then
      let sock := ifaceSock s.iface iterPD.socketIdx
      let fds := match pFileDesc with
        | some fds =>
          if iterPD.socketIdx ≠ -1 && sock ≠ -1 && s.option &&& k.TRDP_OPTION_BLOCK != 0 then
            if !fds.contains sock then some (fds ++ [sock]) else some fds
          else some fds
        | none => none
      getIntervalRcv k s pNext iterPD.timeToGo fds
    else getIntervalRcv k s pNext interval pFileDesc

/-- The loop of `tlc_getInterval` over the send queue: `appHandle->interval`
afterwards. -/
def getIntervalSnd : List PD_ELE_T → TRDP_TIME_T → TRDP_TIME_T
  | [], interval => interval
  | iterPD :: pNext, interval =>
    if intervalTakes interval iterPD.timeToGo then getIntervalSnd pNext iterPD.timeToGo
    else getIntervalSnd pNext interval

/-- The function `tlc_getInterval`: the result code, the session afterwards, the value
stored in `*pInterval` (`none` when nothing is stored) and the descriptor set
afterwards. `pInterval` points to an object of the caller; `pNoDesc` is not used by
the function. -/
def tlc_getInterval (k : PD_PARAMS) (env : PD_ENV) (sSession : List Nat) (appHandle : Nat)
    (s : TRDP_SESSION_T) (pFileDesc : Option (List Int)) :
    TRDP_ERR_T × TRDP_SESSION_T × Option TRDP_TIME_T × Option (List Int) :=
  if !trdp_isValidSession env.sessionLockOk sSession appHandle then
    (TRDP_NOINIT_ERR, s, none, pFileDesc)
  else if !env.lockOk then (TRDP_NOINIT_ERR, s, none, pFileDesc)
  else
    let s1 := vos_mutexLock s
    let now := env.clock 0
    let r := getIntervalRcv k s1 s1.pRcvQueue timerclear pFileDesc
    let interval := getIntervalSnd s1.pSndQueue r.1
    if timerisset interval && timercmp_le now interval then
      let interval := subTime interval now
      let s2 := { s1 with interval := interval }
      (TRDP_NO_ERR, vos_mutexUnlock s2, some interval, r.2)
    else
      let s2 := { s1 with interval := interval }
      (TRDP_NO_ERR, vos_mutexUnlock s2, some { tv_sec := 0, tv_usec := 10000 }, r.2)

/-! ## tlc_process -/

/-- The body of the send loop of `tlc_process` for one element, examined with the
clock reading `now`: the element afterwards and the call of `trdp_pdSend`, if any. -/
def pdSendStep (k : PD_PARAMS) (c : PD_COM) (s : TRDP_SESSION_T) (now : TRDP_TIME_T)
    (iterPD : PD_ELE_T) : PD_ELE_T × Option PD_SEND :=
  if timercmp_le iterPD.timeToGo now then
    let e := { iterPD with frameHead := c.trdp_pdUpdate iterPD }
    let tx : Option PD_SEND :=
      if e.socketIdx ≠ -1 && (!s.beQuiet || e.pktFlags &&& k.TRDP_FLAGS_REDUNDANT != 0) then
        some { sock := ifaceSock s.iface e.socketIdx, pPacket := e }
      else none
    ({ e with timeToGo := addTime e.interval now }, tx)
  else (iterPD, none)

/-- The send loop of `tlc_process`: the element at position `j` of the rest of the
queue is examined with the reading number `i + j` of the clock, since `vos_getTime`
is called again at the end of every round. Result: the queue afterwards and the
calls of `trdp_pdSend` in their order. -/
def pdSendLoop (k : PD_PARAMS) (c : PD_COM) (s : TRDP_SESSION_T) (clock : Nat → TRDP_TIME_T) :
    List PD_ELE_T → Nat → List PD_ELE_T × List PD_SEND
  | [], _ => ([], [])
  | iterPD :: pNext, i =>
    let r := pdSendStep k c s (clock i) iterPD
    let rs := pdSendLoop k c s clock pNext (i + 1)
    (r.1 :: rs.1, r.2.toList ++ rs.2)

/-- The record `theMessage` of the timeout callback of `tlc_process`. -/
def pdTimeoutInfo (iterPD : PD_ELE_T) : TRDP_PD_INFO_T :=
  { comId := iterPD.addr.comId,
    srcIpAddr := iterPD.addr.srcIpAddr,
    destIpAddr := iterPD.addr.destIpAddr,
    topoCount := vos_ntohl iterPD.frameHead.topoCount 0,
    msgType := vos_ntohs iterPD.frameHead.msgType 0,
    seqCount := vos_ntohl iterPD.frameHead.sequenceCounter 0,
    protVersion := vos_ntohs iterPD.frameHead.protocolVersion 0,
    subs := vos_ntohs iterPD.frameHead.subsAndReserved 0,
    offsetAddr := vos_ntohs iterPD.frameHead.offsetAddress 0,
    replyComId := vos_ntohl iterPD.frameHead.replyComId 0,
    replyIpAddr := vos_ntohl iterPD.frameHead.replyIpAddress 0,
    pUserRef := iterPD.userRef,
    resultCode := TRDP_TIMEOUT_ERR }

/-- The call `appHandle->pdDefault.pCbFunction(appHandle->pdDefault.pRefCon,
&theMessage, NULL, 0)` of `tlc_process` for a late element. -/
def pdTimeoutCallback (s : TRDP_SESSION_T) (iterPD : PD_ELE_T) : PD_CALLBACK :=
  { pRefCon := s.pdDefault.pRefCon, pMsg := pdTimeoutInfo iterPD, pData := none, dataSize := 0 }

/-- The body of the loop `Examine receive queue for late packets` of `tlc_process` for
one element, examined with the clock reading `now`: the element afterwards and the
call of the user callback, if any. -/
def pdTimeoutStep (k : PD_PARAMS) (s : TRDP_SESSION_T) (now : TRDP_TIME_T)
    (iterPD : PD_ELE_T) : PD_ELE_T × Option PD_CALLBACK :=
  if timercmp_le iterPD.timeToGo now && iterPD.privFlags &&& k.TRDP_TIMED_OUT == 0 then
    let cb : Option PD_CALLBACK :=
      if s.pdDefault.pCbFunction then some (pdTimeoutCallback s iterPD) else none
    ({ iterPD with privFlags := iterPD.privFlags ||| k.TRDP_TIMED_OUT }, cb)
  else (iterPD, none)

/-- The loop `Examine receive queue for late packets` of `tlc_process`, with the
readings of the clock as in `pdSendLoop`. Result: the queue afterwards and the calls
of the user callback in their order. -/
def pdTimeoutLoop (k : PD_PARAMS) (s : TRDP_SESSION_T) (clock : Nat → TRDP_TIME_T) :
    List PD_ELE_T → Nat → List PD_ELE_T × List PD_CALLBACK
  | [], _ => ([], [])
  | iterPD :: pNext, i =>
    let r := pdTimeoutStep k s (clock i) iterPD
    let rs := pdTimeoutLoop k s clock pNext (i + 1)
    (r.1 :: rs.1, r.2.toList ++ rs.2)

/-- The loop `Check the sockets for received PD packets` of `tlc_process` from position
`i` of the receive queue on: the last result of `trdp_pdReceive` (or `err`), the
session, the descriptor set and `*pCount` afterwards. `fuel` bounds the rounds; the
length of the receive queue is enough, since `trdp_pdReceive` keeps the links. -/
def pdReceiveLoop (c : PD_COM) : Nat → Nat → TRDP_SESSION_T → List Int → Int → TRDP_ERR_T →
    TRDP_ERR_T × TRDP_SESSION_T × List Int × Int
  | 0, _, s, fds, count, err => (err, s, fds, count)
  | fuel + 1, i, s, fds, count, err =>
    match s.pRcvQueue[i]? with
    | none => (err, s, fds, count)
    | some iterPD =>
      let sock := ifaceSock s.iface iterPD.socketIdx
      if iterPD.socketIdx ≠ -1 && fds.contains sock then
        let r := c.trdp_pdReceive s sock
        let s1 := { s with pRcvQueue := r.2.1, callbacks := s.callbacks ++ r.2.2 }
        pdReceiveLoop c fuel (i + 1) s1 (fds.filter (· != sock)) (count - 1) r.1
      else pdReceiveLoop c fuel (i + 1) s fds count err

/-- The block `#if MD_SUPPORT` at the end of `tlc_process`, which reads `*pCount`
without a test of the pointer: the descriptor set and `*pCount` afterwards, `none`
when a NULL pointer is read. -/
def processMdSock (s : TRDP_SESSION_T) (pRfds : Option (List Int)) (pCount : Option Int) :
    Option (Option (List Int) × Option Int) :=
  match pCount with
  | none => none
  | some count =>
    if count > 0 then
      match pRfds with
      | none => none
      | some fds =>
        if fds.contains s.mdRcvSock then
          some (some (fds.filter (· != s.mdRcvSock)), some (count - 1))
        else some (pRfds, pCount)
    else some (pRfds, pCount)

/-- The send loop of `tlc_process` on the session: the send queue and the log of
`trdp_pdSend` afterwards. -/
def processSend (k : PD_PARAMS) (c : PD_COM) (env : PD_ENV) (s : TRDP_SESSION_T) :
    TRDP_SESSION_T :=
  let snd := pdSendLoop k c s env.clock s.pSndQueue 0
  { s with pSndQueue := snd.1, sent := s.sent ++ snd.2 }

/-- The loop `Examine receive queue for late packets` of `tlc_process` on the session;
`n` is the number of readings of the clock taken before the first round. -/
def processTimeouts (k : PD_PARAMS) (env : PD_ENV) (n : Nat) (s : TRDP_SESSION_T) :
    TRDP_SESSION_T :=
  let tmo := pdTimeoutLoop k s env.clock s.pRcvQueue n
  { s with pRcvQueue := tmo.1, callbacks := s.callbacks ++ tmo.2 }

/-- The block `Check the input params` of `tlc_process`: nothing is received in polling
mode (a NULL `pRfds` or `pCount`) or when `*pCount` is not positive. Result: `err`, the
session, the descriptor set and `*pCount` afterwards. -/
def processReceive (c : PD_COM) (s : TRDP_SESSION_T) (pRfds : Option (List Int))
    (pCount : Option Int) : TRDP_ERR_T × TRDP_SESSION_T × Option (List Int) × Option Int :=
  match pRfds, pCount with
  | some fds, some count =>
    if count > 0 then
      let r := pdReceiveLoop c s.pRcvQueue.length 0 s fds count TRDP_NO_ERR
      (r.1, r.2.1, some r.2.2.1, some r.2.2.2)
    else (TRDP_NO_ERR, s, pRfds, pCount)
  | _, _ => (TRDP_NO_ERR, s, pRfds, pCount)

/-- The entry of `tlc_process` after the session checks: the session mutex is taken and
`appHandle->interval` is cleared. -/
def processEnter (s : TRDP_SESSION_T) : TRDP_SESSION_T :=
  let s0 := vos_mutexLock s
  { s0 with interval := timerclear }

/-- The function `tlc_process`: the result code, the session, the descriptor set
`*pRfds` and `*pCount` afterwards (`none` for a NULL pointer). The result is `none`
when the function reads through a NULL pointer. -/
def tlc_process (k : PD_PARAMS) (c : PD_COM) (env : PD_ENV) (sSession : List Nat)
    (appHandle : Nat) (s : TRDP_SESSION_T) (pRfds : Option (List Int)) (pCount : Option Int) :
    Option (TRDP_ERR_T × TRDP_SESSION_T × Option (List Int) × Option Int) :=
  if !trdp_isValidSession env.sessionLockOk sSession appHandle then
    some (TRDP_NOINIT_ERR, s, pRfds, pCount)
  else if !env.lockOk then some (TRDP_NOINIT_ERR, s, pRfds, pCount)
  else
    let s1 := processEnter s
    let s2 := processSend k c env s1
    let s3 := processTimeouts k env s1.pSndQueue.length s2
    let rx := processReceive c s3 pRfds pCount
    if k.MD_SUPPORT then
      match processMdSock rx.2.1 rx.2.2.1 rx.2.2.2 with
      | none => none
      | some m => some (rx.1, vos_mutexUnlock rx.2.1, m.1, m.2)
    else some (rx.1, vos_mutexUnlock rx.2.1, rx.2.2.1, rx.2.2.2)

/-! ## Derived notions used in the statements about trdp_if.c -/

/-- A time value in microseconds. -/
def timeUsec (t : TRDP_TIME_T) : Int :=
  t.tv_sec * 1000000 + t.tv_usec

/-- A time value in normal form: the microseconds are in `[0, 1000000)`. -/
def timeNormal (t : TRDP_TIME_T) : Prop :=
  0 ≤ t.tv_usec ∧ t.tv_usec < 1000000

instance (t : TRDP_TIME_T) : Decidable (timeNormal t) := by
  unfold timeNormal
  exact inferInstance

/-- The keys `(comId, srcIpAddr, destIpAddr)` of the elements of a queue, in the order
of the queue. -/
def queueKeys (q : List PD_ELE_T) : List (Nat × Nat × Nat) :=
  q.map (fun e => addrKey e.addr)

/-- The deadlines `timeToGo` of all elements of the receive and the send queue. -/
def pdDeadlines (s : TRDP_SESSION_T) : List TRDP_TIME_T :=
  (s.pRcvQueue ++ s.pSndQueue).map (fun e => e.timeToGo)

/-- One call of `tlp_publish`, `tlp_unpublish` or `tlp_subscribe` on a session, with
its arguments and with what the platform delivers during the call. -/
inductive PD_OP
  | publish (env envPut : PD_ENV) (pPubHandle : Bool)
      (comId topoCount srcIpAddr destIpAddr interval pktFlags : Nat)
      (pData : Option (List Nat)) (dataSize : Nat)
  | unpublish (env : PD_ENV) (pubHandle : TRDP_PUB_T)
  | subscribe (env : PD_ENV) (pSubHandle : Bool)
      (pUserRef comId srcIpAddr1 destIpAddr timeout maxDataSize : Nat)

/-- The session after one call. -/
def pdStep (k : PD_PARAMS) (c : PD_COM) (sSession : List Nat) (appHandle : Nat)
    (s : TRDP_SESSION_T) : PD_OP → TRDP_SESSION_T
  | PD_OP.publish env envPut pPubHandle comId topoCount srcIpAddr destIpAddr interval pktFlags
      pData dataSize =>
    (tlp_publish k c env envPut sSession appHandle s pPubHandle comId topoCount srcIpAddr
      destIpAddr interval pktFlags pData dataSize).2.1
  | PD_OP.unpublish env pubHandle => (tlp_unpublish env sSession appHandle s pubHandle).2.1
  | PD_OP.subscribe env pSubHandle pUserRef comId srcIpAddr1 destIpAddr timeout maxDataSize =>
    (tlp_subscribe k env sSession appHandle s pSubHandle pUserRef comId srcIpAddr1 destIpAddr
      timeout maxDataSize).2.1

/-- The session after a sequence of calls. -/
def pdRun (k : PD_PARAMS) (c : PD_COM) (sSession : List Nat) (appHandle : Nat)
    (s : TRDP_SESSION_T) (ops : List PD_OP) : TRDP_SESSION_T :=
  ops.foldl (pdStep k c sSession appHandle) s

/-- The type `TESTDATA_T` of test_trafficShaping.c. -/
structure TESTDATA_T where
  comID : Nat
  cycle : Nat
  size : Nat
  deriving DecidableEq, Repr

/-- The table `gPD` of test_trafficShaping.c. -/
def gPD : List TESTDATA_T :=
  [ ⟨1001, 1000000, 1000⟩, ⟨1002, 100000, 1000⟩, ⟨1003, 100000, 1000⟩, ⟨1004, 2000000, 1000⟩,
    ⟨1005, 30000, 1000⟩, ⟨1006, 30000, 1000⟩, ⟨1007, 50000, 1000⟩, ⟨1008, 5000000, 1000⟩ ]

/-- The loop of `main` in test_trafficShaping.c that publishes the entries of a table
from position `i` on with source 0, destination `destIP` and the data `outputBuffer`;
it stops at the first call that does not return `TRDP_NO_ERR`. `envs i` is what the
platform delivers during call number `i` and during its nested `tlp_put`. -/
def publishAll (k : PD_PARAMS) (c : PD_COM) (envs : Nat → PD_ENV × PD_ENV)
    (sSession : List Nat) (appHandle : Nat) (destIP : Nat) (outputBuffer : List Nat) :
    List TESTDATA_T → Nat → TRDP_SESSION_T → TRDP_ERR_T × TRDP_SESSION_T
  | [], _, s => (TRDP_NO_ERR, s)
  | d :: rest, i, s =>
    let r := tlp_publish k c (envs i).1 (envs i).2 sSession appHandle s true d.comID 0 0 destIP
      d.cycle k.TRDP_FLAGS_NONE (some outputBuffer) d.size
    if r.1 ≠ TRDP_NO_ERR then (r.1, r.2.1)
    else publishAll k c envs sSession appHandle destIP outputBuffer rest (i + 1) r.2.1

/-- The condition of the specification for sending a due element: the element has a
socket, and it is not so that the session is quiet and the element is not flagged
redundant. -/
def pdSendable (k : PD_PARAMS) (s : TRDP_SESSION_T) (e : PD_ELE_T) : Prop :=
  e.socketIdx ≠ -1 ∧ ¬ (s.beQuiet = true ∧ e.pktFlags &&& k.TRDP_FLAGS_REDUNDANT = 0)

instance (k : PD_PARAMS) (s : TRDP_SESSION_T) (e : PD_ELE_T) : Decidable (pdSendable k s e) := by
  unfold pdSendable
  exact inferInstance

/-- The element as `trdp_pdSend` gets it: the header is stamped by `trdp_pdUpdate`. -/
def pdStamped (c : PD_COM) (e : PD_ELE_T) : PD_ELE_T :=
  { e with frameHead := c.trdp_pdUpdate e }

/-- The transmission of an element examined with the clock reading `now`, as the
specification of the send scheduling describes it: the element is sent on its socket
exactly when its deadline has come and it may be sent. -/
def pdTransmission (k : PD_PARAMS) (c : PD_COM) (s : TRDP_SESSION_T) (now : TRDP_TIME_T)
    (e : PD_ELE_T) : Option PD_SEND :=
  if timercmp_le e.timeToGo now = true ∧ pdSendable k s e then
    some { sock := ifaceSock s.iface e.socketIdx, pPacket := pdStamped c e }
  else none

/-- One pass of `tlc_process`: what the platform delivers and the descriptor
arguments. -/
structure PD_PASS where
  env : PD_ENV
  pRfds : Option (List Int)
  pCount : Option Int

/-- The session after a sequence of passes of `tlc_process`; `none` when a pass reads
through a NULL pointer. -/
def processAll (k : PD_PARAMS) (c : PD_COM) (sSession : List Nat) (appHandle : Nat) :
    TRDP_SESSION_T → List PD_PASS → Option TRDP_SESSION_T
  | s, [] => some s
  | s, p :: ps =>
    match tlc_process k c p.env sSession appHandle s p.pRfds p.pCount with
    | none => none
    | some r => processAll k c sSession appHandle r.2.1 ps

/-- The pass `q` observes the deadline of the element `e` at position `j` of the
receive queue as passed: `timeToGo <= now` with the clock reading taken before the
element is examined, the one after the rounds over the send queue of `s` and over the
`j` elements before it. -/
def pdObserves (s : TRDP_SESSION_T) (j : Nat) (e : PD_ELE_T) (q : PD_PASS) : Prop :=
  timercmp_le e.timeToGo (q.env.clock (s.pSndQueue.length + j)) = true

instance (s : TRDP_SESSION_T) (j : Nat) (e : PD_ELE_T) (q : PD_PASS) :
    Decidable (pdObserves s j e q) := by
  unfold pdObserves
  exact inferInstance

/-- Is the callback a timeout report (`resultCode` `TRDP_TIMEOUT_ERR`) for the
subscription with the given address. -/
def isTimeoutFor (a : TRDP_ADDRESSES) (cb : PD_CALLBACK) : Bool :=
  cb.pMsg.resultCode = TRDP_TIMEOUT_ERR ∧ cb.pMsg.comId = a.comId ∧
    cb.pMsg.srcIpAddr = a.srcIpAddr ∧ cb.pMsg.destIpAddr = a.destIpAddr

/-- The number of timeout reports for the subscription with the given address in a
callback log. -/
def timeoutCalls (a : TRDP_ADDRESSES) (log : List PD_CALLBACK) : Nat :=
  log.countP (isTimeoutFor a)

/-- Nothing is received for the subscription with address `a`: every call of
`trdp_pdReceive` keeps the addresses of the receive queue, leaves the element with
that address as it is and reports no timeout for it. -/
def pdReceiveSilent (c : PD_COM) (a : TRDP_ADDRESSES) : Prop :=
  ∀ (s : TRDP_SESSION_T) (sock : Int),
    queueKeys (c.trdp_pdReceive s sock).2.1 = queueKeys s.pRcvQueue ∧
    (∀ (i : Nat) (e : PD_ELE_T), s.pRcvQueue[i]? = some e → addrKey e.addr = addrKey a →
      (c.trdp_pdReceive s sock).2.1[i]? = some e) ∧
    timeoutCalls a (c.trdp_pdReceive s sock).2.2 = 0

/-! ## Example values for trdp_if.c -/

/-- Example constants. -/
def exPdParams : PD_PARAMS :=
  { TIMER_GRANULARITY := 10000, MAX_PD_PACKET_SIZE := 1436, sizeof_PD_HEADER_T := 40,
    TRDP_MSG_PD := 0x5064, TRDP_FLAGS_NONE := 0, TRDP_FLAGS_MARSHALL := 1,
    TRDP_FLAGS_REDUNDANT := 4, TRDP_PRIV_NONE := 0, TRDP_TIMED_OUT := 2, TRDP_MC_JOINT := 1,
    TRDP_OPTION_BLOCK := 1, TRDP_TO_SET_TO_ZERO := 1, MD_SUPPORT := false }

/-- Example functions of trdp_pdcom.c: the header is kept, the data is stored and
handed back, nothing is received. -/
def exPdCom : PD_COM :=
  { trdp_packetSizePD := fun n => 40 + (n + 3) / 4 * 4,
    trdp_pdInit := fun e _ _ => e.frameHead,
    trdp_pdUpdate := fun e => e.frameHead,
    trdp_pdPut := fun e _ _ data _ => (TRDP_NO_ERR, e.frameHead, data),
    trdp_pdGet := fun e _ _ _ _ => (TRDP_NO_ERR, e.data),
    trdp_pdReceive := fun s _ => (TRDP_NO_ERR, s.pRcvQueue, []) }

/-- An allocated block with zero content. -/
def exPdBlock : PD_ELE_T :=
  { addr := ⟨0, 0, 0, 0⟩, pktFlags := 0, privFlags := 0, interval := ⟨0, 0⟩, timeToGo := ⟨0, 0⟩,
    dataSize := 0, grossSize := 0, socketIdx := 0, userRef := 0,
    frameHead := ⟨[], [], [], [], [], [], [], []⟩, data := [] }

/-- Example platform: every call succeeds, the clock reads `sec` seconds. -/
def exPdEnv (sec : Int) : PD_ENV :=
  { sessionLockOk := true, lockOk := true, clock := fun _ => ⟨sec, 0⟩,
    alloc := some exPdBlock, sockErr := TRDP_NO_ERR, sockIdx := 0,
    sockIface := [{ sock := 5, rcvOnly := 0, usage := 1, cornerIp := 0,
                    connectionTimeout := ⟨0, 0⟩ }] }

/-- Example session list: one session at address 1. -/
def exSessions : List Nat := [1]

/-- Example session: empty queues, blocking mode, a PD callback is configured. -/
def exPdSession : TRDP_SESSION_T :=
  { mutexDepth := 0, option := 1, beQuiet := false, redID := 0,
    marshall := ⟨0, 0, 0⟩, pdDefault := ⟨true, 0, 0⟩,
    iface := [{ sock := 5, rcvOnly := 0, usage := 1, cornerIp := 0,
                connectionTimeout := ⟨0, 0⟩ }],
    mdRcvSock := 0, interval := ⟨0, 0⟩, nextJob := ⟨0, 0⟩,
    pSndQueue := [], pRcvQueue := [], callbacks := [], sent := [], joined := [] }

/-- Example element: comId `comId`, from anywhere to address 9, the deadline is at `sec`
seconds, the interval is one second. -/
def exPdEle (comId : Nat) (sec : Int) : PD_ELE_T :=
  { addr := ⟨comId, 0, 9, 0⟩, pktFlags := 0, privFlags := 0, interval := ⟨1, 0⟩,
    timeToGo := ⟨sec, 0⟩, dataSize := 0, grossSize := 44, socketIdx := 0, userRef := 0,
    frameHead := ⟨[], [], [], [], [], [], [], []⟩, data := [] }

/-- Example session with the given queues. -/
def exPdQueues (snd rcv : List PD_ELE_T) : TRDP_SESSION_T :=
  { mutexDepth := 0, option := 1, beQuiet := false, redID := 0,
    marshall := ⟨0, 0, 0⟩, pdDefault := ⟨true, 0, 0⟩,
    iface := [{ sock := 5, rcvOnly := 0, usage := 1, cornerIp := 0,
                connectionTimeout := ⟨0, 0⟩ }],
    mdRcvSock := 0, interval := ⟨0, 0⟩, nextJob := ⟨0, 0⟩,
    pSndQueue := snd, pRcvQueue := rcv, callbacks := [], sent := [], joined := [] }

/-- Example calls: comId 1001 is published twice, comId 2001 is subscribed twice, then
comId 1001 is unpublished and comId 1002 is published. -/
def exPdOps : List PD_OP :=
  [ PD_OP.publish (exPdEnv 7) (exPdEnv 7) true 1001 0 0 9 1000000 0 (some [0]) 1,
    PD_OP.publish (exPdEnv 8) (exPdEnv 8) true 1001 0 0 9 1000000 0 (some [0]) 1,
    PD_OP.subscribe (exPdEnv 9) true 0 2001 0 9 1000000 100,
    PD_OP.subscribe (exPdEnv 9) true 0 2001 0 9 1000000 100,
    PD_OP.unpublish (exPdEnv 10) (some ⟨1001, 0, 9, 0⟩),
    PD_OP.publish (exPdEnv 11) (exPdEnv 11) true 1002 0 0 9 100000 0 (some [0]) 1 ]

/-! ## Time functions of vos_thread.c: vos_divTime, vos_cyclicThread -/

/-- Conversion of an integer value to `UINT32`: the value modulo `2 ^ 32`. -/
def toUINT32 (x : Int) : Nat :=
  (x % 4294967296).toNat

/-- Conversion of a `UINT32` value to `INT32`, the cast `(INT32) divisor`: values from
`2 ^ 31` on become negative. -/
def toINT32 (x : Nat) : Int :=
  if x % UINT32_MOD < 2147483648 then ((x % UINT32_MOD : Nat) : Int)
  else ((x % UINT32_MOD : Nat) : Int) - 4294967296

/-- The function `vos_divTime(pTime, divisor)` of vos_thread.c; the result is the content
of `*pTime` afterwards (`none` is a NULL pointer). `divisor` is a `UINT32`. The fields
of the `struct timeval` are signed integers wide enough for the values that occur, so
`%` and `/` on them are the truncating operations of C on integers; `temp` and the
product `temp * 1000000` are `UINT32` and wrap, and the microseconds are divided by
`(INT32) divisor`. -/
def vos_divTime (pTime : Option TRDP_TIME_T) (divisor : Nat) : Option TRDP_TIME_T :=
  match pTime with
  | none => none
  | some t =>
    if divisor = 0 then some t
    else
      let temp : Nat := toUINT32 (Int.tmod t.tv_sec (divisor : Int))
      let tv_sec := Int.tdiv t.tv_sec (divisor : Int)
      let tv_usec :=
        if temp > 0 then t.tv_usec + ((temp * 1000000 % UINT32_MOD : Nat) : Int) else t.tv_usec
      some { tv_sec := tv_sec, tv_usec := Int.tdiv tv_usec (toINT32 divisor) }

/-- The call `vos_divTime(&t, divisor)` on an object: the content of `t` afterwards. -/
def divTime (t : TRDP_TIME_T) (divisor : Nat) : TRDP_TIME_T :=
  (vos_divTime (some t) divisor).getD t

namespace Stats

/-- The element `PD_ELE_T` as trdp_stats.c of the trunk reads it: the address tuple and
the fields copied into the statistics records. Pointers are naturals. -/
structure PD_ELE_T where
  addr : TRDP_ADDRESSES
  privFlags : Nat
  interval : TRDP_TIME_T
  pfCbFunction : Nat
  pUserRef : Nat
  toBehavior : Nat
  numRxTx : Nat
  numMissed : Nat
  updPkts : Nat
  lastErr : Int
  deriving DecidableEq, Repr

/-- The session `*appHandle` as the two list functions of trdp_stats.c read it. -/
structure TRDP_SESSION_T where
  redID : Nat
  pSndQueue : List PD_ELE_T
  pRcvQueue : List PD_ELE_T
  deriving DecidableEq, Repr

/-- The record `TRDP_SUBS_STATISTICS_T`, the fields that `tlc_getSubsStatistics` writes. -/
structure TRDP_SUBS_STATISTICS_T where
  comId : Nat
  joinedAddr : Nat
  filterAddr : Nat
  callBack : Nat
  userRef : Nat
  timeout : Nat
  toBehav : Nat
  numRecv : Nat
  numMissed : Nat
  status : Int
  deriving DecidableEq, Repr

/-- The record `TRDP_PUB_STATISTICS_T`, the fields that `tlc_getPubStatistics` writes. -/
structure TRDP_PUB_STATISTICS_T where
  comId : Nat
  destAddr : Nat
  redId : Nat
  redState : Nat
  cycle : Nat
  numSend : Nat
  numPut : Nat
  deriving DecidableEq, Repr

/-- The body of the loop of `tlc_getSubsStatistics`: the record written to
`pStatistics[lIndex]` for the queue element `iter`. The pointers and the time in
microseconds are stored in `UINT32` fields. -/
def subsEntry (iter : PD_ELE_T) : TRDP_SUBS_STATISTICS_T :=
  { comId := iter.addr.comId,
    joinedAddr := iter.addr.mcGroup,
    filterAddr := iter.addr.srcIpAddr,
    callBack := iter.pfCbFunction % UINT32_MOD,
    userRef := iter.pUserRef % UINT32_MOD,
    timeout := toUINT32 (iter.interval.tv_usec + iter.interval.tv_sec * 1000000),
    toBehav := iter.toBehavior,
    numRecv := iter.numRxTx,
    numMissed := iter.numMissed,
    status := iter.lastErr }

/-- The body of the loop of `tlc_getPubStatistics`: the record written to
`pStatistics[lIndex]` for the queue element `iter`; `TRDP_REDUNDANT` is the flag bit of
`privFlags`, whose value is not among the sources. -/
def pubEntry (TRDP_REDUNDANT : Nat) (appHandle : TRDP_SESSION_T) (iter : PD_ELE_T) :
    TRDP_PUB_STATISTICS_T :=
  { comId := iter.addr.comId,
    destAddr := iter.addr.destIpAddr,
    redId := appHandle.redID,
    redState := if iter.privFlags &&& TRDP_REDUNDANT ≠ 0 then 1 else 0,
    cycle := toUINT32 (iter.interval.tv_usec + iter.interval.tv_sec * 1000000),
    numSend := iter.numRxTx,
    numPut := iter.updPkts }

/-- The loop `for (lIndex = 0, iter = queue; lIndex < *pNum && iter != NULL; lIndex++,
iter = iter->pNext)` of the two list functions, from the state `(lIndex, iter)` on: the
array `pStatistics` is a map from the index to the record, `entry` is the body of the
loop, `lIndex` is a `UINT16`. Result: `lIndex` and `iter != NULL` at the end of the loop
and the array afterwards. -/
def statsLoop {α : Type} (entry : PD_ELE_T → α) (n : Nat) :
    Nat → List PD_ELE_T → (Nat → α) → Nat × Bool × (Nat → α)
  | lIndex, [], pStatistics => (lIndex, false, pStatistics)
  | lIndex, iter :: pNext, pStatistics =>
    if lIndex < n then
      statsLoop entry n ((lIndex + 1) % 65536) pNext
        (Function.update pStatistics lIndex (entry iter))
    else (lIndex, true, pStatistics)

/-- The part of the two list functions after the checks: the loop, the test for more
entries than requested and the store of `*pNum`. Result: the result code, `*pNum` and
the array afterwards. -/
def statsList {α : Type} (entry : PD_ELE_T → α) (queue : List PD_ELE_T) (n : Nat)
    (pStatistics : Nat → α) : TRDP_ERR_T × Nat × (Nat → α) :=
  let r := statsLoop entry n 0 queue pStatistics
  let lIndex := r.1
  let err := if lIndex ≥ n && r.2.1 then TRDP_MEM_ERR else TRDP_NO_ERR
  (err, lIndex, r.2.2)

/-- The function `tlc_getSubsStatistics(appHandle, pNumSubs, pStatistics)`: the result
code, `*pNumSubs` (a `UINT16`) and the array `pStatistics` afterwards; `none` is a NULL
pointer. `pNumSubs` holds the value `*pNumSubs` of the call. -/
def tlc_getSubsStatistics (sessionLockOk : Bool) (sSession : List Nat) (appHandle : Nat)
    (s : TRDP_SESSION_T) (pNumSubs : Option Nat)
    (pStatistics : Option (Nat → TRDP_SUBS_STATISTICS_T)) :
    TRDP_ERR_T × Option Nat × Option (Nat → TRDP_SUBS_STATISTICS_T) :=
  if !trdp_isValidSession sessionLockOk sSession appHandle then
    (TRDP_NOINIT_ERR, pNumSubs, pStatistics)
  else
    match pNumSubs, pStatistics with
    | some n, some a =>
      if n = 0 then (TRDP_PARAM_ERR, pNumSubs, pStatistics)
      else
        let r := statsList subsEntry s.pRcvQueue n a
        (r.1, some r.2.1, some r.2.2)
    | _, _ => (TRDP_PARAM_ERR, pNumSubs, pStatistics)

/-- The function `tlc_getPubStatistics(appHandle, pNumPub, pStatistics)`: the result
code, `*pNumPub` (a `UINT16`) and the array `pStatistics` afterwards; `none` is a NULL
pointer. `pNumPub` holds the value `*pNumPub` of the call. -/
def tlc_getPubStatistics (TRDP_REDUNDANT : Nat) (sessionLockOk : Bool) (sSession : List Nat)
    (appHandle : Nat) (s : TRDP_SESSION_T) (pNumPub : Option Nat)
    (pStatistics : Option (Nat → TRDP_PUB_STATISTICS_T)) :
    TRDP_ERR_T × Option Nat × Option (Nat → TRDP_PUB_STATISTICS_T) :=
  if !trdp_isValidSession sessionLockOk sSession appHandle then
    (TRDP_NOINIT_ERR, pNumPub, pStatistics)
  else
    match pNumPub, pStatistics with
    | some n, some a =>
      if n = 0 then (TRDP_PARAM_ERR, pNumPub, pStatistics)
      else
        let r := statsList (pubEntry TRDP_REDUNDANT s) s.pSndQueue n a
        (r.1, some r.2.1, some r.2.2)
    | _, _ => (TRDP_PARAM_ERR, pNumPub, pStatistics)

end Stats

/-! ## tlc_reinit, tlp_setRedundant, tlp_getRedundant -/

/-- The loop of `tlc_reinit` over the send queue: the calls of `vos_sockJoinMC` for the
elements that are flagged `TRDP_MC_JOINT` and have a socket. -/
def reinitJoins (k : PD_PARAMS) (s : TRDP_SESSION_T) : List PD_JOIN :=
  s.pSndQueue.filterMap (fun iterPD =>
    if iterPD.privFlags &&& k.TRDP_MC_JOINT ≠ 0 ∧ iterPD.socketIdx ≠ -1 then
      some { sock := ifaceSock s.iface iterPD.socketIdx, mcGroup := iterPD.addr.mcGroup }
    else none)

/-- The part of `tlc_reinit` on the session `s` that holds the mutex: the groups are
joined again and the mutex is released. -/
def reinitLocked (k : PD_PARAMS) (s : TRDP_SESSION_T) : TRDP_SESSION_T :=
  vos_mutexUnlock { s with joined := s.joined ++ reinitJoins k s }

/-- The function `tlc_reinit`: the result code and the session afterwards. -/
def tlc_reinit (k : PD_PARAMS) (env : PD_ENV) (sSession : List Nat) (appHandle : Nat)
    (s : TRDP_SESSION_T) : TRDP_ERR_T × TRDP_SESSION_T :=
  if !trdp_isValidSession env.sessionLockOk sSession appHandle then (TRDP_NOINIT_ERR, s)
  else if !env.lockOk then (TRDP_NOINIT_ERR, s)
  else (TRDP_NO_ERR, reinitLocked k (vos_mutexLock s))

/-- The part of `tlp_setRedundant` on the session `s` that holds the mutex. -/
def setRedundantLocked (s : TRDP_SESSION_T) (redId : Nat) (leader : Bool) : TRDP_SESSION_T :=
  vos_mutexUnlock { s with beQuiet := !leader, redID := redId }

/-- The function `tlp_setRedundant`: the result code and the session afterwards. -/
def tlp_setRedundant (env : PD_ENV) (sSession : List Nat) (appHandle : Nat)
    (s : TRDP_SESSION_T) (redId : Nat) (leader : Bool) : TRDP_ERR_T × TRDP_SESSION_T :=
  if !trdp_isValidSession env.sessionLockOk sSession appHandle then (TRDP_NOINIT_ERR, s)
  else if !env.lockOk then (TRDP_NOINIT_ERR, s)
  else (TRDP_NO_ERR, setRedundantLocked (vos_mutexLock s) redId leader)

/-- The function `tlp_getRedundant`: the result code, the session afterwards and the
value stored in `*pLeader` (`none` when nothing is stored). `pLeader` tells whether
that pointer is non-NULL; `redId` is not used by the function. -/
def tlp_getRedundant (env : PD_ENV) (sSession : List Nat) (appHandle : Nat)
    (s : TRDP_SESSION_T) (pLeader : Bool) : TRDP_ERR_T × TRDP_SESSION_T × Option Bool :=
  if !pLeader then (TRDP_PARAM_ERR, s, none)
  else if !trdp_isValidSession env.sessionLockOk sSession appHandle then
    (TRDP_NOINIT_ERR, s, none)
  else if !env.lockOk then (TRDP_NOINIT_ERR, s, none)
  else (TRDP_NO_ERR, vos_mutexUnlock (vos_mutexLock s), some (!(vos_mutexLock s).beQuiet))

/-! ## Derived notions and example values for the time functions and the statistics -/

/-- The clock readings that a pass of `tlc_process` on the session `s` compares with a
deadline: one for each entry of the send queue, then one for each entry of the receive
queue. -/
def processReadings (s : TRDP_SESSION_T) : Nat :=
  s.pSndQueue.length + s.pRcvQueue.length

/-- The queue elements handed to `vos_memFree` in a log of releases, in their order. -/
def releasedElements (log : List PD_RELEASE) : List PD_ELE_T :=
  log.filterMap (fun r => match r with
    | PD_RELEASE.element e => some e
    | _ => none)

/-- The socket indices handed to `trdp_releaseSocket` in a log of releases, in their
order. -/
def releasedSockets (log : List PD_RELEASE) : List Int :=
  log.filterMap (fun r => match r with
    | PD_RELEASE.socket i => some i
    | _ => none)

/-- Example platform: every call succeeds, the reading number `i` of the clock is
`secs i` seconds. -/
def exPdClock (secs : Nat → Int) : PD_ENV :=
  { sessionLockOk := true, lockOk := true, clock := fun i => ⟨secs i, 0⟩,
    alloc := some exPdBlock, sockErr := TRDP_NO_ERR, sockIdx := 0,
    sockIface := [{ sock := 5, rcvOnly := 0, usage := 1, cornerIp := 0,
                    connectionTimeout := ⟨0, 0⟩ }] }

/-- Example queue element of trdp_stats.c: the given comId, a cycle of one second. -/
def exStatEle (comId : Nat) : Stats.PD_ELE_T :=
  { addr := ⟨comId, 0, 9, 0⟩, privFlags := 0, interval := ⟨1, 0⟩, pfCbFunction := 0,
    pUserRef := 0, toBehavior := 0, numRxTx := 3, numMissed := 0, updPkts := 1, lastErr := 0 }

/-- Example session of trdp_stats.c with the given queues. -/
def exStatSession (snd rcv : List Stats.PD_ELE_T) : Stats.TRDP_SESSION_T :=
  { redID := 0, pSndQueue := snd, pRcvQueue := rcv }

/-- An array of subscription records with zero content. -/
def exSubsArray : Nat → Stats.TRDP_SUBS_STATISTICS_T :=
  fun _ => ⟨0, 0, 0, 0, 0, 0, 0, 0, 0, 0⟩

/-- An array of publication records with zero content. -/
def exPubArray : Nat → Stats.TRDP_PUB_STATISTICS_T :=
  fun _ => ⟨0, 0, 0, 0, 0, 0, 0⟩

/-- Example memory: a header with datasetLength 4 and a valid FCS, 112 bytes, followed
by four bytes whose CRC is the value of the FCS word. -/
def exPastA : List Nat := exHead 0x70 1 0 4 ++ [138, 88, 66, 255] ++ [103, 28, 79, 205]

/-- Example memory: the same 112 bytes as `exPastA`, followed by four zero bytes. -/
def exPastB : List Nat := exHead 0x70 1 0 4 ++ [138, 88, 66, 255] ++ [0, 0, 0, 0]

/-- Example frame: the header of `exFrameMp` with a wrong FCS word. -/
def exFrameBadFcs : List Nat := exHead 0x70 1 0 0 ++ [0, 0, 0, 0]

/-- Example frame: a header with an unknown message type and a valid FCS. -/
def exFrameBadType : List Nat := exHead 0x7A 1 0 0 ++ [170, 154, 88, 223]

/-- Example frame of 120 bytes: datasetLength 4, a wrong FCS word and a wrong data CRC. -/
def exFrameBadBoth : List Nat := exHead 0x70 1 0 4 ++ [0, 0, 0, 0] ++ [0, 0, 0, 0, 0, 0, 0, 0]

/-- Example platform of the MD ingress: the socket delivers `frame` with the given size. -/
def exEnvSized (frame : List Nat) (size : Nat) : MD_RX_ENV :=
  { allocOk := true
    rcvErr := TRDP_NO_ERR
    rcvSize := size
    rcvErr2 := TRDP_NO_ERR
    rcvSize2 := 0
    rcvFrame := frame
    rcvSrcIp := 7
    now := { tv_sec := 100, tv_usec := 0 }
    sockPosition := 0 }

/-! ## Further example values -/

/-- Example platform: every call succeeds, the clock reads `t`. -/
def exPdEnvAt (t : TRDP_TIME_T) : PD_ENV :=
  { sessionLockOk := true, lockOk := true, clock := fun _ => t,
    alloc := some exPdBlock, sockErr := TRDP_NO_ERR, sockIdx := 0,
    sockIface := [{ sock := 5, rcvOnly := 0, usage := 1, cornerIp := 0,
                    connectionTimeout := ⟨0, 0⟩ }] }

/-- Example platform of `tlc_init`: the mutexes are created, `vos_memAlloc` returns the
block at the address `alloc`, `trdp_initMD` succeeds. -/
def exInitEnv (alloc : Nat) : INIT_ENV :=
  { createListMutexOk := true, alloc := alloc, createMutexOk := true,
    initMdErr := TRDP_NO_ERR }

/-! ## Byte memory and CRC lemmas -/

theorem get8_memWrite (buf : List Nat) (off : Nat) (bs : List Nat) (i : Nat) :
    get8 (memWrite buf off bs) i =
      if off ≤ i ∧ i < off + bs.length then bs.getD (i - off) 0 % 256 else get8 buf i := by
  unfold get8 memWrite
  by_cases hi : i < max buf.length (off + bs.length)
  · rw [List.getD_eq_getElem?_getD, List.getElem?_map, List.getElem?_range hi]
    simp only [Option.map_some', Option.getD_some]
    split_ifs <;> simp [List.getD_eq_getElem?_getD]
  · have h1 : buf.length ≤ i := by
      have := le_max_left buf.length (off + bs.length); omega
    have h2 : ¬ (off ≤ i ∧ i < off + bs.length) := by
      have := le_max_right buf.length (off + bs.length); omega
    rw [if_neg h2]
    rw [List.getD_eq_default _ _ (by simpa using Nat.le_of_not_lt hi), List.getD_eq_default _ _ h1]

theorem get8_memWrite_of_outside (buf : List Nat) (off : Nat) (bs : List Nat) (i : Nat)
    (h : i < off ∨ off + bs.length ≤ i) : get8 (memWrite buf off bs) i = get8 buf i := by
  rw [get8_memWrite, if_neg (by omega)]

theorem memSpan_add (buf : List Nat) (off a b : Nat) :
    memSpan buf off (a + b) = memSpan buf off a ++ memSpan buf (off + a) b := by
  unfold memSpan
  rw [List.range_add, List.map_append, List.map_map]
  congr 1
  apply List.map_congr_left
  intro i _
  simp [Nat.add_assoc]

theorem memSpan_congr (b1 b2 : List Nat) (off len : Nat)
    (h : ∀ i, off ≤ i → i < off + len → get8 b1 i = get8 b2 i) :
    memSpan b1 off len = memSpan b2 off len := by
  unfold memSpan
  apply List.map_congr_left
  intro i hi
  rw [List.mem_range] at hi
  exact h (off + i) (by omega) (by omega)

theorem memSpan_memWrite_of_disjoint (buf : List Nat) (off : Nat) (bs : List Nat)
    (off2 len : Nat) (h : off2 + len ≤ off ∨ off + bs.length ≤ off2) :
    memSpan (memWrite buf off bs) off2 len = memSpan buf off2 len := by
  apply memSpan_congr
  intro i h1 h2
  exact get8_memWrite_of_outside buf off bs i (by omega)

theorem memSpan_memWrite_le32 (buf : List Nat) (off c : Nat) :
    memSpan (memWrite buf off (le32 c)) off 4 = le32 c := by
  have h0 : get8 (memWrite buf off (le32 c)) (off + 0) = c % 256 := by
    rw [get8_memWrite]; simp [le32]
  have h1 : get8 (memWrite buf off (le32 c)) (off + 1) = c / 256 % 256 := by
    rw [get8_memWrite]; simp [le32]
  have h2 : get8 (memWrite buf off (le32 c)) (off + 2) = c / 65536 % 256 := by
    rw [get8_memWrite]; simp [le32]
  have h3 : get8 (memWrite buf off (le32 c)) (off + 3) = c / 16777216 % 256 := by
    rw [get8_memWrite]; simp [le32]
  simp only [memSpan, List.range_succ, List.range_zero, List.nil_append, List.map_append,
    List.map_cons, List.map_nil, List.cons_append]
  rw [h0, h1, h2, h3]
  rfl

theorem vos_ntohl_memWrite (buf : List Nat) (off : Nat) (bs : List Nat) (o : Nat)
    (h : o + 4 ≤ off ∨ off + bs.length ≤ o) :
    vos_ntohl (memWrite buf off bs) o = vos_ntohl buf o := by
  unfold vos_ntohl
  rw [get8_memWrite_of_outside _ _ _ _ (by omega), get8_memWrite_of_outside _ _ _ _ (by omega),
    get8_memWrite_of_outside _ _ _ _ (by omega), get8_memWrite_of_outside _ _ _ _ (by omega)]

theorem vos_ntohs_memWrite (buf : List Nat) (off : Nat) (bs : List Nat) (o : Nat)
    (h : o + 2 ≤ off ∨ off + bs.length ≤ o) :
    vos_ntohs (memWrite buf off bs) o = vos_ntohs buf o := by
  unfold vos_ntohs
  rw [get8_memWrite_of_outside _ _ _ _ (by omega), get8_memWrite_of_outside _ _ _ _ (by omega)]

theorem le32_length (c : Nat) : (le32 c).length = 4 := rfl

theorem memSpan_write_le32_of_disjoint (buf : List Nat) (off c off2 len : Nat)
    (h : off2 + len ≤ off ∨ off + 4 ≤ off2) :
    memSpan (memWrite buf off (le32 c)) off2 len = memSpan buf off2 len :=
  memSpan_memWrite_of_disjoint buf off (le32 c) off2 len (by rw [le32_length]; exact h)

theorem vos_ntohl_write_le32 (buf : List Nat) (off c o : Nat) (h : o + 4 ≤ off ∨ off + 4 ≤ o) :
    vos_ntohl (memWrite buf off (le32 c)) o = vos_ntohl buf o :=
  vos_ntohl_memWrite buf off (le32 c) o (by rw [le32_length]; exact h)

theorem vos_ntohs_write_le32 (buf : List Nat) (off c o : Nat) (h : o + 2 ≤ off ∨ off + 4 ≤ o) :
    vos_ntohs (memWrite buf off (le32 c)) o = vos_ntohs buf o :=
  vos_ntohs_memWrite buf off (le32 c) o (by rw [le32_length]; exact h)

theorem crcBit_double (x : Nat) : crcBit (2 * x) = x := by
  simp [crcBit]

theorem xor_low_byte (c : Nat) : c ^^^ (c % 256) = 256 * (c / 256) := by
  apply Nat.eq_of_testBit_eq
  intro i
  have h256 : (256 : Nat) = 2 ^ 8 := by norm_num
  rw [h256, Nat.testBit_xor, Nat.testBit_mod_two_pow, Nat.testBit_mul_pow_two,
    ← Nat.shiftRight_eq_div_pow, Nat.testBit_shiftRight]
  by_cases h : i < 8
  · simp [h]
  · have h8 : 8 ≤ i := by omega
    simp [h, h8]

theorem crcByte_low_byte (c : Nat) : crcByte c (c % 256) = c / 256 := by
  unfold crcByte
  rw [Nat.mod_mod, xor_low_byte]
  have h : 256 * (c / 256) = 2 * (2 * (2 * (2 * (2 * (2 * (2 * (2 * (c / 256)))))))) := by omega
  rw [h]
  simp only [crcBit_double]

/-- Feeding the little-endian bytes of the running CRC value into the CRC gives zero. -/
theorem vos_crc32_residue (c : Nat) (h : c < 4294967296) : vos_crc32 c (le32 c) = 0 := by
  simp only [vos_crc32, le32, List.foldl]
  have e1 : c / 65536 = c / 256 / 256 := by omega
  have e2 : c / 16777216 = c / 256 / 256 / 256 := by omega
  rw [crcByte_low_byte, crcByte_low_byte, e1, crcByte_low_byte, e2, crcByte_low_byte]
  omega

theorem crcBit_lt (c : Nat) (h : c < 4294967296) : crcBit c < 4294967296 := by
  unfold crcBit
  split_ifs
  · have h1 : c / 2 < 2 ^ 32 := by omega
    have h2 : (0xEDB88320 : Nat) < 2 ^ 32 := by norm_num
    have := Nat.xor_lt_two_pow h1 h2
    simpa using this
  · omega

theorem crcByte_lt (c b : Nat) (h : c < 4294967296) : crcByte c b < 4294967296 := by
  unfold crcByte
  have h1 : c < 2 ^ 32 := by simpa using h
  have h2 : b % 256 < 2 ^ 32 := by
    have : b % 256 < 256 := Nat.mod_lt _ (by norm_num)
    omega
  have h3 : c ^^^ (b % 256) < 4294967296 := by simpa using Nat.xor_lt_two_pow h1 h2
  exact crcBit_lt _ (crcBit_lt _ (crcBit_lt _ (crcBit_lt _ (crcBit_lt _ (crcBit_lt _
    (crcBit_lt _ (crcBit_lt _ h3)))))))

theorem vos_crc32_lt (l : List Nat) : ∀ c : Nat, c < 4294967296 → vos_crc32 c l < 4294967296 := by
  induction l with
  | nil => intro c h; simpa [vos_crc32] using h
  | cons b t ih =>
    intro c h
    simp only [vos_crc32, List.foldl_cons]
    exact ih _ (crcByte_lt c b h)

theorem vos_crc32_append (c : Nat) (xs ys : List Nat) :
    vos_crc32 c (xs ++ ys) = vos_crc32 (vos_crc32 c xs) ys := by
  simp [vos_crc32, List.foldl_append]

/-- The mask 0xFF00 selects the high byte of a 16 bit value. -/
theorem land_version_mask (x : Nat) :
    x &&& TRDP_PROTOCOL_VERSION_CHECK_MASK = (x / 256 % 256) * 256 := by
  unfold TRDP_PROTOCOL_VERSION_CHECK_MASK
  apply Nat.eq_of_testBit_eq
  intro i
  have e : (0xFF00 : Nat) = 2 ^ 8 * (2 ^ 8 - 1) := by norm_num
  have h256 : (256 : Nat) = 2 ^ 8 := by norm_num
  rw [Nat.testBit_and, e, h256, Nat.mul_comm _ (2 ^ 8), Nat.testBit_mul_pow_two,
    Nat.testBit_mul_pow_two, Nat.testBit_two_pow_sub_one, Nat.testBit_mod_two_pow,
    ← Nat.shiftRight_eq_div_pow, Nat.testBit_shiftRight]
  by_cases h : 8 ≤ i
  · by_cases h2 : i - 8 < 8
    · simp [h, h2]
    · simp [h, h2]
  · simp [h]

/-! ## trdp_mdCheck: characterisation -/

theorem mdCheckSize_eq (k : TRDP_PARAMS) (packetSize : Nat) (stats : TRDP_MD_STATISTICS_T) :
    mdCheckSize k packetSize (TRDP_NO_ERR, stats) =
      if packetSize < sizeof_MD_HEADER_T ∨ packetSize > k.TRDP_MAX_MD_PACKET_SIZE then
        (TRDP_WIRE_ERR, { stats with numProtErr := inc32 stats.numProtErr })
      else (TRDP_NO_ERR, stats) := by
  simp [mdCheckSize]

theorem mdCheckCrc_of_err (pPacket : List Nat) (packetSize : Nat)
    (r : TRDP_ERR_T × TRDP_MD_STATISTICS_T) (h : r.1 ≠ TRDP_NO_ERR) :
    mdCheckCrc pPacket packetSize r = r := by
  simp [mdCheckCrc, h]

theorem mdCheckVersion_of_err (k : TRDP_PARAMS) (pPacket : List Nat)
    (r : TRDP_ERR_T × TRDP_MD_STATISTICS_T) (h : r.1 ≠ TRDP_NO_ERR) :
    mdCheckVersion k pPacket r = r := by
  simp [mdCheckVersion, h]

theorem mdCheckType_of_err (pPacket : List Nat)
    (r : TRDP_ERR_T × TRDP_MD_STATISTICS_T) (h : r.1 ≠ TRDP_NO_ERR) :
    mdCheckType pPacket r = r := by
  simp [mdCheckType, h]

theorem mdCheckLength_of_err (pPacket : List Nat) (packetSize : Nat)
    (r : TRDP_ERR_T × TRDP_MD_STATISTICS_T) (h : r.1 ≠ TRDP_NO_ERR) :
    mdCheckLength pPacket packetSize r = r := by
  simp [mdCheckLength, h]

theorem mdCheckCrc_fst (pPacket : List Nat) (packetSize : Nat) (stats : TRDP_MD_STATISTICS_T) :
    (mdCheckCrc pPacket packetSize (TRDP_NO_ERR, stats)).1 =
      if mdHeaderCrc pPacket ≠ 0 ∨ mdBodyCrcBad pPacket packetSize then TRDP_CRC_ERR
      else TRDP_NO_ERR := by
  unfold mdCheckCrc mdHeaderCrc mdBodyCrcBad
  simp only []
  split_ifs <;> first | rfl | (exfalso; tauto)

theorem mdCheckCrc_ok (pPacket : List Nat) (packetSize : Nat) (stats : TRDP_MD_STATISTICS_T)
    (h1 : mdHeaderCrc pPacket = 0) (h2 : ¬ mdBodyCrcBad pPacket packetSize) :
    mdCheckCrc pPacket packetSize (TRDP_NO_ERR, stats) = (TRDP_NO_ERR, stats) := by
  unfold mdHeaderCrc at h1
  unfold mdBodyCrcBad at h2
  unfold mdCheckCrc
  simp only [if_true, h1]
  by_cases hd : vos_ntohl pPacket OFF_datasetLength > 0
  · have h3 := not_not.mp (not_and.mp h2 hd)
    simp [hd, h3]
  · simp [hd]

theorem mdCheckVersion_eq (k : TRDP_PARAMS) (pPacket : List Nat) (stats : TRDP_MD_STATISTICS_T) :
    mdCheckVersion k pPacket (TRDP_NO_ERR, stats) =
      if (vos_ntohs pPacket OFF_protocolVersion &&& TRDP_PROTOCOL_VERSION_CHECK_MASK) ≠
          (k.TRDP_PROTO_VER &&& TRDP_PROTOCOL_VERSION_CHECK_MASK) then
        (TRDP_WIRE_ERR, { stats with numProtErr := inc32 stats.numProtErr })
      else (TRDP_NO_ERR, stats) := by
  simp [mdCheckVersion]

theorem mdCheckType_eq (pPacket : List Nat) (stats : TRDP_MD_STATISTICS_T) :
    mdCheckType pPacket (TRDP_NO_ERR, stats) =
      if mdValidMsgType (vos_ntohs pPacket OFF_msgType) = true then (TRDP_NO_ERR, stats)
      else (TRDP_WIRE_ERR, { stats with numProtErr := inc32 stats.numProtErr }) := by
  simp [mdCheckType]

theorem mdCheckLength_eq (pPacket : List Nat) (packetSize : Nat) (stats : TRDP_MD_STATISTICS_T) :
    mdCheckLength pPacket packetSize (TRDP_NO_ERR, stats) =
      if packetSize < mdExpectedLength pPacket then
        (TRDP_WIRE_ERR, { stats with numProtErr := inc32 stats.numProtErr })
      else (TRDP_NO_ERR, stats) := by
  simp [mdCheckLength]

/-- The stages after a failed one leave the result as it is. -/
theorem mdCheck_tail_of_err (k : TRDP_PARAMS) (pPacket : List Nat) (packetSize : Nat)
    (r : TRDP_ERR_T × TRDP_MD_STATISTICS_T) (h : r.1 ≠ TRDP_NO_ERR) :
    mdCheckLength pPacket packetSize (mdCheckType pPacket (mdCheckVersion k pPacket r)) = r := by
  rw [mdCheckVersion_of_err k pPacket r h, mdCheckType_of_err pPacket r h,
    mdCheckLength_of_err pPacket packetSize r h]

/-- The result code of `trdp_mdCheck` is that of the first failing check, in source order. -/
theorem trdp_mdCheck_code (k : TRDP_PARAMS) (stats : TRDP_MD_STATISTICS_T) (pPacket : List Nat)
    (packetSize : Nat) :
    (trdp_mdCheck k stats pPacket packetSize).1 =
      if packetSize < sizeof_MD_HEADER_T ∨ packetSize > k.TRDP_MAX_MD_PACKET_SIZE then TRDP_WIRE_ERR
      else if mdHeaderCrc pPacket ≠ 0 ∨ mdBodyCrcBad pPacket packetSize then TRDP_CRC_ERR
      else if (vos_ntohs pPacket OFF_protocolVersion &&& TRDP_PROTOCOL_VERSION_CHECK_MASK) ≠
          (k.TRDP_PROTO_VER &&& TRDP_PROTOCOL_VERSION_CHECK_MASK) then TRDP_WIRE_ERR
      else if mdValidMsgType (vos_ntohs pPacket OFF_msgType) = false then TRDP_WIRE_ERR
      else if packetSize < mdExpectedLength pPacket then TRDP_WIRE_ERR
      else TRDP_NO_ERR := by
  unfold trdp_mdCheck
  rw [mdCheckSize_eq]
  by_cases h1 : packetSize < sizeof_MD_HEADER_T ∨ packetSize > k.TRDP_MAX_MD_PACKET_SIZE
  · rw [if_pos h1, if_pos h1, mdCheckCrc_of_err _ _ _ (by simp), mdCheck_tail_of_err _ _ _ _ (by simp)]
  · rw [if_neg h1, if_neg h1]
    have hc := mdCheckCrc_fst pPacket packetSize stats
    by_cases h2 : mdHeaderCrc pPacket ≠ 0 ∨ mdBodyCrcBad pPacket packetSize
    · rw [if_pos h2] at hc
      rw [if_pos h2, mdCheck_tail_of_err _ _ _ _ (by rw [hc]; simp), hc]
    · rw [if_neg h2]
      have h2a : mdHeaderCrc pPacket = 0 := by
        by_contra h; exact h2 (Or.inl h)
      have h2b : ¬ mdBodyCrcBad pPacket packetSize := fun h => h2 (Or.inr h)
      rw [mdCheckCrc_ok _ _ _ h2a h2b, mdCheckVersion_eq]
      by_cases h3 : (vos_ntohs pPacket OFF_protocolVersion &&& TRDP_PROTOCOL_VERSION_CHECK_MASK) ≠
          (k.TRDP_PROTO_VER &&& TRDP_PROTOCOL_VERSION_CHECK_MASK)
      · rw [if_pos h3, if_pos h3, mdCheckType_of_err _ _ (by simp),
          mdCheckLength_of_err _ _ _ (by simp)]
      · rw [if_neg h3, if_neg h3, mdCheckType_eq]
        by_cases h4 : mdValidMsgType (vos_ntohs pPacket OFF_msgType) = true
        · rw [if_pos h4, if_neg (by simp [h4]), mdCheckLength_eq]
          by_cases h5 : packetSize < mdExpectedLength pPacket
          · rw [if_pos h5, if_pos h5]
          · rw [if_neg h5, if_neg h5]
        · rw [if_neg h4, if_pos (by simpa using h4), mdCheckLength_of_err _ _ _ (by simp)]

/-- A packet that passes every check is accepted and the statistics stay as they are. -/
theorem trdp_mdCheck_ok (k : TRDP_PARAMS) (stats : TRDP_MD_STATISTICS_T) (pPacket : List Nat)
    (packetSize : Nat)
    (h1 : sizeof_MD_HEADER_T ≤ packetSize) (h1b : packetSize ≤ k.TRDP_MAX_MD_PACKET_SIZE)
    (h2a : mdHeaderCrc pPacket = 0) (h2b : ¬ mdBodyCrcBad pPacket packetSize)
    (h3 : (vos_ntohs pPacket OFF_protocolVersion &&& TRDP_PROTOCOL_VERSION_CHECK_MASK) =
          (k.TRDP_PROTO_VER &&& TRDP_PROTOCOL_VERSION_CHECK_MASK))
    (h4 : mdValidMsgType (vos_ntohs pPacket OFF_msgType) = true)
    (h5 : mdExpectedLength pPacket ≤ packetSize) :
    trdp_mdCheck k stats pPacket packetSize = (TRDP_NO_ERR, stats) := by
  unfold trdp_mdCheck
  rw [mdCheckSize_eq, if_neg (by omega), mdCheckCrc_ok _ _ _ h2a h2b, mdCheckVersion_eq,
    if_neg (by simp [h3]), mdCheckType_eq, if_pos h4, mdCheckLength_eq, if_neg (by omega)]

/-! ## C1 to C4: `trdp_mdUpdate` and `trdp_mdCheck` -/

/-- After `trdp_mdUpdate` the CRC over the whole header is zero. -/
theorem mdHeaderCrc_mdUpdate (pPacket : MD_ELE_T)
    (hg : sizeof_MD_HEADER_T ≤ pPacket.grossSize - 4 ∨
      vos_ntohl pPacket.frame OFF_datasetLength = 0) :
    mdHeaderCrc (trdp_mdUpdate pPacket).frame = 0 := by
  have hspan : ∀ f : List Nat,
      memSpan f 0 sizeof_MD_HEADER_T = memSpan f 0 108 ++ memSpan f 108 4 := by
    intro f
    have := memSpan_add f 0 108 4
    simpa [sizeof_MD_HEADER_T] using this
  have hc : vos_crc32 0xffffffff (memSpan pPacket.frame 0 108) < 4294967296 :=
    vos_crc32_lt _ _ (by norm_num)
  have key : mdHeaderCrc (memWrite pPacket.frame OFF_frameCheckSum
      (le32 (vos_crc32 0xffffffff (memSpan pPacket.frame 0 108)))) = 0 := by
    unfold mdHeaderCrc
    rw [hspan, vos_crc32_append]
    unfold OFF_frameCheckSum
    rw [memSpan_memWrite_le32, memSpan_write_le32_of_disjoint _ _ _ _ _ (by omega)]
    exact vos_crc32_residue _ hc
  unfold trdp_mdUpdate
  simp only [vos_crc32, List.foldl_nil]
  split_ifs with hd h4
  · exfalso
    have h112 : sizeof_MD_HEADER_T = 112 := rfl
    rcases hg with h | h
    · omega
    · rw [vos_ntohl_write_le32 _ _ _ _ (by simp only [OFF_datasetLength, OFF_frameCheckSum]; omega)] at hd
      omega
  · have hg2 : sizeof_MD_HEADER_T ≤ pPacket.grossSize - 4 := by
      rcases hg with h | h
      · exact h
      · exfalso
        rw [vos_ntohl_write_le32 _ _ _ _ (by simp only [OFF_datasetLength, OFF_frameCheckSum]; omega)] at hd
        omega
    show mdHeaderCrc (memWrite _ _ _) = 0
    unfold mdHeaderCrc
    rw [memSpan_write_le32_of_disjoint _ _ _ _ _ (by left; omega)]
    exact key
  · exact key

/-- The header fields read by `trdp_mdCheck` are left as they were by `trdp_mdUpdate`. -/
theorem mdUpdate_fields (pPacket : MD_ELE_T)
    (hg : sizeof_MD_HEADER_T ≤ pPacket.grossSize - 4) :
    vos_ntohl (trdp_mdUpdate pPacket).frame OFF_datasetLength =
        vos_ntohl pPacket.frame OFF_datasetLength
      ∧ vos_ntohs (trdp_mdUpdate pPacket).frame OFF_protocolVersion =
        vos_ntohs pPacket.frame OFF_protocolVersion
      ∧ vos_ntohs (trdp_mdUpdate pPacket).frame OFF_msgType =
        vos_ntohs pPacket.frame OFF_msgType := by
  have hg2 : 112 ≤ pPacket.grossSize - 4 := hg
  unfold trdp_mdUpdate
  simp only []
  split_ifs with hd h4
  · omega
  · refine ⟨?_, ?_, ?_⟩
    · rw [vos_ntohl_write_le32 _ _ _ _ (by simp only [OFF_datasetLength]; omega),
        vos_ntohl_write_le32 _ _ _ _ (by simp only [OFF_datasetLength, OFF_frameCheckSum]; omega)]
    · rw [vos_ntohs_write_le32 _ _ _ _ (by simp only [OFF_protocolVersion]; omega),
        vos_ntohs_write_le32 _ _ _ _ (by simp only [OFF_protocolVersion, OFF_frameCheckSum]; omega)]
    · rw [vos_ntohs_write_le32 _ _ _ _ (by simp only [OFF_msgType]; omega),
        vos_ntohs_write_le32 _ _ _ _ (by simp only [OFF_msgType, OFF_frameCheckSum]; omega)]
  · refine ⟨?_, ?_, ?_⟩
    · rw [vos_ntohl_write_le32 _ _ _ _ (by simp only [OFF_datasetLength, OFF_frameCheckSum]; omega)]
    · rw [vos_ntohs_write_le32 _ _ _ _ (by simp only [OFF_protocolVersion, OFF_frameCheckSum]; omega)]
    · rw [vos_ntohs_write_le32 _ _ _ _ (by simp only [OFF_msgType, OFF_frameCheckSum]; omega)]

/-- The data CRC stored by `trdp_mdUpdate` is the one `trdp_mdCheck` recomputes. -/
theorem mdUpdate_body (pPacket : MD_ELE_T)
    (hd : vos_ntohl pPacket.frame OFF_datasetLength > 0)
    (hg : pPacket.grossSize - 4 = sizeof_MD_HEADER_T + vos_ntohl pPacket.frame OFF_datasetLength) :
    memSpan (trdp_mdUpdate pPacket).frame (pPacket.grossSize - 4) 4 =
      le32 (vos_crc32 0xffffffff (memSpan (trdp_mdUpdate pPacket).frame sizeof_MD_HEADER_T
        (vos_ntohl pPacket.frame OFF_datasetLength))) := by
  have hd1 : ∀ c, vos_ntohl (memWrite pPacket.frame OFF_frameCheckSum (le32 c))
      OFF_datasetLength = vos_ntohl pPacket.frame OFF_datasetLength := fun c =>
    vos_ntohl_write_le32 _ _ _ _ (by simp only [OFF_datasetLength, OFF_frameCheckSum]; omega)
  have e1 : ∀ c n, memSpan (memWrite pPacket.frame OFF_frameCheckSum (le32 c))
      sizeof_MD_HEADER_T n = memSpan pPacket.frame sizeof_MD_HEADER_T n := fun c n =>
    memSpan_write_le32_of_disjoint _ _ _ _ _
      (by simp only [OFF_frameCheckSum, sizeof_MD_HEADER_T]; omega)
  have e2 : ∀ (f : List Nat) c n, memSpan (memWrite f (sizeof_MD_HEADER_T + n) (le32 c))
      sizeof_MD_HEADER_T n = memSpan f sizeof_MD_HEADER_T n := fun f c n =>
    memSpan_write_le32_of_disjoint _ _ _ _ _ (by omega)
  unfold trdp_mdUpdate
  simp only [vos_crc32, List.foldl_nil]
  rw [if_pos (by rw [hd1]; exact hd), hd1, if_neg (by omega)]
  simp only [hg]
  rw [memSpan_memWrite_le32, e2, e1]

/-- C1. Emitted MD frames validate: for an MD element whose header carries the stack's
protocol version and one of the six MD message types, whose `grossSize` is header
size + datasetLength + 4 (header size alone when datasetLength is 0) and not above
the maximum MD packet size, `trdp_mdCheck` on the frame stamped by `trdp_mdUpdate`,
with `packetSize = grossSize`, returns `TRDP_NO_ERR` and counts no error; the CRC over
the whole header, stored FCS included, is zero and the stored data CRC is the
recomputed one. -/
theorem mdUpdate_frame_passes_mdCheck (k : TRDP_PARAMS) (stats : TRDP_MD_STATISTICS_T)
    (pPacket : MD_ELE_T)
    (hver : vos_ntohs pPacket.frame OFF_protocolVersion = k.TRDP_PROTO_VER)
    (htype : mdValidMsgType (vos_ntohs pPacket.frame OFF_msgType) = true)
    (hgross : pPacket.grossSize =
      if vos_ntohl pPacket.frame OFF_datasetLength > 0
      then sizeof_MD_HEADER_T + vos_ntohl pPacket.frame OFF_datasetLength + 4
      else sizeof_MD_HEADER_T)
    (hmax : pPacket.grossSize ≤ k.TRDP_MAX_MD_PACKET_SIZE) :
    trdp_mdCheck k stats (trdp_mdUpdate pPacket).frame pPacket.grossSize = (TRDP_NO_ERR, stats)
    ∧ vos_crc32 0xffffffff (memSpan (trdp_mdUpdate pPacket).frame 0 sizeof_MD_HEADER_T) = 0
    ∧ (vos_ntohl pPacket.frame OFF_datasetLength > 0 →
        memSpan (trdp_mdUpdate pPacket).frame (pPacket.grossSize - 4) 4 =
          le32 (vos_crc32 0xffffffff (memSpan (trdp_mdUpdate pPacket).frame sizeof_MD_HEADER_T
            (vos_ntohl (trdp_mdUpdate pPacket).frame OFF_datasetLength)))) := by
  by_cases hd : vos_ntohl pPacket.frame OFF_datasetLength > 0
  · rw [if_pos hd] at hgross
    have hg : pPacket.grossSize - 4 =
        sizeof_MD_HEADER_T + vos_ntohl pPacket.frame OFF_datasetLength := by omega
    have hcrc := mdHeaderCrc_mdUpdate pPacket (Or.inl (by omega))
    obtain ⟨hds, hpv, hmt⟩ := mdUpdate_fields pPacket (by omega)
    have hbody := mdUpdate_body pPacket hd hg
    refine ⟨?_, hcrc, fun _ => by rw [hds]; exact hbody⟩
    apply trdp_mdCheck_ok
    · omega
    · exact hmax
    · exact hcrc
    · intro hbad
      unfold mdBodyCrcBad at hbad
      rw [hds] at hbad
      exact hbad.2 hbody.symm
    · rw [hpv, hver]
    · rw [hmt]; exact htype
    · unfold mdExpectedLength
      simp only []
      rw [hds, if_pos hd, hgross]
      exact Nat.mod_le _ _
  · rw [if_neg hd] at hgross
    have hcrc := mdHeaderCrc_mdUpdate pPacket (Or.inr (by omega))
    have hds : vos_ntohl (trdp_mdUpdate pPacket).frame OFF_datasetLength =
        vos_ntohl pPacket.frame OFF_datasetLength := by
      unfold trdp_mdUpdate
      simp only []
      have hd1 : ∀ c, vos_ntohl (memWrite pPacket.frame OFF_frameCheckSum (le32 c))
          OFF_datasetLength = vos_ntohl pPacket.frame OFF_datasetLength := fun c =>
        vos_ntohl_write_le32 _ _ _ _ (by simp only [OFF_datasetLength, OFF_frameCheckSum]; omega)
      rw [if_neg (by rw [hd1]; exact hd), hd1]
    have hfr : (trdp_mdUpdate pPacket).frame = memWrite pPacket.frame OFF_frameCheckSum
        (le32 (vos_crc32 (vos_crc32 0xffffffff [])
          (memSpan pPacket.frame 0 (sizeof_MD_HEADER_T - 4)))) := by
      unfold trdp_mdUpdate
      simp only []
      have hd1 : ∀ c, vos_ntohl (memWrite pPacket.frame OFF_frameCheckSum (le32 c))
          OFF_datasetLength = vos_ntohl pPacket.frame OFF_datasetLength := fun c =>
        vos_ntohl_write_le32 _ _ _ _ (by simp only [OFF_datasetLength, OFF_frameCheckSum]; omega)
      rw [if_neg (by rw [hd1]; exact hd)]
    refine ⟨?_, hcrc, fun h => absurd h hd⟩
    apply trdp_mdCheck_ok
    · omega
    · exact hmax
    · exact hcrc
    · intro hbad
      unfold mdBodyCrcBad at hbad
      rw [hds] at hbad
      exact hd hbad.1
    · rw [hfr, vos_ntohs_write_le32 _ _ _ _
        (by simp only [OFF_protocolVersion, OFF_frameCheckSum]; omega), hver]
    · rw [hfr, vos_ntohs_write_le32 _ _ _ _
        (by simp only [OFF_msgType, OFF_frameCheckSum]; omega)]
      exact htype
    · unfold mdExpectedLength
      simp only []
      rw [hds, if_neg hd, hgross]

/-- Witness for C1: a request frame (`Mr`, comId 1) with a dataset of two bytes. -/
theorem mdUpdate_frame_passes_mdCheck_witness :
    trdp_mdCheck exParams exStats
      (trdp_mdUpdate { MD_ELE_T.zero with
        frame := exHead 0x72 1 0 2 ++ [0, 0, 0, 0, 0xAA, 0xBB, 0, 0, 0, 0]
        grossSize := 118 }).frame 118 = (TRDP_NO_ERR, exStats) :=
  (mdUpdate_frame_passes_mdCheck exParams exStats
    { MD_ELE_T.zero with
      frame := exHead 0x72 1 0 2 ++ [0, 0, 0, 0, 0xAA, 0xBB, 0, 0, 0, 0]
      grossSize := 118 }
    (by decide) (by decide) (by decide) (by decide)).1

/-- C2. `trdp_mdCheck` returns the error of the first failing check in the order packet
size, header CRC / data CRC, protocol version, message type, telegram length.  In
particular a packet shorter than the header or longer than the maximum gives
`TRDP_WIRE_ERR` whatever it contains, and a size-valid packet with a wrong header CRC
gives `TRDP_CRC_ERR` whatever its version, type and datasetLength. -/
theorem mdCheck_first_failure (k : TRDP_PARAMS) (stats : TRDP_MD_STATISTICS_T)
    (pPacket : List Nat) (packetSize : Nat) :
    (trdp_mdCheck k stats pPacket packetSize).1 =
      (if packetSize < sizeof_MD_HEADER_T ∨ packetSize > k.TRDP_MAX_MD_PACKET_SIZE then
        TRDP_WIRE_ERR
      else if mdHeaderCrc pPacket ≠ 0 ∨ mdBodyCrcBad pPacket packetSize then TRDP_CRC_ERR
      else if (vos_ntohs pPacket OFF_protocolVersion &&& TRDP_PROTOCOL_VERSION_CHECK_MASK) ≠
          (k.TRDP_PROTO_VER &&& TRDP_PROTOCOL_VERSION_CHECK_MASK) then TRDP_WIRE_ERR
      else if mdValidMsgType (vos_ntohs pPacket OFF_msgType) = false then TRDP_WIRE_ERR
      else if packetSize < mdExpectedLength pPacket then TRDP_WIRE_ERR
      else TRDP_NO_ERR)
    ∧ (packetSize < sizeof_MD_HEADER_T ∨ packetSize > k.TRDP_MAX_MD_PACKET_SIZE →
        (trdp_mdCheck k stats pPacket packetSize).1 = TRDP_WIRE_ERR)
    ∧ (sizeof_MD_HEADER_T ≤ packetSize → packetSize ≤ k.TRDP_MAX_MD_PACKET_SIZE →
        vos_crc32 0xffffffff (memSpan pPacket 0 sizeof_MD_HEADER_T) ≠ 0 →
        (trdp_mdCheck k stats pPacket packetSize).1 = TRDP_CRC_ERR) := by
  refine ⟨trdp_mdCheck_code k stats pPacket packetSize, ?_, ?_⟩
  · intro h
    rw [trdp_mdCheck_code, if_pos h]
  · intro h1 h2 h3
    have h3b : mdHeaderCrc pPacket ≠ 0 := h3
    rw [trdp_mdCheck_code, if_neg (by omega), if_pos (Or.inl h3b)]

/-- Witness for C2: a 111 byte packet is a wire error; a 112 byte packet whose FCS
word is wrong is a CRC error although its version (0) and message type (0) are
not valid either. -/
theorem mdCheck_first_failure_witness :
    (trdp_mdCheck exParams exStats (exHead 0x6E 1 0 0 ++ [40, 126, 108, 8]) 111).1
        = TRDP_WIRE_ERR
    ∧ (trdp_mdCheck exParams exStats (List.replicate 112 0) 112).1 = TRDP_CRC_ERR :=
  ⟨(mdCheck_first_failure exParams exStats (exHead 0x6E 1 0 0 ++ [40, 126, 108, 8]) 111).2.1
      (by decide),
   (mdCheck_first_failure exParams exStats (List.replicate 112 0) 112).2.2
      (by decide) (by decide) (by decide!)⟩

/-- Counterexample to C3 as stated.  (1) A notify frame with datasetLength 0 and size
112, shorter than 112 + 0 + 4, is accepted.  (2) A reply frame with datasetLength 2
and size 119, one byte longer than 112 + 2 + 4, is accepted (the data CRC is looked
for in the last four bytes of the packet).  (3) The same header in a packet of 112
bytes, shorter than 112 + 2 + 4, is rejected with `TRDP_CRC_ERR`, not
`TRDP_WIRE_ERR`. -/
theorem mdCheck_exact_length_counterexample :
    ((trdp_mdCheck exParams exStats (exHead 0x6E 1 0 0 ++ [40, 126, 108, 8]) 112).1
        = TRDP_NO_ERR
      ∧ 112 < sizeof_MD_HEADER_T
          + vos_ntohl (exHead 0x6E 1 0 0 ++ [40, 126, 108, 8]) OFF_datasetLength + 4)
    ∧ ((trdp_mdCheck exParams exStats
          (exHead 0x70 1 0 2 ++ [251, 51, 186, 124] ++ [0xAA, 0xBB, 0] ++ [103, 211, 125, 182])
          119).1 = TRDP_NO_ERR
      ∧ sizeof_MD_HEADER_T + vos_ntohl (exHead 0x70 1 0 2 ++ [251, 51, 186, 124]
          ++ [0xAA, 0xBB, 0] ++ [103, 211, 125, 182]) OFF_datasetLength + 4 < 119)
    ∧ ((trdp_mdCheck exParams exStats (exHead 0x70 1 0 2 ++ [251, 51, 186, 124]) 112).1
        = TRDP_CRC_ERR
      ∧ 112 < sizeof_MD_HEADER_T
          + vos_ntohl (exHead 0x70 1 0 2 ++ [251, 51, 186, 124]) OFF_datasetLength + 4) := by
  decide!

/-- C3 (amended). `trdp_mdCheck` returns `TRDP_NO_ERR` exactly when the size is within
[header size, maximum], both CRC comparisons succeed, the version and the message
type are accepted and the size is at least the expected length, which is the header
size when datasetLength is 0 and header size + datasetLength + 4 (as a `UINT32`)
otherwise.  So an accepted packet is never shorter than the expected length, extra
bytes are not rejected, and a packet shorter than the expected length is rejected
with `TRDP_WIRE_ERR` or, when a CRC comparison fails first, `TRDP_CRC_ERR`. -/
theorem mdCheck_length_lower_bound (k : TRDP_PARAMS) (stats : TRDP_MD_STATISTICS_T)
    (pPacket : List Nat) (packetSize : Nat) :
    ((trdp_mdCheck k stats pPacket packetSize).1 = TRDP_NO_ERR ↔
      (sizeof_MD_HEADER_T ≤ packetSize ∧ packetSize ≤ k.TRDP_MAX_MD_PACKET_SIZE
        ∧ mdHeaderCrc pPacket = 0 ∧ ¬ mdBodyCrcBad pPacket packetSize
        ∧ highByte (vos_ntohs pPacket OFF_protocolVersion) = highByte k.TRDP_PROTO_VER
        ∧ mdValidMsgType (vos_ntohs pPacket OFF_msgType) = true
        ∧ mdExpectedLength pPacket ≤ packetSize))
    ∧ ((trdp_mdCheck k stats pPacket packetSize).1 = TRDP_NO_ERR →
        (vos_ntohl pPacket OFF_datasetLength = 0 → sizeof_MD_HEADER_T ≤ packetSize)
        ∧ (0 < vos_ntohl pPacket OFF_datasetLength →
            sizeof_MD_HEADER_T + vos_ntohl pPacket OFF_datasetLength + 4 < UINT32_MOD →
            sizeof_MD_HEADER_T + vos_ntohl pPacket OFF_datasetLength + 4 ≤ packetSize))
    ∧ (packetSize < mdExpectedLength pPacket →
        (trdp_mdCheck k stats pPacket packetSize).1 = TRDP_WIRE_ERR
        ∨ (trdp_mdCheck k stats pPacket packetSize).1 = TRDP_CRC_ERR) := by
  have hmask : (vos_ntohs pPacket OFF_protocolVersion &&& TRDP_PROTOCOL_VERSION_CHECK_MASK) =
        (k.TRDP_PROTO_VER &&& TRDP_PROTOCOL_VERSION_CHECK_MASK) ↔
      highByte (vos_ntohs pPacket OFF_protocolVersion) = highByte k.TRDP_PROTO_VER := by
    rw [land_version_mask, land_version_mask]
    unfold highByte
    omega
  have hiff : (trdp_mdCheck k stats pPacket packetSize).1 = TRDP_NO_ERR ↔
      (sizeof_MD_HEADER_T ≤ packetSize ∧ packetSize ≤ k.TRDP_MAX_MD_PACKET_SIZE
        ∧ mdHeaderCrc pPacket = 0 ∧ ¬ mdBodyCrcBad pPacket packetSize
        ∧ highByte (vos_ntohs pPacket OFF_protocolVersion) = highByte k.TRDP_PROTO_VER
        ∧ mdValidMsgType (vos_ntohs pPacket OFF_msgType) = true
        ∧ mdExpectedLength pPacket ≤ packetSize) := by
    rw [trdp_mdCheck_code, ← hmask]
    constructor
    · intro h
      split_ifs at h with h1 h2 h3 h4 h5
      refine ⟨by omega, by omega, ?_, ?_, ?_, ?_, by omega⟩
      · by_contra hc; exact h2 (Or.inl hc)
      · exact fun hc => h2 (Or.inr hc)
      · by_contra hc; exact h3 hc
      · simpa using h4
    · rintro ⟨a1, a2, a3, a4, a5, a6, a7⟩
      rw [if_neg (by omega), if_neg (by rintro (h | h); exact h a3; exact a4 h),
        if_neg (by simp [a5]), if_neg (by simp [a6]), if_neg (by omega)]
  refine ⟨hiff, ?_, ?_⟩
  · intro h
    obtain ⟨a1, _, _, _, _, _, a7⟩ := hiff.mp h
    refine ⟨fun _ => a1, fun hd hlt => ?_⟩
    unfold mdExpectedLength at a7
    simp only [] at a7
    rw [if_pos hd, Nat.mod_eq_of_lt hlt] at a7
    exact a7
  · intro hlt
    rw [trdp_mdCheck_code]
    split_ifs <;> simp

/-- Witness for C3 (amended): the accepted 119 byte packet of the counterexample is
not shorter than its expected length 118. -/
theorem mdCheck_length_lower_bound_witness :
    sizeof_MD_HEADER_T + vos_ntohl (exHead 0x70 1 0 2 ++ [251, 51, 186, 124]
      ++ [0xAA, 0xBB, 0] ++ [103, 211, 125, 182]) OFF_datasetLength + 4 ≤ 119 :=
  ((mdCheck_length_lower_bound exParams exStats
    (exHead 0x70 1 0 2 ++ [251, 51, 186, 124] ++ [0xAA, 0xBB, 0] ++ [103, 211, 125, 182]) 119).2.1
    (by decide!)).2 (by decide) (by decide)

/-- C4. Protocol version check of `trdp_mdCheck`: for a packet that passes the size and
CRC checks, a high byte of the received protocolVersion that differs from the high
byte of `TRDP_PROTO_VER` gives `TRDP_WIRE_ERR` and `numProtErr` is incremented (no other
counter changes); when the high bytes are equal the version check does not reject:
the result is the one of the message type and length checks alone, whatever the low
byte is. -/
theorem mdCheck_version (k : TRDP_PARAMS) (stats : TRDP_MD_STATISTICS_T)
    (pPacket : List Nat) (packetSize : Nat)
    (hsize : sizeof_MD_HEADER_T ≤ packetSize ∧ packetSize ≤ k.TRDP_MAX_MD_PACKET_SIZE)
    (hcrc : mdHeaderCrc pPacket = 0 ∧ ¬ mdBodyCrcBad pPacket packetSize) :
    (highByte (vos_ntohs pPacket OFF_protocolVersion) ≠ highByte k.TRDP_PROTO_VER →
      trdp_mdCheck k stats pPacket packetSize =
        (TRDP_WIRE_ERR, { stats with numProtErr := inc32 stats.numProtErr }))
    ∧ (highByte (vos_ntohs pPacket OFF_protocolVersion) = highByte k.TRDP_PROTO_VER →
      trdp_mdCheck k stats pPacket packetSize =
          mdCheckLength pPacket packetSize (mdCheckType pPacket (TRDP_NO_ERR, stats))
      ∧ (mdValidMsgType (vos_ntohs pPacket OFF_msgType) = true →
          mdExpectedLength pPacket ≤ packetSize →
          trdp_mdCheck k stats pPacket packetSize = (TRDP_NO_ERR, stats))) := by
  have hmask : (vos_ntohs pPacket OFF_protocolVersion &&& TRDP_PROTOCOL_VERSION_CHECK_MASK) =
        (k.TRDP_PROTO_VER &&& TRDP_PROTOCOL_VERSION_CHECK_MASK) ↔
      highByte (vos_ntohs pPacket OFF_protocolVersion) = highByte k.TRDP_PROTO_VER := by
    rw [land_version_mask, land_version_mask]
    unfold highByte
    omega
  have hpre : mdCheckCrc pPacket packetSize (mdCheckSize k packetSize (TRDP_NO_ERR, stats)) =
      (TRDP_NO_ERR, stats) := by
    rw [mdCheckSize_eq, if_neg (by omega), mdCheckCrc_ok _ _ _ hcrc.1 hcrc.2]
  constructor
  · intro hne
    unfold trdp_mdCheck
    rw [hpre, mdCheckVersion_eq, if_pos (fun h => hne (hmask.mp h)),
      mdCheckType_of_err _ _ (by simp), mdCheckLength_of_err _ _ _ (by simp)]
  · intro heq
    have hv : mdCheckVersion k pPacket (TRDP_NO_ERR, stats) = (TRDP_NO_ERR, stats) := by
      rw [mdCheckVersion_eq, if_neg (by simp [hmask.mpr heq])]
    refine ⟨by unfold trdp_mdCheck; rw [hpre, hv], fun ht hl => ?_⟩
    exact trdp_mdCheck_ok k stats pPacket packetSize hsize.1 hsize.2 hcrc.1 hcrc.2
      (hmask.mpr heq) ht hl

/-- Witness for C4: a valid notify frame of protocol version 1.0 checked by a stack of
version 2.0 (high bytes differ) and by a stack of version 1.7 (high bytes equal). -/
theorem mdCheck_version_witness :
    trdp_mdCheck { exParams with TRDP_PROTO_VER := 0x0200 } exStats
        (exHead 0x6E 1 0 0 ++ [40, 126, 108, 8]) 112 =
      (TRDP_WIRE_ERR, { exStats with numProtErr := 1 })
    ∧ trdp_mdCheck { exParams with TRDP_PROTO_VER := 0x0107 } exStats
        (exHead 0x6E 1 0 0 ++ [40, 126, 108, 8]) 112 = (TRDP_NO_ERR, exStats) :=
  ⟨(mdCheck_version { exParams with TRDP_PROTO_VER := 0x0200 } exStats
      (exHead 0x6E 1 0 0 ++ [40, 126, 108, 8]) 112 (by decide) (by decide!)).1 (by decide),
   ((mdCheck_version { exParams with TRDP_PROTO_VER := 0x0107 } exStats
      (exHead 0x6E 1 0 0 ++ [40, 126, 108, 8]) 112 (by decide) (by decide!)).2 (by decide)).2
      (by decide) (by decide)⟩

/-! ## trdp_mdRecv and the entry of trdp_mdReceive -/

theorem trdp_mdCheck_ok_iff (k : TRDP_PARAMS) (stats : TRDP_MD_STATISTICS_T)
    (pPacket : List Nat) (packetSize : Nat) :
    (trdp_mdCheck k stats pPacket packetSize).1 = TRDP_NO_ERR ↔
      (sizeof_MD_HEADER_T ≤ packetSize ∧ packetSize ≤ k.TRDP_MAX_MD_PACKET_SIZE
        ∧ mdHeaderCrc pPacket = 0 ∧ ¬ mdBodyCrcBad pPacket packetSize
        ∧ (vos_ntohs pPacket OFF_protocolVersion &&& TRDP_PROTOCOL_VERSION_CHECK_MASK) =
            (k.TRDP_PROTO_VER &&& TRDP_PROTOCOL_VERSION_CHECK_MASK)
        ∧ mdValidMsgType (vos_ntohs pPacket OFF_msgType) = true
        ∧ mdExpectedLength pPacket ≤ packetSize) := by
  rw [trdp_mdCheck_code]
  constructor
  · intro h
    split_ifs at h with h1 h2 h3 h4 h5
    refine ⟨by omega, by omega, ?_, ?_, ?_, ?_, by omega⟩
    · by_contra hc; exact h2 (Or.inl hc)
    · exact fun hc => h2 (Or.inr hc)
    · by_contra hc; exact h3 hc
    · simpa using h4
  · rintro ⟨a1, a2, a3, a4, a5, a6, a7⟩
    rw [if_neg (by omega), if_neg (by rintro (h | h); exact h a3; exact a4 h),
      if_neg (by simp [a5]), if_neg (by simp [a6]), if_neg (by omega)]

/-- An accepted packet leaves the statistics as they are. -/
theorem trdp_mdCheck_eq_of_ok (k : TRDP_PARAMS) (stats : TRDP_MD_STATISTICS_T)
    (pPacket : List Nat) (packetSize : Nat)
    (h : (trdp_mdCheck k stats pPacket packetSize).1 = TRDP_NO_ERR) :
    trdp_mdCheck k stats pPacket packetSize = (TRDP_NO_ERR, stats) := by
  obtain ⟨a1, a2, a3, a4, a5, a6, a7⟩ := (trdp_mdCheck_ok_iff k stats pPacket packetSize).mp h
  exact trdp_mdCheck_ok k stats pPacket packetSize a1 a2 a3 a4 a5 a6 a7

theorem mdRecvCheck_frame (k : TRDP_PARAMS) (stats : TRDP_MD_STATISTICS_T) (err : TRDP_ERR_T)
    (size : Nat) (pPacket : MD_ELE_T) :
    (mdRecvCheck k stats err size pPacket).2.2 = { pPacket with dataSize := size } := by
  unfold mdRecvCheck
  simp only []
  split_ifs
  · rfl
  · rfl
  · split <;> rfl

theorem mdRecvCheck_ok (k : TRDP_PARAMS) (stats : TRDP_MD_STATISTICS_T) (err : TRDP_ERR_T)
    (size : Nat) (pPacket : MD_ELE_T)
    (h : (mdRecvCheck k stats err size pPacket).1 = TRDP_NO_ERR) :
    (mdRecvCheck k stats err size pPacket).2.1 = { stats with numRcv := inc32 stats.numRcv }
    ∧ (trdp_mdCheck k stats pPacket.frame size).1 = TRDP_NO_ERR := by
  unfold mdRecvCheck at h ⊢
  simp only [] at h ⊢
  by_cases h1 : err = TRDP_NODATA_ERR
  · rw [if_pos h1] at h; simp at h
  · rw [if_neg h1] at h ⊢
    by_cases h2 : err ≠ TRDP_NO_ERR
    · rw [if_pos h2] at h; simp at h
    · rw [if_neg h2] at h ⊢
      by_cases hc : (trdp_mdCheck k stats pPacket.frame size).1 = TRDP_NO_ERR
      · rw [trdp_mdCheck_eq_of_ok _ _ _ _ hc]
        exact ⟨rfl, rfl⟩
      · exfalso
        split at h <;> simp_all

/-- The frame of the receive element after `trdp_mdRecv` is what the socket delivered. -/
theorem trdp_mdRecv_frame (k : TRDP_PARAMS) (stats : TRDP_MD_STATISTICS_T) (env : MD_RX_ENV)
    (pPacket : MD_ELE_T) : (trdp_mdRecv k stats env pPacket).2.2.frame = env.rcvFrame := by
  unfold trdp_mdRecv
  split_ifs
  · rfl
  · rfl
  · rw [mdRecvCheck_frame]
  · rw [mdRecvCheck_frame]

/-- A successful `trdp_mdRecv` counts the frame in `numRcv` and touches no other counter. -/
theorem trdp_mdRecv_stats (k : TRDP_PARAMS) (stats : TRDP_MD_STATISTICS_T) (env : MD_RX_ENV)
    (pPacket : MD_ELE_T) (h : (trdp_mdRecv k stats env pPacket).1 = TRDP_NO_ERR) :
    (trdp_mdRecv k stats env pPacket).2.1 = { stats with numRcv := inc32 stats.numRcv } := by
  unfold trdp_mdRecv at h ⊢
  simp only [] at h ⊢
  by_cases h0 : pPacket.pktFlags &&& k.TRDP_FLAGS_TCP ≠ 0
  · rw [if_pos h0] at h ⊢
    by_cases h1 : env.rcvErr = TRDP_NODATA_ERR
    · rw [if_pos h1] at h; simp at h
    · rw [if_neg h1] at h ⊢
      by_cases h2 : env.rcvErr ≠ TRDP_NO_ERR
      · rw [if_pos h2] at h; simp at h
      · rw [if_neg h2] at h ⊢
        exact (mdRecvCheck_ok _ _ _ _ _ h).1
  · rw [if_neg h0] at h ⊢
    exact (mdRecvCheck_ok _ _ _ _ _ h).1

/-- The session and receive element with which `mdProcess` is entered for a validated frame. -/
theorem trdp_mdReceive_of_validated (k : TRDP_PARAMS) (s : TRDP_SESSION) (env : MD_RX_ENV)
    (sock : Int) (h : mdValidated k s env = true) :
    ∃ rcvEle : MD_ELE_T, rcvEle.frame = env.rcvFrame ∧
      trdp_mdReceive k s env sock =
        mdProcess k { s with pMDRcvEle := some rcvEle,
                             stats := { s.stats with numRcv := inc32 s.stats.numRcv } }
          env sock rcvEle := by
  unfold mdValidated at h
  unfold trdp_mdReceive
  cases hb : mdRcvBuffer k s env with
  | none => rw [hb] at h; simp at h
  | some ele =>
    rw [hb] at h
    simp only [decide_eq_true_eq] at h
    refine ⟨(trdp_mdRecv k s.stats env ele).2.2, trdp_mdRecv_frame _ _ _ _, ?_⟩
    simp only [h, ne_eq, not_true_eq_false, if_false]
    rw [trdp_mdRecv_stats _ _ _ _ h]

/-- Without a validated frame `trdp_mdReceive` leaves queues and callback log alone. -/
theorem trdp_mdReceive_of_not_validated (k : TRDP_PARAMS) (s : TRDP_SESSION) (env : MD_RX_ENV)
    (sock : Int) (h : mdValidated k s env = false) :
    (trdp_mdReceive k s env sock).2.pMDRcvQueue = s.pMDRcvQueue
    ∧ (trdp_mdReceive k s env sock).2.pMDSndQueue = s.pMDSndQueue
    ∧ (trdp_mdReceive k s env sock).2.callbacks = s.callbacks
    ∧ (trdp_mdReceive k s env sock).1 ≠ TRDP_NO_ERR := by
  unfold mdValidated at h
  unfold trdp_mdReceive
  cases hb : mdRcvBuffer k s env with
  | none => simp
  | some ele =>
    rw [hb] at h
    simp only [decide_eq_false_iff_not] at h
    simp only [ne_eq, h, not_false_eq_true, if_true, and_self]

/-! ## The listener loop and the dispatch -/

theorem mdFindSender_spec (cid : Nat) (sid : List Nat) :
    ∀ (q : List MD_ELE_T) (idx : Nat) (e : MD_ELE_T), mdFindSender cid sid q = some (idx, e) →
      q.get? idx = some e ∧ e.u.comId = cid ∧ memSpan e.sessionID 0 16 = sid := by
  intro q
  induction q with
  | nil => intro idx e h; simp [mdFindSender] at h
  | cons x rest ih =>
    intro idx e h
    unfold mdFindSender at h
    by_cases h1 : x.u.comId ≠ cid
    · rw [if_pos h1] at h
      cases hr : mdFindSender cid sid rest with
      | none => rw [hr] at h; simp at h
      | some r =>
        rw [hr] at h
        simp only [Option.map_some', Option.some.injEq, Prod.mk.injEq] at h
        obtain ⟨h2, h3⟩ := h
        have := ih r.1 r.2 hr
        subst h2 h3
        simpa using this
    · rw [if_neg h1] at h
      by_cases h2 : memSpan x.sessionID 0 16 ≠ sid
      · rw [if_pos h2] at h
        cases hr : mdFindSender cid sid rest with
        | none => rw [hr] at h; simp at h
        | some r =>
          rw [hr] at h
          simp only [Option.map_some', Option.some.injEq, Prod.mk.injEq] at h
          obtain ⟨h3, h4⟩ := h
          have := ih r.1 r.2 hr
          subst h3 h4
          simpa using this
      · rw [if_neg h2] at h
        simp only [Option.some.injEq, Prod.mk.injEq] at h
        obtain ⟨h3, h4⟩ := h
        subst h3 h4
        refine ⟨rfl, ?_, ?_⟩
        · simpa using h1
        · simpa using h2

theorem mdListenerLoop_none_iff (k : TRDP_PARAMS) (s : TRDP_SESSION) (env : MD_RX_ENV)
    (sock : Int) (rcvEle : MD_ELE_T) (hf : rcvEle.frame = env.rcvFrame) (q : List MD_ELE_T) :
    mdListenerLoop k s env sock rcvEle q = none ↔ ∀ l ∈ q, ¬ mdArmedFor env l := by
  induction q with
  | nil => simp [mdListenerLoop]
  | cons x rest ih =>
    unfold mdListenerLoop
    rw [hf]
    by_cases h1 : vos_ntohl env.rcvFrame OFF_comId ≠ x.u.comId
    · rw [if_pos h1]
      simp only [Option.map_eq_none', ih, List.mem_cons, forall_eq_or_imp]
      constructor
      · intro h
        exact ⟨fun ha => h1 ha.1.symm, h⟩
      · intro h; exact h.2
    · rw [if_neg h1]
      by_cases h2 : x.stateEle = TRDP_MD_ELE_ST_RX_ARM
      · rw [if_pos h2]
        simp only [List.mem_cons, forall_eq_or_imp, false_iff, not_and, reduceCtorEq]
        intro h
        exact absurd ⟨(not_not.mp h1).symm, h2⟩ h
      · rw [if_neg h2]
        simp only [Option.map_eq_none', ih, List.mem_cons, forall_eq_or_imp]
        constructor
        · intro h
          exact ⟨fun ha => h2 ha.2, h⟩
        · intro h; exact h.2

theorem mdListenerLoop_some (k : TRDP_PARAMS) (s : TRDP_SESSION) (env : MD_RX_ENV)
    (sock : Int) (rcvEle : MD_ELE_T) (hf : rcvEle.frame = env.rcvFrame) :
    ∀ (q : List MD_ELE_T) (r : List MD_ELE_T × TRDP_SESSION),
      mdListenerLoop k s env sock rcvEle q = some r →
      ∃ pre iterMD post, q = pre ++ iterMD :: post ∧ mdArmedFor env iterMD ∧
        (∀ x ∈ pre, ¬ mdArmedFor env x) ∧
        r = (pre ++ (mdDispatch k s env sock rcvEle iterMD).1 :: post,
             (mdDispatch k s env sock rcvEle iterMD).2) := by
  intro q
  induction q with
  | nil => intro r h; simp [mdListenerLoop] at h
  | cons x rest ih =>
    intro r h
    unfold mdListenerLoop at h
    rw [hf] at h
    have step : ∀ (hx : ¬ mdArmedFor env x),
        Option.map (fun r => (x :: r.1, r.2)) (mdListenerLoop k s env sock rcvEle rest) = some r →
        ∃ pre iterMD post, x :: rest = pre ++ iterMD :: post ∧ mdArmedFor env iterMD ∧
          (∀ y ∈ pre, ¬ mdArmedFor env y) ∧
          r = (pre ++ (mdDispatch k s env sock rcvEle iterMD).1 :: post,
               (mdDispatch k s env sock rcvEle iterMD).2) := by
      intro hx hm
      cases hr : mdListenerLoop k s env sock rcvEle rest with
      | none => rw [hr] at hm; simp at hm
      | some r0 =>
        rw [hr] at hm
        simp only [Option.map_some', Option.some.injEq] at hm
        obtain ⟨pre, iterMD, post, e1, e2, e3, e4⟩ := ih r0 hr
        refine ⟨x :: pre, iterMD, post, by rw [e1]; rfl, e2, ?_, ?_⟩
        · intro y hy
          rcases List.mem_cons.mp hy with h | h
          · rw [h]; exact hx
          · exact e3 y h
        · rw [← hm, e4]; rfl
    by_cases h1 : vos_ntohl env.rcvFrame OFF_comId ≠ x.u.comId
    · rw [if_pos h1] at h
      exact step (fun ha => h1 ha.1.symm) h
    · rw [if_neg h1] at h
      by_cases h2 : x.stateEle = TRDP_MD_ELE_ST_RX_ARM
      · rw [if_pos h2] at h
        simp only [Option.some.injEq] at h
        refine ⟨[], x, rest, rfl, ⟨(not_not.mp h1).symm, h2⟩, by simp, ?_⟩
        rw [← h]; rfl
      · rw [if_neg h2] at h
        exact step (fun ha => h2 ha.2) h

/-- The block "process message": the topo check, then the listener loop. -/
theorem mdProcess_eq (k : TRDP_PARAMS) (s : TRDP_SESSION) (env : MD_RX_ENV) (sock : Int)
    (rcvEle : MD_ELE_T) (hf : rcvEle.frame = env.rcvFrame) :
    ∃ rcvEle2 : MD_ELE_T, rcvEle2.frame = env.rcvFrame ∧
      mdProcess k s env sock rcvEle =
        if mdTopoMismatch s env then
          (TRDP_TOPO_ERR,
           { s with pMDRcvEle := some rcvEle2,
                    stats := { s.stats with numTopoErr := inc32 s.stats.numTopoErr } })
        else
          match mdListenerLoop k { s with pMDRcvEle := some rcvEle2 } env sock rcvEle2
              s.pMDRcvQueue with
          | some r => (TRDP_NO_ERR, { r.2 with pMDRcvQueue := r.1 })
          | none =>
            (TRDP_NO_ERR,
             { s with pMDRcvEle := some rcvEle2,
                      stats := { s.stats with numNoListener := inc32 s.stats.numNoListener } }) := by
  unfold mdProcess mdTopoMismatch
  simp only [hf]
  by_cases ht : s.mdDefault.flags &&& k.TRDP_FLAGS_TCP ≠ 0
  · simp only [if_pos ht]
    exact ⟨_, rfl, rfl⟩
  · simp only [if_neg ht]
    exact ⟨_, hf, rfl⟩

/-- A validated frame: what `trdp_mdReceive` returns, in terms of the listener loop. -/
theorem trdp_mdReceive_eq (k : TRDP_PARAMS) (s : TRDP_SESSION) (env : MD_RX_ENV)
    (sock : Int) (h : mdValidated k s env = true) :
    ∃ (s1 : TRDP_SESSION) (rcvEle : MD_ELE_T), rcvEle.frame = env.rcvFrame ∧
      s1.pMDRcvQueue = s.pMDRcvQueue ∧ s1.pMDSndQueue = s.pMDSndQueue ∧
      s1.callbacks = s.callbacks ∧ s1.mdDefault = s.mdDefault ∧ s1.topoCount = s.topoCount ∧
      s1.iface = s.iface ∧ s1.stats = { s.stats with numRcv := inc32 s.stats.numRcv } ∧
      trdp_mdReceive k s env sock =
        if mdTopoMismatch s env then
          (TRDP_TOPO_ERR,
           { s1 with stats := { s1.stats with numTopoErr := inc32 s1.stats.numTopoErr } })
        else
          match mdListenerLoop k s1 env sock rcvEle s.pMDRcvQueue with
          | some r => (TRDP_NO_ERR, { r.2 with pMDRcvQueue := r.1 })
          | none =>
            (TRDP_NO_ERR,
             { s1 with stats := { s1.stats with
                 numNoListener := inc32 s1.stats.numNoListener } }) := by
  obtain ⟨rcvEle, hf, he⟩ := trdp_mdReceive_of_validated k s env sock h
  obtain ⟨rcvEle2, hf2, hp⟩ := mdProcess_eq k
    { s with pMDRcvEle := some rcvEle, stats := { s.stats with numRcv := inc32 s.stats.numRcv } }
    env sock rcvEle hf
  refine ⟨{ s with pMDRcvEle := some rcvEle2,
                   stats := { s.stats with numRcv := inc32 s.stats.numRcv } },
    rcvEle2, hf2, rfl, rfl, rfl, rfl, rfl, rfl, rfl, ?_⟩
  rw [he, hp]
  rfl

theorem mdCallback_snd (k : TRDP_PARAMS) (s : TRDP_SESSION) (rcvEle : MD_ELE_T)
    (m : TRDP_MD_INFO_T) : (mdCallback k s rcvEle m).pMDSndQueue = s.pMDSndQueue := by
  unfold mdCallback; split_ifs <;> rfl

theorem mdCallback_stats (k : TRDP_PARAMS) (s : TRDP_SESSION) (rcvEle : MD_ELE_T)
    (m : TRDP_MD_INFO_T) : (mdCallback k s rcvEle m).stats = s.stats := by
  unfold mdCallback; split_ifs <;> rfl

theorem mdCallback_none (k : TRDP_PARAMS) (s : TRDP_SESSION) (rcvEle : MD_ELE_T)
    (m : TRDP_MD_INFO_T) (h : s.mdDefault.pfCbFunction = false) : mdCallback k s rcvEle m = s := by
  unfold mdCallback; simp [h]

theorem mdRequestSocket_snd (k : TRDP_PARAMS) (s : TRDP_SESSION) (env : MD_RX_ENV)
    (sock : Int) (t : Nat) (iterMD : MD_ELE_T) :
    (mdRequestSocket k s env sock t iterMD).2.pMDSndQueue = s.pMDSndQueue
    ∧ (mdRequestSocket k s env sock t iterMD).2.stats = s.stats
    ∧ (mdRequestSocket k s env sock t iterMD).2.callbacks = s.callbacks
    ∧ (mdRequestSocket k s env sock t iterMD).1.stateEle = iterMD.stateEle := by
  unfold mdRequestSocket
  split_ifs <;> exact ⟨rfl, rfl, rfl, rfl⟩

theorem mdReplySocket_snd (k : TRDP_PARAMS) (s : TRDP_SESSION) (env : MD_RX_ENV)
    (sock : Int) (t : Nat) (iterMD : MD_ELE_T) :
    (mdReplySocket k s env sock t iterMD).2.pMDSndQueue = s.pMDSndQueue
    ∧ (mdReplySocket k s env sock t iterMD).2.stats = s.stats
    ∧ (mdReplySocket k s env sock t iterMD).2.callbacks = s.callbacks
    ∧ (mdReplySocket k s env sock t iterMD).1.stateEle = iterMD.stateEle := by
  unfold mdReplySocket
  split_ifs <;> exact ⟨rfl, rfl, rfl, rfl⟩

theorem mdConfirmSocket_snd (k : TRDP_PARAMS) (s : TRDP_SESSION) (env : MD_RX_ENV)
    (sock : Int) (iterMD : MD_ELE_T) :
    (mdConfirmSocket k s env sock iterMD).2.pMDSndQueue = s.pMDSndQueue
    ∧ (mdConfirmSocket k s env sock iterMD).2.stats = s.stats
    ∧ (mdConfirmSocket k s env sock iterMD).2.callbacks = s.callbacks
    ∧ (mdConfirmSocket k s env sock iterMD).1.stateEle = iterMD.stateEle := by
  unfold mdConfirmSocket
  split_ifs <;> exact ⟨rfl, rfl, rfl, rfl⟩

/-- The notify/request arm leaves the send queue and the statistics alone. -/
theorem mdDispatchRequest_snd (k : TRDP_PARAMS) (s : TRDP_SESSION) (env : MD_RX_ENV)
    (sock : Int) (rcvEle iterMD : MD_ELE_T) :
    (mdDispatchRequest k s env sock rcvEle iterMD).2.pMDSndQueue = s.pMDSndQueue
    ∧ (mdDispatchRequest k s env sock rcvEle iterMD).2.stats = s.stats := by
  unfold mdDispatchRequest
  simp only []
  rw [(mdRequestSocket_snd _ _ _ _ _ _).1, (mdRequestSocket_snd _ _ _ _ _ _).2.1,
    mdCallback_snd, mdCallback_stats]
  exact ⟨rfl, rfl⟩

/-- The accepted reply replaces the caller session at `idx` by its counted version. -/
theorem mdDispatchReply_snd (k : TRDP_PARAMS) (s : TRDP_SESSION) (env : MD_RX_ENV)
    (sock : Int) (rcvEle iterMD : MD_ELE_T) (idx : Nat) (sender_ele : MD_ELE_T) :
    (mdDispatchReply k s env sock rcvEle iterMD idx sender_ele).2.pMDSndQueue =
        s.pMDSndQueue.set idx (mdSenderAfterReply (vos_ntohs rcvEle.frame OFF_msgType) sender_ele)
    ∧ (mdDispatchReply k s env sock rcvEle iterMD idx sender_ele).2.stats = s.stats := by
  unfold mdDispatchReply
  simp only []
  rw [(mdReplySocket_snd _ _ _ _ _ _).1, (mdReplySocket_snd _ _ _ _ _ _).2.1,
    mdCallback_snd, mdCallback_stats]
  exact ⟨rfl, rfl⟩

/-- The confirm removes the sender element at `idx` from the send queue. -/
theorem mdDispatchConfirm_snd (k : TRDP_PARAMS) (s : TRDP_SESSION) (env : MD_RX_ENV)
    (sock : Int) (rcvEle iterMD : MD_ELE_T) (idx : Nat) :
    (mdDispatchConfirm k s env sock rcvEle iterMD idx).2.pMDSndQueue =
        s.pMDSndQueue.eraseIdx idx
    ∧ (mdDispatchConfirm k s env sock rcvEle iterMD idx).2.stats = s.stats := by
  unfold mdDispatchConfirm trdp_MDqueueDelElement
  simp only []
  rw [(mdConfirmSocket_snd _ _ _ _ _).1, (mdConfirmSocket_snd _ _ _ _ _).2.1,
    mdCallback_snd, mdCallback_stats]
  exact ⟨rfl, rfl⟩

/-- The listener leaves a dispatch in its old state, or in one of the two states
that follow `RX_ARM`. -/
theorem mdDispatchRequest_state (k : TRDP_PARAMS) (s : TRDP_SESSION) (env : MD_RX_ENV)
    (sock : Int) (rcvEle iterMD : MD_ELE_T) :
    (mdDispatchRequest k s env sock rcvEle iterMD).1.stateEle =
      if TRDP_MSG_MR = vos_ntohs rcvEle.frame OFF_msgType
      then TRDP_MD_ELE_ST_RX_REQ_W4AP_REPLY else iterMD.stateEle := by
  unfold mdDispatchRequest
  simp only []
  rw [(mdRequestSocket_snd _ _ _ _ _ _).2.2.2]
  split_ifs <;> rfl

theorem mdDispatchReply_state (k : TRDP_PARAMS) (s : TRDP_SESSION) (env : MD_RX_ENV)
    (sock : Int) (rcvEle iterMD : MD_ELE_T) (idx : Nat) (sender_ele : MD_ELE_T) :
    (mdDispatchReply k s env sock rcvEle iterMD idx sender_ele).1.stateEle =
      if vos_ntohs rcvEle.frame OFF_msgType = TRDP_MSG_MQ
      then TRDP_MD_ELE_ST_RX_REPLY_W4AP_CONF else iterMD.stateEle := by
  unfold mdDispatchReply
  simp only []
  rw [(mdReplySocket_snd _ _ _ _ _ _).2.2.2]
  split_ifs <;> rfl

theorem mdDispatchConfirm_state (k : TRDP_PARAMS) (s : TRDP_SESSION) (env : MD_RX_ENV)
    (sock : Int) (rcvEle iterMD : MD_ELE_T) (idx : Nat) :
    (mdDispatchConfirm k s env sock rcvEle iterMD idx).1.stateEle = iterMD.stateEle := by
  unfold mdDispatchConfirm
  simp only []
  rw [(mdConfirmSocket_snd _ _ _ _ _).2.2.2]

/-- The dispatch never touches the statistics. -/
theorem mdDispatch_stats (k : TRDP_PARAMS) (s : TRDP_SESSION) (env : MD_RX_ENV)
    (sock : Int) (rcvEle iterMD : MD_ELE_T) :
    (mdDispatch k s env sock rcvEle iterMD).2.stats = s.stats := by
  unfold mdDispatch
  simp only []
  split_ifs
  · exact (mdDispatchRequest_snd _ _ _ _ _ _).2
  · split
    · rfl
    · split_ifs
      · rfl
      · exact (mdDispatchReply_snd _ _ _ _ _ _ _ _).2
      · exact (mdDispatchConfirm_snd _ _ _ _ _ _ _).2
      · rfl
  · rfl

/-- What a dispatch can do to the send queue: nothing; count an accepted reply in
the addressed caller session; or remove the addressed session on a confirm. -/
theorem mdDispatch_snd_cases (k : TRDP_PARAMS) (s : TRDP_SESSION) (env : MD_RX_ENV)
    (sock : Int) (rcvEle iterMD : MD_ELE_T) (hf : rcvEle.frame = env.rcvFrame) :
    ((mdDispatch k s env sock rcvEle iterMD).2.pMDSndQueue = s.pMDSndQueue)
    ∨ (mdIsReply env ∧ ∃ idx sender_ele, mdAddressed s env = some (idx, sender_ele) ∧
        sender_ele.stateEle = TRDP_MD_ELE_ST_TX_REQUEST_W4Y ∧ sender_ele.disableReplyRx = 0 ∧
        (mdDispatch k s env sock rcvEle iterMD).2.pMDSndQueue =
          s.pMDSndQueue.set idx
            (mdSenderAfterReply (vos_ntohs env.rcvFrame OFF_msgType) sender_ele))
    ∨ (vos_ntohs env.rcvFrame OFF_msgType = TRDP_MSG_MC ∧
        ∃ idx sender_ele, mdAddressed s env = some (idx, sender_ele) ∧
        sender_ele.stateEle = TRDP_MD_ELE_ST_TX_REPLYQUERY_W4C ∧
        (mdDispatch k s env sock rcvEle iterMD).2.pMDSndQueue = s.pMDSndQueue.eraseIdx idx) := by
  unfold mdDispatch mdAddressed mdIsReply
  simp only [hf]
  split_ifs with h1 h2
  · left; exact (mdDispatchRequest_snd _ _ _ _ _ _).1
  · cases hfs : mdFindSender (vos_ntohl env.rcvFrame OFF_comId)
        (memSpan env.rcvFrame OFF_sessionID 16) s.pMDSndQueue with
    | none => left; rfl
    | some r =>
      obtain ⟨idx, sender_ele⟩ := r
      simp only []
      split_ifs with h3 h4 h5
      · left; rfl
      · right; left
        refine ⟨h3.2, idx, sender_ele, rfl, h3.1, by simpa using h4, ?_⟩
        rw [(mdDispatchReply_snd _ _ _ _ _ _ _ _).1, hf]
      · right; right
        refine ⟨h5.2, idx, sender_ele, rfl, h5.1, ?_⟩
        exact (mdDispatchConfirm_snd _ _ _ _ _ _ _).1
      · left; rfl
  · left; rfl

theorem mdIsReply_not_request (env : MD_RX_ENV) (h : mdIsReply env) :
    ¬ (vos_ntohs env.rcvFrame OFF_msgType = TRDP_MSG_MN ∨
        vos_ntohs env.rcvFrame OFF_msgType = TRDP_MSG_MR) := by
  unfold mdIsReply at h
  rcases h with h | h | h <;> rw [h] <;> decide

theorem mdIsReply_kind (env : MD_RX_ENV) (h : mdIsReply env) :
    vos_ntohs env.rcvFrame OFF_msgType = TRDP_MSG_MP ∨
      vos_ntohs env.rcvFrame OFF_msgType = TRDP_MSG_MQ ∨
      vos_ntohs env.rcvFrame OFF_msgType = TRDP_MSG_MC ∨
      vos_ntohs env.rcvFrame OFF_msgType = TRDP_MSG_ME := by
  unfold mdIsReply at h
  rcases h with h | h | h
  · exact Or.inl h
  · exact Or.inr (Or.inl h)
  · exact Or.inr (Or.inr (Or.inr h))

theorem mdIsReply_not_confirm (env : MD_RX_ENV) (h : mdIsReply env) :
    vos_ntohs env.rcvFrame OFF_msgType ≠ TRDP_MSG_MC := by
  unfold mdIsReply at h
  rcases h with h | h | h <;> rw [h] <;> decide

theorem mdConfirm_not_reply (env : MD_RX_ENV)
    (h : vos_ntohs env.rcvFrame OFF_msgType = TRDP_MSG_MC) : ¬ mdIsReply env := by
  intro hr
  exact mdIsReply_not_confirm env hr h

/-- An accepted reply: the dispatch is the reply branch. -/
theorem mdDispatch_reply_accepted (k : TRDP_PARAMS) (s : TRDP_SESSION) (env : MD_RX_ENV)
    (sock : Int) (rcvEle iterMD : MD_ELE_T) (hf : rcvEle.frame = env.rcvFrame)
    (idx : Nat) (sender_ele : MD_ELE_T) (hreply : mdIsReply env)
    (hadr : mdAddressed s env = some (idx, sender_ele))
    (hst : sender_ele.stateEle = TRDP_MD_ELE_ST_TX_REQUEST_W4Y)
    (hdis : sender_ele.disableReplyRx = 0) :
    mdDispatch k s env sock rcvEle iterMD =
      mdDispatchReply k s env sock rcvEle iterMD idx sender_ele := by
  unfold mdAddressed at hadr
  unfold mdDispatch
  simp only [hf]
  rw [if_neg (mdIsReply_not_request env hreply), if_pos (mdIsReply_kind env hreply), hadr]
  simp only []
  rw [if_pos ⟨hst, hreply⟩, if_neg (by simp [hdis])]

/-- A reply, confirm or error that addresses no caller session changes nothing. -/
theorem mdDispatch_unaddressed (k : TRDP_PARAMS) (s : TRDP_SESSION) (env : MD_RX_ENV)
    (sock : Int) (rcvEle iterMD : MD_ELE_T) (hf : rcvEle.frame = env.rcvFrame)
    (hkind : vos_ntohs env.rcvFrame OFF_msgType = TRDP_MSG_MP ∨
      vos_ntohs env.rcvFrame OFF_msgType = TRDP_MSG_MQ ∨
      vos_ntohs env.rcvFrame OFF_msgType = TRDP_MSG_MC ∨
      vos_ntohs env.rcvFrame OFF_msgType = TRDP_MSG_ME)
    (hadr : mdAddressed s env = none) :
    mdDispatch k s env sock rcvEle iterMD = (iterMD, s) := by
  have hnr : ¬ (vos_ntohs env.rcvFrame OFF_msgType = TRDP_MSG_MN ∨
      vos_ntohs env.rcvFrame OFF_msgType = TRDP_MSG_MR) := by
    rcases hkind with h | h | h | h <;> rw [h] <;> decide
  unfold mdAddressed at hadr
  unfold mdDispatch
  simp only [hf]
  rw [if_neg hnr, if_pos hkind, hadr]

/-- A reply for a caller session whose `disableReplyRx` is set changes nothing. -/
theorem mdDispatch_disabled (k : TRDP_PARAMS) (s : TRDP_SESSION) (env : MD_RX_ENV)
    (sock : Int) (rcvEle iterMD : MD_ELE_T) (hf : rcvEle.frame = env.rcvFrame)
    (idx : Nat) (sender_ele : MD_ELE_T) (hreply : mdIsReply env)
    (hadr : mdAddressed s env = some (idx, sender_ele))
    (hdis : sender_ele.disableReplyRx ≠ 0) :
    mdDispatch k s env sock rcvEle iterMD = (iterMD, s) := by
  unfold mdAddressed at hadr
  unfold mdDispatch
  simp only [hf]
  rw [if_neg (mdIsReply_not_request env hreply), if_pos (mdIsReply_kind env hreply), hadr]
  simp only []
  by_cases hst : sender_ele.stateEle = TRDP_MD_ELE_ST_TX_REQUEST_W4Y
  · rw [if_pos ⟨hst, hreply⟩, if_pos hdis]
  · rw [if_neg (fun h => hst h.1), if_neg (fun h => mdIsReply_not_confirm env hreply h.2)]

/-- A frame whose type does not fit the state of the session it addresses (a confirm
for a caller waiting for a reply, a reply for a session waiting for a confirm)
changes nothing. -/
theorem mdDispatch_mismatch (k : TRDP_PARAMS) (s : TRDP_SESSION) (env : MD_RX_ENV)
    (sock : Int) (rcvEle iterMD : MD_ELE_T) (hf : rcvEle.frame = env.rcvFrame)
    (idx : Nat) (sender_ele : MD_ELE_T)
    (hadr : mdAddressed s env = some (idx, sender_ele))
    (hmm : (vos_ntohs env.rcvFrame OFF_msgType = TRDP_MSG_MC ∧
              sender_ele.stateEle = TRDP_MD_ELE_ST_TX_REQUEST_W4Y)
            ∨ (mdIsReply env ∧ sender_ele.stateEle = TRDP_MD_ELE_ST_TX_REPLYQUERY_W4C)) :
    mdDispatch k s env sock rcvEle iterMD = (iterMD, s) := by
  unfold mdAddressed at hadr
  unfold mdDispatch
  simp only [hf]
  rcases hmm with ⟨hc, hst⟩ | ⟨hreply, hst⟩
  · have hnr : ¬ (vos_ntohs env.rcvFrame OFF_msgType = TRDP_MSG_MN ∨
        vos_ntohs env.rcvFrame OFF_msgType = TRDP_MSG_MR) := by
      rw [hc]; decide
    rw [if_neg hnr, if_pos (Or.inr (Or.inr (Or.inl hc))), hadr]
    simp only []
    rw [if_neg (fun h => mdConfirm_not_reply env hc h.2),
      if_neg (fun h => by rw [hst] at h; exact absurd h.1 (by decide))]
  · rw [if_neg (mdIsReply_not_request env hreply), if_pos (mdIsReply_kind env hreply), hadr]
    simp only []
    rw [if_neg (fun h => by rw [hst] at h; exact absurd h.1 (by decide)),
      if_neg (fun h => mdIsReply_not_confirm env hreply h.2)]

/-- A validated frame that passes the topo check and finds an armed listener: the
result of `trdp_mdReceive` in terms of the dispatch to the first armed listener. -/
theorem trdp_mdReceive_dispatch (k : TRDP_PARAMS) (s : TRDP_SESSION) (env : MD_RX_ENV)
    (sock : Int) (hval : mdValidated k s env = true) (htopo : ¬ mdTopoMismatch s env)
    (harm : ∃ l ∈ s.pMDRcvQueue, mdArmedFor env l) :
    ∃ (s1 : TRDP_SESSION) (rcvEle : MD_ELE_T) (pre : List MD_ELE_T) (iterMD : MD_ELE_T)
      (post : List MD_ELE_T),
      rcvEle.frame = env.rcvFrame ∧
      s1.pMDRcvQueue = s.pMDRcvQueue ∧ s1.pMDSndQueue = s.pMDSndQueue ∧
      s1.callbacks = s.callbacks ∧ s1.mdDefault = s.mdDefault ∧ s1.topoCount = s.topoCount ∧
      s1.iface = s.iface ∧ s1.stats = { s.stats with numRcv := inc32 s.stats.numRcv } ∧
      s.pMDRcvQueue = pre ++ iterMD :: post ∧ mdArmedFor env iterMD ∧
      (∀ x ∈ pre, ¬ mdArmedFor env x) ∧
      trdp_mdReceive k s env sock =
        (TRDP_NO_ERR,
         { (mdDispatch k s1 env sock rcvEle iterMD).2 with
           pMDRcvQueue := pre ++ (mdDispatch k s1 env sock rcvEle iterMD).1 :: post }) := by
  obtain ⟨s1, rcvEle, hf, e1, e2, e3, e4, e5, e6, e7, he⟩ := trdp_mdReceive_eq k s env sock hval
  rw [if_neg htopo] at he
  cases hl : mdListenerLoop k s1 env sock rcvEle s.pMDRcvQueue with
  | none =>
    exfalso
    obtain ⟨l, hl1, hl2⟩ := harm
    exact (mdListenerLoop_none_iff k s1 env sock rcvEle hf s.pMDRcvQueue).mp hl l hl1 hl2
  | some r =>
    obtain ⟨pre, iterMD, post, p1, p2, p3, p4⟩ :=
      mdListenerLoop_some k s1 env sock rcvEle hf s.pMDRcvQueue r hl
    refine ⟨s1, rcvEle, pre, iterMD, post, hf, e1, e2, e3, e4, e5, e6, e7, p1, p2, p3, ?_⟩
    rw [he, hl, p4]

/-- A validated frame that passes the topo check and finds no armed listener is
counted in `numNoListener`; nothing else but the receive buffer and `numRcv` changes. -/
theorem trdp_mdReceive_noListener (k : TRDP_PARAMS) (s : TRDP_SESSION) (env : MD_RX_ENV)
    (sock : Int) (hval : mdValidated k s env = true) (htopo : ¬ mdTopoMismatch s env)
    (harm : ∀ l ∈ s.pMDRcvQueue, ¬ mdArmedFor env l) :
    (trdp_mdReceive k s env sock).1 = TRDP_NO_ERR
    ∧ (trdp_mdReceive k s env sock).2.pMDRcvQueue = s.pMDRcvQueue
    ∧ (trdp_mdReceive k s env sock).2.pMDSndQueue = s.pMDSndQueue
    ∧ (trdp_mdReceive k s env sock).2.callbacks = s.callbacks
    ∧ (trdp_mdReceive k s env sock).2.stats =
        { s.stats with numRcv := inc32 s.stats.numRcv,
                       numNoListener := inc32 s.stats.numNoListener } := by
  obtain ⟨s1, rcvEle, hf, e1, e2, e3, e4, e5, e6, e7, he⟩ := trdp_mdReceive_eq k s env sock hval
  rw [if_neg htopo, (mdListenerLoop_none_iff k s1 env sock rcvEle hf s.pMDRcvQueue).mpr harm] at he
  rw [he]
  simp only [e1, e2, e3, e7, and_self, true_and]

/-- A validated frame that fails the topo check is counted in `numTopoErr`; nothing
else but the receive buffer and `numRcv` changes. -/
theorem trdp_mdReceive_topoErr (k : TRDP_PARAMS) (s : TRDP_SESSION) (env : MD_RX_ENV)
    (sock : Int) (hval : mdValidated k s env = true) (htopo : mdTopoMismatch s env) :
    (trdp_mdReceive k s env sock).1 = TRDP_TOPO_ERR
    ∧ (trdp_mdReceive k s env sock).2.pMDRcvQueue = s.pMDRcvQueue
    ∧ (trdp_mdReceive k s env sock).2.pMDSndQueue = s.pMDSndQueue
    ∧ (trdp_mdReceive k s env sock).2.callbacks = s.callbacks
    ∧ (trdp_mdReceive k s env sock).2.stats =
        { s.stats with numRcv := inc32 s.stats.numRcv,
                       numTopoErr := inc32 s.stats.numTopoErr } := by
  obtain ⟨s1, rcvEle, hf, e1, e2, e3, e4, e5, e6, e7, he⟩ := trdp_mdReceive_eq k s env sock hval
  rw [if_pos htopo] at he
  rw [he]
  simp only [e1, e2, e3, e7, and_self, true_and]

/-- Whenever the topo check passes for a validated frame the result is `TRDP_NO_ERR`. -/
theorem trdp_mdReceive_ok (k : TRDP_PARAMS) (s : TRDP_SESSION) (env : MD_RX_ENV)
    (sock : Int) (hval : mdValidated k s env = true) (htopo : ¬ mdTopoMismatch s env) :
    (trdp_mdReceive k s env sock).1 = TRDP_NO_ERR := by
  by_cases harm : ∃ l ∈ s.pMDRcvQueue, mdArmedFor env l
  · obtain ⟨s1, rcvEle, pre, iterMD, post, _, _, _, _, _, _, _, _, _, _, _, he⟩ :=
      trdp_mdReceive_dispatch k s env sock hval htopo harm
    rw [he]
  · exact (trdp_mdReceive_noListener k s env sock hval htopo
      (fun l hl ha => harm ⟨l, hl, ha⟩)).1

/-! ## C5 to C7: topo check, reply dispatch, unmatched frames -/

/-- C5. Topo-count check on MD ingress: for a validated frame (`trdp_mdRecv` returned
`TRDP_NO_ERR`), `trdp_mdReceive` returns `TRDP_TOPO_ERR` exactly when the topoCount of the
header and that of the session are both non-zero and different; then `numTopoErr` is
incremented by one, no callback is invoked and no listener or caller session is
modified.  When either value is zero the frame is not rejected: the result is
`TRDP_NO_ERR`. -/
theorem mdReceive_topo_check (k : TRDP_PARAMS) (s : TRDP_SESSION) (env : MD_RX_ENV)
    (sock : Int) (hval : mdValidated k s env = true) :
    ((trdp_mdReceive k s env sock).1 = TRDP_TOPO_ERR ↔
      (vos_ntohl env.rcvFrame OFF_topoCount ≠ 0 ∧ s.topoCount ≠ 0 ∧
        vos_ntohl env.rcvFrame OFF_topoCount ≠ s.topoCount))
    ∧ ((vos_ntohl env.rcvFrame OFF_topoCount ≠ 0 ∧ s.topoCount ≠ 0 ∧
          vos_ntohl env.rcvFrame OFF_topoCount ≠ s.topoCount) →
        (trdp_mdReceive k s env sock).2.stats.numTopoErr = inc32 s.stats.numTopoErr
        ∧ (trdp_mdReceive k s env sock).2.callbacks = s.callbacks
        ∧ (trdp_mdReceive k s env sock).2.pMDRcvQueue = s.pMDRcvQueue
        ∧ (trdp_mdReceive k s env sock).2.pMDSndQueue = s.pMDSndQueue)
    ∧ ((vos_ntohl env.rcvFrame OFF_topoCount = 0 ∨ s.topoCount = 0) →
        (trdp_mdReceive k s env sock).1 = TRDP_NO_ERR) := by
  refine ⟨?_, ?_, ?_⟩
  · constructor
    · intro h
      by_contra hn
      have := trdp_mdReceive_ok k s env sock hval hn
      rw [this] at h
      exact absurd h (by decide)
    · intro h
      exact (trdp_mdReceive_topoErr k s env sock hval h).1
  · intro h
    obtain ⟨_, h2, h3, h4, h5⟩ := trdp_mdReceive_topoErr k s env sock hval h
    exact ⟨by rw [h5], h4, h2, h3⟩
  · intro h
    apply trdp_mdReceive_ok k s env sock hval
    intro hm
    rcases h with h | h
    · exact hm.1 h
    · exact hm.2.1 h

/-- Witness for C5: header topoCount 4, session topoCount 5. -/
theorem mdReceive_topo_check_witness :
    (trdp_mdReceive exParams (exSession 5 [exListener] [exCaller 1]) (exEnv exFrameMpTopo4 7) 3).1
        = TRDP_TOPO_ERR
    ∧ (trdp_mdReceive exParams (exSession 0 [exListener] [exCaller 1])
        (exEnv exFrameMpTopo4 7) 3).1 = TRDP_NO_ERR :=
  ⟨(mdReceive_topo_check exParams (exSession 5 [exListener] [exCaller 1])
      (exEnv exFrameMpTopo4 7) 3 (by decide!)).1.mpr (by decide),
   (mdReceive_topo_check exParams (exSession 0 [exListener] [exCaller 1])
      (exEnv exFrameMpTopo4 7) 3 (by decide!)).2.2 (by decide)⟩

theorem mdSenderAfterReply_numReplies (t : Nat) (e : MD_ELE_T) :
    (mdSenderAfterReply t e).numReplies = inc32 e.numReplies := by
  unfold mdSenderAfterReply
  simp only []
  split_ifs <;> rfl

theorem mdSenderAfterReply_numRepliesQuery (t : Nat) (e : MD_ELE_T) :
    (mdSenderAfterReply t e).numRepliesQuery =
      if t = TRDP_MSG_MQ then inc32 e.numRepliesQuery else e.numRepliesQuery := by
  unfold mdSenderAfterReply
  simp only []
  split_ifs <;> rfl

theorem mdSenderAfterReply_fixed (t : Nat) (e : MD_ELE_T) :
    (mdSenderAfterReply t e).stateEle = e.stateEle
    ∧ (mdSenderAfterReply t e).noOfRepliers = e.noOfRepliers
    ∧ (mdSenderAfterReply t e).u = e.u
    ∧ (mdSenderAfterReply t e).sessionID = e.sessionID := by
  unfold mdSenderAfterReply
  simp only []
  split_ifs <;> exact ⟨rfl, rfl, rfl, rfl⟩

theorem mdSenderAfterReply_disableReplyRx (t : Nat) (e : MD_ELE_T) :
    (mdSenderAfterReply t e).disableReplyRx =
      if e.noOfRepliers = 1 then 1
      else if e.noOfRepliers > 1 ∧ e.noOfRepliers = inc32 e.numReplies then 1
      else e.disableReplyRx := by
  unfold mdSenderAfterReply
  simp only []
  split_ifs <;> first | rfl | (exfalso; tauto)

/-- Counterexample to C6 as stated.  A valid reply `Mp` whose comId and session id are
those of a caller session waiting for a reply with `disableReplyRx = 0` is not
delivered to it (`numReplies` stays 0, and the frame is counted in `numNoListener`)
(1) when no listener is registered for the comId, and (2) when the listener for the
comId is not in state `RX_ARM`.  (3) With an armed listener, the reply is not delivered
to a waiting caller session that stands in the send queue behind another session
with the same comId and session id. -/
theorem mdReceive_reply_needs_listener_counterexample :
    ((trdp_mdReceive exParams (exSession 0 [] [exCaller 1]) (exEnv exFrameMp 7) 3).2.pMDSndQueue
        = [exCaller 1]
      ∧ (trdp_mdReceive exParams (exSession 0 [] [exCaller 1])
          (exEnv exFrameMp 7) 3).2.stats.numNoListener = 1)
    ∧ ((trdp_mdReceive exParams
          (exSession 0 [{ exListener with stateEle := TRDP_MD_ELE_ST_RX_REQ_W4AP_REPLY }]
            [exCaller 1]) (exEnv exFrameMp 7) 3).2.pMDSndQueue = [exCaller 1]
      ∧ (trdp_mdReceive exParams
          (exSession 0 [{ exListener with stateEle := TRDP_MD_ELE_ST_RX_REQ_W4AP_REPLY }]
            [exCaller 1]) (exEnv exFrameMp 7) 3).2.stats.numNoListener = 1)
    ∧ (trdp_mdReceive exParams
          (exSession 0 [exListener] [{ exCaller 1 with disableReplyRx := 1 }, exCaller 1])
          (exEnv exFrameMp 7) 3).2.pMDSndQueue
        = [{ exCaller 1 with disableReplyRx := 1 }, exCaller 1] := by
  decide!

/-- C6 (amended). Reply dispatch by (comId, sessionId): a validated reply-kind frame
(`Mp`, `Mq` or `Me`) that passes the topo check, and for which the first session of the
send queue with the comId and session id of the frame is waiting for a reply (state
`TX_REQUEST_W4Y`, `disableReplyRx = 0`), is delivered to that caller session (its
`numReplies` increases by one, nothing else in the send queue changes) provided that the
receive queue holds a listener with the comId of the frame in state `RX_ARM`; if no
such listener exists the frame is dropped: the send queue is unchanged and
`numNoListener` is incremented. -/
theorem mdReceive_reply_delivered (k : TRDP_PARAMS) (s : TRDP_SESSION) (env : MD_RX_ENV)
    (sock : Int) (idx : Nat) (sender_ele : MD_ELE_T)
    (hval : mdValidated k s env = true) (htopo : ¬ mdTopoMismatch s env)
    (hreply : mdIsReply env)
    (hadr : mdAddressed s env = some (idx, sender_ele))
    (hst : sender_ele.stateEle = TRDP_MD_ELE_ST_TX_REQUEST_W4Y)
    (hdis : sender_ele.disableReplyRx = 0) :
    ((∃ l ∈ s.pMDRcvQueue, mdArmedFor env l) →
      (trdp_mdReceive k s env sock).1 = TRDP_NO_ERR
      ∧ (trdp_mdReceive k s env sock).2.pMDSndQueue =
          s.pMDSndQueue.set idx
            (mdSenderAfterReply (vos_ntohs env.rcvFrame OFF_msgType) sender_ele)
      ∧ ((trdp_mdReceive k s env sock).2.pMDSndQueue[idx]?).map (fun e => e.numReplies) =
          some (inc32 sender_ele.numReplies)
      ∧ (trdp_mdReceive k s env sock).2.stats.numNoListener = s.stats.numNoListener)
    ∧ ((∀ l ∈ s.pMDRcvQueue, ¬ mdArmedFor env l) →
      (trdp_mdReceive k s env sock).2.pMDSndQueue = s.pMDSndQueue
      ∧ (trdp_mdReceive k s env sock).2.stats.numNoListener = inc32 s.stats.numNoListener) := by
  constructor
  · intro harm
    obtain ⟨s1, rcvEle, pre, iterMD, post, hf, e1, e2, e3, e4, e5, e6, e7, p1, p2, p3, he⟩ :=
      trdp_mdReceive_dispatch k s env sock hval htopo harm
    have hadr1 : mdAddressed s1 env = some (idx, sender_ele) := by
      unfold mdAddressed at hadr ⊢; rw [e2]; exact hadr
    have hd := mdDispatch_reply_accepted k s1 env sock rcvEle iterMD hf idx sender_ele hreply
      hadr1 hst hdis
    have hq : (trdp_mdReceive k s env sock).2.pMDSndQueue =
        s.pMDSndQueue.set idx
          (mdSenderAfterReply (vos_ntohs env.rcvFrame OFF_msgType) sender_ele) := by
      rw [he, hd]
      show (mdDispatchReply k s1 env sock rcvEle iterMD idx sender_ele).2.pMDSndQueue = _
      rw [(mdDispatchReply_snd _ _ _ _ _ _ _ _).1, e2, hf]
    have hget := (mdFindSender_spec _ _ _ _ _ hadr).1
    have hlt : idx < s.pMDSndQueue.length := by
      by_contra hc
      rw [List.get?_eq_none.mpr (by omega)] at hget
      exact absurd hget (by simp)
    refine ⟨by rw [he], hq, ?_, ?_⟩
    · rw [hq, List.getElem?_set_self hlt]
      simp [mdSenderAfterReply_numReplies]
    · rw [he]
      show (mdDispatch k s1 env sock rcvEle iterMD).2.stats.numNoListener = _
      rw [mdDispatch_stats, e7]
  · intro harm
    obtain ⟨_, _, h3, _, h5⟩ := trdp_mdReceive_noListener k s env sock hval htopo harm
    exact ⟨h3, by rw [h5]⟩

/-- Witness for C6 (amended): the reply `Mp` is delivered when an armed listener for
comId 1 is registered. -/
theorem mdReceive_reply_delivered_witness :
    ((trdp_mdReceive exParams (exSession 0 [exListener] [exCaller 2])
        (exEnv exFrameMp 7) 3).2.pMDSndQueue[0]?).map (fun e => e.numReplies)
      = some (inc32 (exCaller 2).numReplies) :=
  ((mdReceive_reply_delivered exParams (exSession 0 [exListener] [exCaller 2])
    (exEnv exFrameMp 7) 3 0 (exCaller 2) (by decide!) (by decide) (by decide) (by decide)
    (by decide) (by decide)).1 ⟨exListener, by decide, by decide⟩).2.2.1

/-- Counterexample to C7 as stated: a valid reply `Mp` for comId 1 finds an armed
listener for comId 1 but no caller session at all; it is dispatched to nobody (the
listener and the empty send queue are left as they were, no callback is called), yet
`numNoListener` stays 0. -/
theorem mdReceive_unmatched_not_counted_counterexample :
    mdAddressed (exSession 0 [exListener] []) (exEnv exFrameMp 7) = none
    ∧ (trdp_mdReceive exParams (exSession 0 [exListener] []) (exEnv exFrameMp 7) 3).1
        = TRDP_NO_ERR
    ∧ (trdp_mdReceive exParams (exSession 0 [exListener] [])
        (exEnv exFrameMp 7) 3).2.stats.numNoListener = 0
    ∧ (trdp_mdReceive exParams (exSession 0 [exListener] [])
        (exEnv exFrameMp 7) 3).2.pMDRcvQueue = [exListener]
    ∧ (trdp_mdReceive exParams (exSession 0 [exListener] [])
        (exEnv exFrameMp 7) 3).2.pMDSndQueue = []
    ∧ (trdp_mdReceive exParams (exSession 0 [exListener] [])
        (exEnv exFrameMp 7) 3).2.callbacks = [] := by
  decide!

/-- C7 (amended). For a validated MD frame that passes the topo check, `numNoListener` is
incremented by exactly one exactly when the receive queue holds no listener with the
comId of the frame in state `RX_ARM`, whatever the message type; in that case no listener
or session entry is modified and no callback is called.  When such a listener exists
`numNoListener` is unchanged, also for a reply, confirm or error whose (comId, sessionId)
matches no caller session: that frame is dropped without being counted and without any
change to listeners, sessions or callbacks. -/
theorem mdReceive_numNoListener (k : TRDP_PARAMS) (s : TRDP_SESSION) (env : MD_RX_ENV)
    (sock : Int) (hval : mdValidated k s env = true) (htopo : ¬ mdTopoMismatch s env) :
    ((∀ l ∈ s.pMDRcvQueue, ¬ mdArmedFor env l) →
      (trdp_mdReceive k s env sock).2.stats.numNoListener = inc32 s.stats.numNoListener
      ∧ (trdp_mdReceive k s env sock).2.pMDRcvQueue = s.pMDRcvQueue
      ∧ (trdp_mdReceive k s env sock).2.pMDSndQueue = s.pMDSndQueue
      ∧ (trdp_mdReceive k s env sock).2.callbacks = s.callbacks)
    ∧ ((∃ l ∈ s.pMDRcvQueue, mdArmedFor env l) →
      (trdp_mdReceive k s env sock).2.stats.numNoListener = s.stats.numNoListener)
    ∧ ((∃ l ∈ s.pMDRcvQueue, mdArmedFor env l) →
      (vos_ntohs env.rcvFrame OFF_msgType = TRDP_MSG_MP ∨
        vos_ntohs env.rcvFrame OFF_msgType = TRDP_MSG_MQ ∨
        vos_ntohs env.rcvFrame OFF_msgType = TRDP_MSG_MC ∨
        vos_ntohs env.rcvFrame OFF_msgType = TRDP_MSG_ME) →
      mdAddressed s env = none →
      (trdp_mdReceive k s env sock).2.pMDRcvQueue = s.pMDRcvQueue
      ∧ (trdp_mdReceive k s env sock).2.pMDSndQueue = s.pMDSndQueue
      ∧ (trdp_mdReceive k s env sock).2.callbacks = s.callbacks) := by
  refine ⟨?_, ?_, ?_⟩
  · intro harm
    obtain ⟨_, h2, h3, h4, h5⟩ := trdp_mdReceive_noListener k s env sock hval htopo harm
    exact ⟨by rw [h5], h2, h3, h4⟩
  · intro harm
    obtain ⟨s1, rcvEle, pre, iterMD, post, hf, e1, e2, e3, e4, e5, e6, e7, p1, p2, p3, he⟩ :=
      trdp_mdReceive_dispatch k s env sock hval htopo harm
    rw [he]
    show (mdDispatch k s1 env sock rcvEle iterMD).2.stats.numNoListener = _
    rw [mdDispatch_stats, e7]
  · intro harm hkind hadr
    obtain ⟨s1, rcvEle, pre, iterMD, post, hf, e1, e2, e3, e4, e5, e6, e7, p1, p2, p3, he⟩ :=
      trdp_mdReceive_dispatch k s env sock hval htopo harm
    have hadr1 : mdAddressed s1 env = none := by
      unfold mdAddressed at hadr ⊢; rw [e2]; exact hadr
    rw [he, mdDispatch_unaddressed k s1 env sock rcvEle iterMD hf hkind hadr1]
    exact ⟨p1.symm, e2, e3⟩

/-- Witness for C7 (amended): a valid notify for comId 1 with no listener registered
is counted. -/
theorem mdReceive_numNoListener_witness :
    (trdp_mdReceive exParams (exSession 0 [] [exCaller 1])
      (exEnv exFrameMn 7) 3).2.stats.numNoListener = inc32 0 :=
  ((mdReceive_numNoListener exParams (exSession 0 [] [exCaller 1]) (exEnv exFrameMn 7) 3
    (by decide!) (by decide)).1 (by decide)).1

/-! ## C9 and C10: repliers and states -/

/-- What one call of `trdp_mdReceive` can do to the send queue, for any input: nothing;
count an accepted reply in the addressed caller session; or remove the addressed
session on a confirm. -/
theorem trdp_mdReceive_snd_cases (k : TRDP_PARAMS) (s : TRDP_SESSION) (env : MD_RX_ENV)
    (sock : Int) :
    ((trdp_mdReceive k s env sock).2.pMDSndQueue = s.pMDSndQueue)
    ∨ (mdIsReply env ∧ ∃ idx sender_ele, mdAddressed s env = some (idx, sender_ele) ∧
        sender_ele.stateEle = TRDP_MD_ELE_ST_TX_REQUEST_W4Y ∧ sender_ele.disableReplyRx = 0 ∧
        (trdp_mdReceive k s env sock).2.pMDSndQueue =
          s.pMDSndQueue.set idx
            (mdSenderAfterReply (vos_ntohs env.rcvFrame OFF_msgType) sender_ele))
    ∨ (vos_ntohs env.rcvFrame OFF_msgType = TRDP_MSG_MC ∧
        ∃ idx sender_ele, mdAddressed s env = some (idx, sender_ele) ∧
        sender_ele.stateEle = TRDP_MD_ELE_ST_TX_REPLYQUERY_W4C ∧
        (trdp_mdReceive k s env sock).2.pMDSndQueue = s.pMDSndQueue.eraseIdx idx) := by
  by_cases hval : mdValidated k s env = true
  · by_cases htopo : mdTopoMismatch s env
    · left; exact (trdp_mdReceive_topoErr k s env sock hval htopo).2.2.1
    · by_cases harm : ∃ l ∈ s.pMDRcvQueue, mdArmedFor env l
      · obtain ⟨s1, rcvEle, pre, iterMD, post, hf, e1, e2, e3, e4, e5, e6, e7, p1, p2, p3, he⟩ :=
          trdp_mdReceive_dispatch k s env sock hval htopo harm
        have hadr : mdAddressed s1 env = mdAddressed s env := by
          unfold mdAddressed; rw [e2]
        rw [he]
        show ((mdDispatch k s1 env sock rcvEle iterMD).2.pMDSndQueue = _) ∨
          (_ ∧ ∃ idx sender_ele, _ ∧ _ ∧ _ ∧
            (mdDispatch k s1 env sock rcvEle iterMD).2.pMDSndQueue = _) ∨
          (_ ∧ ∃ idx sender_ele, _ ∧ _ ∧
            (mdDispatch k s1 env sock rcvEle iterMD).2.pMDSndQueue = _)
        have := mdDispatch_snd_cases k s1 env sock rcvEle iterMD hf
        rw [hadr, e2] at this
        exact this
      · left
        exact (trdp_mdReceive_noListener k s env sock hval htopo
          (fun l hl ha => harm ⟨l, hl, ha⟩)).2.2.1
  · left
    exact (trdp_mdReceive_of_not_validated k s env sock (by simpa using hval)).2.1

/-- What one call of `trdp_mdReceive` can do to the receive queue, for any input:
nothing, or replace one listener that is in state `RX_ARM`. -/
theorem trdp_mdReceive_rcv_cases (k : TRDP_PARAMS) (s : TRDP_SESSION) (env : MD_RX_ENV)
    (sock : Int) :
    ((trdp_mdReceive k s env sock).2.pMDRcvQueue = s.pMDRcvQueue)
    ∨ (∃ pre iterMD post new, s.pMDRcvQueue = pre ++ iterMD :: post ∧
        iterMD.stateEle = TRDP_MD_ELE_ST_RX_ARM ∧
        (trdp_mdReceive k s env sock).2.pMDRcvQueue = pre ++ new :: post) := by
  by_cases hval : mdValidated k s env = true
  · by_cases htopo : mdTopoMismatch s env
    · left; exact (trdp_mdReceive_topoErr k s env sock hval htopo).2.1
    · by_cases harm : ∃ l ∈ s.pMDRcvQueue, mdArmedFor env l
      · obtain ⟨s1, rcvEle, pre, iterMD, post, hf, e1, e2, e3, e4, e5, e6, e7, p1, p2, p3, he⟩ :=
          trdp_mdReceive_dispatch k s env sock hval htopo harm
        right
        exact ⟨pre, iterMD, post, (mdDispatch k s1 env sock rcvEle iterMD).1, p1, p2.2,
          by rw [he]⟩
      · left
        exact (trdp_mdReceive_noListener k s env sock hval htopo
          (fun l hl ha => harm ⟨l, hl, ha⟩)).2.1
  · left
    exact (trdp_mdReceive_of_not_validated k s env sock (by simpa using hval)).1

/-- A frame whose type does not fit the state of the session it addresses changes
neither queue nor the callback log, for any input. -/
theorem trdp_mdReceive_mismatch (k : TRDP_PARAMS) (s : TRDP_SESSION) (env : MD_RX_ENV)
    (sock : Int) (idx : Nat) (sender_ele : MD_ELE_T)
    (hadr : mdAddressed s env = some (idx, sender_ele))
    (hmm : (vos_ntohs env.rcvFrame OFF_msgType = TRDP_MSG_MC ∧
              sender_ele.stateEle = TRDP_MD_ELE_ST_TX_REQUEST_W4Y)
            ∨ (mdIsReply env ∧ sender_ele.stateEle = TRDP_MD_ELE_ST_TX_REPLYQUERY_W4C)) :
    (trdp_mdReceive k s env sock).2.pMDRcvQueue = s.pMDRcvQueue
    ∧ (trdp_mdReceive k s env sock).2.pMDSndQueue = s.pMDSndQueue
    ∧ (trdp_mdReceive k s env sock).2.callbacks = s.callbacks := by
  by_cases hval : mdValidated k s env = true
  · by_cases htopo : mdTopoMismatch s env
    · exact (trdp_mdReceive_topoErr k s env sock hval htopo).2.imp_right
        (fun h => ⟨h.1, h.2.1⟩)
    · by_cases harm : ∃ l ∈ s.pMDRcvQueue, mdArmedFor env l
      · obtain ⟨s1, rcvEle, pre, iterMD, post, hf, e1, e2, e3, e4, e5, e6, e7, p1, p2, p3, he⟩ :=
          trdp_mdReceive_dispatch k s env sock hval htopo harm
        have hadr1 : mdAddressed s1 env = some (idx, sender_ele) := by
          unfold mdAddressed at hadr ⊢; rw [e2]; exact hadr
        rw [he, mdDispatch_mismatch k s1 env sock rcvEle iterMD hf idx sender_ele hadr1 hmm]
        exact ⟨p1.symm, e2, e3⟩
      · exact (trdp_mdReceive_noListener k s env sock hval htopo
          (fun l hl ha => harm ⟨l, hl, ha⟩)).2.imp_right (fun h => ⟨h.1, h.2.1⟩)
  · exact (trdp_mdReceive_of_not_validated k s env sock (by simpa using hval)).imp_right
      (fun h => ⟨h.1, h.2.1⟩)

theorem map_set_of_eq {α β : Type} (f : α → β) (a b : α) (hab : f b = f a) :
    ∀ (l : List α) (i : Nat), l.get? i = some a → (l.set i b).map f = l.map f := by
  intro l
  induction l with
  | nil => intro i h; simp at h
  | cons x t ih =>
    intro i h
    cases i with
    | zero =>
      simp only [List.get?_cons_zero, Option.some.injEq] at h
      simp [List.set, h, hab]
    | succ j =>
      simp only [List.get?_cons_succ] at h
      simp [List.set, ih j h]

/-- Counterexample to C9 as stated: a caller session expects two repliers; two replies
`Mp` arrive from one and the same source address 7 (both callbacks report source 7).
Reply reception is closed after the second one: `numReplies = 2`,
`disableReplyRx = 1`. -/
theorem mdReceive_same_replier_counterexample :
    (mdReceiveAll exParams 3 (exSession 0 [exListener] [exCaller 2])
        [exEnv exFrameMp 7, exEnv exFrameMp 7]).pMDSndQueue.map
          (fun e => (e.noOfRepliers, e.numReplies, e.disableReplyRx)) = [(2, 2, 1)]
    ∧ (mdReceiveAll exParams 3 (exSession 0 [exListener] [exCaller 2])
        [exEnv exFrameMp 7, exEnv exFrameMp 7]).callbacks.map
          (fun c => c.pMsg.srcIpAddr) = [7, 7] := by
  decide!

/-- C9 (amended). For a caller session with `noOfRepliers = N > 1`, reply reception is
closed (`disableReplyRx` set) by the accepted reply that makes `numReplies` equal to `N`:
every accepted reply counts, whatever address it comes from.  The send queue after
the call is the same for every platform input that delivers the same frame, in
particular for every source address. -/
theorem mdReceive_reply_latch (k : TRDP_PARAMS) (s : TRDP_SESSION) (env : MD_RX_ENV)
    (sock : Int) (idx : Nat) (sender_ele : MD_ELE_T)
    (hval : mdValidated k s env = true) (htopo : ¬ mdTopoMismatch s env)
    (hreply : mdIsReply env)
    (hadr : mdAddressed s env = some (idx, sender_ele))
    (hst : sender_ele.stateEle = TRDP_MD_ELE_ST_TX_REQUEST_W4Y)
    (hdis : sender_ele.disableReplyRx = 0)
    (harm : ∃ l ∈ s.pMDRcvQueue, mdArmedFor env l)
    (hN : sender_ele.noOfRepliers > 1) :
    (∃ e : MD_ELE_T,
      (trdp_mdReceive k s env sock).2.pMDSndQueue = s.pMDSndQueue.set idx e
      ∧ (trdp_mdReceive k s env sock).2.pMDSndQueue[idx]? = some e
      ∧ e.numReplies = inc32 sender_ele.numReplies
      ∧ e.disableReplyRx = (if sender_ele.noOfRepliers = inc32 sender_ele.numReplies
          then 1 else 0))
    ∧ (∀ env2 : MD_RX_ENV, env2.rcvFrame = env.rcvFrame → mdValidated k s env2 = true →
        (trdp_mdReceive k s env2 sock).2.pMDSndQueue =
          (trdp_mdReceive k s env sock).2.pMDSndQueue) := by
  have hget := (mdFindSender_spec _ _ _ _ _ hadr).1
  have hlt : idx < s.pMDSndQueue.length := by
    by_contra hc
    rw [List.get?_eq_none.mpr (by omega)] at hget
    exact absurd hget (by simp)
  have hq : ∀ env2 : MD_RX_ENV, env2.rcvFrame = env.rcvFrame → mdValidated k s env2 = true →
      (trdp_mdReceive k s env2 sock).2.pMDSndQueue =
      s.pMDSndQueue.set idx
        (mdSenderAfterReply (vos_ntohs env.rcvFrame OFF_msgType) sender_ele) := by
    intro env2 hfr hval2
    have htopo2 : ¬ mdTopoMismatch s env2 := by
      unfold mdTopoMismatch at htopo ⊢; rw [hfr]; exact htopo
    have hreply2 : mdIsReply env2 := by
      unfold mdIsReply at hreply ⊢; rw [hfr]; exact hreply
    have harm2 : ∃ l ∈ s.pMDRcvQueue, mdArmedFor env2 l := by
      obtain ⟨l, h1, h2⟩ := harm
      refine ⟨l, h1, ?_⟩
      unfold mdArmedFor at h2 ⊢; rw [hfr]; exact h2
    obtain ⟨s1, rcvEle, pre, iterMD, post, hf, e1, e2, e3, e4, e5, e6, e7, p1, p2, p3, he⟩ :=
      trdp_mdReceive_dispatch k s env2 sock hval2 htopo2 harm2
    have hadr1 : mdAddressed s1 env2 = some (idx, sender_ele) := by
      unfold mdAddressed at hadr ⊢; rw [e2, hfr]; exact hadr
    rw [he, mdDispatch_reply_accepted k s1 env2 sock rcvEle iterMD hf
      idx sender_ele hreply2 hadr1 hst hdis]
    show (mdDispatchReply k s1 env2 sock rcvEle iterMD idx sender_ele).2.pMDSndQueue = _
    rw [(mdDispatchReply_snd _ _ _ _ _ _ _ _).1, e2, hf, hfr]
  constructor
  · refine ⟨mdSenderAfterReply (vos_ntohs env.rcvFrame OFF_msgType) sender_ele,
      hq env rfl hval, ?_, mdSenderAfterReply_numReplies _ _, ?_⟩
    · rw [hq env rfl hval, List.getElem?_set_self hlt]
    · rw [mdSenderAfterReply_disableReplyRx, if_neg (by omega)]
      split_ifs with h1 h2 h3
      · rfl
      · exact absurd h1.2 h2
      · exact absurd ⟨hN, h3⟩ h1
      · exact hdis
  · intro env2 hfr hval2
    rw [hq env2 hfr hval2, ← hq env rfl hval]

/-- Witness for C9 (amended): the same reply frame received from address 9 and from
address 7 leads to the same send queue. -/
theorem mdReceive_reply_latch_witness :
    (trdp_mdReceive exParams (exSession 0 [exListener] [exCaller 2]) (exEnv exFrameMp 9)
        3).2.pMDSndQueue =
    (trdp_mdReceive exParams (exSession 0 [exListener] [exCaller 2]) (exEnv exFrameMp 7)
        3).2.pMDSndQueue :=
  (mdReceive_reply_latch exParams (exSession 0 [exListener] [exCaller 2])
    (exEnv exFrameMp 7) 3 0 (exCaller 2) (by decide!) (by decide!)
    (by decide!) (by decide!) (by decide) (by decide) ⟨exListener, by decide, by decide!⟩
    (by decide)).2 (exEnv exFrameMp 9) rfl (by decide!)

/-- C10. MD states never regress on ingress.  For every call of `trdp_mdReceive`:
the receive queue keeps its length and a listener whose state differs afterwards was
in state `RX_ARM`; the states of the caller sessions are unchanged (the send queue has
the same states position by position, or it is the old queue with one element
removed by a confirm); and a frame whose message type does not fit the state of the
session it addresses (a confirm `Mc` for a caller waiting for a reply, a reply `Mp`,
`Mq`, `Me` for a session waiting for a confirm) leaves the receive queue, the send queue
(states, reply counters, entries) and the callback log exactly as they were. -/
theorem mdReceive_states_never_regress (k : TRDP_PARAMS) (s : TRDP_SESSION) (env : MD_RX_ENV)
    (sock : Int) :
    List.Forall₂
        (fun old new : MD_ELE_T =>
          new.stateEle ≠ old.stateEle → old.stateEle = TRDP_MD_ELE_ST_RX_ARM)
        s.pMDRcvQueue (trdp_mdReceive k s env sock).2.pMDRcvQueue
    ∧ (((trdp_mdReceive k s env sock).2.pMDSndQueue.map (fun e => e.stateEle) =
          s.pMDSndQueue.map (fun e => e.stateEle))
        ∨ ∃ idx, (trdp_mdReceive k s env sock).2.pMDSndQueue = s.pMDSndQueue.eraseIdx idx)
    ∧ (∀ (idx : Nat) (sender_ele : MD_ELE_T),
        mdAddressed s env = some (idx, sender_ele) →
        ((vos_ntohs env.rcvFrame OFF_msgType = TRDP_MSG_MC ∧
            sender_ele.stateEle = TRDP_MD_ELE_ST_TX_REQUEST_W4Y)
          ∨ (mdIsReply env ∧ sender_ele.stateEle = TRDP_MD_ELE_ST_TX_REPLYQUERY_W4C)) →
        (trdp_mdReceive k s env sock).2.pMDRcvQueue = s.pMDRcvQueue
        ∧ (trdp_mdReceive k s env sock).2.pMDSndQueue = s.pMDSndQueue
        ∧ (trdp_mdReceive k s env sock).2.callbacks = s.callbacks) := by
  have hrefl : ∀ l : List MD_ELE_T, List.Forall₂
      (fun old new : MD_ELE_T =>
        new.stateEle ≠ old.stateEle → old.stateEle = TRDP_MD_ELE_ST_RX_ARM) l l := by
    intro l
    induction l with
    | nil => exact List.Forall₂.nil
    | cons x t ih => exact List.Forall₂.cons (fun h => absurd rfl h) ih
  refine ⟨?_, ?_, ?_⟩
  · rcases trdp_mdReceive_rcv_cases k s env sock with h | ⟨pre, iterMD, post, new, h1, h2, h3⟩
    · rw [h]; exact hrefl _
    · rw [h3, h1]
      exact List.rel_append (hrefl pre) (List.Forall₂.cons (fun _ => h2) (hrefl post))
  · rcases trdp_mdReceive_snd_cases k s env sock with h | ⟨_, idx, e, h1, _, _, h2⟩ |
      ⟨_, idx, e, _, _, h2⟩
    · left; rw [h]
    · left
      rw [h2]
      exact map_set_of_eq (fun e => e.stateEle) e _ (mdSenderAfterReply_fixed _ _).1
        s.pMDSndQueue idx (mdFindSender_spec _ _ _ _ _ h1).1
    · right; exact ⟨idx, h2⟩
  · intro idx sender_ele hadr hmm
    exact trdp_mdReceive_mismatch k s env sock idx sender_ele hadr hmm

/-- Witness for C10: a valid confirm `Mc` for a caller session that waits for a reply
changes no queue. -/
theorem mdReceive_states_never_regress_witness :
    (trdp_mdReceive exParams (exSession 0 [exListener] [exCaller 1])
        (exEnv exFrameMc 7) 3).2.pMDRcvQueue = [exListener]
    ∧ (trdp_mdReceive exParams (exSession 0 [exListener] [exCaller 1])
        (exEnv exFrameMc 7) 3).2.pMDSndQueue = [exCaller 1]
    ∧ (trdp_mdReceive exParams (exSession 0 [exListener] [exCaller 1])
        (exEnv exFrameMc 7) 3).2.callbacks = [] :=
  (mdReceive_states_never_regress exParams (exSession 0 [exListener] [exCaller 1])
    (exEnv exFrameMc 7) 3).2.2 0 (exCaller 1) (by decide) (Or.inl ⟨by decide, by decide⟩)

/-! ## C8: multi-replier accounting -/

theorem mdReplyAccounting_mono (m : Nat) (e : MD_ELE_T) (h : mdReplyAccounting m e) :
    mdReplyAccounting (m + 1) e := by
  unfold mdReplyAccounting at h ⊢
  obtain ⟨h1, h2, h3⟩ := h
  refine ⟨h1, fun h0 hm => ?_, h3⟩
  have := h2 h0 (by omega)
  omega

/-- Counting an accepted reply keeps the accounting. -/
theorem mdReplyAccounting_step (t m : Nat) (e : MD_ELE_T) (h : mdReplyAccounting m e)
    (hdis : e.disableReplyRx = 0) :
    mdReplyAccounting (m + 1) (mdSenderAfterReply t e) := by
  unfold mdReplyAccounting at h ⊢
  obtain ⟨h1, h2, h3⟩ := h
  rw [mdSenderAfterReply_numReplies, mdSenderAfterReply_numRepliesQuery,
    mdSenderAfterReply_disableReplyRx, (mdSenderAfterReply_fixed t e).2.1]
  unfold inc32 UINT32_MOD at *
  have hq : (if t = TRDP_MSG_MQ then (e.numRepliesQuery + 1) % 4294967296
      else e.numRepliesQuery) ≤ e.numRepliesQuery + 1 := by
    split_ifs <;> omega
  refine ⟨fun hN => ?_, fun h0 hm => ?_, h3⟩
  · obtain ⟨a1, a2, a3⟩ := h1 hN
    have hlt : e.numReplies < e.noOfRepliers := by
      rcases Nat.lt_or_ge e.numReplies e.noOfRepliers with h | h
      · exact h
      · exact absurd (a2.mpr (by omega)) (by simp [hdis])
    have hinc : (e.numReplies + 1) % 4294967296 = e.numReplies + 1 := by omega
    rw [hinc]
    refine ⟨by omega, ?_, by omega⟩
    split_ifs with c1 c2
    · constructor
      · intro _; omega
      · intro _; simp
    · constructor
      · intro _; omega
      · intro _; simp
    · constructor
      · intro hd; exact absurd hdis hd
      · intro he
        exfalso
        apply c2
        exact ⟨by omega, by omega⟩
  · obtain ⟨b1, b2⟩ := h2 h0 (by omega)
    have hinc : (e.numReplies + 1) % 4294967296 = e.numReplies + 1 := by omega
    rw [hinc]
    omega

/-- One call of `trdp_mdReceive` keeps the accounting of the caller sessions with a
given comId and session id. -/
theorem mdReplyAccounting_receive (k : TRDP_PARAMS) (sock : Int) (comId : Nat)
    (sessionID : List Nat) (m : Nat) (s : TRDP_SESSION) (env : MD_RX_ENV)
    (h : ∀ e ∈ s.pMDSndQueue, e.u.comId = comId → e.sessionID = sessionID →
      mdReplyAccounting m e) :
    ∀ e ∈ (trdp_mdReceive k s env sock).2.pMDSndQueue, e.u.comId = comId →
      e.sessionID = sessionID → mdReplyAccounting (m + 1) e := by
  intro e he hc hs
  rcases trdp_mdReceive_snd_cases k s env sock with hq | ⟨_, idx, x, h1, _, h3, hq⟩ |
    ⟨_, idx, x, _, _, hq⟩
  · rw [hq] at he
    exact mdReplyAccounting_mono m e (h e he hc hs)
  · rw [hq] at he
    rcases List.mem_or_eq_of_mem_set he with hm | hm
    · exact mdReplyAccounting_mono m e (h e hm hc hs)
    · have hx : x ∈ s.pMDSndQueue :=
        List.get?_mem (mdFindSender_spec _ _ _ _ _ h1).1
      obtain ⟨_, _, f3, f4⟩ := mdSenderAfterReply_fixed (vos_ntohs env.rcvFrame OFF_msgType) x
      rw [hm] at hc hs ⊢
      rw [f3] at hc
      rw [f4] at hs
      exact mdReplyAccounting_step _ m x (h x hx hc hs) h3
  · rw [hq] at he
    exact mdReplyAccounting_mono m e (h e (List.mem_of_mem_eraseIdx he) hc hs)

theorem mdReplyAccounting_receiveAll (k : TRDP_PARAMS) (sock : Int) (comId : Nat)
    (sessionID : List Nat) :
    ∀ (envs : List MD_RX_ENV) (m : Nat) (s : TRDP_SESSION),
      (∀ e ∈ s.pMDSndQueue, e.u.comId = comId → e.sessionID = sessionID →
        mdReplyAccounting m e) →
      ∀ e ∈ (mdReceiveAll k sock s envs).pMDSndQueue, e.u.comId = comId →
        e.sessionID = sessionID → mdReplyAccounting (m + envs.length) e := by
  intro envs
  induction envs with
  | nil => intro m s h; simpa [mdReceiveAll] using h
  | cons env rest ih =>
    intro m s h
    rw [mdReceiveAll]
    have := ih (m + 1) (trdp_mdReceive k s env sock).2
      (mdReplyAccounting_receive k sock comId sessionID m s env h)
    rw [List.length_cons, show m + (rest.length + 1) = m + 1 + rest.length by omega]
    exact this

/-- A reply for a caller session whose `disableReplyRx` is set changes neither queue nor
the callback log, for any input. -/
theorem trdp_mdReceive_disabled (k : TRDP_PARAMS) (s : TRDP_SESSION) (env : MD_RX_ENV)
    (sock : Int) (idx : Nat) (sender_ele : MD_ELE_T) (hreply : mdIsReply env)
    (hadr : mdAddressed s env = some (idx, sender_ele))
    (hdis : sender_ele.disableReplyRx ≠ 0) :
    (trdp_mdReceive k s env sock).2.pMDRcvQueue = s.pMDRcvQueue
    ∧ (trdp_mdReceive k s env sock).2.pMDSndQueue = s.pMDSndQueue
    ∧ (trdp_mdReceive k s env sock).2.callbacks = s.callbacks := by
  by_cases hval : mdValidated k s env = true
  · by_cases htopo : mdTopoMismatch s env
    · exact (trdp_mdReceive_topoErr k s env sock hval htopo).2.imp_right
        (fun h => ⟨h.1, h.2.1⟩)
    · by_cases harm : ∃ l ∈ s.pMDRcvQueue, mdArmedFor env l
      · obtain ⟨s1, rcvEle, pre, iterMD, post, hf, e1, e2, e3, e4, e5, e6, e7, p1, p2, p3, he⟩ :=
          trdp_mdReceive_dispatch k s env sock hval htopo harm
        have hadr1 : mdAddressed s1 env = some (idx, sender_ele) := by
          unfold mdAddressed at hadr ⊢; rw [e2]; exact hadr
        rw [he, mdDispatch_disabled k s1 env sock rcvEle iterMD hf idx sender_ele hreply
          hadr1 hdis]
        exact ⟨p1.symm, e2, e3⟩
      · exact (trdp_mdReceive_noListener k s env sock hval htopo
          (fun l hl ha => harm ⟨l, hl, ha⟩)).2.imp_right (fun h => ⟨h.1, h.2.1⟩)
  · exact (trdp_mdReceive_of_not_validated k s env sock (by simpa using hval)).imp_right
      (fun h => ⟨h.1, h.2.1⟩)

theorem trdp_mdCheck_fst_stats (k : TRDP_PARAMS) (st1 st2 : TRDP_MD_STATISTICS_T)
    (pPacket : List Nat) (packetSize : Nat) :
    (trdp_mdCheck k st1 pPacket packetSize).1 = (trdp_mdCheck k st2 pPacket packetSize).1 := by
  rw [trdp_mdCheck_code, trdp_mdCheck_code]

theorem mdRecvCheck_fst_of_ok (k : TRDP_PARAMS) (stats : TRDP_MD_STATISTICS_T) (size : Nat)
    (pPacket : MD_ELE_T) (h : (trdp_mdCheck k stats pPacket.frame size).1 = TRDP_NO_ERR) :
    (mdRecvCheck k stats TRDP_NO_ERR size pPacket).1 = TRDP_NO_ERR := by
  unfold mdRecvCheck
  simp only []
  rw [if_neg (by decide), if_neg (by simp), trdp_mdCheck_eq_of_ok _ _ _ _ h]

/-- A 112 byte datagram that `trdp_mdCheck` accepts is validated in every session. -/
theorem exEnv_validated (frame : List Nat) (ip : Nat)
    (hchk : (trdp_mdCheck exParams exStats frame 112).1 = TRDP_NO_ERR) (s : TRDP_SESSION) :
    mdValidated exParams s (exEnv frame ip) = true := by
  have key : ∀ e : MD_ELE_T, (trdp_mdRecv exParams s.stats (exEnv frame ip) e).1
      = TRDP_NO_ERR := by
    intro e
    have h1 : (trdp_mdCheck exParams s.stats frame 112).1 = TRDP_NO_ERR := by
      rw [trdp_mdCheck_fst_stats _ _ exStats]; exact hchk
    unfold trdp_mdRecv
    simp only [exEnv]
    split_ifs with h0 h2 h3
    · exact absurd h2 (by decide)
    · exact absurd h3 (by simp)
    · exact mdRecvCheck_fst_of_ok _ _ _ _ h1
    · exact mdRecvCheck_fst_of_ok _ _ _ _ h1
  have hb : ∃ e, mdRcvBuffer exParams s (exEnv frame ip) = some e := by
    unfold mdRcvBuffer
    cases s.pMDRcvEle with
    | some e => exact ⟨e, rfl⟩
    | none => exact ⟨_, if_pos rfl⟩
  obtain ⟨e, hbe⟩ := hb
  unfold mdValidated
  rw [hbe]
  simp only [key, decide_True]

theorem mdReplySocket_u (k : TRDP_PARAMS) (s : TRDP_SESSION) (env : MD_RX_ENV)
    (sock : Int) (t : Nat) (iterMD : MD_ELE_T) :
    (mdReplySocket k s env sock t iterMD).1.u = iterMD.u := by
  unfold mdReplySocket
  split_ifs <;> rfl

theorem mdDispatchReply_u (k : TRDP_PARAMS) (s : TRDP_SESSION) (env : MD_RX_ENV)
    (sock : Int) (rcvEle iterMD : MD_ELE_T) (idx : Nat) (sender_ele : MD_ELE_T)
    (ht : vos_ntohs rcvEle.frame OFF_msgType ≠ TRDP_MSG_MQ) :
    (mdDispatchReply k s env sock rcvEle iterMD idx sender_ele).1.u = iterMD.u := by
  unfold mdDispatchReply
  simp only []
  rw [mdReplySocket_u, if_neg ht]

/-- One more reply `Mp` for the example caller with an unknown number of repliers:
`numReplies` is incremented as a `UINT32`, the armed listener stays armed. -/
theorem ex_wrap_step (s : TRDP_SESSION) (r : Nat) (a b : MD_ELE_T)
    (hs : s.pMDSndQueue = [exCallerCounted 0 r 1]) (hr : s.pMDRcvQueue = [a, b])
    (ha : ¬ mdArmedFor (exEnv exFrameMp 7) a) (hb : mdArmedFor (exEnv exFrameMp 7) b) :
    ∃ b2 : MD_ELE_T,
      (trdp_mdReceive exParams s (exEnv exFrameMp 7) 3).2.pMDSndQueue =
        [exCallerCounted 0 (inc32 r) 1]
      ∧ (trdp_mdReceive exParams s (exEnv exFrameMp 7) 3).2.pMDRcvQueue = [a, b2]
      ∧ mdArmedFor (exEnv exFrameMp 7) b2 := by
  have hval : mdValidated exParams s (exEnv exFrameMp 7) = true :=
    exEnv_validated exFrameMp 7 (by decide!) s
  have htopo0 : vos_ntohl (exEnv exFrameMp 7).rcvFrame OFF_topoCount = 0 := by decide!
  have hcid : vos_ntohl (exEnv exFrameMp 7).rcvFrame OFF_comId = 1 := by decide!
  have hsid : memSpan (exEnv exFrameMp 7).rcvFrame OFF_sessionID 16 =
      memSpan (List.replicate 16 0) 0 16 := by decide!
  have hty : vos_ntohs (exEnv exFrameMp 7).rcvFrame OFF_msgType = TRDP_MSG_MP := by decide!
  have htopo : ¬ mdTopoMismatch s (exEnv exFrameMp 7) := fun h => h.1 htopo0
  have harm : ∃ l ∈ s.pMDRcvQueue, mdArmedFor (exEnv exFrameMp 7) l :=
    ⟨b, by rw [hr]; simp, hb⟩
  have hreply : mdIsReply (exEnv exFrameMp 7) := Or.inl hty
  obtain ⟨s1, rcvEle, pre, iterMD, post, hf, e1, e2, e3, e4, e5, e6, e7, p1, p2, p3, he⟩ :=
    trdp_mdReceive_dispatch exParams s (exEnv exFrameMp 7) 3 hval htopo harm
  have hadr : mdAddressed s1 (exEnv exFrameMp 7) = some (0, exCallerCounted 0 r 1) := by
    unfold mdAddressed
    rw [e2, hs, hcid, hsid]
    simp [mdFindSender, exCallerCounted]
  -- the armed listener is the second one
  have hpos : pre = [a] ∧ iterMD = b ∧ post = [] := by
    rw [hr] at p1
    cases pre with
    | nil =>
      simp only [List.nil_append, List.cons.injEq] at p1
      exact absurd (p1.1 ▸ p2) ha
    | cons x t =>
      cases t with
      | nil =>
        simp only [List.cons_append, List.nil_append, List.cons.injEq] at p1
        exact ⟨by rw [p1.1], p1.2.1.symm, p1.2.2.symm ▸ rfl⟩
      | cons y u =>
        simp only [List.cons_append, List.cons.injEq] at p1
        have := p1.2.2
        simp at this
  obtain ⟨q1, q2, q3⟩ := hpos
  subst q1 q2 q3
  have hd := mdDispatch_reply_accepted exParams s1 (exEnv exFrameMp 7) 3 rcvEle iterMD hf 0
    (exCallerCounted 0 r 1) hreply hadr rfl rfl
  have hmq : vos_ntohs rcvEle.frame OFF_msgType ≠ TRDP_MSG_MQ := by
    rw [hf, hty]; decide
  refine ⟨(mdDispatchReply exParams s1 (exEnv exFrameMp 7) 3 rcvEle iterMD 0
    (exCallerCounted 0 r 1)).1, ?_, ?_, ?_⟩
  · rw [he, hd]
    show (mdDispatchReply exParams s1 (exEnv exFrameMp 7) 3 rcvEle iterMD 0
      (exCallerCounted 0 r 1)).2.pMDSndQueue = _
    rw [(mdDispatchReply_snd _ _ _ _ _ _ _ _).1, e2, hs, hf, hty]
    simp [mdSenderAfterReply, exCallerCounted, TRDP_MSG_MP, TRDP_MSG_MQ]
  · rw [he, hd]
    rfl
  · unfold mdArmedFor at p2 ⊢
    rw [mdDispatchReply_u _ _ _ _ _ _ _ _ hmq, mdDispatchReply_state, if_neg hmq]
    exact p2

theorem ex_wrap_run : ∀ (n : Nat) (s : TRDP_SESSION) (r : Nat) (a b : MD_ELE_T),
    r < UINT32_MOD → s.pMDSndQueue = [exCallerCounted 0 r 1] → s.pMDRcvQueue = [a, b] →
    ¬ mdArmedFor (exEnv exFrameMp 7) a → mdArmedFor (exEnv exFrameMp 7) b →
    (mdReceiveAll exParams 3 s (List.replicate n (exEnv exFrameMp 7))).pMDSndQueue =
      [exCallerCounted 0 ((r + n) % UINT32_MOD) 1] := by
  intro n
  induction n with
  | zero =>
    intro s r a b hlt hs _ _ _
    rw [List.replicate_zero, mdReceiveAll, hs, Nat.add_zero, Nat.mod_eq_of_lt hlt]
  | succ n ih =>
    intro s r a b hlt hs hr ha hb
    obtain ⟨b2, h1, h2, h3⟩ := ex_wrap_step s r a b hs hr ha hb
    rw [List.replicate_succ, mdReceiveAll]
    have hi : inc32 r < UINT32_MOD := Nat.mod_lt _ (by decide)
    rw [ih _ (inc32 r) a b2 hi h1 h2 ha h3]
    have : (inc32 r + n) % UINT32_MOD = (r + (n + 1)) % UINT32_MOD := by
      unfold inc32 UINT32_MOD
      omega
    rw [this]

/-- Counterexample to C8 as stated.  A caller session with an unknown number of
repliers (`noOfRepliers = 0`) starts with all counters 0; one reply query `Mq` and then
`2 ^ 32 - 1` replies `Mp` are accepted.  The `UINT32` counter `numReplies` has wrapped to 0
while `numRepliesQuery` is 1, so `numRepliesQuery <= numReplies` does not hold. -/
theorem mdReceive_counter_wrap_counterexample :
    (mdReceiveAll exParams 3 (exSession 0 [exListener, exListener] [exCaller 0])
      (exEnv exFrameMq 7 :: List.replicate 4294967295 (exEnv exFrameMp 7))).pMDSndQueue.map
        (fun e => (e.numReplies, e.numRepliesQuery)) = [(0, 1)] := by
  have h1 : (trdp_mdReceive exParams (exSession 0 [exListener, exListener] [exCaller 0])
      (exEnv exFrameMq 7) 3).2.pMDSndQueue = [exCallerCounted 0 1 1] := by decide!
  have h2 : (trdp_mdReceive exParams (exSession 0 [exListener, exListener] [exCaller 0])
      (exEnv exFrameMq 7) 3).2.pMDRcvQueue =
      [(trdp_mdReceive exParams (exSession 0 [exListener, exListener] [exCaller 0])
        (exEnv exFrameMq 7) 3).2.pMDRcvQueue.headD exListener, exListener] := by decide!
  have h3 : ¬ mdArmedFor (exEnv exFrameMp 7)
      ((trdp_mdReceive exParams (exSession 0 [exListener, exListener] [exCaller 0])
        (exEnv exFrameMq 7) 3).2.pMDRcvQueue.headD exListener) := by decide!
  have h4 : mdArmedFor (exEnv exFrameMp 7) exListener := by decide!
  rw [mdReceiveAll, ex_wrap_run 4294967295 _ 1 _ _ (by decide) h1 h2 h3 h4]
  decide

/-- C8 (amended). Multi-replier accounting.  Take the caller sessions with a given comId
and session id, and let them start with `numReplies = 0`, `numRepliesQuery = 0` and
`disableReplyRx = 0`.  After any sequence of frames processed by `trdp_mdReceive`: if
`noOfRepliers = N >= 1` then `numReplies <= N`, `disableReplyRx` is set exactly when
`numReplies = N`, and `numRepliesQuery <= numReplies`; for `noOfRepliers = 0` the inequality
`numRepliesQuery <= numReplies` holds as long as fewer than `2 ^ 32` frames have been
processed (the counters are `UINT32` and wrap).  One call changes the send queue only
by counting an accepted reply in one session whose `disableReplyRx` is 0 (`numReplies`
incremented, `numRepliesQuery` incremented only for `Mq`) or by removing a session; and
a reply that addresses a session whose `disableReplyRx` is set changes no session and
invokes no callback. -/
theorem mdReceive_reply_accounting (k : TRDP_PARAMS) (sock : Int) (s : TRDP_SESSION)
    (envs : List MD_RX_ENV) (comId : Nat) (sessionID : List Nat)
    (hfresh : ∀ e ∈ s.pMDSndQueue, e.u.comId = comId → e.sessionID = sessionID →
      e.numReplies = 0 ∧ e.numRepliesQuery = 0 ∧ e.disableReplyRx = 0 ∧
        e.noOfRepliers < UINT32_MOD) :
    (∀ e ∈ (mdReceiveAll k sock s envs).pMDSndQueue, e.u.comId = comId →
      e.sessionID = sessionID →
      (e.noOfRepliers ≥ 1 →
        e.numReplies ≤ e.noOfRepliers
        ∧ (e.disableReplyRx ≠ 0 ↔ e.numReplies = e.noOfRepliers)
        ∧ e.numRepliesQuery ≤ e.numReplies)
      ∧ (envs.length < UINT32_MOD → e.numRepliesQuery ≤ e.numReplies))
    ∧ (∀ env : MD_RX_ENV,
        (trdp_mdReceive k (mdReceiveAll k sock s envs) env sock).2.pMDSndQueue =
          (mdReceiveAll k sock s envs).pMDSndQueue
        ∨ (mdIsReply env ∧ ∃ (idx : Nat) (x y : MD_ELE_T),
            (mdReceiveAll k sock s envs).pMDSndQueue[idx]? = some x ∧ x.disableReplyRx = 0 ∧
            (trdp_mdReceive k (mdReceiveAll k sock s envs) env sock).2.pMDSndQueue =
              (mdReceiveAll k sock s envs).pMDSndQueue.set idx y ∧
            y.numReplies = inc32 x.numReplies ∧
            y.numRepliesQuery =
              (if vos_ntohs env.rcvFrame OFF_msgType = TRDP_MSG_MQ
               then inc32 x.numRepliesQuery else x.numRepliesQuery))
        ∨ (∃ idx : Nat,
            (trdp_mdReceive k (mdReceiveAll k sock s envs) env sock).2.pMDSndQueue =
              (mdReceiveAll k sock s envs).pMDSndQueue.eraseIdx idx))
    ∧ (∀ (env : MD_RX_ENV) (idx : Nat) (sender_ele : MD_ELE_T), mdIsReply env →
        mdAddressed (mdReceiveAll k sock s envs) env = some (idx, sender_ele) →
        sender_ele.disableReplyRx ≠ 0 →
        (trdp_mdReceive k (mdReceiveAll k sock s envs) env sock).2.pMDSndQueue =
          (mdReceiveAll k sock s envs).pMDSndQueue
        ∧ (trdp_mdReceive k (mdReceiveAll k sock s envs) env sock).2.callbacks =
          (mdReceiveAll k sock s envs).callbacks) := by
  refine ⟨?_, ?_, ?_⟩
  · intro e he hc hs
    have h0 : ∀ e ∈ s.pMDSndQueue, e.u.comId = comId → e.sessionID = sessionID →
        mdReplyAccounting 0 e := by
      intro x hx hxc hxs
      obtain ⟨a1, a2, a3, a4⟩ := hfresh x hx hxc hxs
      unfold mdReplyAccounting
      rw [a1, a2, a3]
      refine ⟨fun hN => ⟨by omega, ⟨fun h => absurd rfl h, fun h => by omega⟩, by omega⟩,
        fun _ _ => ⟨by omega, by omega⟩, a4⟩
    have := mdReplyAccounting_receiveAll k sock comId sessionID envs 0 s h0 e he hc hs
    rw [Nat.zero_add] at this
    unfold mdReplyAccounting at this
    obtain ⟨b1, b2, b3⟩ := this
    refine ⟨b1, fun hl => ?_⟩
    rcases Nat.eq_zero_or_pos e.noOfRepliers with hz | hp
    · exact (b2 hz hl).1
    · exact (b1 hp).2.2
  · intro env
    rcases trdp_mdReceive_snd_cases k (mdReceiveAll k sock s envs) env sock with
      hq | ⟨hr, idx, x, h1, _, h3, hq⟩ | ⟨_, idx, x, _, _, hq⟩
    · left; exact hq
    · right; left
      refine ⟨hr, idx, x, mdSenderAfterReply (vos_ntohs env.rcvFrame OFF_msgType) x, ?_, h3, hq,
        mdSenderAfterReply_numReplies _ _, mdSenderAfterReply_numRepliesQuery _ _⟩
      have := (mdFindSender_spec _ _ _ _ _ h1).1
      rw [List.get?_eq_getElem?] at this
      exact this
    · right; right; exact ⟨idx, hq⟩
  · intro env idx sender_ele hreply hadr hdis
    obtain ⟨_, h2, h3⟩ := trdp_mdReceive_disabled k (mdReceiveAll k sock s envs) env sock idx
      sender_ele hreply hadr hdis
    exact ⟨h2, h3⟩

/-- Witness for C8 (amended): a caller session that expects two repliers, after two
accepted replies `Mp`. -/
theorem mdReceive_reply_accounting_witness :
    ({ exCallerCounted 2 2 0 with disableReplyRx := 1 } : MD_ELE_T).numReplies
        ≤ ({ exCallerCounted 2 2 0 with disableReplyRx := 1 } : MD_ELE_T).noOfRepliers
      ∧ (({ exCallerCounted 2 2 0 with disableReplyRx := 1 } : MD_ELE_T).disableReplyRx ≠ 0 ↔
          ({ exCallerCounted 2 2 0 with disableReplyRx := 1 } : MD_ELE_T).numReplies
            = ({ exCallerCounted 2 2 0 with disableReplyRx := 1 } : MD_ELE_T).noOfRepliers)
      ∧ ({ exCallerCounted 2 2 0 with disableReplyRx := 1 } : MD_ELE_T).numRepliesQuery
        ≤ ({ exCallerCounted 2 2 0 with disableReplyRx := 1 } : MD_ELE_T).numReplies :=
  ((mdReceive_reply_accounting exParams 3 (exSession 0 [exListener] [exCaller 2])
    [exEnv exFrameMp 7, exEnv exFrameMp 9] 1 (List.replicate 16 0) (by decide)).1
    { exCallerCounted 2 2 0 with disableReplyRx := 1 } (by decide!) (by decide) (by decide)).1
    (by decide)

/-! ## Time values of the process data interface -/

theorem addTime_eq (t a : TRDP_TIME_T) : addTime t a = timeradd t a := rfl

theorem subTime_eq (t b : TRDP_TIME_T) : subTime t b = timersub t b := rfl

theorem timeUsec_timeradd (a b : TRDP_TIME_T) :
    timeUsec (timeradd a b) = timeUsec a + timeUsec b := by
  unfold timeradd timeUsec
  simp only []
  split_ifs <;> simp only [] <;> ring

theorem timeUsec_timersub (a b : TRDP_TIME_T) :
    timeUsec (timersub a b) = timeUsec a - timeUsec b := by
  unfold timersub timeUsec
  simp only []
  split_ifs <;> simp only [] <;> ring

theorem timeNormal_timeradd (a b : TRDP_TIME_T) (ha : timeNormal a) (hb : timeNormal b) :
    timeNormal (timeradd a b) := by
  unfold timeNormal at *
  unfold timeradd
  simp only []
  split_ifs <;> simp only [] <;> omega

theorem timeNormal_timersub (a b : TRDP_TIME_T) (ha : timeNormal a) (hb : timeNormal b) :
    timeNormal (timersub a b) := by
  unfold timeNormal at *
  unfold timersub
  simp only []
  split_ifs <;> simp only [] <;> omega

theorem timercmp_le_iff (a b : TRDP_TIME_T) (ha : timeNormal a) (hb : timeNormal b) :
    timercmp_le a b = true ↔ timeUsec a ≤ timeUsec b := by
  unfold timeNormal at *
  unfold timercmp_le timeUsec
  split_ifs with h
  · rw [h]; simp
  · simp only [decide_eq_true_eq]
    constructor <;> intro h2 <;> omega

theorem timercmp_gt_eq (a b : TRDP_TIME_T) : timercmp_gt a b = !timercmp_le a b := by
  unfold timercmp_gt timercmp_le
  split_ifs
  · by_cases h : a.tv_usec ≤ b.tv_usec
    · simp [h, not_lt.mpr h]
    · simp [h, not_le.mp h]
  · by_cases h : a.tv_sec ≤ b.tv_sec
    · simp [h, not_lt.mpr h]
    · simp [h, not_le.mp h]

theorem timercmp_le_antisymm (a b : TRDP_TIME_T) (h1 : timercmp_le a b = true)
    (h2 : timercmp_le b a = true) : a = b := by
  unfold timercmp_le at h1 h2
  cases a with
  | mk as au =>
    cases b with
    | mk bs bu =>
      simp only at h1 h2
      by_cases h : as = bs
      · subst h
        simp only [if_true, decide_eq_true_eq] at h1 h2
        have : au = bu := le_antisymm h1 h2
        rw [this]
      · have h' : ¬ bs = as := fun e => h e.symm
        simp only [h, h', if_false, decide_eq_true_eq] at h1 h2
        exact absurd (le_antisymm h1 h2) h

theorem timercmp_le_refl (a : TRDP_TIME_T) : timercmp_le a a = true := by
  unfold timercmp_le
  simp

/-! ## Queues of the process data interface: lookup, publish, subscribe -/

theorem find_none_iff (q : List PD_ELE_T) (a : TRDP_ADDRESSES) :
    trdp_queue_find_addr q a = none ↔ addrKey a ∉ queueKeys q := by
  induction q with
  | nil => simp [trdp_queue_find_addr, queueKeys]
  | cons e rest ih =>
    unfold queueKeys at ih ⊢
    simp only [trdp_queue_find_addr, List.map_cons, List.mem_cons, not_or]
    by_cases h : addrKey e.addr = addrKey a
    · simp [h]
    · have h2 : ¬ addrKey a = addrKey e.addr := fun x => h x.symm
      simp only [h, if_false, Option.map_eq_none', ih, h2, not_false_eq_true, true_and]

theorem find_some (q : List PD_ELE_T) (a : TRDP_ADDRESSES) (i : Nat)
    (h : trdp_queue_find_addr q a = some i) :
    ∃ e, q[i]? = some e ∧ addrKey e.addr = addrKey a := by
  induction q generalizing i with
  | nil => simp [trdp_queue_find_addr] at h
  | cons e rest ih =>
    simp only [trdp_queue_find_addr] at h
    split_ifs at h with hk
    · simp only [Option.some.injEq] at h
      subst h
      exact ⟨e, by simp, hk⟩
    · cases hf : trdp_queue_find_addr rest a with
      | none => simp [hf] at h
      | some j =>
        simp only [hf, Option.map_some', Option.some.injEq] at h
        subst h
        obtain ⟨e2, h1, h2⟩ := ih j hf
        exact ⟨e2, by simpa using h1, h2⟩

theorem find_head (q : List PD_ELE_T) (e : PD_ELE_T) (a : TRDP_ADDRESSES)
    (h : addrKey e.addr = addrKey a) : trdp_queue_find_addr (e :: q) a = some 0 := by
  simp [trdp_queue_find_addr, h]

theorem find_isSome_of_mem (q : List PD_ELE_T) (a : TRDP_ADDRESSES)
    (h : addrKey a ∈ queueKeys q) : ∃ i, trdp_queue_find_addr q a = some i := by
  cases hf : trdp_queue_find_addr q a with
  | none => exact absurd h ((find_none_iff q a).mp hf)
  | some i => exact ⟨i, rfl⟩

theorem queueKeys_set (q : List PD_ELE_T) (i : Nat) (e e2 : PD_ELE_T) (hq : q[i]? = some e)
    (ha : e2.addr = e.addr) : queueKeys (q.set i e2) = queueKeys q := by
  unfold queueKeys
  rw [List.map_set]
  apply List.ext_getElem?
  intro j
  by_cases hj : i = j
  · subst hj
    have hlt : i < q.length := by
      rcases Nat.lt_or_ge i q.length with h | h
      · exact h
      · rw [List.getElem?_eq_none h] at hq; simp at hq
    rw [List.getElem?_set_self (by simpa using hlt)]
    rw [List.getElem?_map, hq, ha]
    rfl
  · rw [List.getElem?_set_ne hj]

/-- The shape of the result of `tlp_put`: the receive queue is kept, and the send queue
is kept or one element, found by its address, gets a new header and payload. -/
theorem tlp_put_shape (c : PD_COM) (env : PD_ENV) (l : List Nat) (h : Nat)
    (s : TRDP_SESSION_T) (pubHandle : TRDP_PUB_T) (pData : Option (List Nat)) (dataSize : Nat) :
    (tlp_put c env l h s pubHandle pData dataSize).2.pRcvQueue = s.pRcvQueue ∧
    ((tlp_put c env l h s pubHandle pData dataSize).2.pSndQueue = s.pSndQueue ∨
      ∃ addr i e hd dt, pubHandle = some addr ∧ trdp_queue_find_addr s.pSndQueue addr = some i ∧
        s.pSndQueue[i]? = some e ∧
        (tlp_put c env l h s pubHandle pData dataSize).2.pSndQueue =
          s.pSndQueue.set i { e with frameHead := hd, data := dt }) := by
  unfold tlp_put
  cases pubHandle with
  | none => exact ⟨rfl, Or.inl rfl⟩
  | some addr =>
    cases pData with
    | none => exact ⟨rfl, Or.inl rfl⟩
    | some data =>
      simp only []
      split_ifs
      · exact ⟨rfl, Or.inl rfl⟩
      · exact ⟨rfl, Or.inl rfl⟩
      · exact ⟨rfl, Or.inl rfl⟩
      · have hq : (vos_mutexLock s).pSndQueue = s.pSndQueue := rfl
        rw [hq]
        cases hf : trdp_queue_find_addr s.pSndQueue addr with
        | none => exact ⟨rfl, Or.inl rfl⟩
        | some i =>
          simp only []
          cases he : s.pSndQueue[i]? with
          | none => exact ⟨rfl, Or.inl rfl⟩
          | some e =>
            simp only []
            exact ⟨rfl, Or.inr ⟨addr, i, e, _, _, rfl, hf, he, rfl⟩⟩

theorem tlp_put_keys (c : PD_COM) (env : PD_ENV) (l : List Nat) (h : Nat)
    (s : TRDP_SESSION_T) (pubHandle : TRDP_PUB_T) (pData : Option (List Nat)) (dataSize : Nat) :
    queueKeys (tlp_put c env l h s pubHandle pData dataSize).2.pSndQueue =
      queueKeys s.pSndQueue := by
  rcases (tlp_put_shape c env l h s pubHandle pData dataSize).2 with hq | ⟨_, i, e, _, _, _, _, he, hq⟩
  · rw [hq]
  · rw [hq]
    exact queueKeys_set _ _ e _ he rfl

/-- The results of the block `Look for existing element` of `tlp_publish`. -/
theorem publishNew_cases (c : PD_COM) (env : PD_ENV) (s : TRDP_SESSION_T)
    (a : TRDP_ADDRESSES) (dataSize : Nat) :
    ((publishNew c env s a dataSize).1 ≠ TRDP_NO_ERR ∧
      ((∃ i, trdp_queue_find_addr s.pSndQueue a = some i) →
        (publishNew c env s a dataSize).1 = TRDP_NOPUB_ERR)) ∨
    (trdp_queue_find_addr s.pSndQueue a = none ∧ env.sockErr = TRDP_NO_ERR ∧
      ∃ blk, env.alloc = some blk ∧
        publishNew c env s a dataSize =
          (TRDP_NO_ERR, some { blk with dataSize := dataSize,
                                        grossSize := c.trdp_packetSizePD dataSize,
                                        socketIdx := env.sockIdx }, env.sockIface)) := by
  cases hf : trdp_queue_find_addr s.pSndQueue a with
  | some i =>
    left
    have e1 : publishNew c env s a dataSize = (TRDP_NOPUB_ERR, none, s.iface) := by
      unfold publishNew
      simp only [hf]
    rw [e1]
    exact ⟨by simp, fun _ => rfl⟩
  | none =>
    cases ha : env.alloc with
    | none =>
      left
      have e1 : publishNew c env s a dataSize = (TRDP_MEM_ERR, none, s.iface) := by
        unfold publishNew
        simp only [hf, ha]
      rw [e1]
      exact ⟨by simp, fun ⟨i, hi⟩ => by simp at hi⟩
    | some blk =>
      by_cases hs : env.sockErr = TRDP_NO_ERR
      · right
        refine ⟨rfl, hs, blk, rfl, ?_⟩
        unfold publishNew
        simp only [hf, ha, hs, ne_eq, not_true_eq_false, if_false]
      · left
        have e1 : publishNew c env s a dataSize = (env.sockErr, none, env.sockIface) := by
          unfold publishNew
          simp only [hf, ha, hs, ne_eq, not_false_eq_true, if_true]
        rw [e1]
        exact ⟨hs, fun ⟨i, hi⟩ => by simp at hi⟩

/-- The shape of the result of the block of `tlp_publish` that inserts the element. -/
theorem publishInsert_shape (k : PD_PARAMS) (c : PD_COM) (env envPut : PD_ENV) (l : List Nat)
    (h : Nat) (s : TRDP_SESSION_T) (pNew : PD_ELE_T) (a : TRDP_ADDRESSES)
    (topoCount interval pktFlags : Nat) (pData : Option (List Nat)) (dataSize : Nat) :
    (publishInsert k c env envPut l h s pNew a topoCount interval pktFlags pData
      dataSize).2.1.pRcvQueue = s.pRcvQueue ∧
    ∃ e, (publishInsert k c env envPut l h s pNew a topoCount interval pktFlags pData
        dataSize).2.1.pSndQueue = e :: s.pSndQueue ∧
      e.addr = a ∧
      e.interval = ⟨((interval / 1000000 : Nat) : Int), ((interval % 1000000 : Nat) : Int)⟩ ∧
      e.timeToGo = timeradd (env.clock 0) e.interval ∧
      (publishInsert k c env envPut l h s pNew a topoCount interval pktFlags pData
        dataSize).2.2 = some e.addr := by
  unfold publishInsert
  simp only []
  constructor
  · exact (tlp_put_shape c envPut l h _ _ pData dataSize).1
  · rcases (tlp_put_shape c envPut l h _ _ pData dataSize).2 with
      hq | ⟨addr, i, e, hd, dt, ha, hf, he, hq⟩
    · exact ⟨_, hq, rfl, rfl, rfl, rfl⟩
    · simp only [Option.some.injEq] at ha
      subst ha
      have h0 : trdp_queue_find_addr
          (publishElement k c env pNew a topoCount interval pktFlags :: s.pSndQueue)
          (publishElement k c env pNew a topoCount interval pktFlags).addr = some 0 :=
        find_head _ _ _ rfl
      have h1 : some i = some 0 := hf.symm.trans h0
      have h2 : i = 0 := Option.some.inj h1
      subst h2
      simp only [trdp_queue_ins_first, List.getElem?_cons_zero, Option.some.injEq] at he
      subst he
      exact ⟨_, hq, rfl, rfl, rfl, rfl⟩

theorem tlp_publish_of_checks_some (k : PD_PARAMS) (c : PD_COM) (env envPut : PD_ENV)
    (l : List Nat) (h : Nat) (s : TRDP_SESSION_T) (pPubHandle : Bool)
    (comId topoCount srcIpAddr destIpAddr interval pktFlags : Nat)
    (pData : Option (List Nat)) (dataSize : Nat) (err : TRDP_ERR_T)
    (hc : publishChecks k env l h pPubHandle comId interval pData dataSize = some err) :
    tlp_publish k c env envPut l h s pPubHandle comId topoCount srcIpAddr destIpAddr
      interval pktFlags pData dataSize = (err, s, none) ∧ err ≠ TRDP_NO_ERR := by
  constructor
  · unfold tlp_publish
    rw [hc]
  · unfold publishChecks at hc
    split_ifs at hc <;> simp only [Option.some.injEq] at hc <;> rw [← hc] <;> simp

theorem tlp_publish_of_checks_none (k : PD_PARAMS) (c : PD_COM) (env envPut : PD_ENV)
    (l : List Nat) (h : Nat) (s : TRDP_SESSION_T) (pPubHandle : Bool)
    (comId topoCount srcIpAddr destIpAddr interval pktFlags : Nat)
    (pData : Option (List Nat)) (dataSize : Nat)
    (hc : publishChecks k env l h pPubHandle comId interval pData dataSize = none) :
    tlp_publish k c env envPut l h s pPubHandle comId topoCount srcIpAddr destIpAddr
      interval pktFlags pData dataSize =
    publishLocked k c env envPut l h (vos_mutexLock s) ⟨comId, srcIpAddr, destIpAddr, 0⟩
      topoCount interval pktFlags pData dataSize := by
  unfold tlp_publish
  rw [hc]

/-- The shape of the result of the part of `tlp_publish` under the session mutex. -/
theorem publishLocked_shape (k : PD_PARAMS) (c : PD_COM) (env envPut : PD_ENV) (l : List Nat)
    (h : Nat) (s : TRDP_SESSION_T) (a : TRDP_ADDRESSES)
    (topoCount interval pktFlags : Nat) (pData : Option (List Nat)) (dataSize : Nat) :
    (publishLocked k c env envPut l h s a topoCount interval pktFlags pData
      dataSize).2.1.pRcvQueue = s.pRcvQueue ∧
    (((publishLocked k c env envPut l h s a topoCount interval pktFlags pData
        dataSize).1 ≠ TRDP_NO_ERR ∧
      (publishLocked k c env envPut l h s a topoCount interval pktFlags pData
        dataSize).2.1.pSndQueue = s.pSndQueue ∧
      (publishLocked k c env envPut l h s a topoCount interval pktFlags pData
        dataSize).2.2 = none ∧
      ((∃ i, trdp_queue_find_addr s.pSndQueue a = some i) →
        (publishLocked k c env envPut l h s a topoCount interval pktFlags pData
          dataSize).1 = TRDP_NOPUB_ERR)) ∨
      (trdp_queue_find_addr s.pSndQueue a = none ∧
        env.sockErr = TRDP_NO_ERR ∧ env.alloc.isSome = true ∧
        ∃ e, (publishLocked k c env envPut l h s a topoCount interval pktFlags pData
            dataSize).2.1.pSndQueue = e :: s.pSndQueue ∧
          e.addr = a ∧
          e.interval = ⟨((interval / 1000000 : Nat) : Int), ((interval % 1000000 : Nat) : Int)⟩ ∧
          e.timeToGo = timeradd (env.clock 0) e.interval ∧
          (publishLocked k c env envPut l h s a topoCount interval pktFlags pData
            dataSize).2.2 = some e.addr)) := by
  unfold publishLocked
  rcases publishNew_cases c env s a dataSize with ⟨h1, h3⟩ | ⟨h1, h2, blk, h3, h4⟩
  · rw [if_neg h1]
    exact ⟨rfl, Or.inl ⟨h1, rfl, rfl, fun hi => h3 hi⟩⟩
  · rw [h4]
    simp only [if_true]
    obtain ⟨hp1, e, hp2, hp3, hp4, hp5, hp6⟩ := publishInsert_shape k c env envPut l h
      { s with iface := env.sockIface }
      { blk with dataSize := dataSize, grossSize := c.trdp_packetSizePD dataSize,
                 socketIdx := env.sockIdx }
      a topoCount interval pktFlags pData dataSize
    exact ⟨hp1, Or.inr ⟨h1, h2, by simp [h3], e, hp2, hp3, hp4, hp5, hp6⟩⟩

/-- The shape of the result of `tlp_publish`: the receive queue is kept; either the
call fails and the send queue is kept, or the new element is the head of the send
queue, with the address, interval and deadline of the call, and the handle points to
its address. -/
theorem tlp_publish_shape (k : PD_PARAMS) (c : PD_COM) (env envPut : PD_ENV) (l : List Nat)
    (h : Nat) (s : TRDP_SESSION_T) (pPubHandle : Bool)
    (comId topoCount srcIpAddr destIpAddr interval pktFlags : Nat)
    (pData : Option (List Nat)) (dataSize : Nat)
    (r : TRDP_ERR_T × TRDP_SESSION_T × TRDP_PUB_T)
    (hr : tlp_publish k c env envPut l h s pPubHandle comId topoCount srcIpAddr destIpAddr
      interval pktFlags pData dataSize = r) :
    r.2.1.pRcvQueue = s.pRcvQueue ∧
    ((r.1 ≠ TRDP_NO_ERR ∧ r.2.1.pSndQueue = s.pSndQueue ∧ r.2.2 = none ∧
        (publishChecks k env l h pPubHandle comId interval pData dataSize = none →
          (∃ i, trdp_queue_find_addr s.pSndQueue ⟨comId, srcIpAddr, destIpAddr, 0⟩ = some i) →
          r.1 = TRDP_NOPUB_ERR)) ∨
      (publishChecks k env l h pPubHandle comId interval pData dataSize = none ∧
        trdp_queue_find_addr s.pSndQueue ⟨comId, srcIpAddr, destIpAddr, 0⟩ = none ∧
        env.sockErr = TRDP_NO_ERR ∧ env.alloc.isSome = true ∧
        ∃ e, r.2.1.pSndQueue = e :: s.pSndQueue ∧
          e.addr = ⟨comId, srcIpAddr, destIpAddr, 0⟩ ∧
          e.interval = ⟨((interval / 1000000 : Nat) : Int), ((interval % 1000000 : Nat) : Int)⟩ ∧
          e.timeToGo = timeradd (env.clock 0) e.interval ∧
          r.2.2 = some e.addr)) := by
  subst hr
  cases hc : publishChecks k env l h pPubHandle comId interval pData dataSize with
  | some err =>
    obtain ⟨h1, h2⟩ := tlp_publish_of_checks_some k c env envPut l h s pPubHandle comId topoCount
      srcIpAddr destIpAddr interval pktFlags pData dataSize err hc
    rw [h1]
    exact ⟨rfl, Or.inl ⟨h2, rfl, rfl, fun hx => by simp at hx⟩⟩
  | none =>
    rw [tlp_publish_of_checks_none k c env envPut l h s pPubHandle comId topoCount
      srcIpAddr destIpAddr interval pktFlags pData dataSize hc]
    obtain ⟨h1, h2⟩ := publishLocked_shape k c env envPut l h (vos_mutexLock s)
      ⟨comId, srcIpAddr, destIpAddr, 0⟩ topoCount interval pktFlags pData dataSize
    refine ⟨h1, ?_⟩
    rcases h2 with ⟨h3, h4, h5, h6⟩ | ⟨h3, h4, h5, e, h6⟩
    · exact Or.inl ⟨h3, h4, h5, fun _ hi => h6 hi⟩
    · exact Or.inr ⟨rfl, h3, h4, h5, e, h6⟩

theorem subscribeElement_addr (k : PD_PARAMS) (env : PD_ENV) (newPD : PD_ELE_T) (pUserRef : Nat)
    (comId srcIpAddr1 destIpAddr timeout maxDataSize : Nat) (index : Int) :
    addrKey (subscribeElement k env newPD pUserRef comId srcIpAddr1 destIpAddr timeout
      maxDataSize index).1.addr = (comId, srcIpAddr1, destIpAddr) := by
  unfold subscribeElement
  simp only []
  split_ifs <;> rfl

/-- The shape of the result of the part of `tlp_subscribe` under the session mutex. -/
theorem subscribeLocked_shape (k : PD_PARAMS) (env : PD_ENV) (s : TRDP_SESSION_T)
    (pUserRef comId srcIpAddr1 destIpAddr timeout maxDataSize : Nat) :
    (subscribeLocked k env s pUserRef comId srcIpAddr1 destIpAddr timeout
      maxDataSize).2.1.pSndQueue = s.pSndQueue ∧
    (((subscribeLocked k env s pUserRef comId srcIpAddr1 destIpAddr timeout
        maxDataSize).1 ≠ TRDP_NO_ERR ∧
      (subscribeLocked k env s pUserRef comId srcIpAddr1 destIpAddr timeout
        maxDataSize).2.1.pRcvQueue = s.pRcvQueue ∧
      (subscribeLocked k env s pUserRef comId srcIpAddr1 destIpAddr timeout
        maxDataSize).2.2 = none ∧
      ((∃ i, trdp_queue_find_addr s.pRcvQueue ⟨comId, srcIpAddr1, destIpAddr, 0⟩ = some i) →
        (subscribeLocked k env s pUserRef comId srcIpAddr1 destIpAddr timeout
          maxDataSize).1 = TRDP_NOSUB_ERR)) ∨
      (trdp_queue_find_addr s.pRcvQueue ⟨comId, srcIpAddr1, destIpAddr, 0⟩ = none ∧
        (subscribeLocked k env s pUserRef comId srcIpAddr1 destIpAddr timeout
          maxDataSize).1 = TRDP_NO_ERR ∧
        ∃ e, (subscribeLocked k env s pUserRef comId srcIpAddr1 destIpAddr timeout
            maxDataSize).2.1.pRcvQueue = s.pRcvQueue ++ [e] ∧
          addrKey e.addr = (comId, srcIpAddr1, destIpAddr) ∧
          (subscribeLocked k env s pUserRef comId srcIpAddr1 destIpAddr timeout
            maxDataSize).2.2 = some e.addr)) := by
  cases hf : trdp_queue_find_addr s.pRcvQueue ⟨comId, srcIpAddr1, destIpAddr, 0⟩ with
  | some i =>
    have e1 : subscribeLocked k env s pUserRef comId srcIpAddr1 destIpAddr timeout maxDataSize =
        (TRDP_NOSUB_ERR, vos_mutexUnlock s, none) := by
      unfold subscribeLocked
      simp only [hf]
    rw [e1]
    exact ⟨rfl, Or.inl ⟨by simp, rfl, rfl, fun _ => rfl⟩⟩
  | none =>
    by_cases hs : env.sockErr = TRDP_NO_ERR
    · cases ha : env.alloc with
      | none =>
        have e1 : subscribeLocked k env s pUserRef comId srcIpAddr1 destIpAddr timeout
            maxDataSize = (TRDP_MEM_ERR, vos_mutexUnlock { s with iface := env.sockIface }, none) := by
          unfold subscribeLocked
          simp only [hf, ha, hs, ne_eq, not_true_eq_false, if_false]
        rw [e1]
        exact ⟨rfl, Or.inl ⟨by simp, rfl, rfl, fun ⟨i, hi⟩ => by simp at hi⟩⟩
      | some newPD =>
        have e1 : subscribeLocked k env s pUserRef comId srcIpAddr1 destIpAddr timeout
            maxDataSize =
            (TRDP_NO_ERR,
             vos_mutexUnlock
              (if (subscribeElement k env newPD pUserRef comId srcIpAddr1 destIpAddr timeout
                    maxDataSize env.sockIdx).2 = true then
                { s with iface := env.sockIface,
                         pRcvQueue := trdp_queue_app_last s.pRcvQueue
                           (subscribeElement k env newPD pUserRef comId srcIpAddr1 destIpAddr
                             timeout maxDataSize env.sockIdx).1,
                         joined := s.joined ++
                           [{ sock := ifaceSock env.sockIface env.sockIdx,
                              mcGroup := (subscribeElement k env newPD pUserRef comId srcIpAddr1
                                destIpAddr timeout maxDataSize env.sockIdx).1.addr.mcGroup }] }
              else
                { s with iface := env.sockIface,
                         pRcvQueue := trdp_queue_app_last s.pRcvQueue
                           (subscribeElement k env newPD pUserRef comId srcIpAddr1 destIpAddr
                             timeout maxDataSize env.sockIdx).1 }),
             some (subscribeElement k env newPD pUserRef comId srcIpAddr1 destIpAddr timeout
                    maxDataSize env.sockIdx).1.addr) := by
          unfold subscribeLocked
          simp only [hf, ha, hs, ne_eq, not_true_eq_false, if_false]
        rw [e1]
        refine ⟨?_, Or.inr ⟨rfl, rfl, _, ?_, subscribeElement_addr k env newPD pUserRef comId
          srcIpAddr1 destIpAddr timeout maxDataSize env.sockIdx, rfl⟩⟩
        · simp only []
          split_ifs <;> rfl
        · simp only []
          split_ifs <;> rfl
    · have e1 : subscribeLocked k env s pUserRef comId srcIpAddr1 destIpAddr timeout
          maxDataSize = (env.sockErr, vos_mutexUnlock { s with iface := env.sockIface }, none) := by
        unfold subscribeLocked
        simp only [hf, hs, ne_eq, not_false_eq_true, if_true]
      rw [e1]
      exact ⟨rfl, Or.inl ⟨hs, rfl, rfl, fun ⟨i, hi⟩ => by simp at hi⟩⟩

/-- The shape of the result of `tlp_subscribe`: the send queue is kept; either the call
fails and the receive queue is kept, or the new element is appended to the receive
queue and the handle points to its address. A call that passes the checks of the
arguments and of the session for an address that is in the receive queue returns
`TRDP_NOSUB_ERR`. -/
theorem tlp_subscribe_shape (k : PD_PARAMS) (env : PD_ENV) (l : List Nat) (h : Nat)
    (s : TRDP_SESSION_T) (pSubHandle : Bool) (pUserRef : Nat)
    (comId srcIpAddr1 destIpAddr timeout maxDataSize : Nat)
    (r : TRDP_ERR_T × TRDP_SESSION_T × TRDP_SUB_T)
    (hr : tlp_subscribe k env l h s pSubHandle pUserRef comId srcIpAddr1 destIpAddr timeout
      maxDataSize = r) :
    r.2.1.pSndQueue = s.pSndQueue ∧
    ((r.1 ≠ TRDP_NO_ERR ∧ r.2.1.pRcvQueue = s.pRcvQueue ∧ r.2.2 = none ∧
        (comId ≠ 0 → pSubHandle = true → trdp_isValidSession env.sessionLockOk l h = true →
          env.lockOk = true → maxDataSize ≤ k.MAX_PD_PACKET_SIZE →
          k.TIMER_GRANULARITY ≤ timeout →
          (∃ i, trdp_queue_find_addr s.pRcvQueue ⟨comId, srcIpAddr1, destIpAddr, 0⟩ = some i) →
          r.1 = TRDP_NOSUB_ERR)) ∨
      (trdp_queue_find_addr s.pRcvQueue ⟨comId, srcIpAddr1, destIpAddr, 0⟩ = none ∧
        r.1 = TRDP_NO_ERR ∧
        ∃ e, r.2.1.pRcvQueue = s.pRcvQueue ++ [e] ∧
          addrKey e.addr = (comId, srcIpAddr1, destIpAddr) ∧ r.2.2 = some e.addr)) := by
  subst hr
  unfold tlp_subscribe
  by_cases h1 : (comId = 0 || !pSubHandle) = true
  · rw [if_pos h1]
    refine ⟨rfl, Or.inl ⟨by simp, rfl, rfl, ?_⟩⟩
    intro hc hp
    exfalso
    simp [hc, hp] at h1
  · rw [if_neg h1]
    by_cases h2 : (!trdp_isValidSession env.sessionLockOk l h) = true
    · rw [if_pos h2]
      refine ⟨rfl, Or.inl ⟨by simp, rfl, rfl, ?_⟩⟩
      intro _ _ hv
      exfalso
      simp [hv] at h2
    · rw [if_neg h2]
      by_cases h3 : (!env.lockOk) = true
      · rw [if_pos h3]
        refine ⟨rfl, Or.inl ⟨by simp, rfl, rfl, ?_⟩⟩
        intro _ _ _ hl
        exfalso
        simp [hl] at h3
      · rw [if_neg h3]
        simp only []
        by_cases h4 : (comId = 0 || decide (maxDataSize > k.MAX_PD_PACKET_SIZE) ||
            decide (timeout < k.TIMER_GRANULARITY)) = true
        · rw [if_pos h4]
          refine ⟨rfl, Or.inl ⟨by simp, rfl, rfl, ?_⟩⟩
          intro hc _ _ _ hm ht
          exfalso
          simp only [Bool.or_eq_true, decide_eq_true_eq] at h4
          rcases h4 with (h4 | h4) | h4
          · exact hc h4
          · omega
          · omega
        · rw [if_neg h4]
          obtain ⟨h5, h6⟩ := subscribeLocked_shape k env (vos_mutexLock s) pUserRef comId
            srcIpAddr1 destIpAddr timeout maxDataSize
          refine ⟨h5, ?_⟩
          rcases h6 with ⟨h7, h8, h9, h10⟩ | ⟨h7, h8, e, h9⟩
          · exact Or.inl ⟨h7, h8, h9, fun _ _ _ _ _ _ hi => h10 hi⟩
          · exact Or.inr ⟨h7, h8, e, h9⟩

/-- The shape of the result of `tlp_unpublish`: the receive queue is kept, and the send
queue is kept or loses one element. -/
theorem tlp_unpublish_shape (env : PD_ENV) (l : List Nat) (h : Nat) (s : TRDP_SESSION_T)
    (pubHandle : TRDP_PUB_T) :
    (tlp_unpublish env l h s pubHandle).2.1.pRcvQueue = s.pRcvQueue ∧
    ((tlp_unpublish env l h s pubHandle).2.1.pSndQueue = s.pSndQueue ∨
      ∃ i, (tlp_unpublish env l h s pubHandle).2.1.pSndQueue = s.pSndQueue.eraseIdx i) := by
  unfold tlp_unpublish
  cases pubHandle with
  | none => exact ⟨rfl, Or.inl rfl⟩
  | some addr =>
    simp only []
    split_ifs
    · exact ⟨rfl, Or.inl rfl⟩
    · exact ⟨rfl, Or.inl rfl⟩
    · cases hf : trdp_queue_find_addr (vos_mutexLock s).pSndQueue addr with
      | none => exact ⟨rfl, Or.inl rfl⟩
      | some i => exact ⟨rfl, Or.inr ⟨i, rfl⟩⟩

/-! ## C11: address uniqueness -/

theorem mem_queueKeys_iff_find (q : List PD_ELE_T) (a : TRDP_ADDRESSES) :
    addrKey a ∈ queueKeys q ↔ ∃ i, trdp_queue_find_addr q a = some i := by
  constructor
  · exact find_isSome_of_mem q a
  · rintro ⟨i, hi⟩
    by_contra hn
    rw [(find_none_iff q a).mpr hn] at hi
    simp at hi

/-- Every call of `tlp_publish`, `tlp_unpublish` or `tlp_subscribe` keeps the keys of
both queues free of duplicates. -/
theorem pdStep_unique (k : PD_PARAMS) (c : PD_COM) (l : List Nat) (h : Nat)
    (s : TRDP_SESSION_T) (op : PD_OP)
    (hs : (queueKeys s.pSndQueue).Nodup) (hr : (queueKeys s.pRcvQueue).Nodup) :
    (queueKeys (pdStep k c l h s op).pSndQueue).Nodup ∧
    (queueKeys (pdStep k c l h s op).pRcvQueue).Nodup := by
  cases op with
  | publish env envPut pPubHandle comId topoCount srcIpAddr destIpAddr interval pktFlags pData
      dataSize =>
    obtain ⟨h1, h2⟩ := tlp_publish_shape k c env envPut l h s pPubHandle comId topoCount
      srcIpAddr destIpAddr interval pktFlags pData dataSize _ rfl
    unfold pdStep
    rw [h1]
    refine ⟨?_, hr⟩
    rcases h2 with ⟨_, h3, _⟩ | ⟨_, h3, _, _, e, h4, h5, _⟩
    · rw [h3]; exact hs
    · rw [h4]
      unfold queueKeys at hs ⊢
      rw [List.map_cons, List.nodup_cons]
      refine ⟨?_, hs⟩
      rw [h5]
      exact (find_none_iff s.pSndQueue _).mp h3
  | unpublish env pubHandle =>
    obtain ⟨h1, h2⟩ := tlp_unpublish_shape env l h s pubHandle
    unfold pdStep
    rw [h1]
    refine ⟨?_, hr⟩
    rcases h2 with h3 | ⟨i, h3⟩
    · rw [h3]; exact hs
    · rw [h3]
      unfold queueKeys at hs ⊢
      exact List.Nodup.sublist ((List.eraseIdx_sublist s.pSndQueue i).map _) hs
  | subscribe env pSubHandle pUserRef comId srcIpAddr1 destIpAddr timeout maxDataSize =>
    obtain ⟨h1, h2⟩ := tlp_subscribe_shape k env l h s pSubHandle pUserRef comId srcIpAddr1
      destIpAddr timeout maxDataSize _ rfl
    unfold pdStep
    rw [h1]
    refine ⟨hs, ?_⟩
    rcases h2 with ⟨_, h3, _⟩ | ⟨h3, _, e, h4, h5, _⟩
    · rw [h3]; exact hr
    · rw [h4]
      have hn := (find_none_iff s.pRcvQueue _).mp h3
      unfold queueKeys at hr hn ⊢
      rw [List.map_append, List.nodup_append]
      refine ⟨hr, by simp, ?_⟩
      intro x hx hx2
      simp only [List.map_cons, List.map_nil, List.mem_singleton] at hx2
      rw [hx2, h5] at hx
      exact hn hx

theorem pdRun_unique (k : PD_PARAMS) (c : PD_COM) (l : List Nat) (h : Nat)
    (s : TRDP_SESSION_T) (ops : List PD_OP)
    (hs : (queueKeys s.pSndQueue).Nodup) (hr : (queueKeys s.pRcvQueue).Nodup) :
    (queueKeys (pdRun k c l h s ops).pSndQueue).Nodup ∧
    (queueKeys (pdRun k c l h s ops).pRcvQueue).Nodup := by
  induction ops generalizing s with
  | nil => exact ⟨hs, hr⟩
  | cons op rest ih =>
    obtain ⟨h1, h2⟩ := pdStep_unique k c l h s op hs hr
    exact ih _ h1 h2

/-- C11: address uniqueness. In every session state reached from a session with empty
queues by calls of `tlp_publish`, `tlp_unpublish` and `tlp_subscribe`, the keys
`(comId, srcIpAddr, destIpAddr)` of the send queue are pairwise different and so are
those of the receive queue. In such a state a `tlp_publish` that passes the checks of
its arguments and of the session for an address that is in the send queue returns
`TRDP_NOPUB_ERR`, and a `tlp_subscribe` that passes these checks for an address that is
in the receive queue returns `TRDP_NOSUB_ERR`; each leaves both queues unchanged. -/
theorem pd_address_unique (k : PD_PARAMS) (c : PD_COM) (sSession : List Nat) (appHandle : Nat)
    (s0 : TRDP_SESSION_T) (h0 : s0.pSndQueue = [] ∧ s0.pRcvQueue = []) (ops : List PD_OP) :
    (queueKeys (pdRun k c sSession appHandle s0 ops).pSndQueue).Nodup ∧
    (queueKeys (pdRun k c sSession appHandle s0 ops).pRcvQueue).Nodup ∧
    (∀ (env envPut : PD_ENV) (pPubHandle : Bool)
        (comId topoCount srcIpAddr destIpAddr interval pktFlags : Nat)
        (pData : Option (List Nat)) (dataSize : Nat),
      publishChecks k env sSession appHandle pPubHandle comId interval pData dataSize = none →
      (comId, srcIpAddr, destIpAddr) ∈
        queueKeys (pdRun k c sSession appHandle s0 ops).pSndQueue →
      (tlp_publish k c env envPut sSession appHandle (pdRun k c sSession appHandle s0 ops)
        pPubHandle comId topoCount srcIpAddr destIpAddr interval pktFlags pData
        dataSize).1 = TRDP_NOPUB_ERR ∧
      (tlp_publish k c env envPut sSession appHandle (pdRun k c sSession appHandle s0 ops)
        pPubHandle comId topoCount srcIpAddr destIpAddr interval pktFlags pData
        dataSize).2.1.pSndQueue = (pdRun k c sSession appHandle s0 ops).pSndQueue ∧
      (tlp_publish k c env envPut sSession appHandle (pdRun k c sSession appHandle s0 ops)
        pPubHandle comId topoCount srcIpAddr destIpAddr interval pktFlags pData
        dataSize).2.1.pRcvQueue = (pdRun k c sSession appHandle s0 ops).pRcvQueue) ∧
    (∀ (env : PD_ENV) (pSubHandle : Bool)
        (pUserRef comId srcIpAddr1 destIpAddr timeout maxDataSize : Nat),
      comId ≠ 0 → pSubHandle = true →
      trdp_isValidSession env.sessionLockOk sSession appHandle = true → env.lockOk = true →
      maxDataSize ≤ k.MAX_PD_PACKET_SIZE → k.TIMER_GRANULARITY ≤ timeout →
      (comId, srcIpAddr1, destIpAddr) ∈
        queueKeys (pdRun k c sSession appHandle s0 ops).pRcvQueue →
      (tlp_subscribe k env sSession appHandle (pdRun k c sSession appHandle s0 ops) pSubHandle
        pUserRef comId srcIpAddr1 destIpAddr timeout maxDataSize).1 = TRDP_NOSUB_ERR ∧
      (tlp_subscribe k env sSession appHandle (pdRun k c sSession appHandle s0 ops) pSubHandle
        pUserRef comId srcIpAddr1 destIpAddr timeout maxDataSize).2.1.pSndQueue =
        (pdRun k c sSession appHandle s0 ops).pSndQueue ∧
      (tlp_subscribe k env sSession appHandle (pdRun k c sSession appHandle s0 ops) pSubHandle
        pUserRef comId srcIpAddr1 destIpAddr timeout maxDataSize).2.1.pRcvQueue =
        (pdRun k c sSession appHandle s0 ops).pRcvQueue) := by
  have hu := pdRun_unique k c sSession appHandle s0 ops
    (by rw [h0.1]; exact List.nodup_nil) (by rw [h0.2]; exact List.nodup_nil)
  refine ⟨hu.1, hu.2, ?_, ?_⟩
  · intro env envPut pPubHandle comId topoCount srcIpAddr destIpAddr interval pktFlags pData
      dataSize hc hm
    have hf := (mem_queueKeys_iff_find _ ⟨comId, srcIpAddr, destIpAddr, 0⟩).mp hm
    obtain ⟨h1, h2⟩ := tlp_publish_shape k c env envPut sSession appHandle
      (pdRun k c sSession appHandle s0 ops) pPubHandle comId topoCount
      srcIpAddr destIpAddr interval pktFlags pData dataSize _ rfl
    rcases h2 with ⟨_, h3, _, h4⟩ | ⟨_, h3, _⟩
    · exact ⟨h4 hc hf, h3, h1⟩
    · exfalso
      obtain ⟨i, hi⟩ := hf
      rw [h3] at hi
      simp at hi
  · intro env pSubHandle pUserRef comId srcIpAddr1 destIpAddr timeout maxDataSize hc hp hv hl
      hmax ht hm
    have hf := (mem_queueKeys_iff_find _ ⟨comId, srcIpAddr1, destIpAddr, 0⟩).mp hm
    obtain ⟨h1, h2⟩ := tlp_subscribe_shape k env sSession appHandle
      (pdRun k c sSession appHandle s0 ops) pSubHandle pUserRef comId srcIpAddr1
      destIpAddr timeout maxDataSize _ rfl
    rcases h2 with ⟨_, h3, _, h4⟩ | ⟨h3, _⟩
    · exact ⟨h4 hc hp hv hl hmax ht hf, h1, h3⟩
    · exfalso
      obtain ⟨i, hi⟩ := hf
      rw [h3] at hi
      simp at hi

theorem pd_address_unique_witness :
    (exPdSession.pSndQueue = [] ∧ exPdSession.pRcvQueue = []) ∧
    queueKeys (pdRun exPdParams exPdCom exSessions 1 exPdSession exPdOps).pSndQueue =
      [(1002, 0, 9)] ∧
    queueKeys (pdRun exPdParams exPdCom exSessions 1 exPdSession exPdOps).pRcvQueue =
      [(2001, 0, 9)] ∧
    (queueKeys (pdRun exPdParams exPdCom exSessions 1 exPdSession exPdOps).pSndQueue).Nodup ∧
    (tlp_publish exPdParams exPdCom (exPdEnv 12) (exPdEnv 12) exSessions 1
      (pdRun exPdParams exPdCom exSessions 1 exPdSession exPdOps)
      true 1002 0 0 9 100000 0 (some [0]) 1).1 = TRDP_NOPUB_ERR :=
  ⟨by decide, by decide, by decide,
   (pd_address_unique exPdParams exPdCom exSessions 1 exPdSession (by decide) exPdOps).1,
   ((pd_address_unique exPdParams exPdCom exSessions 1 exPdSession (by decide) exPdOps).2.2.1
      (exPdEnv 12) (exPdEnv 12) true 1002 0 0 9 100000 0 (some [0]) 1 (by decide)
      (by decide)).1⟩

/-! ## C12: successful publish -/

theorem tlp_put_head (c : PD_COM) (env : PD_ENV) (l : List Nat) (h : Nat) (s : TRDP_SESSION_T)
    (e : PD_ELE_T) (q : List PD_ELE_T) (data : List Nat) (dataSize : Nat)
    (hq : s.pSndQueue = e :: q) (hd : dataSize ≠ 0)
    (hv : trdp_isValidSession env.sessionLockOk l h = true) (hl : env.lockOk = true) :
    (tlp_put c env l h s (some e.addr) (some data) dataSize).1 =
      (c.trdp_pdPut e s.marshall.pCbMarshall s.marshall.pRefCon data dataSize).1 := by
  have hf : trdp_queue_find_addr (vos_mutexLock s).pSndQueue e.addr = some 0 := by
    show trdp_queue_find_addr s.pSndQueue e.addr = some 0
    rw [hq]
    exact find_head _ _ _ rfl
  have he : (vos_mutexLock s).pSndQueue[0]? = some e := by
    show s.pSndQueue[0]? = some e
    rw [hq]
    simp
  unfold tlp_put
  simp only [hd, hv, hl, hf, he, if_false, Bool.not_true, Bool.false_eq_true]
  rfl

theorem publishChecks_none (k : PD_PARAMS) (env : PD_ENV) (l : List Nat) (h : Nat)
    (pPubHandle : Bool) (comId interval : Nat) (pData : Option (List Nat)) (dataSize : Nat) :
    publishChecks k env l h pPubHandle comId interval pData dataSize = none ↔
      comId ≠ 0 ∧ (pData.isSome = true → dataSize ≠ 0 ∧ k.TIMER_GRANULARITY ≤ interval) ∧
      pPubHandle = true ∧ trdp_isValidSession env.sessionLockOk l h = true ∧
      env.lockOk = true := by
  unfold publishChecks
  by_cases h1 : comId = 0
  · simp [h1]
  · rw [if_neg h1]
    by_cases h2 : (pData.isSome && (dataSize == 0 || decide (interval < k.TIMER_GRANULARITY))) = true
    · rw [if_pos h2]
      simp only [Bool.and_eq_true, Bool.or_eq_true, beq_iff_eq, decide_eq_true_eq] at h2
      constructor
      · intro hx
        simp at hx
      · intro h3
        exfalso
        have := h3.2.1 h2.1
        rcases h2.2 with h4 | h4
        · exact this.1 h4
        · omega
    · rw [if_neg h2]
      simp only [Bool.and_eq_true, Bool.or_eq_true, beq_iff_eq, decide_eq_true_eq, not_and,
        not_or, not_lt] at h2
      cases pPubHandle <;> cases hv : trdp_isValidSession env.sessionLockOk l h <;>
        cases hl : env.lockOk <;> simp [h1, h2]
      exact h2

/-- A publish call succeeds when it passes the checks, the address is not yet in the
send queue, the platform delivers memory and a socket, the nested `tlp_put` passes its
session checks and `trdp_pdPut` accepts the data. -/
theorem tlp_publish_ok (k : PD_PARAMS) (c : PD_COM) (env envPut : PD_ENV) (l : List Nat)
    (h : Nat) (s : TRDP_SESSION_T) (pPubHandle : Bool)
    (comId topoCount srcIpAddr destIpAddr interval pktFlags : Nat)
    (data : List Nat) (dataSize : Nat)
    (hc : publishChecks k env l h pPubHandle comId interval (some data) dataSize = none)
    (hf : (comId, srcIpAddr, destIpAddr) ∉ queueKeys s.pSndQueue)
    (ha : env.alloc.isSome = true) (hs : env.sockErr = TRDP_NO_ERR)
    (hv : trdp_isValidSession envPut.sessionLockOk l h = true) (hl : envPut.lockOk = true)
    (hput : ∀ e m r d n, (c.trdp_pdPut e m r d n).1 = TRDP_NO_ERR) :
    (tlp_publish k c env envPut l h s pPubHandle comId topoCount srcIpAddr destIpAddr
      interval pktFlags (some data) dataSize).1 = TRDP_NO_ERR := by
  have hd : dataSize ≠ 0 := (((publishChecks_none k env l h pPubHandle comId interval
    (some data) dataSize).mp hc).2.1 rfl).1
  rw [tlp_publish_of_checks_none k c env envPut l h s pPubHandle comId topoCount
    srcIpAddr destIpAddr interval pktFlags (some data) dataSize hc]
  have hfind : trdp_queue_find_addr (vos_mutexLock s).pSndQueue
      ⟨comId, srcIpAddr, destIpAddr, 0⟩ = none :=
    (find_none_iff s.pSndQueue ⟨comId, srcIpAddr, destIpAddr, 0⟩).mpr hf
  rcases publishNew_cases c env (vos_mutexLock s) ⟨comId, srcIpAddr, destIpAddr, 0⟩ dataSize
    with ⟨h1, _⟩ | ⟨_, _, blk, _, h4⟩
  · exfalso
    apply h1
    cases hb : env.alloc with
    | none => rw [hb] at ha; simp at ha
    | some blk =>
      unfold publishNew
      simp only [hfind, hb, hs, ne_eq, not_true_eq_false, if_false]
  · unfold publishLocked
    rw [h4]
    simp only [if_true]
    unfold publishInsert
    simp only []
    rw [tlp_put_head c envPut l h _ _ (vos_mutexLock s).pSndQueue data dataSize rfl hd hv hl]
    exact hput _ _ _ _ _

theorem timeUsec_interval (interval : Nat) :
    timeUsec ⟨((interval / 1000000 : Nat) : Int), ((interval % 1000000 : Nat) : Int)⟩ =
      (interval : Int) := by
  unfold timeUsec
  simp only []
  omega

/-- The loop of the test: when every call returned `TRDP_NO_ERR`, the keys of the send
queue are those of the table in reverse order, in front of the old ones. -/
theorem publishAll_keys (k : PD_PARAMS) (c : PD_COM) (envs : Nat → PD_ENV × PD_ENV)
    (l : List Nat) (h : Nat) (destIP : Nat) (buf : List Nat) (tab : List TESTDATA_T) (i : Nat)
    (s : TRDP_SESSION_T)
    (hr : (publishAll k c envs l h destIP buf tab i s).1 = TRDP_NO_ERR) :
    queueKeys (publishAll k c envs l h destIP buf tab i s).2.pSndQueue =
      (tab.map (fun d => (d.comID, 0, destIP))).reverse ++ queueKeys s.pSndQueue := by
  induction tab generalizing i s with
  | nil => simp [publishAll]
  | cons d rest ih =>
    unfold publishAll at hr ⊢
    simp only [] at hr ⊢
    split_ifs at hr ⊢ with hne
    · exact absurd hr hne
    · rw [ih _ _ hr]
      obtain ⟨_, h2⟩ := tlp_publish_shape k c (envs i).1 (envs i).2 l h s true d.comID 0 0
        destIP d.cycle k.TRDP_FLAGS_NONE (some buf) d.size _ rfl
      rcases h2 with ⟨h3, _⟩ | ⟨_, _, _, _, e, h4, h5, _⟩
      · exact absurd (not_not.mp hne) h3
      · rw [h4]
        unfold queueKeys
        simp only [List.map_cons, List.reverse_cons, List.append_assoc, List.singleton_append,
          h5]
        rfl

/-- The loop of the test succeeds when the comIds of the table are pairwise different
and not yet published, the arguments are valid and the platform delivers what is
asked for. -/
theorem publishAll_ok (k : PD_PARAMS) (c : PD_COM) (envs : Nat → PD_ENV × PD_ENV)
    (l : List Nat) (h : Nat) (destIP : Nat) (buf : List Nat) (tab : List TESTDATA_T) (i : Nat)
    (s : TRDP_SESSION_T)
    (henv : ∀ j, trdp_isValidSession (envs j).1.sessionLockOk l h = true ∧
      (envs j).1.lockOk = true ∧ (envs j).1.alloc.isSome = true ∧
      (envs j).1.sockErr = TRDP_NO_ERR ∧
      trdp_isValidSession (envs j).2.sessionLockOk l h = true ∧ (envs j).2.lockOk = true)
    (hput : ∀ e m r d n, (c.trdp_pdPut e m r d n).1 = TRDP_NO_ERR)
    (hnd : (tab.map (fun d => d.comID)).Nodup)
    (htab : ∀ d ∈ tab, d.comID ≠ 0 ∧ d.size ≠ 0 ∧ k.TIMER_GRANULARITY ≤ d.cycle ∧
      (d.comID, 0, destIP) ∉ queueKeys s.pSndQueue) :
    (publishAll k c envs l h destIP buf tab i s).1 = TRDP_NO_ERR := by
  induction tab generalizing i s with
  | nil => rfl
  | cons d rest ih =>
    obtain ⟨hd1, hd2, hd3, hd4⟩ := htab d (List.mem_cons_self _ _)
    obtain ⟨he1, he2, he3, he4, he5, he6⟩ := henv i
    have hc : publishChecks k (envs i).1 l h true d.comID d.cycle (some buf) d.size = none :=
      (publishChecks_none _ _ _ _ _ _ _ _ _).mpr ⟨hd1, fun _ => ⟨hd2, hd3⟩, rfl, he1, he2⟩
    have hok := tlp_publish_ok k c (envs i).1 (envs i).2 l h s true d.comID 0 0 destIP d.cycle
      k.TRDP_FLAGS_NONE buf d.size hc hd4 he3 he4 he5 he6 hput
    unfold publishAll
    simp only []
    rw [if_neg (not_not.mpr hok)]
    simp only [List.map_cons, List.nodup_cons] at hnd
    apply ih _ _ hnd.2
    intro d2 hd2m
    obtain ⟨hx1, hx2, hx3, hx4⟩ := htab d2 (List.mem_cons_of_mem _ hd2m)
    refine ⟨hx1, hx2, hx3, ?_⟩
    obtain ⟨_, h2⟩ := tlp_publish_shape k c (envs i).1 (envs i).2 l h s true d.comID 0 0
      destIP d.cycle k.TRDP_FLAGS_NONE (some buf) d.size _ rfl
    rcases h2 with ⟨h3, _⟩ | ⟨_, _, _, _, e, h4, h5, _⟩
    · exact absurd hok h3
    · rw [h4]
      unfold queueKeys at hx4 ⊢
      simp only [List.map_cons, List.mem_cons, not_or, h5]
      refine ⟨?_, hx4⟩
      intro heq
      apply hnd.1
      have : d2.comID = d.comID := by
        have := congrArg Prod.fst heq
        simpa [addrKey] using this
      rw [← this]
      exact List.mem_map_of_mem _ hd2m

/-- C12: successful publish. Whenever `tlp_publish` returns `TRDP_NO_ERR` for the interval
`I`, the new entry is the first element of the send queue in front of the old ones, its
address is that of the call, its interval is `(I div 1000000, I mod 1000000)`, its
deadline `timeToGo` is the first clock reading of the call plus the interval, which is
that reading plus `I` microseconds, and the handle returned points to the address of
the entry. Hence the publish loop of test_trafficShaping.c leaves, when all calls
returned `TRDP_NO_ERR`, the published comIds in reverse order of publication in front
of the send queue; and all calls do return `TRDP_NO_ERR` for a table of pairwise
different non-zero comIds with valid size and cycle on a session with an empty send
queue, when the platform delivers memory and sockets and `trdp_pdPut` accepts the
data: the send queue then has as many entries as the table. -/
theorem publish_success (k : PD_PARAMS) (c : PD_COM) (sSession : List Nat) (appHandle : Nat) :
    (∀ (env envPut : PD_ENV) (s : TRDP_SESSION_T) (pPubHandle : Bool)
        (comId topoCount srcIpAddr destIpAddr interval pktFlags : Nat)
        (pData : Option (List Nat)) (dataSize : Nat),
      (tlp_publish k c env envPut sSession appHandle s pPubHandle comId topoCount srcIpAddr
        destIpAddr interval pktFlags pData dataSize).1 = TRDP_NO_ERR →
      ∃ e, (tlp_publish k c env envPut sSession appHandle s pPubHandle comId topoCount
          srcIpAddr destIpAddr interval pktFlags pData dataSize).2.1.pSndQueue =
          e :: s.pSndQueue ∧
        e.addr = ⟨comId, srcIpAddr, destIpAddr, 0⟩ ∧
        e.interval = ⟨((interval / 1000000 : Nat) : Int), ((interval % 1000000 : Nat) : Int)⟩ ∧
        e.timeToGo = timeradd (env.clock 0) e.interval ∧
        timeUsec e.timeToGo = timeUsec (env.clock 0) + (interval : Int) ∧
        (tlp_publish k c env envPut sSession appHandle s pPubHandle comId topoCount
          srcIpAddr destIpAddr interval pktFlags pData dataSize).2.2 = some e.addr) ∧
    (∀ (envs : Nat → PD_ENV × PD_ENV) (destIP : Nat) (buf : List Nat)
        (tab : List TESTDATA_T) (s : TRDP_SESSION_T),
      (publishAll k c envs sSession appHandle destIP buf tab 0 s).1 = TRDP_NO_ERR →
      queueKeys (publishAll k c envs sSession appHandle destIP buf tab 0 s).2.pSndQueue =
        (tab.map (fun d => (d.comID, 0, destIP))).reverse ++ queueKeys s.pSndQueue) ∧
    (∀ (envs : Nat → PD_ENV × PD_ENV) (destIP : Nat) (buf : List Nat)
        (tab : List TESTDATA_T) (s : TRDP_SESSION_T),
      (∀ j, trdp_isValidSession (envs j).1.sessionLockOk sSession appHandle = true ∧
        (envs j).1.lockOk = true ∧ (envs j).1.alloc.isSome = true ∧
        (envs j).1.sockErr = TRDP_NO_ERR ∧
        trdp_isValidSession (envs j).2.sessionLockOk sSession appHandle = true ∧
        (envs j).2.lockOk = true) →
      (∀ e m r d n, (c.trdp_pdPut e m r d n).1 = TRDP_NO_ERR) →
      (tab.map (fun d => d.comID)).Nodup →
      (∀ d ∈ tab, d.comID ≠ 0 ∧ d.size ≠ 0 ∧ k.TIMER_GRANULARITY ≤ d.cycle) →
      s.pSndQueue = [] →
      (publishAll k c envs sSession appHandle destIP buf tab 0 s).1 = TRDP_NO_ERR ∧
      (publishAll k c envs sSession appHandle destIP buf tab 0 s).2.pSndQueue.length =
        tab.length ∧
      queueKeys (publishAll k c envs sSession appHandle destIP buf tab 0 s).2.pSndQueue =
        (tab.map (fun d => (d.comID, 0, destIP))).reverse) := by
  refine ⟨?_, ?_, ?_⟩
  · intro env envPut s pPubHandle comId topoCount srcIpAddr destIpAddr interval pktFlags pData
      dataSize hr
    obtain ⟨_, h2⟩ := tlp_publish_shape k c env envPut sSession appHandle s pPubHandle comId
      topoCount srcIpAddr destIpAddr interval pktFlags pData dataSize _ rfl
    rcases h2 with ⟨h3, _⟩ | ⟨_, _, _, _, e, h4, h5, h6, h7, h8⟩
    · exact absurd hr h3
    · refine ⟨e, h4, h5, h6, h7, ?_, h8⟩
      rw [h7, timeUsec_timeradd, h6, timeUsec_interval]
  · intro envs destIP buf tab s hr
    exact publishAll_keys k c envs sSession appHandle destIP buf tab 0 s hr
  · intro envs destIP buf tab s henv hput hnd htab hs
    have hok := publishAll_ok k c envs sSession appHandle destIP buf tab 0 s henv hput hnd
      (fun d hd => ⟨(htab d hd).1, (htab d hd).2.1, (htab d hd).2.2, by
        rw [hs]; simp [queueKeys]⟩)
    have hk := publishAll_keys k c envs sSession appHandle destIP buf tab 0 s hok
    rw [hs] at hk
    simp only [queueKeys, List.map_nil, List.append_nil] at hk
    refine ⟨hok, ?_, hk⟩
    have := congrArg List.length hk
    simpa using this

theorem publish_success_witness :
    (publishAll exPdParams exPdCom (fun _ => (exPdEnv 7, exPdEnv 7)) exSessions 1 9 [0] gPD 0
      exPdSession).1 = TRDP_NO_ERR ∧
    (publishAll exPdParams exPdCom (fun _ => (exPdEnv 7, exPdEnv 7)) exSessions 1 9 [0] gPD 0
      exPdSession).2.pSndQueue.length = 8 ∧
    queueKeys (publishAll exPdParams exPdCom (fun _ => (exPdEnv 7, exPdEnv 7)) exSessions 1 9
      [0] gPD 0 exPdSession).2.pSndQueue =
      [(1008, 0, 9), (1007, 0, 9), (1006, 0, 9), (1005, 0, 9), (1004, 0, 9), (1003, 0, 9),
       (1002, 0, 9), (1001, 0, 9)] :=
  (publish_success exPdParams exPdCom exSessions 1).2.2 (fun _ => (exPdEnv 7, exPdEnv 7)) 9 [0]
    gPD exPdSession (fun _ => ⟨rfl, rfl, rfl, rfl, rfl, rfl⟩) (fun _ _ _ _ _ => rfl) (by decide)
    (by decide) rfl

/-! ## C13: the passes of tlc_process and the send scheduling -/

theorem pdSendStep_congr (k : PD_PARAMS) (c : PD_COM) (s1 s2 : TRDP_SESSION_T)
    (now : TRDP_TIME_T) (e : PD_ELE_T) (hq : s1.beQuiet = s2.beQuiet) (hi : s1.iface = s2.iface) :
    pdSendStep k c s1 now e = pdSendStep k c s2 now e := by
  unfold pdSendStep
  rw [hq, hi]

theorem pdSendLoop_congr (k : PD_PARAMS) (c : PD_COM) (s1 s2 : TRDP_SESSION_T)
    (clock : Nat → TRDP_TIME_T) (q : List PD_ELE_T) (i : Nat)
    (hq : s1.beQuiet = s2.beQuiet) (hi : s1.iface = s2.iface) :
    pdSendLoop k c s1 clock q i = pdSendLoop k c s2 clock q i := by
  induction q generalizing i with
  | nil => rfl
  | cons e rest ih =>
    simp only [pdSendLoop]
    rw [ih, pdSendStep_congr k c s1 s2 _ _ hq hi]

theorem pdSendLoop_getElem? (k : PD_PARAMS) (c : PD_COM) (s : TRDP_SESSION_T)
    (clock : Nat → TRDP_TIME_T) (q : List PD_ELE_T) (i j : Nat) :
    (pdSendLoop k c s clock q i).1[j]? =
      (q[j]?).map (fun e => (pdSendStep k c s (clock (i + j)) e).1) := by
  induction q generalizing i j with
  | nil => simp [pdSendLoop]
  | cons e rest ih =>
    cases j with
    | zero => simp [pdSendLoop]
    | succ j =>
      simp only [pdSendLoop, List.getElem?_cons_succ]
      rw [ih]
      have : i + 1 + j = i + (j + 1) := by omega
      rw [this]

theorem pdSendLoop_length (k : PD_PARAMS) (c : PD_COM) (s : TRDP_SESSION_T)
    (clock : Nat → TRDP_TIME_T) (q : List PD_ELE_T) (i : Nat) :
    (pdSendLoop k c s clock q i).1.length = q.length := by
  induction q generalizing i with
  | nil => rfl
  | cons e rest ih => simp [pdSendLoop, ih]

theorem pdSendLoop_snd (k : PD_PARAMS) (c : PD_COM) (s : TRDP_SESSION_T)
    (clock : Nat → TRDP_TIME_T) (q : List PD_ELE_T) (i : Nat) :
    (pdSendLoop k c s clock q i).2 =
      (q.enumFrom i).filterMap (fun p => (pdSendStep k c s (clock p.1) p.2).2) := by
  induction q generalizing i with
  | nil => rfl
  | cons e rest ih =>
    simp only [pdSendLoop, List.enumFrom_cons]
    rw [ih]
    cases h : (pdSendStep k c s (clock i) e).2 with
    | none => simp [List.filterMap_cons, h]
    | some tx => simp [List.filterMap_cons, h]

theorem pdSendStep_snd (k : PD_PARAMS) (c : PD_COM) (s : TRDP_SESSION_T) (now : TRDP_TIME_T)
    (e : PD_ELE_T) :
    (pdSendStep k c s now e).2 =
      pdTransmission k c s now e := by
  unfold pdSendStep pdTransmission pdSendable pdStamped
  by_cases hd : timercmp_le e.timeToGo now = true
  · simp only [hd, if_true, true_and]
    by_cases hs : e.socketIdx = -1
    · simp [hs]
    · cases hb : s.beQuiet <;> by_cases hr : e.pktFlags &&& k.TRDP_FLAGS_REDUNDANT = 0 <;>
        simp [hs, hb, hr]
  · simp [hd]

theorem pdSendStep_fst (k : PD_PARAMS) (c : PD_COM) (s : TRDP_SESSION_T) (now : TRDP_TIME_T)
    (e : PD_ELE_T) :
    (pdSendStep k c s now e).1 =
      if timercmp_le e.timeToGo now = true then
        { e with frameHead := c.trdp_pdUpdate e, timeToGo := timeradd e.interval now }
      else e := by
  unfold pdSendStep
  split_ifs <;> rfl

theorem pdReceiveLoop_frame (c : PD_COM) (fuel i : Nat) (s : TRDP_SESSION_T) (fds : List Int)
    (count : Int) (err : TRDP_ERR_T) :
    (pdReceiveLoop c fuel i s fds count err).2.1.pSndQueue = s.pSndQueue ∧
    (pdReceiveLoop c fuel i s fds count err).2.1.sent = s.sent ∧
    (pdReceiveLoop c fuel i s fds count err).2.1.pdDefault = s.pdDefault := by
  induction fuel generalizing i s fds count err with
  | zero => exact ⟨rfl, rfl, rfl⟩
  | succ n ih =>
    unfold pdReceiveLoop
    cases hq : s.pRcvQueue[i]? with
    | none => exact ⟨rfl, rfl, rfl⟩
    | some e =>
      simp only []
      split_ifs
      · exact ih _ _ _ _ _
      · exact ih _ _ _ _ _

theorem processReceive_frame (c : PD_COM) (s : TRDP_SESSION_T) (pRfds : Option (List Int))
    (pCount : Option Int) :
    (processReceive c s pRfds pCount).2.1.pSndQueue = s.pSndQueue ∧
    (processReceive c s pRfds pCount).2.1.sent = s.sent ∧
    (processReceive c s pRfds pCount).2.1.pdDefault = s.pdDefault := by
  unfold processReceive
  cases pRfds with
  | none => exact ⟨rfl, rfl, rfl⟩
  | some fds =>
    cases pCount with
    | none => exact ⟨rfl, rfl, rfl⟩
    | some count =>
      simp only []
      split_ifs
      · exact pdReceiveLoop_frame c _ _ _ _ _ _
      · exact ⟨rfl, rfl, rfl⟩

/-- A pass of `tlc_process` that passes the session checks and has a result: the
session afterwards is the session after the three loops, with the mutex released. -/
theorem tlc_process_some (k : PD_PARAMS) (c : PD_COM) (env : PD_ENV) (l : List Nat) (h : Nat)
    (s : TRDP_SESSION_T) (pRfds : Option (List Int)) (pCount : Option Int)
    (r : TRDP_ERR_T × TRDP_SESSION_T × Option (List Int) × Option Int)
    (hv : trdp_isValidSession env.sessionLockOk l h = true) (hl : env.lockOk = true)
    (hr : tlc_process k c env l h s pRfds pCount = some r) :
    r.2.1 = vos_mutexUnlock (processReceive c
      (processTimeouts k env (processEnter s).pSndQueue.length
        (processSend k c env (processEnter s))) pRfds pCount).2.1 := by
  unfold tlc_process at hr
  simp only [hv, hl, Bool.not_true, if_false, Bool.false_eq_true] at hr
  split_ifs at hr with hm
  · split at hr
    · simp at hr
    · simp only [Option.some.injEq] at hr
      rw [← hr]
  · simp only [Option.some.injEq] at hr
    rw [← hr]

/-- C13: the send scheduling step of `tlc_process`. In a pass that passes the session
checks, the publish entry at position `i` is examined with the clock reading number
`i`. If `timeToGo > now` the entry is not modified and not transmitted; if
`timeToGo <= now` its next deadline is `now + interval` (address and interval are
kept) and it is transmitted exactly when it has a socket and not (the session is quiet
and the entry is not flagged redundant). The calls of `trdp_pdSend` of the pass are
exactly these transmissions, in the order of the queue. -/
theorem process_send_schedule (k : PD_PARAMS) (c : PD_COM) (env : PD_ENV)
    (sSession : List Nat) (appHandle : Nat) (s : TRDP_SESSION_T) (pRfds : Option (List Int))
    (pCount : Option Int) (r : TRDP_ERR_T × TRDP_SESSION_T × Option (List Int) × Option Int)
    (hv : trdp_isValidSession env.sessionLockOk sSession appHandle = true)
    (hl : env.lockOk = true)
    (hr : tlc_process k c env sSession appHandle s pRfds pCount = some r) :
    r.2.1.sent = s.sent ++
      s.pSndQueue.enum.filterMap (fun p => pdTransmission k c s (env.clock p.1) p.2) ∧
    ∀ (i : Nat) (e : PD_ELE_T), s.pSndQueue[i]? = some e →
      (timercmp_gt e.timeToGo (env.clock i) = true →
        r.2.1.pSndQueue[i]? = some e ∧ pdTransmission k c s (env.clock i) e = none) ∧
      (timercmp_le e.timeToGo (env.clock i) = true →
        (∃ e2, r.2.1.pSndQueue[i]? = some e2 ∧
          e2.timeToGo = timeradd e.interval (env.clock i) ∧
          e2.interval = e.interval ∧ e2.addr = e.addr) ∧
        ((pdTransmission k c s (env.clock i) e).isSome = true ↔
          (e.socketIdx ≠ -1 ∧
            ¬ (s.beQuiet = true ∧ e.pktFlags &&& k.TRDP_FLAGS_REDUNDANT = 0)))) := by
  have hs := tlc_process_some k c env sSession appHandle s pRfds pCount r hv hl hr
  obtain ⟨hq, hsent, _⟩ := processReceive_frame c
    (processTimeouts k env (processEnter s).pSndQueue.length
      (processSend k c env (processEnter s))) pRfds pCount
  have hq2 : r.2.1.pSndQueue = (pdSendLoop k c s env.clock s.pSndQueue 0).1 := by
    rw [hs]
    show (processReceive c _ pRfds pCount).2.1.pSndQueue = _
    rw [hq]
    show (pdSendLoop k c (processEnter s) env.clock s.pSndQueue 0).1 = _
    rw [pdSendLoop_congr k c (processEnter s) s env.clock s.pSndQueue 0 rfl rfl]
  have hs2 : r.2.1.sent = s.sent ++ (pdSendLoop k c s env.clock s.pSndQueue 0).2 := by
    rw [hs]
    show (processReceive c _ pRfds pCount).2.1.sent = _
    rw [hsent]
    show s.sent ++ (pdSendLoop k c (processEnter s) env.clock s.pSndQueue 0).2 = _
    rw [pdSendLoop_congr k c (processEnter s) s env.clock s.pSndQueue 0 rfl rfl]
  constructor
  · rw [hs2, pdSendLoop_snd]
    congr 1
    unfold List.enum
    congr 1
    funext p
    exact pdSendStep_snd k c s _ _
  · intro i e he
    have hi : r.2.1.pSndQueue[i]? = some (pdSendStep k c s (env.clock i) e).1 := by
      rw [hq2, pdSendLoop_getElem?, he]
      simp
    constructor
    · intro hgt
      rw [timercmp_gt_eq] at hgt
      have hle : ¬ timercmp_le e.timeToGo (env.clock i) = true := by
        intro h; rw [h] at hgt; simp at hgt
      constructor
      · rw [hi, pdSendStep_fst, if_neg hle]
      · unfold pdTransmission
        rw [if_neg (fun h => hle h.1)]
    · intro hle
      constructor
      · refine ⟨_, hi, ?_, ?_, ?_⟩
        · rw [pdSendStep_fst, if_pos hle]
        · rw [pdSendStep_fst, if_pos hle]
        · rw [pdSendStep_fst, if_pos hle]
      · unfold pdTransmission pdSendable
        simp only [hle, true_and]
        split_ifs with hc
        · exact ⟨fun _ => hc, fun _ => rfl⟩
        · exact ⟨fun h => absurd h (by simp), fun h => absurd h hc⟩

theorem process_send_schedule_witness :
    (tlc_process exPdParams exPdCom (exPdEnv 10) exSessions 1
      (exPdQueues [exPdEle 1 5, exPdEle 2 50] []) none none).map (fun r => r.2.1.sent) =
      some ([] ++ (exPdQueues [exPdEle 1 5, exPdEle 2 50] []).pSndQueue.enum.filterMap
        (fun p => pdTransmission exPdParams exPdCom (exPdQueues [exPdEle 1 5, exPdEle 2 50] [])
          ((exPdEnv 10).clock p.1) p.2)) := by
  have h : tlc_process exPdParams exPdCom (exPdEnv 10) exSessions 1
      (exPdQueues [exPdEle 1 5, exPdEle 2 50] []) none none =
      some (TRDP_NO_ERR, vos_mutexUnlock (processReceive exPdCom
        (processTimeouts exPdParams (exPdEnv 10) 2
          (processSend exPdParams exPdCom (exPdEnv 10)
            (processEnter (exPdQueues [exPdEle 1 5, exPdEle 2 50] [])))) none none).2.1,
        none, none) := by decide
  rw [h]
  exact congrArg some (process_send_schedule exPdParams exPdCom (exPdEnv 10) exSessions 1
    (exPdQueues [exPdEle 1 5, exPdEle 2 50] []) none none _ (by decide) (by decide) h).1

/-! ## C14: timeouts of subscriptions -/

theorem lor_land_self (p m : Nat) : (p ||| m) &&& m = m := by
  apply Nat.eq_of_testBit_eq
  intro i
  rw [Nat.testBit_and, Nat.testBit_or]
  cases p.testBit i <;> cases m.testBit i <;> rfl

theorem pdTimeoutStep_congr (k : PD_PARAMS) (s1 s2 : TRDP_SESSION_T) (now : TRDP_TIME_T)
    (e : PD_ELE_T) (hp : s1.pdDefault = s2.pdDefault) :
    pdTimeoutStep k s1 now e = pdTimeoutStep k s2 now e := by
  unfold pdTimeoutStep pdTimeoutCallback
  rw [hp]

theorem pdTimeoutLoop_congr (k : PD_PARAMS) (s1 s2 : TRDP_SESSION_T) (clock : Nat → TRDP_TIME_T)
    (q : List PD_ELE_T) (i : Nat) (hp : s1.pdDefault = s2.pdDefault) :
    pdTimeoutLoop k s1 clock q i = pdTimeoutLoop k s2 clock q i := by
  induction q generalizing i with
  | nil => rfl
  | cons e rest ih =>
    simp only [pdTimeoutLoop]
    rw [ih, pdTimeoutStep_congr k s1 s2 _ _ hp]

theorem pdTimeoutStep_fired (k : PD_PARAMS) (s : TRDP_SESSION_T) (now : TRDP_TIME_T)
    (e : PD_ELE_T) (hd : timercmp_le e.timeToGo now = true)
    (hf : e.privFlags &&& k.TRDP_TIMED_OUT = 0) :
    pdTimeoutStep k s now e =
      ({ e with privFlags := e.privFlags ||| k.TRDP_TIMED_OUT },
       if s.pdDefault.pCbFunction = true then some (pdTimeoutCallback s e) else none) := by
  unfold pdTimeoutStep
  have hc : (timercmp_le e.timeToGo now && e.privFlags &&& k.TRDP_TIMED_OUT == 0) = true := by
    simp [hd, hf]
  rw [if_pos hc]

theorem pdTimeoutStep_idle (k : PD_PARAMS) (s : TRDP_SESSION_T) (now : TRDP_TIME_T)
    (e : PD_ELE_T)
    (hn : ¬ (timercmp_le e.timeToGo now = true ∧ e.privFlags &&& k.TRDP_TIMED_OUT = 0)) :
    pdTimeoutStep k s now e = (e, none) := by
  unfold pdTimeoutStep
  have hc : ¬ (timercmp_le e.timeToGo now && e.privFlags &&& k.TRDP_TIMED_OUT == 0) = true := by
    simpa using hn
  rw [if_neg hc]

/-- The element after one round of the timeout loop: only the flag can change. -/
theorem pdTimeoutStep_fst (k : PD_PARAMS) (s : TRDP_SESSION_T) (now : TRDP_TIME_T)
    (e : PD_ELE_T) (hk : k.TRDP_TIMED_OUT ≠ 0) :
    (pdTimeoutStep k s now e).1.addr = e.addr ∧
    (pdTimeoutStep k s now e).1.timeToGo = e.timeToGo ∧
    ((pdTimeoutStep k s now e).1.privFlags &&& k.TRDP_TIMED_OUT ≠ 0 ↔
      (e.privFlags &&& k.TRDP_TIMED_OUT ≠ 0 ∨ timercmp_le e.timeToGo now = true)) := by
  by_cases hc : timercmp_le e.timeToGo now = true ∧ e.privFlags &&& k.TRDP_TIMED_OUT = 0
  · rw [pdTimeoutStep_fired k s now e hc.1 hc.2]
    refine ⟨rfl, rfl, ?_⟩
    show (e.privFlags ||| k.TRDP_TIMED_OUT) &&& k.TRDP_TIMED_OUT ≠ 0 ↔ _
    rw [lor_land_self]
    exact ⟨fun _ => Or.inr hc.1, fun _ => hk⟩
  · rw [pdTimeoutStep_idle k s now e hc]
    refine ⟨rfl, rfl, ?_⟩
    constructor
    · intro h
      exact Or.inl h
    · rintro (h | h)
      · exact h
      · intro hz
        exact hc ⟨h, hz⟩

theorem isTimeoutFor_callback (s : TRDP_SESSION_T) (e : PD_ELE_T) (a : TRDP_ADDRESSES) :
    isTimeoutFor a (pdTimeoutCallback s e) = decide (addrKey e.addr = addrKey a) := by
  unfold isTimeoutFor pdTimeoutCallback pdTimeoutInfo addrKey
  simp only [true_and, Prod.mk.injEq]

/-- The callback of one round of the timeout loop is a timeout report for the address
of the element. -/
theorem pdTimeoutStep_snd (k : PD_PARAMS) (s : TRDP_SESSION_T) (now : TRDP_TIME_T)
    (e : PD_ELE_T) (a : TRDP_ADDRESSES) :
    timeoutCalls a (pdTimeoutStep k s now e).2.toList =
      if addrKey e.addr = addrKey a ∧ timercmp_le e.timeToGo now = true ∧
          e.privFlags &&& k.TRDP_TIMED_OUT = 0 ∧ s.pdDefault.pCbFunction = true
      then 1 else 0 := by
  by_cases hc : timercmp_le e.timeToGo now = true ∧ e.privFlags &&& k.TRDP_TIMED_OUT = 0
  · rw [pdTimeoutStep_fired k s now e hc.1 hc.2]
    by_cases hb : s.pdDefault.pCbFunction = true
    · rw [if_pos hb]
      show List.countP (isTimeoutFor a) [pdTimeoutCallback s e] = _
      rw [List.countP_cons, List.countP_nil, isTimeoutFor_callback]
      by_cases ha : addrKey e.addr = addrKey a
      · simp [ha, hc.1, hc.2, hb]
      · simp [ha]
    · rw [if_neg hb, if_neg (fun hx => hb hx.2.2.2)]
      rfl
  · rw [pdTimeoutStep_idle k s now e hc]
    rw [if_neg (fun hx => hc ⟨hx.2.1, hx.2.2.1⟩)]
    rfl

theorem pdTimeoutLoop_getElem? (k : PD_PARAMS) (s : TRDP_SESSION_T)
    (clock : Nat → TRDP_TIME_T) (q : List PD_ELE_T) (i j : Nat) :
    (pdTimeoutLoop k s clock q i).1[j]? =
      (q[j]?).map (fun e => (pdTimeoutStep k s (clock (i + j)) e).1) := by
  induction q generalizing i j with
  | nil => simp [pdTimeoutLoop]
  | cons e rest ih =>
    cases j with
    | zero => simp [pdTimeoutLoop]
    | succ j =>
      simp only [pdTimeoutLoop, List.getElem?_cons_succ]
      rw [ih]
      have : i + 1 + j = i + (j + 1) := by omega
      rw [this]

theorem pdTimeoutLoop_keys (k : PD_PARAMS) (s : TRDP_SESSION_T)
    (clock : Nat → TRDP_TIME_T) (q : List PD_ELE_T) (i : Nat) :
    queueKeys (pdTimeoutLoop k s clock q i).1 = queueKeys q := by
  induction q generalizing i with
  | nil => rfl
  | cons e rest ih =>
    have ht : (pdTimeoutStep k s (clock i) e).1.addr = e.addr := by
      unfold pdTimeoutStep
      split_ifs <;> rfl
    have := ih (i + 1)
    unfold queueKeys at this ⊢
    simp only [pdTimeoutLoop, List.map_cons, ht, this]

theorem pdTimeoutLoop_calls_notin (k : PD_PARAMS) (s : TRDP_SESSION_T)
    (clock : Nat → TRDP_TIME_T) (q : List PD_ELE_T) (i : Nat) (a : TRDP_ADDRESSES)
    (hn : addrKey a ∉ queueKeys q) :
    timeoutCalls a (pdTimeoutLoop k s clock q i).2 = 0 := by
  induction q generalizing i with
  | nil => rfl
  | cons e rest ih =>
    unfold queueKeys at hn ih
    simp only [List.map_cons, List.mem_cons, not_or] at hn
    have h1 := pdTimeoutStep_snd k s (clock i) e a
    have h2 := ih (i + 1) hn.2
    have hne : ¬ addrKey e.addr = addrKey a := fun x => hn.1 x.symm
    rw [if_neg (fun hx => hne hx.1)] at h1
    unfold timeoutCalls at h1 h2 ⊢
    simp only [pdTimeoutLoop, List.countP_append, h1, h2]

/-- The timeout reports of the loop for the address of the element at position `j`: one
when that element is due, not flagged and a callback is configured, none otherwise. -/
theorem pdTimeoutLoop_calls (k : PD_PARAMS) (s : TRDP_SESSION_T)
    (clock : Nat → TRDP_TIME_T) (q : List PD_ELE_T) (i j : Nat) (e : PD_ELE_T)
    (hj : q[j]? = some e) (hnd : (queueKeys q).Nodup) :
    timeoutCalls e.addr (pdTimeoutLoop k s clock q i).2 =
      if timercmp_le e.timeToGo (clock (i + j)) = true ∧
          e.privFlags &&& k.TRDP_TIMED_OUT = 0 ∧ s.pdDefault.pCbFunction = true
      then 1 else 0 := by
  induction q generalizing i j with
  | nil => simp at hj
  | cons x rest ih =>
    unfold queueKeys at hnd ih
    simp only [List.map_cons, List.nodup_cons] at hnd
    cases j with
    | zero =>
      simp only [List.getElem?_cons_zero, Option.some.injEq] at hj
      subst hj
      have h1 := pdTimeoutStep_snd k s (clock i) x x.addr
      have h2 := pdTimeoutLoop_calls_notin k s clock rest (i + 1) x.addr hnd.1
      unfold timeoutCalls at h1 h2 ⊢
      simp only [pdTimeoutLoop, List.countP_append, h1, h2, true_and, Nat.add_zero]
    | succ j =>
      simp only [List.getElem?_cons_succ] at hj
      have hmem : addrKey e.addr ∈ rest.map (fun e => addrKey e.addr) :=
        List.mem_map_of_mem _ (List.getElem?_mem hj)
      have hne : ¬ addrKey x.addr = addrKey e.addr := fun hx => hnd.1 (hx ▸ hmem)
      have h1 := pdTimeoutStep_snd k s (clock i) x e.addr
      rw [if_neg (fun hx => hne hx.1)] at h1
      have h2 := ih (i + 1) j hj hnd.2
      have h3 : i + 1 + j = i + (j + 1) := by omega
      rw [h3] at h2
      unfold timeoutCalls at h1 h2 ⊢
      simp only [pdTimeoutLoop, List.countP_append, h1, h2, Nat.zero_add]

theorem timeoutCalls_append (a : TRDP_ADDRESSES) (l1 l2 : List PD_CALLBACK) :
    timeoutCalls a (l1 ++ l2) = timeoutCalls a l1 + timeoutCalls a l2 := by
  unfold timeoutCalls
  exact List.countP_append _ _ _

/-- The receive loop of `tlc_process` when nothing is received for the address `a`. -/
theorem pdReceiveLoop_silent (c : PD_COM) (a : TRDP_ADDRESSES) (hrx : pdReceiveSilent c a)
    (fuel i : Nat) (s : TRDP_SESSION_T) (fds : List Int) (count : Int) (err : TRDP_ERR_T) :
    queueKeys (pdReceiveLoop c fuel i s fds count err).2.1.pRcvQueue = queueKeys s.pRcvQueue ∧
    (∀ (j : Nat) (e : PD_ELE_T), s.pRcvQueue[j]? = some e → addrKey e.addr = addrKey a →
      (pdReceiveLoop c fuel i s fds count err).2.1.pRcvQueue[j]? = some e) ∧
    timeoutCalls a (pdReceiveLoop c fuel i s fds count err).2.1.callbacks =
      timeoutCalls a s.callbacks := by
  induction fuel generalizing i s fds count err with
  | zero => exact ⟨rfl, fun _ _ h _ => h, rfl⟩
  | succ n ih =>
    unfold pdReceiveLoop
    cases hq : s.pRcvQueue[i]? with
    | none => exact ⟨rfl, fun _ _ h _ => h, rfl⟩
    | some x =>
      simp only []
      split_ifs
      · obtain ⟨h1, h2, h3⟩ := hrx s (ifaceSock s.iface x.socketIdx)
        obtain ⟨g1, g2, g3⟩ := ih (i + 1)
          { s with pRcvQueue := (c.trdp_pdReceive s (ifaceSock s.iface x.socketIdx)).2.1,
                   callbacks := s.callbacks ++
                     (c.trdp_pdReceive s (ifaceSock s.iface x.socketIdx)).2.2 }
          (fds.filter (· != ifaceSock s.iface x.socketIdx)) (count - 1)
          (c.trdp_pdReceive s (ifaceSock s.iface x.socketIdx)).1
        refine ⟨g1.trans h1, ?_, ?_⟩
        · intro j e he hea
          exact g2 j e (h2 j e he hea) hea
        · rw [g3]
          show timeoutCalls a (s.callbacks ++ _) = _
          rw [timeoutCalls_append, h3, Nat.add_zero]
      · exact ih _ _ _ _ _

theorem processReceive_silent (c : PD_COM) (a : TRDP_ADDRESSES) (hrx : pdReceiveSilent c a)
    (s : TRDP_SESSION_T) (pRfds : Option (List Int)) (pCount : Option Int) :
    queueKeys (processReceive c s pRfds pCount).2.1.pRcvQueue = queueKeys s.pRcvQueue ∧
    (∀ (j : Nat) (e : PD_ELE_T), s.pRcvQueue[j]? = some e → addrKey e.addr = addrKey a →
      (processReceive c s pRfds pCount).2.1.pRcvQueue[j]? = some e) ∧
    timeoutCalls a (processReceive c s pRfds pCount).2.1.callbacks =
      timeoutCalls a s.callbacks := by
  unfold processReceive
  cases pRfds with
  | none => exact ⟨rfl, fun _ _ h _ => h, rfl⟩
  | some fds =>
    cases pCount with
    | none => exact ⟨rfl, fun _ _ h _ => h, rfl⟩
    | some count =>
      simp only []
      split_ifs
      · exact pdReceiveLoop_silent c a hrx _ _ _ _ _ _
      · exact ⟨rfl, fun _ _ h _ => h, rfl⟩

/-- One pass of `tlc_process` seen from the subscription at position `j`, for which
nothing is received. -/
theorem tlc_process_entry (k : PD_PARAMS) (c : PD_COM) (env : PD_ENV) (l : List Nat) (h : Nat)
    (s : TRDP_SESSION_T) (pRfds : Option (List Int)) (pCount : Option Int)
    (r : TRDP_ERR_T × TRDP_SESSION_T × Option (List Int) × Option Int)
    (j : Nat) (e : PD_ELE_T)
    (hv : trdp_isValidSession env.sessionLockOk l h = true) (hl : env.lockOk = true)
    (hr : tlc_process k c env l h s pRfds pCount = some r)
    (hj : s.pRcvQueue[j]? = some e) (hnd : (queueKeys s.pRcvQueue).Nodup)
    (hrx : pdReceiveSilent c e.addr) :
    r.2.1.pRcvQueue[j]? =
      some (pdTimeoutStep k s (env.clock (s.pSndQueue.length + j)) e).1 ∧
    queueKeys r.2.1.pRcvQueue = queueKeys s.pRcvQueue ∧
    r.2.1.pSndQueue.length = s.pSndQueue.length ∧
    r.2.1.pdDefault = s.pdDefault ∧
    timeoutCalls e.addr r.2.1.callbacks = timeoutCalls e.addr s.callbacks +
      (if timercmp_le e.timeToGo (env.clock (s.pSndQueue.length + j)) = true ∧
          e.privFlags &&& k.TRDP_TIMED_OUT = 0 ∧ s.pdDefault.pCbFunction = true
       then 1 else 0) := by
  have hs := tlc_process_some k c env l h s pRfds pCount r hv hl hr
  have hloop : pdTimeoutLoop k (processSend k c env (processEnter s)) env.clock s.pRcvQueue
      s.pSndQueue.length = pdTimeoutLoop k s env.clock s.pRcvQueue s.pSndQueue.length :=
    pdTimeoutLoop_congr k _ s env.clock s.pRcvQueue _ rfl
  have h3q : (processTimeouts k env (processEnter s).pSndQueue.length
      (processSend k c env (processEnter s))).pRcvQueue =
      (pdTimeoutLoop k s env.clock s.pRcvQueue s.pSndQueue.length).1 := by
    rw [← hloop]
    rfl
  have h3c : (processTimeouts k env (processEnter s).pSndQueue.length
      (processSend k c env (processEnter s))).callbacks =
      s.callbacks ++ (pdTimeoutLoop k s env.clock s.pRcvQueue s.pSndQueue.length).2 := by
    rw [← hloop]
    rfl
  have h3s : (processTimeouts k env (processEnter s).pSndQueue.length
      (processSend k c env (processEnter s))).pSndQueue =
      (pdSendLoop k c (processEnter s) env.clock s.pSndQueue 0).1 := rfl
  have h3d : (processTimeouts k env (processEnter s).pSndQueue.length
      (processSend k c env (processEnter s))).pdDefault = s.pdDefault := rfl
  obtain ⟨f1, _, f3⟩ := processReceive_frame c
    (processTimeouts k env (processEnter s).pSndQueue.length
      (processSend k c env (processEnter s))) pRfds pCount
  obtain ⟨g1, g2, g3⟩ := processReceive_silent c e.addr hrx
    (processTimeouts k env (processEnter s).pSndQueue.length
      (processSend k c env (processEnter s))) pRfds pCount
  have haddr : (pdTimeoutStep k s (env.clock (s.pSndQueue.length + j)) e).1.addr = e.addr := by
    unfold pdTimeoutStep
    split_ifs <;> rfl
  have hstep : (processTimeouts k env (processEnter s).pSndQueue.length
      (processSend k c env (processEnter s))).pRcvQueue[j]? =
      some (pdTimeoutStep k s (env.clock (s.pSndQueue.length + j)) e).1 := by
    rw [h3q, pdTimeoutLoop_getElem?, hj]
    rfl
  rw [hs]
  refine ⟨?_, ?_, ?_, ?_, ?_⟩
  · exact g2 j _ hstep (by rw [haddr])
  · show queueKeys (processReceive c _ pRfds pCount).2.1.pRcvQueue = _
    rw [g1, h3q, pdTimeoutLoop_keys]
  · show (processReceive c _ pRfds pCount).2.1.pSndQueue.length = _
    rw [f1, h3s, pdSendLoop_length]
  · show (processReceive c _ pRfds pCount).2.1.pdDefault = _
    rw [f3, h3d]
  · show timeoutCalls e.addr (processReceive c _ pRfds pCount).2.1.callbacks = _
    rw [g3, h3c, timeoutCalls_append, pdTimeoutLoop_calls k s env.clock s.pRcvQueue _ j e hj hnd]

/-- A sequence of passes of `tlc_process` seen from the subscription at position `j`,
for which nothing is received: the element keeps its address and its deadline, and its
flag is set exactly when it was set before or some pass observed the deadline as
passed. -/
theorem processAll_entry (k : PD_PARAMS) (c : PD_COM) (l : List Nat) (h : Nat) (j : Nat)
    (hk : k.TRDP_TIMED_OUT ≠ 0) (pre : List PD_PASS) (s0 s1 : TRDP_SESSION_T) (e0 : PD_ELE_T)
    (hrx : pdReceiveSilent c e0.addr)
    (hj : s0.pRcvQueue[j]? = some e0) (hnd : (queueKeys s0.pRcvQueue).Nodup)
    (hvalid : ∀ q ∈ pre, trdp_isValidSession q.env.sessionLockOk l h = true ∧
      q.env.lockOk = true)
    (h1 : processAll k c l h s0 pre = some s1) :
    ∃ e1, s1.pRcvQueue[j]? = some e1 ∧ e1.addr = e0.addr ∧ e1.timeToGo = e0.timeToGo ∧
      (e1.privFlags &&& k.TRDP_TIMED_OUT ≠ 0 ↔
        (e0.privFlags &&& k.TRDP_TIMED_OUT ≠ 0 ∨ ∃ q ∈ pre, pdObserves s0 j e0 q)) ∧
      queueKeys s1.pRcvQueue = queueKeys s0.pRcvQueue ∧
      s1.pSndQueue.length = s0.pSndQueue.length ∧ s1.pdDefault = s0.pdDefault := by
  induction pre generalizing s0 e0 with
  | nil =>
    simp only [processAll, Option.some.injEq] at h1
    subst h1
    exact ⟨e0, hj, rfl, rfl, by simp, rfl, rfl, rfl⟩
  | cons p ps ih =>
    unfold processAll at h1
    cases hp : tlc_process k c p.env l h s0 p.pRfds p.pCount with
    | none => rw [hp] at h1; simp at h1
    | some r =>
      rw [hp] at h1
      simp only [] at h1
      obtain ⟨hv, hl⟩ := hvalid p (List.mem_cons_self _ _)
      obtain ⟨t1, t2, t3, t4, _⟩ := tlc_process_entry k c p.env l h s0 p.pRfds p.pCount r j e0
        hv hl hp hj hnd hrx
      obtain ⟨a1, a2, a3⟩ := pdTimeoutStep_fst k s0 (p.env.clock (s0.pSndQueue.length + j)) e0 hk
      obtain ⟨e1, b1, b2, b3, b4, b5, b6, b7⟩ := ih r.2.1
        (pdTimeoutStep k s0 (p.env.clock (s0.pSndQueue.length + j)) e0).1
        (by rw [a1]; exact hrx) t1 (by rw [t2]; exact hnd)
        (fun q hq => hvalid q (List.mem_cons_of_mem _ hq)) h1
      refine ⟨e1, b1, b2.trans a1, b3.trans a2, ?_, b5.trans t2, b6.trans t3, b7.trans t4⟩
      rw [b4, a3]
      have hobs : ∀ q, pdObserves r.2.1 j
          (pdTimeoutStep k s0 (p.env.clock (s0.pSndQueue.length + j)) e0).1 q ↔
          pdObserves s0 j e0 q := by
        intro q
        unfold pdObserves
        rw [a2, t3]
      constructor
      · rintro ((hf | ho) | ⟨q, hq, ho⟩)
        · exact Or.inl hf
        · exact Or.inr ⟨p, List.mem_cons_self _ _, ho⟩
        · exact Or.inr ⟨q, List.mem_cons_of_mem _ hq, (hobs q).mp ho⟩
      · rintro (hf | ⟨q, hq, ho⟩)
        · exact Or.inl (Or.inl hf)
        · rcases List.mem_cons.mp hq with hqp | hqs
          · subst hqp
            exact Or.inl (Or.inr ho)
          · exact Or.inr ⟨q, hqs, (hobs q).mpr ho⟩

/-- C14: a timeout is reported exactly once. Take a subscription, at position `j` of the
receive queue of a session with pairwise different addresses and a PD callback, for
which nothing is received, and any sequence of passes of `tlc_process` that pass the
session checks. The pass `p` after the passes `pre` invokes the timeout callback
(`resultCode` `TRDP_TIMEOUT_ERR`) for the subscription exactly once if it is the first
pass that observes `timeToGo <= now` and the flag `TRDP_TIMED_OUT` was not set at the
start, and it does not invoke it otherwise: not before the deadline is observed, not in
a later pass, and never for an entry whose flag is set. After the pass the flag is set
exactly when it was set at the start or one of the passes observed the deadline. -/
theorem timeout_reported_once (k : PD_PARAMS) (c : PD_COM) (sSession : List Nat)
    (appHandle : Nat) (s0 : TRDP_SESSION_T) (j : Nat) (e0 : PD_ELE_T)
    (pre : List PD_PASS) (p : PD_PASS) (s1 s2 : TRDP_SESSION_T)
    (hk : k.TRDP_TIMED_OUT ≠ 0)
    (hcb : s0.pdDefault.pCbFunction = true)
    (hj : s0.pRcvQueue[j]? = some e0)
    (hnd : (queueKeys s0.pRcvQueue).Nodup)
    (hrx : pdReceiveSilent c e0.addr)
    (hvalid : ∀ q ∈ pre ++ [p],
      trdp_isValidSession q.env.sessionLockOk sSession appHandle = true ∧ q.env.lockOk = true)
    (h1 : processAll k c sSession appHandle s0 pre = some s1)
    (h2 : processAll k c sSession appHandle s1 [p] = some s2) :
    timeoutCalls e0.addr s2.callbacks = timeoutCalls e0.addr s1.callbacks +
      (if pdObserves s0 j e0 p ∧ (∀ q ∈ pre, ¬ pdObserves s0 j e0 q) ∧
          e0.privFlags &&& k.TRDP_TIMED_OUT = 0 then 1 else 0) ∧
    ∃ e2, s2.pRcvQueue[j]? = some e2 ∧
      (e2.privFlags &&& k.TRDP_TIMED_OUT ≠ 0 ↔
        (e0.privFlags &&& k.TRDP_TIMED_OUT ≠ 0 ∨ pdObserves s0 j e0 p ∨
          ∃ q ∈ pre, pdObserves s0 j e0 q)) := by
  obtain ⟨e1, b1, b2, b3, b4, b5, b6, b7⟩ := processAll_entry k c sSession appHandle j hk pre
    s0 s1 e0 hrx hj hnd (fun q hq => hvalid q (List.mem_append_left _ hq)) h1
  obtain ⟨hv, hl⟩ := hvalid p (List.mem_append_right _ (List.mem_singleton_self _))
  unfold processAll at h2
  cases hp : tlc_process k c p.env sSession appHandle s1 p.pRfds p.pCount with
  | none => rw [hp] at h2; simp at h2
  | some r =>
    rw [hp] at h2
    simp only [processAll, Option.some.injEq] at h2
    subst h2
    obtain ⟨t1, _, _, _, t5⟩ := tlc_process_entry k c p.env sSession appHandle s1 p.pRfds
      p.pCount r j e1 hv hl hp b1 (by rw [b5]; exact hnd) (by rw [b2]; exact hrx)
    obtain ⟨_, _, a3⟩ := pdTimeoutStep_fst k s1 (p.env.clock (s1.pSndQueue.length + j)) e1 hk
    have hobs : timercmp_le e1.timeToGo (p.env.clock (s1.pSndQueue.length + j)) = true ↔
        pdObserves s0 j e0 p := by
      unfold pdObserves
      rw [b3, b6]
    have hclear : e1.privFlags &&& k.TRDP_TIMED_OUT = 0 ↔
        ((∀ q ∈ pre, ¬ pdObserves s0 j e0 q) ∧ e0.privFlags &&& k.TRDP_TIMED_OUT = 0) := by
      constructor
      · intro hz
        have hn : ¬ (e1.privFlags &&& k.TRDP_TIMED_OUT ≠ 0) := fun hx => hx hz
        rw [b4] at hn
        push_neg at hn
        exact ⟨fun q hq => hn.2 q hq, hn.1⟩
      · rintro ⟨hq, hz⟩
        by_contra hx
        rcases b4.mp hx with hf | ⟨q, hqm, ho⟩
        · exact hf hz
        · exact hq q hqm ho
    constructor
    · rw [b2] at t5
      rw [t5]
      congr 1
      by_cases hc : pdObserves s0 j e0 p ∧ (∀ q ∈ pre, ¬ pdObserves s0 j e0 q) ∧
          e0.privFlags &&& k.TRDP_TIMED_OUT = 0
      · rw [if_pos hc, if_pos ⟨hobs.mpr hc.1, hclear.mpr hc.2, by rw [b7]; exact hcb⟩]
      · rw [if_neg hc, if_neg]
        rintro ⟨x1, x2, _⟩
        exact hc ⟨hobs.mp x1, hclear.mp x2⟩
    · refine ⟨_, t1, ?_⟩
      rw [a3, b4, hobs]
      constructor
      · rintro ((hf | hq) | ho)
        · exact Or.inl hf
        · exact Or.inr (Or.inr hq)
        · exact Or.inr (Or.inl ho)
      · rintro (hf | ho | hq)
        · exact Or.inl (Or.inl hf)
        · exact Or.inr ho
        · exact Or.inl (Or.inr hq)

theorem timeout_reported_once_witness :
    timeoutCalls (exPdEle 3 5).addr
      (processTimeouts exPdParams (exPdEnv 10) 0 (exPdQueues [] [exPdEle 3 5])).callbacks = 1 ∧
    timeoutCalls (exPdEle 3 5).addr
      (processTimeouts exPdParams (exPdEnv 11) 0
        (processTimeouts exPdParams (exPdEnv 10) 0 (exPdQueues [] [exPdEle 3 5]))).callbacks =
      1 := by
  have hs : pdReceiveSilent exPdCom (exPdEle 3 5).addr :=
    fun _ _ => ⟨rfl, fun _ _ h _ => h, rfl⟩
  have w1 := (timeout_reported_once exPdParams exPdCom exSessions 1
    (exPdQueues [] [exPdEle 3 5]) 0 (exPdEle 3 5)
    [{ env := exPdEnv 4, pRfds := none, pCount := none }]
    { env := exPdEnv 10, pRfds := none, pCount := none }
    (exPdQueues [] [exPdEle 3 5])
    (processTimeouts exPdParams (exPdEnv 10) 0 (exPdQueues [] [exPdEle 3 5]))
    (by decide) rfl rfl (by decide) hs (by decide) (by decide) (by decide)).1
  have w2 := (timeout_reported_once exPdParams exPdCom exSessions 1
    (exPdQueues [] [exPdEle 3 5]) 0 (exPdEle 3 5)
    [{ env := exPdEnv 4, pRfds := none, pCount := none },
     { env := exPdEnv 10, pRfds := none, pCount := none }]
    { env := exPdEnv 11, pRfds := none, pCount := none }
    (processTimeouts exPdParams (exPdEnv 10) 0 (exPdQueues [] [exPdEle 3 5]))
    (processTimeouts exPdParams (exPdEnv 11) 0
      (processTimeouts exPdParams (exPdEnv 10) 0 (exPdQueues [] [exPdEle 3 5])))
    (by decide) rfl rfl (by decide) hs (by decide) (by decide) (by decide)).1
  have c1 : timeoutCalls (exPdEle 3 5).addr (exPdQueues [] [exPdEle 3 5]).callbacks = 0 := by
    decide
  refine ⟨?_, ?_⟩
  · rw [w1, c1]
    decide
  · rw [w2, w1, c1]
    decide

/-! ## C15 and C16: tlc_getInterval -/

theorem getIntervalRcv_fst (k : PD_PARAMS) (s : TRDP_SESSION_T) (l : List PD_ELE_T)
    (acc : TRDP_TIME_T) (fds : Option (List Int)) :
    (getIntervalRcv k s l acc fds).1 = getIntervalSnd l acc := by
  induction l generalizing acc fds with
  | nil => rfl
  | cons e rest ih =>
    unfold getIntervalRcv getIntervalSnd
    split_ifs with h
    · simp only []
      exact ih _ _
    · exact ih _ _

theorem getIntervalSnd_append (l1 l2 : List PD_ELE_T) (acc : TRDP_TIME_T) :
    getIntervalSnd (l1 ++ l2) acc = getIntervalSnd l2 (getIntervalSnd l1 acc) := by
  induction l1 generalizing acc with
  | nil => rfl
  | cons e rest ih =>
    simp only [List.cons_append, getIntervalSnd]
    split_ifs <;> exact ih _

theorem getIntervalSnd_mem (l : List PD_ELE_T) (acc : TRDP_TIME_T) :
    getIntervalSnd l acc = acc ∨ getIntervalSnd l acc ∈ l.map (fun e => e.timeToGo) := by
  induction l generalizing acc with
  | nil => left; rfl
  | cons e rest ih =>
    simp only [getIntervalSnd, List.map_cons, List.mem_cons]
    split_ifs with h
    · rcases ih e.timeToGo with h1 | h1
      · right; left; exact h1
      · right; right; exact h1
    · rcases ih acc with h1 | h1
      · left; exact h1
      · right; right; exact h1

/-- The scan keeps an accumulator that is set and not later than all deadlines. -/
theorem getIntervalSnd_keep (l : List PD_ELE_T) (d : TRDP_TIME_T) (hd : timerisset d = true)
    (hmin : ∀ t ∈ l.map (fun e => e.timeToGo), timercmp_le d t = true) :
    getIntervalSnd l d = d := by
  induction l with
  | nil => rfl
  | cons e rest ih =>
    have hrest : ∀ t ∈ rest.map (fun e => e.timeToGo), timercmp_le d t = true :=
      fun t ht => hmin t (by simp only [List.map_cons, List.mem_cons]; right; exact ht)
    have he : timercmp_le d e.timeToGo = true := hmin _ (by simp)
    simp only [getIntervalSnd]
    split_ifs with h
    · unfold intervalTakes at h
      simp only [hd, Bool.not_true, Bool.false_or] at h
      have : e.timeToGo = d := timercmp_le_antisymm _ _ h he
      rw [this]
      exact ih hrest
    · exact ih hrest

/-- The scan returns the earliest deadline (in the order of `timercmp`) when all
deadlines are set and the accumulator is clear or not earlier. -/
theorem getIntervalSnd_min (l : List PD_ELE_T) (d acc : TRDP_TIME_T)
    (hset : ∀ t ∈ l.map (fun e => e.timeToGo), timerisset t = true)
    (hmin : ∀ t ∈ l.map (fun e => e.timeToGo), timercmp_le d t = true)
    (hd : d ∈ l.map (fun e => e.timeToGo))
    (hacc : timerisset acc = false ∨ timercmp_le d acc = true) :
    getIntervalSnd l acc = d := by
  induction l generalizing acc with
  | nil => simp at hd
  | cons e rest ih =>
    have hrset : ∀ t ∈ rest.map (fun e => e.timeToGo), timerisset t = true :=
      fun t ht => hset t (by simp only [List.map_cons, List.mem_cons]; right; exact ht)
    have hrmin : ∀ t ∈ rest.map (fun e => e.timeToGo), timercmp_le d t = true :=
      fun t ht => hmin t (by simp only [List.map_cons, List.mem_cons]; right; exact ht)
    have he : timercmp_le d e.timeToGo = true := hmin _ (by simp)
    simp only [List.map_cons, List.mem_cons] at hd
    simp only [getIntervalSnd]
    split_ifs with h
    · rcases hd with hd | hd
      · rw [← hd]
        exact getIntervalSnd_keep rest d (hd ▸ hset _ (by simp)) hrmin
      · exact ih _ hrset hrmin hd (Or.inr he)
    · rcases hd with hd | hd
      · exfalso
        apply h
        unfold intervalTakes
        rcases hacc with ha | ha
        · simp [ha]
        · rw [← hd, ha]; simp
      · exact ih _ hrset hrmin hd hacc

theorem tlc_getInterval_eq (k : PD_PARAMS) (env : PD_ENV) (l : List Nat) (h : Nat)
    (s : TRDP_SESSION_T) (pFileDesc : Option (List Int))
    (hv : trdp_isValidSession env.sessionLockOk l h = true) (hl : env.lockOk = true) :
    (tlc_getInterval k env l h s pFileDesc).1 = TRDP_NO_ERR ∧
    (tlc_getInterval k env l h s pFileDesc).2.2.1 =
      some (if timerisset (getIntervalSnd (s.pRcvQueue ++ s.pSndQueue) timerclear) &&
               timercmp_le (env.clock 0) (getIntervalSnd (s.pRcvQueue ++ s.pSndQueue) timerclear)
            then timersub (getIntervalSnd (s.pRcvQueue ++ s.pSndQueue) timerclear) (env.clock 0)
            else { tv_sec := 0, tv_usec := 10000 }) := by
  unfold tlc_getInterval
  simp only [hv, hl, Bool.not_true, if_false, Bool.false_eq_true]
  rw [getIntervalRcv_fst, ← getIntervalSnd_append]
  have hq : (vos_mutexLock s).pRcvQueue ++ (vos_mutexLock s).pSndQueue =
      s.pRcvQueue ++ s.pSndQueue := rfl
  rw [hq]
  split_ifs with h1
  · exact ⟨rfl, rfl⟩
  · exact ⟨rfl, rfl⟩

/-- C15: `tlc_getInterval` returns the time to the next deadline. On a call that passes
the session checks, with every queued `timeToGo` non-zero and all time values in normal
form (microseconds in `[0, 1000000)`): for the earliest deadline `d` over the receive
and the send queue, if `d >= now` the interval stored is `d - now`, again in normal form
and of exactly that length in microseconds; if both queues are empty the interval
stored is 10 ms. -/
theorem getInterval_next_deadline (k : PD_PARAMS) (env : PD_ENV) (sSession : List Nat)
    (appHandle : Nat) (s : TRDP_SESSION_T) (pFileDesc : Option (List Int))
    (hv : trdp_isValidSession env.sessionLockOk sSession appHandle = true)
    (hl : env.lockOk = true) (hnow : timeNormal (env.clock 0))
    (hq : ∀ t ∈ pdDeadlines s, timerisset t = true ∧ timeNormal t) :
    (tlc_getInterval k env sSession appHandle s pFileDesc).1 = TRDP_NO_ERR ∧
    (∀ d ∈ pdDeadlines s, (∀ t ∈ pdDeadlines s, timeUsec d ≤ timeUsec t) →
      timeUsec (env.clock 0) ≤ timeUsec d →
      (tlc_getInterval k env sSession appHandle s pFileDesc).2.2.1 =
        some (timersub d (env.clock 0)) ∧
      timeNormal (timersub d (env.clock 0)) ∧
      timeUsec (timersub d (env.clock 0)) = timeUsec d - timeUsec (env.clock 0)) ∧
    (s.pRcvQueue = [] → s.pSndQueue = [] →
      (tlc_getInterval k env sSession appHandle s pFileDesc).2.2.1 =
        some { tv_sec := 0, tv_usec := 10000 }) := by
  obtain ⟨h1, h2⟩ := tlc_getInterval_eq k env sSession appHandle s pFileDesc hv hl
  refine ⟨h1, ?_, ?_⟩
  · intro d hd hmin hge
    have hdn : timeNormal d := (hq d hd).2
    have hscan : getIntervalSnd (s.pRcvQueue ++ s.pSndQueue) timerclear = d := by
      apply getIntervalSnd_min
      · intro t ht
        exact (hq t ht).1
      · intro t ht
        exact (timercmp_le_iff d t hdn (hq t ht).2).mpr (hmin t ht)
      · exact hd
      · left; rfl
    rw [h2, hscan, (hq d hd).1, (timercmp_le_iff _ _ hnow hdn).mpr hge]
    exact ⟨rfl, timeNormal_timersub _ _ hdn hnow, timeUsec_timersub _ _⟩
  · intro hr hs
    rw [h2, hr, hs]
    rfl

theorem getInterval_next_deadline_witness :
    (tlc_getInterval exPdParams (exPdEnv 99) exSessions 1
      (exPdQueues [exPdEle 1001 100] [exPdEle 1002 105]) none).2.2.1 =
      some { tv_sec := 1, tv_usec := 0 } ∧
    (tlc_getInterval exPdParams (exPdEnv 99) exSessions 1 (exPdQueues [] []) none).2.2.1 =
      some { tv_sec := 0, tv_usec := 10000 } :=
  ⟨((getInterval_next_deadline exPdParams (exPdEnv 99) exSessions 1
      (exPdQueues [exPdEle 1001 100] [exPdEle 1002 105]) none (by decide) (by decide)
      (by decide) (by decide)).2.1 ⟨100, 0⟩ (by decide) (by decide) (by decide)).1,
   (getInterval_next_deadline exPdParams (exPdEnv 99) exSessions 1 (exPdQueues [] []) none
      (by decide) (by decide) (by decide) (by decide)).2.2 rfl rfl⟩

/-- C16, counterexample: one publication is due at 100 s and the clock reads 99 s; the
interval returned is one second, more than the default poll interval of 10 ms. -/
theorem getInterval_exceeds_default_counterexample :
    (tlc_getInterval exPdParams (exPdEnv 99) exSessions 1
      (exPdQueues [exPdEle 1001 100] []) none).2.2.1 = some { tv_sec := 1, tv_usec := 0 } ∧
    timeUsec { tv_sec := 0, tv_usec := 10000 } < timeUsec { tv_sec := 1, tv_usec := 0 } := by
  constructor <;> decide

/-- C16, amended: on a call that passes the session checks, for every session state and
clock reading, the interval returned by `tlc_getInterval` is the default poll interval
of 10 ms or the distance `d - now` to a queued deadline `d` that is not before the
clock reading. When all queued deadlines are non-zero and all time values are in normal
form, `d` is the earliest queued deadline: the interval returned is `d - now` if
`d >= now` and 10 ms otherwise; it is at most 10 ms exactly when the earliest deadline
lies at most 10 ms after the clock reading, whatever the later deadlines are, and an
earliest deadline that lies more than 10 ms after the clock reading is returned as
`d - now`, more than 10 ms, without a cap. With both queues empty the interval
returned is 10 ms. -/
theorem getInterval_bound (k : PD_PARAMS) (env : PD_ENV) (sSession : List Nat)
    (appHandle : Nat) (s : TRDP_SESSION_T) (pFileDesc : Option (List Int))
    (hv : trdp_isValidSession env.sessionLockOk sSession appHandle = true)
    (hl : env.lockOk = true) :
    ∃ r, (tlc_getInterval k env sSession appHandle s pFileDesc).2.2.1 = some r ∧
      (r = { tv_sec := 0, tv_usec := 10000 } ∨
        ∃ d ∈ pdDeadlines s, timercmp_le (env.clock 0) d = true ∧
          r = timersub d (env.clock 0)) ∧
      (∀ d ∈ pdDeadlines s, timeNormal (env.clock 0) →
        (∀ t ∈ pdDeadlines s, timerisset t = true ∧ timeNormal t) →
        (∀ t ∈ pdDeadlines s, timeUsec d ≤ timeUsec t) →
        (r = if timeUsec (env.clock 0) ≤ timeUsec d then timersub d (env.clock 0)
             else { tv_sec := 0, tv_usec := 10000 }) ∧
        (timeUsec r ≤ 10000 ↔ timeUsec d ≤ timeUsec (env.clock 0) + 10000) ∧
        (timeUsec (env.clock 0) + 10000 < timeUsec d →
          timeUsec r = timeUsec d - timeUsec (env.clock 0) ∧ 10000 < timeUsec r)) ∧
      (s.pRcvQueue = [] → s.pSndQueue = [] → r = { tv_sec := 0, tv_usec := 10000 }) := by
  obtain ⟨_, h2⟩ := tlc_getInterval_eq k env sSession appHandle s pFileDesc hv hl
  refine ⟨_, h2, ?_, ?_, ?_⟩
  · split_ifs with h
    · right
      simp only [Bool.and_eq_true] at h
      rcases getIntervalSnd_mem (s.pRcvQueue ++ s.pSndQueue) timerclear with hm | hm
      · rw [hm] at h
        exact absurd h.1 (by decide)
      · exact ⟨_, hm, h.2, rfl⟩
    · left; rfl
  · intro d hd hnow hq hmin
    have hdn : timeNormal d := (hq d hd).2
    have hscan : getIntervalSnd (s.pRcvQueue ++ s.pSndQueue) timerclear = d := by
      apply getIntervalSnd_min
      · intro t ht
        exact (hq t ht).1
      · intro t ht
        exact (timercmp_le_iff d t hdn (hq t ht).2).mpr (hmin t ht)
      · exact hd
      · left; rfl
    rw [hscan, (hq d hd).1]
    by_cases hge : timeUsec (env.clock 0) ≤ timeUsec d
    · rw [(timercmp_le_iff _ _ hnow hdn).mpr hge, if_pos hge]
      simp only [Bool.and_self, if_true]
      have hs := timeUsec_timersub d (env.clock 0)
      refine ⟨trivial, ?_, ?_⟩
      · rw [hs]; constructor <;> intro hx <;> omega
      · intro hx
        rw [hs]
        exact ⟨rfl, by omega⟩
    · have hc : timercmp_le (env.clock 0) d = false := by
        rw [Bool.eq_false_iff]
        intro hx
        exact hge ((timercmp_le_iff _ _ hnow hdn).mp hx)
      rw [hc, if_neg hge]
      simp only [Bool.and_false, Bool.false_eq_true, if_false]
      have h10 : timeUsec { tv_sec := 0, tv_usec := 10000 } = 10000 := by decide
      refine ⟨trivial, ?_, ?_⟩
      · rw [h10]; constructor <;> intro hx <;> omega
      · intro hx
        omega
  · intro hr hs
    rw [hr, hs]
    rfl

theorem getInterval_bound_witness :
    (tlc_getInterval exPdParams (exPdEnvAt ⟨99, 995000⟩) exSessions 1
      (exPdQueues [exPdEle 1001 100] [exPdEle 1002 105]) none).2.2.1 =
      some { tv_sec := 0, tv_usec := 5000 } ∧
    (tlc_getInterval exPdParams (exPdEnvAt ⟨99, 995000⟩) exSessions 1
      (exPdQueues [exPdEle 1001 103] [exPdEle 1002 105]) none).2.2.1 =
      some { tv_sec := 3, tv_usec := 5000 } ∧
    ∃ r, (tlc_getInterval exPdParams (exPdEnvAt ⟨99, 995000⟩) exSessions 1
        (exPdQueues [exPdEle 1001 100] [exPdEle 1002 105]) none).2.2.1 = some r ∧
      (r = if timeUsec ((exPdEnvAt ⟨99, 995000⟩).clock 0) ≤ timeUsec ⟨100, 0⟩
           then timersub ⟨100, 0⟩ ((exPdEnvAt ⟨99, 995000⟩).clock 0)
           else { tv_sec := 0, tv_usec := 10000 }) ∧
      (timeUsec r ≤ 10000 ↔
        timeUsec ⟨100, 0⟩ ≤ timeUsec ((exPdEnvAt ⟨99, 995000⟩).clock 0) + 10000) :=
  ⟨by decide, by decide,
   (getInterval_bound exPdParams (exPdEnvAt ⟨99, 995000⟩) exSessions 1
      (exPdQueues [exPdEle 1001 100] [exPdEle 1002 105]) none (by decide) (by decide)).imp
    (fun r hr => ⟨hr.1,
      (hr.2.2.1 ⟨100, 0⟩ (by decide) (by decide) (by decide) (by decide)).1,
      (hr.2.2.1 ⟨100, 0⟩ (by decide) (by decide) (by decide) (by decide)).2.1⟩)⟩

/-! ## C17 to C19: tlp_unsubscribe and tlp_get -/

/-- `tlp_unsubscribe` never changes the receive queue. -/
theorem tlp_unsubscribe_pRcvQueue (env : PD_ENV) (l : List Nat) (h : Nat) (s : TRDP_SESSION_T)
    (subHandle : TRDP_SUB_T) :
    (tlp_unsubscribe env l h s subHandle).2.1.pRcvQueue = s.pRcvQueue := by
  unfold tlp_unsubscribe
  cases subHandle with
  | none => rfl
  | some addr =>
    simp only []
    split_ifs
    · rfl
    · rfl
    · cases hf : trdp_queue_find_addr (vos_mutexLock s).pSndQueue addr with
      | none => rfl
      | some i => rfl

/-- C17, the code at the failing input: a subscription to comId 1001 succeeds on a
session without publications and returns a handle; `tlp_unsubscribe` with that handle
looks the address up in the send queue, returns `TRDP_NOPUB_ERR` and leaves the
subscription in the receive queue. When a publication with the same address exists,
`tlp_unsubscribe` returns `TRDP_NO_ERR`, removes the publication and again leaves the
subscription in the receive queue. -/
theorem tlp_unsubscribe_uses_send_queue :
    (tlp_subscribe exPdParams (exPdEnv 100) exSessions 1 exPdSession true 0 1001 0 9
      1000000 100).1 = TRDP_NO_ERR ∧
    (tlp_subscribe exPdParams (exPdEnv 100) exSessions 1 exPdSession true 0 1001 0 9
      1000000 100).2.2 = some ⟨1001, 0, 9, 0⟩ ∧
    queueKeys (tlp_subscribe exPdParams (exPdEnv 100) exSessions 1 exPdSession true 0 1001 0 9
      1000000 100).2.1.pRcvQueue = [(1001, 0, 9)] ∧
    (tlp_unsubscribe (exPdEnv 100) exSessions 1
      (tlp_subscribe exPdParams (exPdEnv 100) exSessions 1 exPdSession true 0 1001 0 9
        1000000 100).2.1 (some ⟨1001, 0, 9, 0⟩)).1 = TRDP_NOPUB_ERR ∧
    queueKeys (tlp_unsubscribe (exPdEnv 100) exSessions 1
      (tlp_subscribe exPdParams (exPdEnv 100) exSessions 1 exPdSession true 0 1001 0 9
        1000000 100).2.1 (some ⟨1001, 0, 9, 0⟩)).2.1.pRcvQueue = [(1001, 0, 9)] ∧
    (tlp_unsubscribe (exPdEnv 100) exSessions 1
      (exPdQueues [exPdEle 1001 50] [exPdEle 1001 60]) (some ⟨1001, 0, 9, 0⟩)).1 = TRDP_NO_ERR ∧
    (tlp_unsubscribe (exPdEnv 100) exSessions 1
      (exPdQueues [exPdEle 1001 50] [exPdEle 1001 60]) (some ⟨1001, 0, 9, 0⟩)).2.1.pSndQueue = [] ∧
    (tlp_unsubscribe (exPdEnv 100) exSessions 1
      (exPdQueues [exPdEle 1001 50] [exPdEle 1001 60]) (some ⟨1001, 0, 9, 0⟩)).2.1.pRcvQueue =
      [exPdEle 1001 60] := by
  refine ⟨?_, ?_, ?_, ?_, ?_, ?_, ?_, ?_⟩ <;> decide

/-- C18, the code at the failing input: a subscription whose deadline is at 10 s is read
in blocking mode. With the clock at 5 s, before the deadline, `tlp_get` returns
`TRDP_TIMEOUT_ERR` and the buffer is not filled; with the clock at 20 s, after the
deadline, it returns the result of `trdp_pdGet`, here `TRDP_NO_ERR`. -/
theorem tlp_get_timeout_inverted :
    timercmp_le (exPdEle 1001 10).timeToGo ((exPdEnv 5).clock 0) = false ∧
    (tlp_get exPdParams exPdCom (exPdEnv 5) exSessions 1 (exPdQueues [] [exPdEle 1001 10])
      (some ⟨1001, 0, 9, 0⟩) 0 false (some [1, 2]) (some 2)).map (fun r => (r.1, r.2.2.1)) =
      some (TRDP_TIMEOUT_ERR, some [1, 2]) ∧
    timercmp_le (exPdEle 1001 10).timeToGo ((exPdEnv 20).clock 0) = true ∧
    (tlp_get exPdParams exPdCom (exPdEnv 20) exSessions 1 (exPdQueues [] [exPdEle 1001 10])
      (some ⟨1001, 0, 9, 0⟩) 0 false (some [1, 2]) (some 2)).map (fun r => (r.1, r.2.2.1)) =
      some ((exPdCom.trdp_pdGet (exPdEle 1001 10) 0 0 [1, 2] 2).1,
            some (exPdCom.trdp_pdGet (exPdEle 1001 10) 0 0 [1, 2] 2).2) ∧
    (exPdCom.trdp_pdGet (exPdEle 1001 10) 0 0 [1, 2] 2).1 = TRDP_NO_ERR := by
  refine ⟨?_, ?_, ?_, ?_, ?_⟩ <;> decide

/-- C19, the code at the failing input: the receive queue is empty, so the handle is
not found; with a non-NULL `pPdInfo` the function reads `pElement->addr.comId` through
the NULL lookup result (the model has no result), with a NULL `pPdInfo` it returns
`TRDP_NOSUB_ERR`. -/
theorem tlp_get_not_subscribed_reads_null :
    trdp_queue_find_addr (exPdQueues [] []).pRcvQueue ⟨1001, 0, 9, 0⟩ = none ∧
    tlp_get exPdParams exPdCom (exPdEnv 20) exSessions 1 (exPdQueues [] [])
      (some ⟨1001, 0, 9, 0⟩) 0 true (some [1, 2]) (some 2) = none ∧
    (tlp_get exPdParams exPdCom (exPdEnv 20) exSessions 1 (exPdQueues [] [])
      (some ⟨1001, 0, 9, 0⟩) 0 false (some [1, 2]) (some 2)).map (fun r => r.1) =
      some TRDP_NOSUB_ERR := by
  refine ⟨?_, ?_, ?_⟩ <;> decide

/-! ## C20: the session registry -/

theorem sessionListFind_iff (l : List Nat) (h : Nat) :
    sessionListFind l h = true ↔ h ∈ l := by
  induction l with
  | nil => simp [sessionListFind]
  | cons p rest ih =>
    by_cases hp : p = h
    · simp [sessionListFind, hp]
    · have hp2 : ¬ h = p := fun e => hp e.symm
      simp [sessionListFind, hp, hp2, ih]

theorem trdp_isValidSession_iff (lk : Bool) (l : List Nat) (h : Nat) :
    trdp_isValidSession lk l h = true ↔ h ≠ 0 ∧ lk = true ∧ h ∈ l := by
  unfold trdp_isValidSession
  by_cases h0 : h = 0
  · simp [h0]
  · cases lk <;> simp [h0, sessionListFind_iff]

theorem sessionListUnlink_cons (p : Nat) (rest : List Nat) (h : Nat) (hp : p ≠ h) :
    sessionListUnlink (p :: rest) h = (decide (h ∈ rest), p :: rest.erase h) := by
  induction rest generalizing p with
  | nil => simp [sessionListUnlink]
  | cons q rest ih =>
    by_cases hq : q = h
    · subst hq
      simp [sessionListUnlink]
    · have hq2 : ¬ h = q := fun e => hq e.symm
      have hq3 : (q == h) = false := by simpa using hq
      rw [sessionListUnlink]
      simp only [hq, if_false]
      rw [ih q hq]
      simp [List.erase_cons, hq3, hq2]

/-- The list part of `tlc_terminate`: for a non-NULL handle the session is found exactly
when it is in the list, and the list afterwards is the list without its first
occurrence. -/
theorem tlc_terminate_list (l : List Nat) (h : Nat) (s : TRDP_SESSION_T) (h0 : h ≠ 0) :
    (tlc_terminate l h s).1 = (if h ∈ l then TRDP_NO_ERR else TRDP_NOINIT_ERR) ∧
    (tlc_terminate l h s).2.1 = l.erase h := by
  unfold tlc_terminate
  simp only [h0, if_false]
  cases l with
  | nil => simp [sessionListUnlink]
  | cons p rest =>
    by_cases hp : p = h
    · subst hp
      simp
    · have hp2 : ¬ h = p := fun e => hp e.symm
      have hp3 : (p == h) = false := by simpa using hp
      simp only [hp, if_false]
      rw [sessionListUnlink_cons p rest h hp]
      by_cases hm : h ∈ rest
      · simp [hm, List.erase_cons, hp3]
      · simp [hm, List.erase_cons, hp3, hp2]

theorem tlc_init_ok (k : PD_PARAMS) (env : INIT_ENV) (l : List Nat) (pAppHandle : Bool)
    (pMarshall : Option TRDP_MARSHALL_CONFIG_T) (pPdDefault : Option TRDP_PD_CONFIG_T)
    (h : (tlc_init k env l pAppHandle pMarshall pPdDefault).1 = TRDP_NO_ERR) :
    env.alloc ≠ 0 ∧
    tlc_init k env l pAppHandle pMarshall pPdDefault =
      (TRDP_NO_ERR, env.alloc :: l, some (env.alloc, initSession pMarshall pPdDefault)) := by
  unfold tlc_init at h ⊢
  split_ifs at h ⊢ with h1 h2 h3 h4 h5
  · exfalso
    simp only [Bool.and_eq_true, bne_iff_ne] at h5
    exact h5.2 h
  · exact ⟨h3, rfl⟩

theorem tlc_init_succeeds (k : PD_PARAMS) (env : INIT_ENV) (l : List Nat) (pAppHandle : Bool)
    (pMarshall : Option TRDP_MARSHALL_CONFIG_T) (pPdDefault : Option TRDP_PD_CONFIG_T)
    (hp : pAppHandle = true) (hm : l = [] → env.createListMutexOk = true)
    (ha : env.alloc ≠ 0) (hc : env.createMutexOk = true)
    (hi : k.MD_SUPPORT = true → env.initMdErr = TRDP_NO_ERR) :
    tlc_init k env l pAppHandle pMarshall pPdDefault =
      (TRDP_NO_ERR, env.alloc :: l, some (env.alloc, initSession pMarshall pPdDefault)) := by
  unfold tlc_init
  rw [if_neg (by simp [hp])]
  rw [if_neg (by
    intro hx
    simp only [Bool.and_eq_true, List.isEmpty_iff, Bool.not_eq_true'] at hx
    rw [hm hx.1] at hx
    simp at hx)]
  rw [if_neg ha, if_neg (by simp [hc])]
  rw [if_neg (by
    intro hx
    simp only [Bool.and_eq_true, bne_iff_ne, ne_eq] at hx
    exact hx.2 (hi hx.1))]

/-- C20: session registry. `tlc_init` succeeds when `pAppHandle` is not NULL and the
platform delivers the mutexes, the memory of the session and the result of
`trdp_initMD`; the new session is then the head of the list. After a successful
`tlc_init` the returned handle is valid (provided the list mutex can be taken, without
which `trdp_isValidSession` is FALSE for every handle) and every handle that was valid
stays valid; after `tlc_terminate(h)` returned `TRDP_NO_ERR`, `h` is no longer valid,
every other handle is valid exactly when it was before, and the list is the old list
without `h`, in the old order; `tlc_terminate` returns `TRDP_NO_ERR` for every handle
of the list; on a non-NULL handle that is not in the list it returns `TRDP_NOINIT_ERR`
and leaves the list unchanged, and on NULL it returns `TRDP_PARAM_ERR`. The session
list is a linked list, so no session occurs twice in it; `tlc_init` keeps it so when
the allocator returns a block that is not in use. -/
theorem session_registry (k : PD_PARAMS) (sSession : List Nat) (hl : sSession.Nodup) :
    (∀ (env : INIT_ENV) (pAppHandle : Bool) (pMarshall : Option TRDP_MARSHALL_CONFIG_T)
        (pPdDefault : Option TRDP_PD_CONFIG_T),
        pAppHandle = true → (sSession = [] → env.createListMutexOk = true) →
        env.alloc ≠ 0 → env.createMutexOk = true →
        (k.MD_SUPPORT = true → env.initMdErr = TRDP_NO_ERR) →
        tlc_init k env sSession pAppHandle pMarshall pPdDefault =
          (TRDP_NO_ERR, env.alloc :: sSession,
            some (env.alloc, initSession pMarshall pPdDefault))) ∧
    (∀ (env : INIT_ENV) (pAppHandle : Bool) (pMarshall : Option TRDP_MARSHALL_CONFIG_T)
        (pPdDefault : Option TRDP_PD_CONFIG_T),
        (tlc_init k env sSession pAppHandle pMarshall pPdDefault).1 = TRDP_NO_ERR →
        ∃ h s, (tlc_init k env sSession pAppHandle pMarshall pPdDefault).2.2 = some (h, s) ∧
          trdp_isValidSession true
            (tlc_init k env sSession pAppHandle pMarshall pPdDefault).2.1 h = true ∧
          (∀ lk h2, trdp_isValidSession lk sSession h2 = true →
            trdp_isValidSession lk
              (tlc_init k env sSession pAppHandle pMarshall pPdDefault).2.1 h2 = true) ∧
          (h ∉ sSession →
            (tlc_init k env sSession pAppHandle pMarshall pPdDefault).2.1.Nodup)) ∧
    (∀ (h : Nat) (s : TRDP_SESSION_T), h ≠ 0 → h ∈ sSession →
        (tlc_terminate sSession h s).1 = TRDP_NO_ERR) ∧
    (∀ (h : Nat) (s : TRDP_SESSION_T), (tlc_terminate sSession h s).1 = TRDP_NO_ERR →
        (∀ lk, trdp_isValidSession lk (tlc_terminate sSession h s).2.1 h = false) ∧
        (∀ lk h2, h2 ≠ h → trdp_isValidSession lk (tlc_terminate sSession h s).2.1 h2 =
          trdp_isValidSession lk sSession h2) ∧
        (tlc_terminate sSession h s).2.1 = sSession.filter (fun p => p != h) ∧
        (tlc_terminate sSession h s).2.1.Nodup) ∧
    (∀ (h : Nat) (s : TRDP_SESSION_T), h ≠ 0 → h ∉ sSession →
        tlc_terminate sSession h s = (TRDP_NOINIT_ERR, sSession, [])) ∧
    (∀ s : TRDP_SESSION_T, tlc_terminate sSession 0 s = (TRDP_PARAM_ERR, sSession, [])) := by
  refine ⟨?_, ?_, ?_, ?_, ?_, ?_⟩
  · intro env pAppHandle pMarshall pPdDefault hp hm ha hc hi
    exact tlc_init_succeeds k env sSession pAppHandle pMarshall pPdDefault hp hm ha hc hi
  · intro env pAppHandle pMarshall pPdDefault h
    obtain ⟨ha, he⟩ := tlc_init_ok k env sSession pAppHandle pMarshall pPdDefault h
    rw [he]
    refine ⟨env.alloc, initSession pMarshall pPdDefault, rfl, ?_, ?_, ?_⟩
    · rw [trdp_isValidSession_iff]
      exact ⟨ha, rfl, List.mem_cons_self _ _⟩
    · intro lk h2 hv
      rw [trdp_isValidSession_iff] at hv ⊢
      exact ⟨hv.1, hv.2.1, List.mem_cons_of_mem _ hv.2.2⟩
    · intro hn
      exact List.nodup_cons.mpr ⟨hn, hl⟩
  · intro h s h0 hm
    rw [(tlc_terminate_list sSession h s h0).1, if_pos hm]
  · intro h s hr
    have h0 : h ≠ 0 := by
      intro e
      subst e
      simp [tlc_terminate] at hr
    obtain ⟨_, h2⟩ := tlc_terminate_list sSession h s h0
    rw [h2]
    refine ⟨?_, ?_, ?_, ?_⟩
    · intro lk
      rw [Bool.eq_false_iff]
      intro hv
      rw [trdp_isValidSession_iff] at hv
      exact (List.Nodup.not_mem_erase hl) hv.2.2
    · intro lk h2 hne
      rw [Bool.eq_iff_iff, trdp_isValidSession_iff, trdp_isValidSession_iff,
        List.mem_erase_of_ne hne]
    · exact List.Nodup.erase_eq_filter hl h
    · exact List.Nodup.erase h hl
  · intro h s h0 hn
    obtain ⟨h1, h2⟩ := tlc_terminate_list sSession h s h0
    have h3 : (tlc_terminate sSession h s).2.2 = [] := by
      have hf : (tlc_terminate sSession h s).1 ≠ TRDP_NO_ERR := by
        rw [h1]; simp [hn]
      unfold tlc_terminate at hf ⊢
      simp only [h0, if_false] at hf ⊢
      split_ifs at hf ⊢ with hx
      · simp at hf
      · rfl
    rw [if_neg hn] at h1
    rw [List.erase_of_not_mem hn] at h2
    exact Prod.ext h1 (Prod.ext h2 h3)
  · intro s
    simp [tlc_terminate]

theorem session_registry_witness :
    ([7, 5, 3] : List Nat).Nodup ∧
    tlc_init exPdParams (exInitEnv 9) [7, 5, 3] true none (some ⟨true, 0, 0⟩) =
      (TRDP_NO_ERR, [9, 7, 5, 3], some (9, initSession none (some ⟨true, 0, 0⟩))) ∧
    (∃ h s, (tlc_init exPdParams (exInitEnv 9) [7, 5, 3] true none
          (some ⟨true, 0, 0⟩)).2.2 = some (h, s) ∧
      trdp_isValidSession true
        (tlc_init exPdParams (exInitEnv 9) [7, 5, 3] true none (some ⟨true, 0, 0⟩)).2.1 h =
        true ∧
      (∀ lk h2, trdp_isValidSession lk [7, 5, 3] h2 = true →
        trdp_isValidSession lk
          (tlc_init exPdParams (exInitEnv 9) [7, 5, 3] true none (some ⟨true, 0, 0⟩)).2.1 h2 =
          true) ∧
      (h ∉ [7, 5, 3] →
        (tlc_init exPdParams (exInitEnv 9) [7, 5, 3] true none
          (some ⟨true, 0, 0⟩)).2.1.Nodup)) ∧
    trdp_isValidSession true
      (tlc_init exPdParams (exInitEnv 9) [7, 5, 3] true none (some ⟨true, 0, 0⟩)).2.1 9 =
      true ∧
    trdp_isValidSession true
      (tlc_init exPdParams (exInitEnv 9) [7, 5, 3] true none (some ⟨true, 0, 0⟩)).2.1 5 =
      true ∧
    tlc_init exPdParams (exInitEnv 4) [] true none none =
      (TRDP_NO_ERR, [4], some (4, initSession none none)) ∧
    (tlc_terminate [7, 5, 3] 5 TRDP_SESSION_T.zero).1 = TRDP_NO_ERR ∧
    (tlc_terminate [7, 5, 3] 5 TRDP_SESSION_T.zero).2.1 = [7, 3] ∧
    trdp_isValidSession true (tlc_terminate [7, 5, 3] 5 TRDP_SESSION_T.zero).2.1 5 = false ∧
    trdp_isValidSession true (tlc_terminate [7, 5, 3] 5 TRDP_SESSION_T.zero).2.1 3 =
      trdp_isValidSession true [7, 5, 3] 3 ∧
    tlc_terminate [7, 5, 3] 4 TRDP_SESSION_T.zero = (TRDP_NOINIT_ERR, [7, 5, 3], []) ∧
    tlc_terminate [7, 5, 3] 0 TRDP_SESSION_T.zero = (TRDP_PARAM_ERR, [7, 5, 3], []) :=
  ⟨by decide,
   (session_registry exPdParams [7, 5, 3] (by decide)).1 (exInitEnv 9) true none
      (some ⟨true, 0, 0⟩) rfl (by decide) (by decide) rfl (by decide),
   (session_registry exPdParams [7, 5, 3] (by decide)).2.1 (exInitEnv 9) true none
      (some ⟨true, 0, 0⟩) (by decide),
   by decide, by decide,
   (session_registry exPdParams [] (by decide)).1 (exInitEnv 4) true none none rfl
      (by decide) (by decide) rfl (by decide),
   (session_registry exPdParams [7, 5, 3] (by decide)).2.2.1 5 TRDP_SESSION_T.zero
      (by decide) (by decide),
   ((session_registry exPdParams [7, 5, 3] (by decide)).2.2.2.1 5 TRDP_SESSION_T.zero
      (by decide)).2.2.1,
   ((session_registry exPdParams [7, 5, 3] (by decide)).2.2.2.1 5 TRDP_SESSION_T.zero
      (by decide)).1 true,
   ((session_registry exPdParams [7, 5, 3] (by decide)).2.2.2.1 5 TRDP_SESSION_T.zero
      (by decide)).2.1 true 3 (by decide),
   (session_registry exPdParams [7, 5, 3] (by decide)).2.2.2.2.1 4 TRDP_SESSION_T.zero
      (by decide) (by decide),
   (session_registry exPdParams [7, 5, 3] (by decide)).2.2.2.2.2 TRDP_SESSION_T.zero⟩

/-! ## C21: the releases of tlc_terminate -/

theorem terminateRelease_elements (q : List PD_ELE_T) :
    releasedElements (terminateRelease q) = q ∧
    releasedSockets (terminateRelease q) = q.map (fun e => e.socketIdx) := by
  induction q with
  | nil => exact ⟨rfl, rfl⟩
  | cons e rest ih =>
    unfold releasedElements releasedSockets at *
    simp only [terminateRelease, List.filterMap_cons, List.map_cons]
    rw [ih.1, ih.2]
    exact ⟨rfl, rfl⟩

theorem tlc_terminate_log (l : List Nat) (h : Nat) (s : TRDP_SESSION_T)
    (hr : (tlc_terminate l h s).1 = TRDP_NO_ERR) :
    (tlc_terminate l h s).2.2 = terminateRelease s.pSndQueue ++ [PD_RELEASE.session h] := by
  unfold tlc_terminate at hr ⊢
  by_cases h0 : h = 0
  · rw [if_pos h0] at hr
    simp at hr
  · rw [if_neg h0] at hr ⊢
    simp only [] at hr ⊢
    split_ifs at hr ⊢ with h1
    rfl

/-- C21, the code at the failing input: a session with two publications and one
subscription is terminated with result `TRDP_NO_ERR`. The socket reference and the
memory of the two publications are released, head of the send queue first, then the
session itself; the subscription is not released. In general a successful
`tlc_terminate` hands to `vos_memFree` exactly the elements of the send queue, each
once and in the order of the queue, and to `trdp_releaseSocket` their socket indices;
the receive queue is not looked at. -/
theorem tlc_terminate_leaves_subscriptions :
    (tlc_terminate exSessions 1
      (exPdQueues [exPdEle 1002 7, exPdEle 1001 5] [exPdEle 2001 9])).1 = TRDP_NO_ERR ∧
    (tlc_terminate exSessions 1
      (exPdQueues [exPdEle 1002 7, exPdEle 1001 5] [exPdEle 2001 9])).2.2 =
      [PD_RELEASE.socket 0, PD_RELEASE.element (exPdEle 1002 7),
       PD_RELEASE.socket 0, PD_RELEASE.element (exPdEle 1001 5), PD_RELEASE.session 1] ∧
    PD_RELEASE.element (exPdEle 2001 9) ∉ (tlc_terminate exSessions 1
      (exPdQueues [exPdEle 1002 7, exPdEle 1001 5] [exPdEle 2001 9])).2.2 ∧
    (∀ (sSession : List Nat) (appHandle : Nat) (s : TRDP_SESSION_T),
      (tlc_terminate sSession appHandle s).1 = TRDP_NO_ERR →
      releasedElements (tlc_terminate sSession appHandle s).2.2 = s.pSndQueue ∧
      releasedSockets (tlc_terminate sSession appHandle s).2.2 =
        s.pSndQueue.map (fun e => e.socketIdx)) := by
  refine ⟨by decide, by decide, by decide, ?_⟩
  intro l h s hr
  rw [tlc_terminate_log l h s hr]
  have := terminateRelease_elements s.pSndQueue
  unfold releasedElements releasedSockets at *
  simp only [List.filterMap_append, List.filterMap_cons, List.filterMap_nil, List.append_nil]
  exact this

/-! ## C22, C23, C26: time functions of vos_thread.c -/

theorem timersub_timeradd (a b : TRDP_TIME_T) (ha : timeNormal a) (hb : timeNormal b) :
    timersub (timeradd a b) b = a := by
  unfold timeNormal at *
  cases a with
  | mk as au =>
    cases b with
    | mk bs bu =>
      simp only at ha hb
      unfold timersub timeradd
      simp only []
      split_ifs <;> simp only [TRDP_TIME_T.mk.injEq] at * <;> omega

/-- C22: time add and subtract are exact and inverse. For time values `a` and `b` in
normal form (microseconds in `[0, 1000000)`), `vos_addTime` leaves in `a` a value in
normal form whose total of microseconds is the sum of the two totals, `vos_subTime`
leaves a value in normal form whose total is the difference, and
`vos_subTime(vos_addTime(a, b), b)` is `a` again; with a NULL argument either function
leaves `*pTime` as it is. The fields of the time value are integers without a bound. -/
theorem time_add_sub_exact (a b : TRDP_TIME_T) (ha : timeNormal a) (hb : timeNormal b) :
    (∃ t, vos_addTime (some a) (some b) = some t ∧ timeNormal t ∧
      timeUsec t = timeUsec a + timeUsec b) ∧
    (∃ t, vos_subTime (some a) (some b) = some t ∧ timeNormal t ∧
      timeUsec t = timeUsec a - timeUsec b) ∧
    vos_subTime (vos_addTime (some a) (some b)) (some b) = some a ∧
    (∀ p : Option TRDP_TIME_T, vos_addTime p none = p ∧ vos_subTime p none = p) ∧
    (∀ p : Option TRDP_TIME_T, vos_addTime none p = none ∧ vos_subTime none p = none) := by
  refine ⟨⟨timeradd a b, rfl, timeNormal_timeradd a b ha hb, timeUsec_timeradd a b⟩,
    ⟨timersub a b, rfl, timeNormal_timersub a b ha hb, timeUsec_timersub a b⟩, ?_, ?_, ?_⟩
  · show some (timersub (timeradd a b) b) = some a
    rw [timersub_timeradd a b ha hb]
  · intro p
    cases p <;> exact ⟨rfl, rfl⟩
  · intro p
    cases p <;> exact ⟨rfl, rfl⟩

theorem time_add_sub_exact_witness :
    (∃ t, vos_addTime (some ⟨5, 600000⟩) (some ⟨2, 700000⟩) = some t ∧ timeNormal t ∧
      timeUsec t = timeUsec ⟨5, 600000⟩ + timeUsec ⟨2, 700000⟩) ∧
    vos_addTime (some ⟨5, 600000⟩) (some ⟨2, 700000⟩) = some ⟨8, 300000⟩ ∧
    vos_subTime (some ⟨5, 600000⟩) (some ⟨2, 700000⟩) = some ⟨2, 900000⟩ ∧
    vos_subTime (vos_addTime (some ⟨5, 600000⟩) (some ⟨2, 700000⟩)) (some ⟨2, 700000⟩) =
      some ⟨5, 600000⟩ :=
  ⟨(time_add_sub_exact ⟨5, 600000⟩ ⟨2, 700000⟩ (by decide) (by decide)).1, by decide,
    by decide,
    (time_add_sub_exact ⟨5, 600000⟩ ⟨2, 700000⟩ (by decide) (by decide)).2.2.1⟩

theorem toINT32_small (d : Nat) (h : d < 2147483648) : toINT32 d = (d : Int) := by
  unfold toINT32 UINT32_MOD
  have h1 : d % 4294967296 = d := Nat.mod_eq_of_lt (by omega)
  rw [h1, if_pos h]

theorem toUINT32_natCast (x : Nat) (h : x < 4294967296) : toUINT32 (x : Int) = x := by
  unfold toUINT32
  have : ((x : Int) % 4294967296) = (x : Int) := Int.emod_eq_of_lt (by omega) (by omega)
  rw [this]
  simp

/-- The quotient of `vos_divTime` for a non-negative time in normal form and a divisor
of at most 4295, for which the product `temp * 1000000` does not leave the `UINT32`. -/
theorem vos_divTime_small (t : TRDP_TIME_T) (d : Nat) (ht : timeNormal t)
    (hs : 0 ≤ t.tv_sec) (hd0 : 0 < d) (hd : d ≤ 4295) :
    ∃ r, vos_divTime (some t) d = some r ∧ timeNormal r ∧ 0 ≤ r.tv_sec ∧
      timeUsec r = timeUsec t / (d : Int) := by
  unfold timeNormal at ht
  cases t with
  | mk sec usec =>
    simp only at ht hs
    obtain ⟨n, rfl⟩ := Int.eq_ofNat_of_zero_le hs
    obtain ⟨u, rfl⟩ := Int.eq_ofNat_of_zero_le ht.1
    have hu : u < 1000000 := by omega
    have hmod : Int.tmod (n : Int) (d : Int) = ((n % d : Nat) : Int) := by
      rw [Int.tmod_eq_emod (by omega) (by omega)]
      norm_cast
    have hdiv : Int.tdiv (n : Int) (d : Int) = ((n / d : Nat) : Int) := by
      rw [Int.tdiv_eq_ediv (by omega) (by omega)]
      norm_cast
    have hlt : n % d < d := Nat.mod_lt n hd0
    have htemp : toUINT32 (((n % d : Nat) : Int)) = n % d := toUINT32_natCast _ (by omega)
    have hprod : (n % d) * 1000000 % UINT32_MOD = (n % d) * 1000000 := by
      unfold UINT32_MOD
      exact Nat.mod_eq_of_lt (by omega)
    have husec : (if n % d > 0 then (u : Int) + (((n % d) * 1000000 : Nat) : Int) else (u : Int))
        = ((u + (n % d) * 1000000 : Nat) : Int) := by
      split_ifs with h0
      · push_cast; ring
      · have : n % d = 0 := by omega
        rw [this]; simp
    have hq : Int.tdiv ((u + (n % d) * 1000000 : Nat) : Int) (d : Int) =
        (((u + (n % d) * 1000000) / d : Nat) : Int) := by
      rw [Int.tdiv_eq_ediv (by omega) (by omega)]
      norm_cast
    refine ⟨⟨((n / d : Nat) : Int), (((u + (n % d) * 1000000) / d : Nat) : Int)⟩, ?_, ?_, ?_, ?_⟩
    · unfold vos_divTime
      simp only []
      rw [if_neg (by omega), hmod, htemp, hprod, hdiv, husec, toINT32_small d (by omega), hq]
    · unfold timeNormal
      simp only []
      refine ⟨Int.ofNat_nonneg _, ?_⟩
      have : (u + (n % d) * 1000000) / d < 1000000 := by
        apply Nat.div_lt_of_lt_mul
        nlinarith
      exact_mod_cast this
    · simp only []
      exact Int.ofNat_nonneg _
    · unfold timeUsec
      simp only []
      have key : (n * 1000000 + u) / d = (n / d) * 1000000 + (u + (n % d) * 1000000) / d := by
        have h1 : n * 1000000 + u = (u + (n % d) * 1000000) + d * ((n / d) * 1000000) := by
          have := Nat.div_add_mod n d
          nlinarith
        rw [h1, Nat.add_mul_div_left _ _ hd0]
        ring
      have : ((n : Int) * 1000000 + (u : Int)) / (d : Int) =
          (((n * 1000000 + u) / d : Nat) : Int) := by
        norm_cast
      rw [this, key]
      push_cast
      ring

/-- C23, the code at the failing inputs: 4295 seconds divided by 4296 leave 7
microseconds, where the quotient of the totals is 999767 microseconds, because the
`UINT32` product `temp * 1000000` wraps; 999999 microseconds divided by 4294967295 leave
-999999 microseconds, where the quotient is 0, because the microseconds are divided by
`(INT32) divisor`, which is -1. For a non-negative time in normal form and a divisor
from 1 to 4295 the result is in normal form and its total is the quotient of the total
by the divisor; with the divisor 0 the time is left as it is. -/
theorem vos_divTime_wraps :
    vos_divTime (some ⟨4295, 0⟩) 4296 = some ⟨0, 7⟩ ∧
    timeUsec ⟨4295, 0⟩ / 4296 = 999767 ∧
    vos_divTime (some ⟨0, 999999⟩) 4294967295 = some ⟨0, -999999⟩ ∧
    timeUsec ⟨0, 999999⟩ / 4294967295 = 0 ∧
    (∀ (t : TRDP_TIME_T) (d : Nat), timeNormal t → 0 ≤ t.tv_sec → 0 < d → d ≤ 4295 →
      ∃ r, vos_divTime (some t) d = some r ∧ timeNormal r ∧
        timeUsec r = timeUsec t / (d : Int)) ∧
    (∀ p : Option TRDP_TIME_T, vos_divTime p 0 = p) := by
  refine ⟨by decide, by decide, by decide, by decide, ?_, ?_⟩
  · intro t d ht hs hd0 hd
    obtain ⟨r, h1, h2, _, h4⟩ := vos_divTime_small t d ht hs hd0 hd
    exact ⟨r, h1, h2, h4⟩
  · intro p
    cases p <;> rfl

theorem statsLoop_spec {α : Type} (entry : Stats.PD_ELE_T → α) (n : Nat) (hn : n ≤ 65535)
    (q : List Stats.PD_ELE_T) : ∀ (lIndex : Nat) (a : Nat → α), lIndex ≤ n →
    (Stats.statsLoop entry n lIndex q a).1 = lIndex + min (n - lIndex) q.length ∧
    (Stats.statsLoop entry n lIndex q a).2.1 = decide (n - lIndex < q.length) ∧
    (∀ i e, q[i]? = some e → lIndex + i < n →
      (Stats.statsLoop entry n lIndex q a).2.2 (lIndex + i) = entry e) ∧
    (∀ j, (j < lIndex ∨ lIndex + min (n - lIndex) q.length ≤ j) →
      (Stats.statsLoop entry n lIndex q a).2.2 j = a j) := by
  induction q with
  | nil =>
    intro lIndex a _
    refine ⟨by simp [Stats.statsLoop], by simp [Stats.statsLoop], ?_, ?_⟩
    · intro i e he
      simp at he
    · intro j _
      simp [Stats.statsLoop]
  | cons e0 rest ih =>
    intro lIndex a hl
    by_cases hlt : lIndex < n
    · have hmod : (lIndex + 1) % 65536 = lIndex + 1 := Nat.mod_eq_of_lt (by omega)
      have e1 : Stats.statsLoop entry n lIndex (e0 :: rest) a =
          Stats.statsLoop entry n (lIndex + 1) rest (Function.update a lIndex (entry e0)) := by
        rw [Stats.statsLoop, if_pos hlt, hmod]
      obtain ⟨i1, i2, i3, i4⟩ := ih (lIndex + 1) (Function.update a lIndex (entry e0)) (by omega)
      rw [e1]
      refine ⟨?_, ?_, ?_, ?_⟩
      · rw [i1]
        simp only [List.length_cons]
        omega
      · rw [i2]
        simp only [List.length_cons]
        by_cases hc : n - (lIndex + 1) < rest.length
        · rw [decide_eq_true hc, decide_eq_true (by omega)]
        · rw [decide_eq_false hc, decide_eq_false (by omega)]
      · intro i e he hi
        cases i with
        | zero =>
          simp only [List.getElem?_cons_zero, Option.some.injEq] at he
          show (Stats.statsLoop entry n (lIndex + 1) rest
            (Function.update a lIndex (entry e0))).2.2 lIndex = entry e
          rw [i4 lIndex (Or.inl (by omega)), ← he]
          simp
        | succ i =>
          simp only [List.getElem?_cons_succ] at he
          have := i3 i e he (by omega)
          rw [show lIndex + (i + 1) = lIndex + 1 + i by omega]
          exact this
      · intro j hj
        simp only [List.length_cons] at hj
        have hj2 : j < lIndex + 1 ∨ lIndex + 1 + min (n - (lIndex + 1)) rest.length ≤ j := by
          omega
        rw [i4 j hj2]
        have : j ≠ lIndex := by omega
        simp [Function.update, this]
    · have e1 : Stats.statsLoop entry n lIndex (e0 :: rest) a = (lIndex, true, a) := by
        rw [Stats.statsLoop, if_neg hlt]
      rw [e1]
      have hz : n - lIndex = 0 := by omega
      refine ⟨by simp [hz], by simp [hz], ?_, ?_⟩
      · intro i e _ hi
        omega
      · intro j _
        rfl

theorem statsList_spec {α : Type} (entry : Stats.PD_ELE_T → α) (q : List Stats.PD_ELE_T)
    (n : Nat) (a : Nat → α) (hn : n ≤ 65535) :
    (Stats.statsList entry q n a).1 = (if n < q.length then TRDP_MEM_ERR else TRDP_NO_ERR) ∧
    (Stats.statsList entry q n a).2.1 = min n q.length ∧
    (∀ i e, q[i]? = some e → i < n → (Stats.statsList entry q n a).2.2 i = entry e) ∧
    (∀ i, min n q.length ≤ i → (Stats.statsList entry q n a).2.2 i = a i) := by
  obtain ⟨h1, h2, h3, h4⟩ := statsLoop_spec entry n hn q 0 a (Nat.zero_le n)
  simp only [Nat.sub_zero, Nat.zero_add] at h1 h2 h3 h4
  unfold Stats.statsList
  simp only []
  refine ⟨?_, h1, ?_, ?_⟩
  · rw [h1, h2]
    by_cases hc : n < q.length
    · have : min n q.length ≥ n := by omega
      simp [hc, this]
    · simp [hc]
  · intro i e he hi
    exact h3 i e he hi
  · intro i hi
    exact h4 i (Or.inr hi)

/-- C24: bounded statistics listing. On a valid session, with `n = *pNum` requested
entries, `1 <= n` (a `UINT16`), `tlc_getSubsStatistics` on the receive queue and
`tlc_getPubStatistics` on the send queue, of length `L`, return `TRDP_MEM_ERR` exactly
when `L > n` and `TRDP_NO_ERR` otherwise, set `*pNum` to `min(n, L)`, write the record of
the queue entry `i` to the array element `i` for every `i < min(n, L)` and leave every
array element from index `min(n, L)` on, thus every element at an index `>= n`, as it
was. With `*pNum = 0`, a NULL `pNum` or a NULL array the result is `TRDP_PARAM_ERR` and
nothing is written. -/
theorem stats_list_bounded (TRDP_REDUNDANT : Nat) (lk : Bool) (sSession : List Nat)
    (appHandle : Nat) (s : Stats.TRDP_SESSION_T) (n : Nat)
    (aS : Nat → Stats.TRDP_SUBS_STATISTICS_T) (aP : Nat → Stats.TRDP_PUB_STATISTICS_T)
    (hv : trdp_isValidSession lk sSession appHandle = true) (h1 : 1 ≤ n) (hn : n ≤ 65535) :
    (∃ r, Stats.tlc_getSubsStatistics lk sSession appHandle s (some n) (some aS) =
        (if n < s.pRcvQueue.length then TRDP_MEM_ERR else TRDP_NO_ERR,
         some (min n s.pRcvQueue.length), some r) ∧
      (∀ i e, s.pRcvQueue[i]? = some e → i < n → r i = Stats.subsEntry e) ∧
      (∀ i, min n s.pRcvQueue.length ≤ i → r i = aS i)) ∧
    (∃ r, Stats.tlc_getPubStatistics TRDP_REDUNDANT lk sSession appHandle s (some n)
        (some aP) =
        (if n < s.pSndQueue.length then TRDP_MEM_ERR else TRDP_NO_ERR,
         some (min n s.pSndQueue.length), some r) ∧
      (∀ i e, s.pSndQueue[i]? = some e → i < n → r i = Stats.pubEntry TRDP_REDUNDANT s e) ∧
      (∀ i, min n s.pSndQueue.length ≤ i → r i = aP i)) ∧
    (∀ p, Stats.tlc_getSubsStatistics lk sSession appHandle s (some 0) p =
      (TRDP_PARAM_ERR, some 0, p)) ∧
    (∀ p, Stats.tlc_getSubsStatistics lk sSession appHandle s none p =
      (TRDP_PARAM_ERR, none, p)) ∧
    (∀ m, Stats.tlc_getSubsStatistics lk sSession appHandle s m none =
      (TRDP_PARAM_ERR, m, none)) ∧
    (∀ p, Stats.tlc_getPubStatistics TRDP_REDUNDANT lk sSession appHandle s (some 0) p =
      (TRDP_PARAM_ERR, some 0, p)) ∧
    (∀ p, Stats.tlc_getPubStatistics TRDP_REDUNDANT lk sSession appHandle s none p =
      (TRDP_PARAM_ERR, none, p)) ∧
    (∀ m, Stats.tlc_getPubStatistics TRDP_REDUNDANT lk sSession appHandle s m none =
      (TRDP_PARAM_ERR, m, none)) := by
  have hn0 : ¬ n = 0 := by omega
  refine ⟨?_, ?_, ?_, ?_, ?_, ?_, ?_, ?_⟩
  · obtain ⟨a1, a2, a3, a4⟩ := statsList_spec Stats.subsEntry s.pRcvQueue n aS hn
    refine ⟨(Stats.statsList Stats.subsEntry s.pRcvQueue n aS).2.2, ?_, a3, a4⟩
    unfold Stats.tlc_getSubsStatistics
    simp only [hv, Bool.not_true, Bool.false_eq_true, if_false, hn0]
    rw [a1, a2]
  · obtain ⟨a1, a2, a3, a4⟩ :=
      statsList_spec (Stats.pubEntry TRDP_REDUNDANT s) s.pSndQueue n aP hn
    refine ⟨(Stats.statsList (Stats.pubEntry TRDP_REDUNDANT s) s.pSndQueue n aP).2.2, ?_,
      a3, a4⟩
    unfold Stats.tlc_getPubStatistics
    simp only [hv, Bool.not_true, Bool.false_eq_true, if_false, hn0]
    rw [a1, a2]
  · intro p
    unfold Stats.tlc_getSubsStatistics
    cases p <;> simp [hv]
  · intro p
    unfold Stats.tlc_getSubsStatistics
    cases p <;> simp [hv]
  · intro m
    unfold Stats.tlc_getSubsStatistics
    cases m <;> simp [hv]
  · intro p
    unfold Stats.tlc_getPubStatistics
    cases p <;> simp [hv]
  · intro p
    unfold Stats.tlc_getPubStatistics
    cases p <;> simp [hv]
  · intro m
    unfold Stats.tlc_getPubStatistics
    cases m <;> simp [hv]

theorem stats_list_bounded_witness :
    (∃ r, Stats.tlc_getSubsStatistics true exSessions 1
        (exStatSession [exStatEle 1001] [exStatEle 2001, exStatEle 2002, exStatEle 2003])
        (some 2) (some exSubsArray) =
        (if 2 < (exStatSession [exStatEle 1001]
            [exStatEle 2001, exStatEle 2002, exStatEle 2003]).pRcvQueue.length
          then TRDP_MEM_ERR else TRDP_NO_ERR,
         some (min 2 (exStatSession [exStatEle 1001]
            [exStatEle 2001, exStatEle 2002, exStatEle 2003]).pRcvQueue.length), some r) ∧
      (∀ i e, (exStatSession [exStatEle 1001]
            [exStatEle 2001, exStatEle 2002, exStatEle 2003]).pRcvQueue[i]? = some e →
          i < 2 → r i = Stats.subsEntry e) ∧
      (∀ i, min 2 (exStatSession [exStatEle 1001]
            [exStatEle 2001, exStatEle 2002, exStatEle 2003]).pRcvQueue.length ≤ i →
          r i = exSubsArray i)) ∧
    (Stats.tlc_getSubsStatistics true exSessions 1
        (exStatSession [exStatEle 1001] [exStatEle 2001, exStatEle 2002, exStatEle 2003])
        (some 2) (some exSubsArray)).1 = TRDP_MEM_ERR ∧
    (Stats.tlc_getSubsStatistics true exSessions 1
        (exStatSession [exStatEle 1001] [exStatEle 2001, exStatEle 2002, exStatEle 2003])
        (some 2) (some exSubsArray)).2.1 = some 2 ∧
    (Stats.tlc_getSubsStatistics true exSessions 1
        (exStatSession [exStatEle 1001] [exStatEle 2001, exStatEle 2002, exStatEle 2003])
        (some 2) (some exSubsArray)).2.2.map
          (fun a => [(a 0).comId, (a 1).comId, (a 2).comId, (a 3).comId]) =
      some [2001, 2002, 0, 0] ∧
    (Stats.tlc_getPubStatistics 4 true exSessions 1
        (exStatSession [exStatEle 1001] [exStatEle 2001, exStatEle 2002, exStatEle 2003])
        (some 2) (some exPubArray)).1 = TRDP_NO_ERR ∧
    (Stats.tlc_getPubStatistics 4 true exSessions 1
        (exStatSession [exStatEle 1001] [exStatEle 2001, exStatEle 2002, exStatEle 2003])
        (some 2) (some exPubArray)).2.1 = some 1 ∧
    (Stats.tlc_getPubStatistics 4 true exSessions 1
        (exStatSession [exStatEle 1001] [exStatEle 2001, exStatEle 2002, exStatEle 2003])
        (some 2) (some exPubArray)).2.2.map
          (fun a => [(a 0).comId, (a 0).cycle, (a 1).comId, (a 2).comId]) =
      some [1001, 1000000, 0, 0] :=
  ⟨(stats_list_bounded 4 true exSessions 1
      (exStatSession [exStatEle 1001] [exStatEle 2001, exStatEle 2002, exStatEle 2003]) 2
      exSubsArray exPubArray (by decide) (by decide) (by decide)).1,
    by decide, by decide, by decide, by decide, by decide, by decide⟩

/-! ## C25: the clock readings of a pass of tlc_process -/

theorem pdSendLoop_clock (k : PD_PARAMS) (c : PD_COM) (s : TRDP_SESSION_T)
    (clock1 clock2 : Nat → TRDP_TIME_T) (q : List PD_ELE_T) :
    ∀ i, (∀ j, j < q.length → clock1 (i + j) = clock2 (i + j)) →
      pdSendLoop k c s clock1 q i = pdSendLoop k c s clock2 q i := by
  induction q with
  | nil => intro i _; rfl
  | cons e rest ih =>
    intro i h
    have h0 : clock1 i = clock2 i := by
      have := h 0 (by simp)
      simpa using this
    have hr : pdSendLoop k c s clock1 rest (i + 1) = pdSendLoop k c s clock2 rest (i + 1) := by
      apply ih
      intro j hj
      have := h (j + 1) (by simp; omega)
      rw [show i + 1 + j = i + (j + 1) by omega]
      exact this
    rw [pdSendLoop, pdSendLoop, h0, hr]

theorem pdTimeoutLoop_clock (k : PD_PARAMS) (s : TRDP_SESSION_T)
    (clock1 clock2 : Nat → TRDP_TIME_T) (q : List PD_ELE_T) :
    ∀ i, (∀ j, j < q.length → clock1 (i + j) = clock2 (i + j)) →
      pdTimeoutLoop k s clock1 q i = pdTimeoutLoop k s clock2 q i := by
  induction q with
  | nil => intro i _; rfl
  | cons e rest ih =>
    intro i h
    have h0 : clock1 i = clock2 i := by
      have := h 0 (by simp)
      simpa using this
    have hr : pdTimeoutLoop k s clock1 rest (i + 1) = pdTimeoutLoop k s clock2 rest (i + 1) := by
      apply ih
      intro j hj
      have := h (j + 1) (by simp; omega)
      rw [show i + 1 + j = i + (j + 1) by omega]
      exact this
    rw [pdTimeoutLoop, pdTimeoutLoop, h0, hr]

theorem processSend_clock (k : PD_PARAMS) (c : PD_COM) (env env2 : PD_ENV) (s : TRDP_SESSION_T)
    (hc : ∀ i, i < s.pSndQueue.length → env2.clock i = env.clock i) :
    processSend k c env2 s = processSend k c env s := by
  unfold processSend
  rw [pdSendLoop_clock k c s env2.clock env.clock s.pSndQueue 0
    (fun j hj => by rw [Nat.zero_add]; exact hc j hj)]

theorem processTimeouts_clock (k : PD_PARAMS) (env env2 : PD_ENV) (n : Nat) (s : TRDP_SESSION_T)
    (hc : ∀ j, j < s.pRcvQueue.length → env2.clock (n + j) = env.clock (n + j)) :
    processTimeouts k env2 n s = processTimeouts k env n s := by
  unfold processTimeouts
  rw [pdTimeoutLoop_clock k s env2.clock env.clock s.pRcvQueue n hc]

theorem processSend_pRcvQueue (k : PD_PARAMS) (c : PD_COM) (env : PD_ENV) (s : TRDP_SESSION_T) :
    (processSend k c env s).pRcvQueue = s.pRcvQueue := rfl

theorem processEnter_queues (s : TRDP_SESSION_T) :
    (processEnter s).pSndQueue = s.pSndQueue ∧ (processEnter s).pRcvQueue = s.pRcvQueue :=
  ⟨rfl, rfl⟩

/-- C25, counterexample: two passes start from the same session, one publication and
one subscription with the deadline at 100 s, and take the same first clock reading,
99 s. In the pass whose clock stays at 99 s nothing is due. In the pass whose second
reading is 101 s the subscription, examined with that reading, times out: the callback
is invoked and the flag `TRDP_TIMED_OUT` is set. With two publications the second one
is sent in the same way. -/
theorem process_clock_reread_counterexample :
    (exPdClock (fun _ => 99)).clock 0 = (exPdClock (fun i => if i = 0 then 99 else 101)).clock 0 ∧
    (tlc_process exPdParams exPdCom (exPdClock (fun _ => 99)) exSessions 1
      (exPdQueues [exPdEle 1001 100] [exPdEle 2001 100]) none none).map
        (fun r => (r.1, r.2.1.sent.length, r.2.1.callbacks.length,
          r.2.1.pRcvQueue.map (fun e => e.privFlags))) = some (TRDP_NO_ERR, 0, 0, [0]) ∧
    (tlc_process exPdParams exPdCom (exPdClock (fun i => if i = 0 then 99 else 101))
      exSessions 1 (exPdQueues [exPdEle 1001 100] [exPdEle 2001 100]) none none).map
        (fun r => (r.1, r.2.1.sent.length, r.2.1.callbacks.length,
          r.2.1.pRcvQueue.map (fun e => e.privFlags))) = some (TRDP_NO_ERR, 0, 1, [2]) ∧
    (tlc_process exPdParams exPdCom (exPdClock (fun _ => 99)) exSessions 1
      (exPdQueues [exPdEle 1001 100, exPdEle 1002 100] []) none none).map
        (fun r => r.2.1.sent.map (fun t => t.pPacket.addr.comId)) = some [] ∧
    (tlc_process exPdParams exPdCom (exPdClock (fun i => if i = 0 then 99 else 101))
      exSessions 1 (exPdQueues [exPdEle 1001 100, exPdEle 1002 100] []) none none).map
        (fun r => r.2.1.sent.map (fun t => t.pPacket.addr.comId)) = some [1002] := by
  decide

theorem pdTimeoutLoop_snd (k : PD_PARAMS) (s : TRDP_SESSION_T)
    (clock : Nat → TRDP_TIME_T) (q : List PD_ELE_T) (i : Nat) :
    (pdTimeoutLoop k s clock q i).2 =
      (q.enumFrom i).filterMap (fun p => (pdTimeoutStep k s (clock p.1) p.2).2) := by
  induction q generalizing i with
  | nil => rfl
  | cons e rest ih =>
    simp only [pdTimeoutLoop, List.enumFrom_cons]
    rw [ih]
    cases h : (pdTimeoutStep k s (clock i) e).2 with
    | none => simp [List.filterMap_cons, h]
    | some cb => simp [List.filterMap_cons, h]

theorem pdTimeoutLoop_length (k : PD_PARAMS) (s : TRDP_SESSION_T)
    (clock : Nat → TRDP_TIME_T) (q : List PD_ELE_T) (i : Nat) :
    (pdTimeoutLoop k s clock q i).1.length = q.length := by
  induction q generalizing i with
  | nil => rfl
  | cons e rest ih => simp [pdTimeoutLoop, ih]

/-- The body of the timeout loop for one element, written out. -/
theorem pdTimeoutStep_eq (k : PD_PARAMS) (s : TRDP_SESSION_T) (now : TRDP_TIME_T)
    (e : PD_ELE_T) :
    (pdTimeoutStep k s now e).1 =
      (if timercmp_le e.timeToGo now = true ∧ e.privFlags &&& k.TRDP_TIMED_OUT = 0 then
        { e with privFlags := e.privFlags ||| k.TRDP_TIMED_OUT } else e) ∧
    (pdTimeoutStep k s now e).2 =
      (if timercmp_le e.timeToGo now = true ∧ e.privFlags &&& k.TRDP_TIMED_OUT = 0 ∧
          s.pdDefault.pCbFunction = true then some (pdTimeoutCallback s e) else none) := by
  by_cases hc : timercmp_le e.timeToGo now = true ∧ e.privFlags &&& k.TRDP_TIMED_OUT = 0
  · rw [pdTimeoutStep_fired k s now e hc.1 hc.2, if_pos hc]
    refine ⟨rfl, ?_⟩
    by_cases hb : s.pdDefault.pCbFunction = true
    · rw [if_pos hb, if_pos ⟨hc.1, hc.2, hb⟩]
    · rw [if_neg hb, if_neg (fun hx => hb hx.2.2)]
  · rw [pdTimeoutStep_idle k s now e hc, if_neg hc, if_neg (fun hx => hc ⟨hx.1, hx.2.1⟩)]
    exact ⟨rfl, rfl⟩

theorem tlc_process_code (k : PD_PARAMS) (c : PD_COM) (env : PD_ENV) (l : List Nat) (h : Nat)
    (s : TRDP_SESSION_T) (pRfds : Option (List Int)) (pCount : Option Int)
    (r : TRDP_ERR_T × TRDP_SESSION_T × Option (List Int) × Option Int)
    (hv : trdp_isValidSession env.sessionLockOk l h = true) (hl : env.lockOk = true)
    (hr : tlc_process k c env l h s pRfds pCount = some r) :
    r.1 = (processReceive c
      (processTimeouts k env (processEnter s).pSndQueue.length
        (processSend k c env (processEnter s))) pRfds pCount).1 := by
  unfold tlc_process at hr
  simp only [hv, hl, Bool.not_true, if_false, Bool.false_eq_true] at hr
  split_ifs at hr with hm
  · split at hr
    · simp at hr
    · simp only [Option.some.injEq] at hr
      rw [← hr]
  · simp only [Option.some.injEq] at hr
    rw [← hr]

theorem processTimeouts_queue (k : PD_PARAMS) (c : PD_COM) (env : PD_ENV) (s : TRDP_SESSION_T) :
    (processTimeouts k env (processEnter s).pSndQueue.length
      (processSend k c env (processEnter s))).pRcvQueue =
      (pdTimeoutLoop k s env.clock s.pRcvQueue s.pSndQueue.length).1 ∧
    (processTimeouts k env (processEnter s).pSndQueue.length
      (processSend k c env (processEnter s))).callbacks =
      s.callbacks ++ (pdTimeoutLoop k s env.clock s.pRcvQueue s.pSndQueue.length).2 := by
  have e : pdTimeoutLoop k (processSend k c env (processEnter s)) env.clock s.pRcvQueue
      s.pSndQueue.length = pdTimeoutLoop k s env.clock s.pRcvQueue s.pSndQueue.length :=
    pdTimeoutLoop_congr k _ s env.clock s.pRcvQueue s.pSndQueue.length rfl
  constructor
  · show (pdTimeoutLoop k (processSend k c env (processEnter s)) env.clock s.pRcvQueue
      s.pSndQueue.length).1 = _
    rw [e]
  · show s.callbacks ++ (pdTimeoutLoop k (processSend k c env (processEnter s)) env.clock
      s.pRcvQueue s.pSndQueue.length).2 = _
    rw [e]

theorem processReceive_polling (c : PD_COM) (s : TRDP_SESSION_T) (pRfds : Option (List Int))
    (pCount : Option Int) (hp : pRfds = none ∨ pCount = none) :
    (processReceive c s pRfds pCount).2.1 = s := by
  unfold processReceive
  rcases hp with hp | hp
  · rw [hp]
  · rw [hp]
    cases pRfds <;> rfl

/-- C25, amended: within one pass of `tlc_process` the clock is read at the start and
again after every queue entry, and every deadline comparison uses the latest reading.
In a pass that passes the session checks and has a result, the publish entry at
position `i` is compared with the reading number `i`: it is updated and rescheduled to
that reading plus its interval exactly when its deadline is not after that reading, and
the transmissions are those decided with these readings. The subscribe entry at
position `j` is compared with the reading number `(number of publish entries) + j`: in
the session `s3` handed to the receive part it is flagged `TRDP_TIMED_OUT` exactly
when its deadline is not after that reading and the flag was clear, and the timeout
callbacks are those decided with these readings; in polling mode (no descriptor set
or no count) this is the receive queue and the callback log of the result. The result
is a function of the session state, the results of the lock calls and these readings:
a pass whose readings with these numbers are the same has the same result, so when
all of them are `now` the result is that of a pass whose clock always reads `now`. -/
theorem process_readings (k : PD_PARAMS) (c : PD_COM) (env : PD_ENV)
    (sSession : List Nat) (appHandle : Nat) (s : TRDP_SESSION_T) (pRfds : Option (List Int))
    (pCount : Option Int) (r : TRDP_ERR_T × TRDP_SESSION_T × Option (List Int) × Option Int)
    (hv : trdp_isValidSession env.sessionLockOk sSession appHandle = true)
    (hl : env.lockOk = true)
    (hr : tlc_process k c env sSession appHandle s pRfds pCount = some r) :
    ((∀ (i : Nat) (e : PD_ELE_T), s.pSndQueue[i]? = some e →
        r.2.1.pSndQueue[i]? = some
          (if timercmp_le e.timeToGo (env.clock i) = true then
            { e with frameHead := c.trdp_pdUpdate e, timeToGo := timeradd e.interval (env.clock i) }
          else e)) ∧
      r.2.1.pSndQueue.length = s.pSndQueue.length ∧
      r.2.1.sent = s.sent ++
        s.pSndQueue.enum.filterMap (fun p => pdTransmission k c s (env.clock p.1) p.2)) ∧
    (∃ s3 : TRDP_SESSION_T,
      r.1 = (processReceive c s3 pRfds pCount).1 ∧
      r.2.1 = vos_mutexUnlock (processReceive c s3 pRfds pCount).2.1 ∧
      (∀ (j : Nat) (e : PD_ELE_T), s.pRcvQueue[j]? = some e →
        s3.pRcvQueue[j]? = some
          (if timercmp_le e.timeToGo (env.clock (s.pSndQueue.length + j)) = true ∧
              e.privFlags &&& k.TRDP_TIMED_OUT = 0 then
            { e with privFlags := e.privFlags ||| k.TRDP_TIMED_OUT }
          else e)) ∧
      s3.pRcvQueue.length = s.pRcvQueue.length ∧
      s3.callbacks = s.callbacks ++
        (s.pRcvQueue.enumFrom s.pSndQueue.length).filterMap (fun p =>
          if timercmp_le p.2.timeToGo (env.clock p.1) = true ∧
              p.2.privFlags &&& k.TRDP_TIMED_OUT = 0 ∧ s.pdDefault.pCbFunction = true then
            some (pdTimeoutCallback s p.2)
          else none) ∧
      ((pRfds = none ∨ pCount = none) →
        r.2.1.pRcvQueue = s3.pRcvQueue ∧ r.2.1.callbacks = s3.callbacks)) ∧
    (∀ env2 : PD_ENV, env2.sessionLockOk = env.sessionLockOk → env2.lockOk = env.lockOk →
      (∀ i, i < processReadings s → env2.clock i = env.clock i) →
      tlc_process k c env2 sSession appHandle s pRfds pCount = some r) ∧
    (∀ now : TRDP_TIME_T, (∀ i, i < processReadings s → env.clock i = now) →
      tlc_process k c { env with clock := fun _ => now } sSession appHandle s pRfds pCount =
        some r) := by
  have hs := tlc_process_some k c env sSession appHandle s pRfds pCount r hv hl hr
  have hcode := tlc_process_code k c env sSession appHandle s pRfds pCount r hv hl hr
  obtain ⟨hq, hsent, _⟩ := processReceive_frame c
    (processTimeouts k env (processEnter s).pSndQueue.length
      (processSend k c env (processEnter s))) pRfds pCount
  obtain ⟨hrq, hcb⟩ := processTimeouts_queue k c env s
  have hq2 : r.2.1.pSndQueue = (pdSendLoop k c s env.clock s.pSndQueue 0).1 := by
    rw [hs]
    show (processReceive c _ pRfds pCount).2.1.pSndQueue = _
    rw [hq]
    show (pdSendLoop k c (processEnter s) env.clock s.pSndQueue 0).1 = _
    rw [pdSendLoop_congr k c (processEnter s) s env.clock s.pSndQueue 0 rfl rfl]
  have hs2 : r.2.1.sent = s.sent ++ (pdSendLoop k c s env.clock s.pSndQueue 0).2 := by
    rw [hs]
    show (processReceive c _ pRfds pCount).2.1.sent = _
    rw [hsent]
    show s.sent ++ (pdSendLoop k c (processEnter s) env.clock s.pSndQueue 0).2 = _
    rw [pdSendLoop_congr k c (processEnter s) s env.clock s.pSndQueue 0 rfl rfl]
  have hcong : ∀ env2 : PD_ENV, env2.sessionLockOk = env.sessionLockOk →
      env2.lockOk = env.lockOk → (∀ i, i < processReadings s → env2.clock i = env.clock i) →
      tlc_process k c env2 sSession appHandle s pRfds pCount = some r := by
    intro env2 h1 h2 hc
    unfold processReadings at hc
    have e1 : processSend k c env2 (processEnter s) = processSend k c env (processEnter s) := by
      apply processSend_clock
      intro i hi
      rw [(processEnter_queues s).1] at hi
      exact hc i (by omega)
    have e2 : processTimeouts k env2 (processEnter s).pSndQueue.length
        (processSend k c env (processEnter s)) =
        processTimeouts k env (processEnter s).pSndQueue.length
          (processSend k c env (processEnter s)) := by
      apply processTimeouts_clock
      intro j hj
      rw [processSend_pRcvQueue, (processEnter_queues s).2] at hj
      rw [(processEnter_queues s).1]
      exact hc _ (by omega)
    rw [← hr]
    unfold tlc_process
    simp only []
    rw [h1, h2, e1, e2]
  refine ⟨⟨?_, ?_, ?_⟩, ⟨_, hcode, hs, ?_, ?_, ?_, ?_⟩, hcong, ?_⟩
  · intro i e he
    rw [hq2, pdSendLoop_getElem?, he, Option.map_some', Nat.zero_add, pdSendStep_fst]
  · rw [hq2, pdSendLoop_length]
  · rw [hs2, pdSendLoop_snd]
    congr 1
    unfold List.enum
    congr 1
    funext p
    exact pdSendStep_snd k c s _ _
  · intro j e he
    rw [hrq, pdTimeoutLoop_getElem?, he, Option.map_some', (pdTimeoutStep_eq k s _ e).1]
  · rw [hrq, pdTimeoutLoop_length]
  · rw [hcb, pdTimeoutLoop_snd]
    congr 1
    congr 1
    funext p
    exact (pdTimeoutStep_eq k s _ p.2).2
  · intro hp
    rw [hs, processReceive_polling c _ pRfds pCount hp]
    exact ⟨rfl, rfl⟩
  · intro now hn
    exact hcong { env with clock := fun _ => now } rfl rfl (fun i hi => (hn i hi).symm)

theorem process_readings_witness :
    ∃ r, tlc_process exPdParams exPdCom (exPdClock (fun i => if i % 2 = 0 then 99 else 101))
        exSessions 1 (exPdQueues [exPdEle 1001 100, exPdEle 1002 100]
          [exPdEle 2001 100, exPdEle 2002 100]) none none = some r ∧
      r.2.1.pSndQueue[0]? = some (exPdEle 1001 100) ∧
      r.2.1.pSndQueue[1]? = some { exPdEle 1002 100 with
        frameHead := exPdCom.trdp_pdUpdate (exPdEle 1002 100), timeToGo := ⟨102, 0⟩ } ∧
      r.2.1.sent.map (fun t => t.pPacket.addr.comId) = [1002] ∧
      r.2.1.pRcvQueue[0]? = some (exPdEle 2001 100) ∧
      r.2.1.pRcvQueue[1]? = some { exPdEle 2002 100 with privFlags := 2 } ∧
      r.2.1.callbacks.map (fun cb => cb.pMsg.comId) = [2002] ∧
      tlc_process exPdParams exPdCom (exPdClock (fun i => if i = 1 ∨ i = 3 then 101 else 99))
        exSessions 1 (exPdQueues [exPdEle 1001 100, exPdEle 1002 100]
          [exPdEle 2001 100, exPdEle 2002 100]) none none = some r := by
  have h : tlc_process exPdParams exPdCom (exPdClock (fun i => if i % 2 = 0 then 99 else 101))
      exSessions 1 (exPdQueues [exPdEle 1001 100, exPdEle 1002 100]
        [exPdEle 2001 100, exPdEle 2002 100]) none none =
      some (TRDP_NO_ERR, vos_mutexUnlock (processReceive exPdCom
        (processTimeouts exPdParams (exPdClock (fun i => if i % 2 = 0 then 99 else 101)) 2
          (processSend exPdParams exPdCom (exPdClock (fun i => if i % 2 = 0 then 99 else 101))
            (processEnter (exPdQueues [exPdEle 1001 100, exPdEle 1002 100]
              [exPdEle 2001 100, exPdEle 2002 100])))) none none).2.1,
        none, none) := by decide
  have p := process_readings exPdParams exPdCom
    (exPdClock (fun i => if i % 2 = 0 then 99 else 101)) exSessions 1
    (exPdQueues [exPdEle 1001 100, exPdEle 1002 100] [exPdEle 2001 100, exPdEle 2002 100])
    none none _ (by decide) (by decide) h
  obtain ⟨s3, _, _, hj, _, hcb, hp⟩ := p.2.1
  obtain ⟨hq, hc⟩ := hp (Or.inl rfl)
  refine ⟨_, h, (p.1.1 0 _ rfl).trans (by decide), (p.1.1 1 _ rfl).trans (by decide), ?_,
    ?_, ?_, ?_, ?_⟩
  · rw [p.1.2.2]
    decide
  · rw [hq]
    exact (hj 0 _ rfl).trans (by decide)
  · rw [hq]
    exact (hj 1 _ rfl).trans (by decide)
  · rw [hc, hcb]
    decide
  · apply p.2.2.1 (exPdClock (fun i => if i = 1 ∨ i = 3 then 101 else 99)) rfl rfl
    intro i hi
    have h4 : i < 4 := hi
    show (⟨if i = 1 ∨ i = 3 then 101 else 99, 0⟩ : TRDP_TIME_T) =
      ⟨if i % 2 = 0 then 99 else 101, 0⟩
    interval_cases i <;> rfl

/-! ## C27: a failed tlp_publish -/

theorem tlp_publish_null_data (k : PD_PARAMS) (c : PD_COM) (env envPut : PD_ENV) (l : List Nat)
    (h : Nat) (s : TRDP_SESSION_T) (pPubHandle : Bool)
    (comId topoCount srcIpAddr destIpAddr interval pktFlags dataSize : Nat)
    (hc : publishChecks k env l h pPubHandle comId interval none dataSize = none)
    (hf : (comId, srcIpAddr, destIpAddr) ∉ queueKeys s.pSndQueue)
    (ha : env.alloc.isSome = true) (hs : env.sockErr = TRDP_NO_ERR) :
    (tlp_publish k c env envPut l h s pPubHandle comId topoCount srcIpAddr destIpAddr
      interval pktFlags none dataSize).1 = TRDP_PARAM_ERR ∧
    ∃ e, (tlp_publish k c env envPut l h s pPubHandle comId topoCount srcIpAddr destIpAddr
        interval pktFlags none dataSize).2.1.pSndQueue = e :: s.pSndQueue ∧
      e.addr = ⟨comId, srcIpAddr, destIpAddr, 0⟩ := by
  rw [tlp_publish_of_checks_none k c env envPut l h s pPubHandle comId topoCount
    srcIpAddr destIpAddr interval pktFlags none dataSize hc]
  have hfind : trdp_queue_find_addr (vos_mutexLock s).pSndQueue
      ⟨comId, srcIpAddr, destIpAddr, 0⟩ = none :=
    (find_none_iff s.pSndQueue ⟨comId, srcIpAddr, destIpAddr, 0⟩).mpr hf
  rcases publishNew_cases c env (vos_mutexLock s) ⟨comId, srcIpAddr, destIpAddr, 0⟩ dataSize
    with ⟨h1, _⟩ | ⟨_, _, blk, _, h4⟩
  · exfalso
    apply h1
    cases hb : env.alloc with
    | none => rw [hb] at ha; simp at ha
    | some blk =>
      unfold publishNew
      simp only [hfind, hb, hs, ne_eq, not_true_eq_false, if_false]
  · unfold publishLocked
    rw [h4]
    simp only [if_true]
    unfold publishInsert
    simp only []
    exact ⟨rfl, _, rfl, rfl⟩

/-- C27, the code at the failing input: `tlp_publish` with `pData = NULL` on a valid
session with an empty send queue returns `TRDP_PARAM_ERR`, the result of the call of
`tlp_put` that follows the insertion, while the new entry is in the send queue and the
handle is stored; a second `tlp_publish` for the same address, now with data, returns
`TRDP_NOPUB_ERR`. In general every `tlp_publish` with `pData = NULL` that passes the
checks, the lookup, the allocation and the socket request returns `TRDP_PARAM_ERR` and
leaves the new entry at the head of the send queue. -/
theorem tlp_publish_failed_stays_queued :
    exPdSession.pSndQueue = [] ∧
    (tlp_publish exPdParams exPdCom (exPdEnv 100) (exPdEnv 100) exSessions 1 exPdSession
      true 1001 0 0 9 1000000 0 none 0).1 = TRDP_PARAM_ERR ∧
    queueKeys (tlp_publish exPdParams exPdCom (exPdEnv 100) (exPdEnv 100) exSessions 1
      exPdSession true 1001 0 0 9 1000000 0 none 0).2.1.pSndQueue = [(1001, 0, 9)] ∧
    (tlp_publish exPdParams exPdCom (exPdEnv 100) (exPdEnv 100) exSessions 1 exPdSession
      true 1001 0 0 9 1000000 0 none 0).2.2 = some ⟨1001, 0, 9, 0⟩ ∧
    (tlp_publish exPdParams exPdCom (exPdEnv 101) (exPdEnv 101) exSessions 1
      (tlp_publish exPdParams exPdCom (exPdEnv 100) (exPdEnv 100) exSessions 1 exPdSession
        true 1001 0 0 9 1000000 0 none 0).2.1
      true 1001 0 0 9 1000000 0 (some [1]) 1).1 = TRDP_NOPUB_ERR ∧
    (∀ (k : PD_PARAMS) (c : PD_COM) (env envPut : PD_ENV) (sSession : List Nat)
        (appHandle : Nat) (s : TRDP_SESSION_T) (pPubHandle : Bool)
        (comId topoCount srcIpAddr destIpAddr interval pktFlags dataSize : Nat),
      publishChecks k env sSession appHandle pPubHandle comId interval none dataSize = none →
      (comId, srcIpAddr, destIpAddr) ∉ queueKeys s.pSndQueue →
      env.alloc.isSome = true → env.sockErr = TRDP_NO_ERR →
      (tlp_publish k c env envPut sSession appHandle s pPubHandle comId topoCount srcIpAddr
        destIpAddr interval pktFlags none dataSize).1 = TRDP_PARAM_ERR ∧
      ∃ e, (tlp_publish k c env envPut sSession appHandle s pPubHandle comId topoCount
          srcIpAddr destIpAddr interval pktFlags none dataSize).2.1.pSndQueue =
          e :: s.pSndQueue ∧
        e.addr = ⟨comId, srcIpAddr, destIpAddr, 0⟩) := by
  refine ⟨by decide, by decide, by decide, by decide, by decide, ?_⟩
  intro k c env envPut l h s pPubHandle comId topoCount srcIpAddr destIpAddr interval
    pktFlags dataSize hc hf ha hs
  exact tlp_publish_null_data k c env envPut l h s pPubHandle comId topoCount srcIpAddr
    destIpAddr interval pktFlags dataSize hc hf ha hs

/-! ## C28: the depth of the session mutex -/

theorem tlp_put_depth (c : PD_COM) (env : PD_ENV) (l : List Nat) (h : Nat)
    (s : TRDP_SESSION_T) (pubHandle : TRDP_PUB_T) (pData : Option (List Nat)) (dataSize : Nat) :
    (tlp_put c env l h s pubHandle pData dataSize).2.mutexDepth = s.mutexDepth := by
  unfold tlp_put
  cases pubHandle with
  | none => rfl
  | some addr =>
    cases pData with
    | none => rfl
    | some data =>
      simp only []
      split_ifs
      · rfl
      · rfl
      · rfl
      · cases hf : trdp_queue_find_addr (vos_mutexLock s).pSndQueue addr with
        | none => simp [vos_mutexLock, vos_mutexUnlock]
        | some i =>
          cases he : (vos_mutexLock s).pSndQueue[i]? with
          | none =>
            have he2 : s.pSndQueue[i]? = none := he
            simp [vos_mutexLock, vos_mutexUnlock, he2]
          | some e =>
            have he2 : s.pSndQueue[i]? = some e := he
            simp [vos_mutexLock, vos_mutexUnlock, he2]

theorem publishLocked_depth (k : PD_PARAMS) (c : PD_COM) (env envPut : PD_ENV) (l : List Nat)
    (h : Nat) (s : TRDP_SESSION_T) (a : TRDP_ADDRESSES)
    (topoCount interval pktFlags : Nat) (pData : Option (List Nat)) (dataSize : Nat) :
    (publishLocked k c env envPut l h s a topoCount interval pktFlags pData
      dataSize).2.1.mutexDepth = s.mutexDepth - 1 := by
  unfold publishLocked
  simp only []
  split_ifs with h1
  · cases hn : (publishNew c env s a dataSize).2.1 with
    | none => rfl
    | some pNew =>
      simp only []
      unfold publishInsert
      simp only []
      show (tlp_put c envPut l h _ _ pData dataSize).2.mutexDepth - 1 = s.mutexDepth - 1
      rw [tlp_put_depth]
  · rfl

theorem tlp_publish_depth (k : PD_PARAMS) (c : PD_COM) (env envPut : PD_ENV) (l : List Nat)
    (h : Nat) (s : TRDP_SESSION_T) (pPubHandle : Bool)
    (comId topoCount srcIpAddr destIpAddr interval pktFlags : Nat)
    (pData : Option (List Nat)) (dataSize : Nat) :
    (tlp_publish k c env envPut l h s pPubHandle comId topoCount srcIpAddr destIpAddr
      interval pktFlags pData dataSize).2.1.mutexDepth = s.mutexDepth := by
  cases hc : publishChecks k env l h pPubHandle comId interval pData dataSize with
  | some err =>
    rw [(tlp_publish_of_checks_some k c env envPut l h s pPubHandle comId topoCount
      srcIpAddr destIpAddr interval pktFlags pData dataSize err hc).1]
  | none =>
    rw [tlp_publish_of_checks_none k c env envPut l h s pPubHandle comId topoCount
      srcIpAddr destIpAddr interval pktFlags pData dataSize hc, publishLocked_depth]
    show s.mutexDepth + 1 - 1 = s.mutexDepth
    omega

theorem tlp_unpublish_depth (env : PD_ENV) (l : List Nat) (h : Nat) (s : TRDP_SESSION_T)
    (pubHandle : TRDP_PUB_T) :
    (tlp_unpublish env l h s pubHandle).2.1.mutexDepth = s.mutexDepth := by
  unfold tlp_unpublish
  cases pubHandle with
  | none => rfl
  | some addr =>
    simp only []
    split_ifs
    · rfl
    · rfl
    · cases hf : trdp_queue_find_addr (vos_mutexLock s).pSndQueue addr with
      | none => simp [vos_mutexLock, vos_mutexUnlock]
      | some i => simp [vos_mutexLock, vos_mutexUnlock]

theorem tlp_unsubscribe_depth (env : PD_ENV) (l : List Nat) (h : Nat) (s : TRDP_SESSION_T)
    (subHandle : TRDP_SUB_T) :
    (tlp_unsubscribe env l h s subHandle).2.1.mutexDepth = s.mutexDepth := by
  unfold tlp_unsubscribe
  cases subHandle with
  | none => rfl
  | some addr =>
    simp only []
    split_ifs
    · rfl
    · rfl
    · cases hf : trdp_queue_find_addr (vos_mutexLock s).pSndQueue addr with
      | none => simp [vos_mutexLock, vos_mutexUnlock]
      | some i => simp [vos_mutexLock, vos_mutexUnlock]

theorem subscribeLocked_depth (k : PD_PARAMS) (env : PD_ENV) (s : TRDP_SESSION_T)
    (pUserRef comId srcIpAddr1 destIpAddr timeout maxDataSize : Nat) :
    (subscribeLocked k env s pUserRef comId srcIpAddr1 destIpAddr timeout
      maxDataSize).2.1.mutexDepth = s.mutexDepth - 1 := by
  unfold subscribeLocked
  simp only []
  cases hf : trdp_queue_find_addr s.pRcvQueue ⟨comId, srcIpAddr1, destIpAddr, 0⟩ with
  | some i => rfl
  | none =>
    simp only []
    split_ifs with h1
    · rfl
    · cases ha : env.alloc with
      | none => rfl
      | some newPD =>
        simp only []
        split_ifs <;> rfl

/-- The depth of the session mutex after `tlp_subscribe`: it is the depth before the
call on every path but the return of the second check of the arguments, which is taken
after `vos_mutexLock` when `maxDataSize` is too large or `timeout` too small. -/
theorem tlp_subscribe_depth (k : PD_PARAMS) (env : PD_ENV) (l : List Nat) (h : Nat)
    (s : TRDP_SESSION_T) (pSubHandle : Bool) (pUserRef : Nat)
    (comId srcIpAddr1 destIpAddr timeout maxDataSize : Nat) :
    (tlp_subscribe k env l h s pSubHandle pUserRef comId srcIpAddr1 destIpAddr timeout
      maxDataSize).2.1.mutexDepth =
      if comId ≠ 0 ∧ pSubHandle = true ∧ trdp_isValidSession env.sessionLockOk l h = true ∧
          env.lockOk = true ∧ (maxDataSize > k.MAX_PD_PACKET_SIZE ∨ timeout < k.TIMER_GRANULARITY)
      then s.mutexDepth + 1 else s.mutexDepth := by
  unfold tlp_subscribe
  by_cases h1 : comId = 0
  · simp [h1]
  · cases pSubHandle with
    | false => simp [h1]
    | true =>
      cases hv : trdp_isValidSession env.sessionLockOk l h with
      | false => simp [h1]
      | true =>
        cases hl : env.lockOk with
        | false => simp [h1]
        | true =>
          by_cases h2 : maxDataSize > k.MAX_PD_PACKET_SIZE ∨ timeout < k.TIMER_GRANULARITY
          · have hb : (decide (maxDataSize > k.MAX_PD_PACKET_SIZE) ||
                decide (timeout < k.TIMER_GRANULARITY)) = true := by
              simpa using h2
            simp [h1, h2, hb, vos_mutexLock]
          · have hb : (decide (maxDataSize > k.MAX_PD_PACKET_SIZE) ||
                decide (timeout < k.TIMER_GRANULARITY)) = false := by
              simpa using h2
            simp only [h1, hb, h2, Bool.not_true, Bool.false_eq_true, if_false, decide_False,
              Bool.or_false, Bool.false_or, ne_eq, not_false_eq_true, true_and, and_false,
              Bool.or_self]
            rw [subscribeLocked_depth]
            show s.mutexDepth + 1 - 1 = s.mutexDepth
            omega

theorem getElement_depth (k : PD_PARAMS) (c : PD_COM) (env : PD_ENV) (s : TRDP_SESSION_T)
    (i : Nat) (pElement : PD_ELE_T) (pktFlags : Nat) (pData : List Nat) (dataSize : Nat)
    (r : TRDP_ERR_T × TRDP_SESSION_T × List Nat)
    (hr : getElement k c env s i pElement pktFlags pData dataSize = some r) :
    r.2.1.mutexDepth = s.mutexDepth := by
  unfold getElement at hr
  simp only [] at hr
  split at hr
  · simp at hr
  · split_ifs at hr <;> simp only [Option.some.injEq] at hr <;> rw [← hr]

theorem tlp_get_depth (k : PD_PARAMS) (c : PD_COM) (env : PD_ENV) (l : List Nat) (h : Nat)
    (s : TRDP_SESSION_T) (subHandle : TRDP_SUB_T) (pktFlags : Nat) (pPdInfo : Bool)
    (pData : Option (List Nat)) (pDataSize : Option Nat)
    (r : TRDP_ERR_T × TRDP_SESSION_T × Option (List Nat) × Option TRDP_PD_INFO_T)
    (hr : tlp_get k c env l h s subHandle pktFlags pPdInfo pData pDataSize = some r) :
    r.2.1.mutexDepth = s.mutexDepth := by
  unfold tlp_get at hr
  cases subHandle with
  | none => simp only [Option.some.injEq] at hr; rw [← hr]
  | some addr =>
    cases pData with
    | none => simp only [Option.some.injEq] at hr; rw [← hr]
    | some data =>
      cases pDataSize with
      | none => simp only [Option.some.injEq] at hr; rw [← hr]
      | some dataSize =>
        simp only [] at hr
        by_cases h1 : (!trdp_isValidSession env.sessionLockOk l h) = true
        · rw [if_pos h1] at hr
          simp only [Option.some.injEq] at hr
          rw [← hr]
        by_cases h2 : (!env.lockOk) = true
        · rw [if_neg h1, if_pos h2] at hr
          simp only [Option.some.injEq] at hr
          rw [← hr]
        rw [if_neg h1, if_neg h2] at hr
        · cases hf : trdp_queue_find_addr (vos_mutexLock s).pRcvQueue addr with
          | none =>
            rw [hf] at hr
            simp only [] at hr
            cases pPdInfo with
            | true => simp at hr
            | false =>
              simp only [Bool.false_eq_true, if_false, Option.some.injEq] at hr
              rw [← hr]
              show s.mutexDepth + 1 - 1 = s.mutexDepth
              omega
          | some i =>
            rw [hf] at hr
            simp only [] at hr
            cases he : (vos_mutexLock s).pRcvQueue[i]? with
            | none => rw [he] at hr; simp at hr
            | some pElement =>
              rw [he] at hr
              simp only [] at hr
              cases hg : getElement k c env (vos_mutexLock s) i pElement pktFlags data
                  dataSize with
              | none => rw [hg] at hr; simp at hr
              | some g =>
                rw [hg] at hr
                simp only [] at hr
                have hd := getElement_depth k c env (vos_mutexLock s) i pElement pktFlags data
                  dataSize g hg
                cases hq : g.2.1.pRcvQueue[i]? with
                | none => rw [hq] at hr; simp at hr
                | some e =>
                  rw [hq] at hr
                  simp only [Option.some.injEq] at hr
                  rw [← hr]
                  show g.2.1.mutexDepth - 1 = s.mutexDepth
                  rw [hd]
                  show s.mutexDepth + 1 - 1 = s.mutexDepth
                  omega

theorem tlc_getInterval_depth (k : PD_PARAMS) (env : PD_ENV) (l : List Nat) (h : Nat)
    (s : TRDP_SESSION_T) (pFileDesc : Option (List Int)) :
    (tlc_getInterval k env l h s pFileDesc).2.1.mutexDepth = s.mutexDepth := by
  unfold tlc_getInterval
  simp only []
  split_ifs
  · rfl
  · rfl
  · show s.mutexDepth + 1 - 1 = s.mutexDepth
    omega
  · show s.mutexDepth + 1 - 1 = s.mutexDepth
    omega

theorem pdReceiveLoop_depth (c : PD_COM) (fuel i : Nat) (s : TRDP_SESSION_T) (fds : List Int)
    (count : Int) (err : TRDP_ERR_T) :
    (pdReceiveLoop c fuel i s fds count err).2.1.mutexDepth = s.mutexDepth := by
  induction fuel generalizing i s fds count err with
  | zero => rfl
  | succ n ih =>
    unfold pdReceiveLoop
    cases hq : s.pRcvQueue[i]? with
    | none => rfl
    | some e =>
      simp only []
      split_ifs
      · exact ih _ _ _ _ _
      · exact ih _ _ _ _ _

theorem processReceive_depth (c : PD_COM) (s : TRDP_SESSION_T) (pRfds : Option (List Int))
    (pCount : Option Int) :
    (processReceive c s pRfds pCount).2.1.mutexDepth = s.mutexDepth := by
  unfold processReceive
  cases pRfds with
  | none => rfl
  | some fds =>
    cases pCount with
    | none => rfl
    | some count =>
      simp only []
      split_ifs
      · exact pdReceiveLoop_depth c _ _ _ _ _ _
      · rfl

theorem tlc_process_depth (k : PD_PARAMS) (c : PD_COM) (env : PD_ENV) (l : List Nat) (h : Nat)
    (s : TRDP_SESSION_T) (pRfds : Option (List Int)) (pCount : Option Int)
    (r : TRDP_ERR_T × TRDP_SESSION_T × Option (List Int) × Option Int)
    (hr : tlc_process k c env l h s pRfds pCount = some r) :
    r.2.1.mutexDepth = s.mutexDepth := by
  cases hv : trdp_isValidSession env.sessionLockOk l h with
  | false =>
    unfold tlc_process at hr
    simp only [hv, Bool.not_false, if_true, Option.some.injEq] at hr
    rw [← hr]
  | true =>
    cases hl : env.lockOk with
    | false =>
      unfold tlc_process at hr
      simp only [hv, hl, Bool.not_true, Bool.not_false, Bool.false_eq_true, if_false, if_true,
        Option.some.injEq] at hr
      rw [← hr]
    | true =>
      rw [tlc_process_some k c env l h s pRfds pCount r hv hl hr]
      show (processReceive c _ pRfds pCount).2.1.mutexDepth - 1 = s.mutexDepth
      rw [processReceive_depth]
      show s.mutexDepth + 1 - 1 = s.mutexDepth
      omega

theorem tlc_reinit_depth (k : PD_PARAMS) (env : PD_ENV) (l : List Nat) (h : Nat)
    (s : TRDP_SESSION_T) : (tlc_reinit k env l h s).2.mutexDepth = s.mutexDepth := by
  unfold tlc_reinit
  split_ifs
  · rfl
  · rfl
  · show s.mutexDepth + 1 - 1 = s.mutexDepth
    omega

theorem tlp_setRedundant_depth (env : PD_ENV) (l : List Nat) (h : Nat) (s : TRDP_SESSION_T)
    (redId : Nat) (leader : Bool) :
    (tlp_setRedundant env l h s redId leader).2.mutexDepth = s.mutexDepth := by
  unfold tlp_setRedundant
  split_ifs
  · rfl
  · rfl
  · show s.mutexDepth + 1 - 1 = s.mutexDepth
    omega

theorem tlp_getRedundant_depth (env : PD_ENV) (l : List Nat) (h : Nat) (s : TRDP_SESSION_T)
    (pLeader : Bool) :
    (tlp_getRedundant env l h s pLeader).2.1.mutexDepth = s.mutexDepth := by
  unfold tlp_getRedundant
  split_ifs
  · rfl
  · rfl
  · rfl
  · show s.mutexDepth + 1 - 1 = s.mutexDepth
    omega

/-- C28, the code at the failing input: `tlp_subscribe` on a valid session with a
timeout of 5000 us, below `TIMER_GRANULARITY`, or with `maxDataSize` 2000, above
`MAX_PD_PACKET_SIZE`, returns `TRDP_PARAM_ERR` from the second check of the arguments,
after `vos_mutexLock` and without `vos_mutexUnlock`: the depth of the session mutex is
1 after the call, it was 0 before. In general the depth after `tlp_subscribe` exceeds
the depth before the call by one exactly on this path. The other functions leave the
depth as it was on every path on which they return: `tlp_publish`, `tlp_unpublish`,
`tlp_put`, `tlp_unsubscribe`, `tlp_get`, `tlc_getInterval`, `tlc_process`,
`tlp_setRedundant`, `tlp_getRedundant` and `tlc_reinit`. -/
theorem tlp_subscribe_keeps_mutex :
    exPdSession.mutexDepth = 0 ∧
    (tlp_subscribe exPdParams (exPdEnv 100) exSessions 1 exPdSession true 0 1001 0 9
      5000 100).1 = TRDP_PARAM_ERR ∧
    (tlp_subscribe exPdParams (exPdEnv 100) exSessions 1 exPdSession true 0 1001 0 9
      5000 100).2.1.mutexDepth = 1 ∧
    (tlp_subscribe exPdParams (exPdEnv 100) exSessions 1 exPdSession true 0 1001 0 9
      1000000 2000).1 = TRDP_PARAM_ERR ∧
    (tlp_subscribe exPdParams (exPdEnv 100) exSessions 1 exPdSession true 0 1001 0 9
      1000000 2000).2.1.mutexDepth = 1 ∧
    (∀ (k : PD_PARAMS) (env : PD_ENV) (sSession : List Nat) (appHandle : Nat)
        (s : TRDP_SESSION_T) (pSubHandle : Bool)
        (pUserRef comId srcIpAddr1 destIpAddr timeout maxDataSize : Nat),
      (tlp_subscribe k env sSession appHandle s pSubHandle pUserRef comId srcIpAddr1
        destIpAddr timeout maxDataSize).2.1.mutexDepth =
        if comId ≠ 0 ∧ pSubHandle = true ∧
            trdp_isValidSession env.sessionLockOk sSession appHandle = true ∧
            env.lockOk = true ∧
            (maxDataSize > k.MAX_PD_PACKET_SIZE ∨ timeout < k.TIMER_GRANULARITY)
        then s.mutexDepth + 1 else s.mutexDepth) ∧
    (∀ (k : PD_PARAMS) (c : PD_COM) (env envPut : PD_ENV) (sSession : List Nat)
        (appHandle : Nat) (s : TRDP_SESSION_T),
      (∀ (pPubHandle : Bool) (comId topoCount srcIpAddr destIpAddr interval pktFlags : Nat)
          (pData : Option (List Nat)) (dataSize : Nat),
        (tlp_publish k c env envPut sSession appHandle s pPubHandle comId topoCount
          srcIpAddr destIpAddr interval pktFlags pData dataSize).2.1.mutexDepth =
          s.mutexDepth) ∧
      (∀ pubHandle : TRDP_PUB_T,
        (tlp_unpublish env sSession appHandle s pubHandle).2.1.mutexDepth = s.mutexDepth) ∧
      (∀ (pubHandle : TRDP_PUB_T) (pData : Option (List Nat)) (dataSize : Nat),
        (tlp_put c env sSession appHandle s pubHandle pData dataSize).2.mutexDepth =
          s.mutexDepth) ∧
      (∀ subHandle : TRDP_SUB_T,
        (tlp_unsubscribe env sSession appHandle s subHandle).2.1.mutexDepth =
          s.mutexDepth) ∧
      (∀ (subHandle : TRDP_SUB_T) (pktFlags : Nat) (pPdInfo : Bool)
          (pData : Option (List Nat)) (pDataSize : Option Nat)
          (r : TRDP_ERR_T × TRDP_SESSION_T × Option (List Nat) × Option TRDP_PD_INFO_T),
        tlp_get k c env sSession appHandle s subHandle pktFlags pPdInfo pData pDataSize =
          some r → r.2.1.mutexDepth = s.mutexDepth) ∧
      (∀ pFileDesc : Option (List Int),
        (tlc_getInterval k env sSession appHandle s pFileDesc).2.1.mutexDepth =
          s.mutexDepth) ∧
      (∀ (pRfds : Option (List Int)) (pCount : Option Int)
          (r : TRDP_ERR_T × TRDP_SESSION_T × Option (List Int) × Option Int),
        tlc_process k c env sSession appHandle s pRfds pCount = some r →
          r.2.1.mutexDepth = s.mutexDepth) ∧
      (∀ (redId : Nat) (leader : Bool),
        (tlp_setRedundant env sSession appHandle s redId leader).2.mutexDepth =
          s.mutexDepth) ∧
      (∀ pLeader : Bool,
        (tlp_getRedundant env sSession appHandle s pLeader).2.1.mutexDepth =
          s.mutexDepth) ∧
      (tlc_reinit k env sSession appHandle s).2.mutexDepth = s.mutexDepth) := by
  refine ⟨by decide, by decide, by decide, by decide, by decide, ?_, ?_⟩
  · intro k env l h s pSubHandle pUserRef comId srcIpAddr1 destIpAddr timeout maxDataSize
    exact tlp_subscribe_depth k env l h s pSubHandle pUserRef comId srcIpAddr1 destIpAddr
      timeout maxDataSize
  · intro k c env envPut l h s
    refine ⟨?_, ?_, ?_, ?_, ?_, ?_, ?_, ?_, ?_, ?_⟩
    · intro pPubHandle comId topoCount srcIpAddr destIpAddr interval pktFlags pData dataSize
      exact tlp_publish_depth k c env envPut l h s pPubHandle comId topoCount srcIpAddr
        destIpAddr interval pktFlags pData dataSize
    · exact fun pubHandle => tlp_unpublish_depth env l h s pubHandle
    · exact fun pubHandle pData dataSize => tlp_put_depth c env l h s pubHandle pData dataSize
    · exact fun subHandle => tlp_unsubscribe_depth env l h s subHandle
    · exact fun subHandle pktFlags pPdInfo pData pDataSize r hr =>
        tlp_get_depth k c env l h s subHandle pktFlags pPdInfo pData pDataSize r hr
    · exact fun pFileDesc => tlc_getInterval_depth k env l h s pFileDesc
    · exact fun pRfds pCount r hr => tlc_process_depth k c env l h s pRfds pCount r hr
    · exact fun redId leader => tlp_setRedundant_depth env l h s redId leader
    · exact fun pLeader => tlp_getRedundant_depth env l h s pLeader
    · exact tlc_reinit_depth k env l h s

/-! ## C29 and C30: the data CRC and the statistics of the MD ingress -/

/-- C29, the code at the failing input: a packet of 112 bytes, the size of the header,
whose header carries datasetLength 4 and a valid FCS. `trdp_mdCheck` computes the data
CRC over the four bytes at the offsets 112 to 115, which are not part of the packet, and
compares it with the last four bytes of the packet, the FCS word of the header. Two
memories with the same 112 bytes of the packet and different bytes behind them give
different results: `TRDP_WIRE_ERR` from the length check when the bytes behind the
packet have the CRC that the comparison expects, `TRDP_CRC_ERR` otherwise. -/
theorem mdCheck_reads_past_packet :
    memSpan exPastA 0 112 = memSpan exPastB 0 112 ∧
    vos_ntohl exPastA OFF_datasetLength = 4 ∧
    ¬ (sizeof_MD_HEADER_T + vos_ntohl exPastA OFF_datasetLength + 4 ≤ 112) ∧
    memSpan exPastA (112 - 4) 4 = memSpan exPastA OFF_frameCheckSum 4 ∧
    (trdp_mdCheck exParams exStats exPastA 112).1 = TRDP_WIRE_ERR ∧
    (trdp_mdCheck exParams exStats exPastB 112).1 = TRDP_CRC_ERR := by
  decide!

theorem mdCheckCrc_cases (pPacket : List Nat) (packetSize : Nat)
    (stats : TRDP_MD_STATISTICS_T) :
    mdCheckCrc pPacket packetSize (TRDP_NO_ERR, stats) = (TRDP_NO_ERR, stats) ∨
    mdCheckCrc pPacket packetSize (TRDP_NO_ERR, stats) =
      (TRDP_CRC_ERR, { stats with numCrcErr := inc32 stats.numCrcErr }) ∨
    mdCheckCrc pPacket packetSize (TRDP_NO_ERR, stats) =
      (TRDP_CRC_ERR, { stats with numCrcErr := inc32 (inc32 stats.numCrcErr) }) := by
  unfold mdCheckCrc
  simp only [if_true]
  split_ifs <;> simp

theorem trdp_mdCheck_stats (k : TRDP_PARAMS) (stats : TRDP_MD_STATISTICS_T)
    (pPacket : List Nat) (packetSize : Nat) :
    trdp_mdCheck k stats pPacket packetSize = (TRDP_NO_ERR, stats) ∨
    trdp_mdCheck k stats pPacket packetSize =
      (TRDP_WIRE_ERR, { stats with numProtErr := inc32 stats.numProtErr }) ∨
    trdp_mdCheck k stats pPacket packetSize =
      (TRDP_CRC_ERR, { stats with numCrcErr := inc32 stats.numCrcErr }) ∨
    trdp_mdCheck k stats pPacket packetSize =
      (TRDP_CRC_ERR, { stats with numCrcErr := inc32 (inc32 stats.numCrcErr) }) := by
  unfold trdp_mdCheck
  rw [mdCheckSize_eq]
  by_cases h1 : packetSize < sizeof_MD_HEADER_T ∨ packetSize > k.TRDP_MAX_MD_PACKET_SIZE
  · rw [if_pos h1, mdCheckCrc_of_err _ _ _ (by simp), mdCheck_tail_of_err _ _ _ _ (by simp)]
    exact Or.inr (Or.inl rfl)
  · rw [if_neg h1]
    rcases mdCheckCrc_cases pPacket packetSize stats with hc | hc | hc
    · rw [hc, mdCheckVersion_eq]
      by_cases h3 : (vos_ntohs pPacket OFF_protocolVersion &&& TRDP_PROTOCOL_VERSION_CHECK_MASK) ≠
          (k.TRDP_PROTO_VER &&& TRDP_PROTOCOL_VERSION_CHECK_MASK)
      · rw [if_pos h3, mdCheckType_of_err _ _ (by simp), mdCheckLength_of_err _ _ _ (by simp)]
        exact Or.inr (Or.inl rfl)
      · rw [if_neg h3, mdCheckType_eq]
        by_cases h4 : mdValidMsgType (vos_ntohs pPacket OFF_msgType) = true
        · rw [if_pos h4, mdCheckLength_eq]
          by_cases h5 : packetSize < mdExpectedLength pPacket
          · rw [if_pos h5]
            exact Or.inr (Or.inl rfl)
          · rw [if_neg h5]
            exact Or.inl rfl
        · rw [if_neg h4, mdCheckLength_of_err _ _ _ (by simp)]
          exact Or.inr (Or.inl rfl)
    · rw [hc, mdCheck_tail_of_err _ _ _ _ (by simp)]
      exact Or.inr (Or.inr (Or.inl rfl))
    · rw [hc, mdCheck_tail_of_err _ _ _ _ (by simp)]
      exact Or.inr (Or.inr (Or.inr rfl))

theorem mdRecvCheck_stats (k : TRDP_PARAMS) (stats : TRDP_MD_STATISTICS_T) (size : Nat)
    (pPacket : MD_ELE_T) :
    ((mdRecvCheck k stats TRDP_NO_ERR size pPacket).1 = TRDP_NO_ERR ∧
      (mdRecvCheck k stats TRDP_NO_ERR size pPacket).2.1 =
        { stats with numRcv := inc32 stats.numRcv }) ∨
    ((mdRecvCheck k stats TRDP_NO_ERR size pPacket).1 = TRDP_WIRE_ERR ∧
      (mdRecvCheck k stats TRDP_NO_ERR size pPacket).2.1 =
        { stats with numProtErr := inc32 (inc32 stats.numProtErr) }) ∨
    ((mdRecvCheck k stats TRDP_NO_ERR size pPacket).1 = TRDP_CRC_ERR ∧
      ((mdRecvCheck k stats TRDP_NO_ERR size pPacket).2.1 =
          { stats with numCrcErr := inc32 (inc32 stats.numCrcErr) } ∨
        (mdRecvCheck k stats TRDP_NO_ERR size pPacket).2.1 =
          { stats with numCrcErr := inc32 (inc32 (inc32 stats.numCrcErr)) })) := by
  unfold mdRecvCheck
  simp only []
  rw [if_neg (by simp), if_neg (by simp)]
  rcases trdp_mdCheck_stats k stats pPacket.frame size with hc | hc | hc | hc <;> rw [hc]
  · exact Or.inl ⟨rfl, rfl⟩
  · exact Or.inr (Or.inl ⟨rfl, rfl⟩)
  · exact Or.inr (Or.inr ⟨rfl, Or.inl rfl⟩)
  · exact Or.inr (Or.inr ⟨rfl, Or.inr rfl⟩)

theorem trdp_mdRecv_counts (k : TRDP_PARAMS) (stats : TRDP_MD_STATISTICS_T) (env : MD_RX_ENV)
    (pPacket : MD_ELE_T) (h1 : env.rcvErr = TRDP_NO_ERR)
    (h2 : pPacket.pktFlags &&& k.TRDP_FLAGS_TCP ≠ 0 → env.rcvErr2 = TRDP_NO_ERR) :
    ((trdp_mdRecv k stats env pPacket).1 = TRDP_NO_ERR ∧
      (trdp_mdRecv k stats env pPacket).2.1 = { stats with numRcv := inc32 stats.numRcv }) ∨
    ((trdp_mdRecv k stats env pPacket).1 = TRDP_WIRE_ERR ∧
      (trdp_mdRecv k stats env pPacket).2.1 =
        { stats with numProtErr := inc32 (inc32 stats.numProtErr) }) ∨
    ((trdp_mdRecv k stats env pPacket).1 = TRDP_CRC_ERR ∧
      ((trdp_mdRecv k stats env pPacket).2.1 =
          { stats with numCrcErr := inc32 (inc32 stats.numCrcErr) } ∨
        (trdp_mdRecv k stats env pPacket).2.1 =
          { stats with numCrcErr := inc32 (inc32 (inc32 stats.numCrcErr)) })) := by
  unfold trdp_mdRecv
  simp only []
  by_cases h0 : pPacket.pktFlags &&& k.TRDP_FLAGS_TCP ≠ 0
  · rw [if_pos h0, if_neg (by rw [h1]; simp), if_neg (by rw [h1]; simp), h2 h0]
    exact mdRecvCheck_stats k stats _ _
  · rw [if_neg h0, h1]
    exact mdRecvCheck_stats k stats _ _

/-- C30, the code at the failing inputs: a frame with a wrong header FCS is counted twice
in `numCrcErr`, once by `trdp_mdCheck` and once by the switch of `trdp_mdRecv`; a frame
with a wrong FCS and a wrong data CRC is counted three times; a frame with an unknown
message type is counted twice in `numProtErr`; an accepted frame is counted once in
`numRcv`. In general, for a frame that is read without a socket error, the frame is
counted once in `numRcv` when the result is `TRDP_NO_ERR`, twice in `numProtErr` when it
is `TRDP_WIRE_ERR` and twice or three times in `numCrcErr` when it is `TRDP_CRC_ERR`
(the counters are `UINT32` and wrap); no other counter changes and there is no other
result. -/
theorem mdRecv_counts_errors_twice :
    (trdp_mdRecv exParams exStats (exEnvSized exFrameBadFcs 112) MD_ELE_T.zero).1 =
      TRDP_CRC_ERR ∧
    (trdp_mdRecv exParams exStats (exEnvSized exFrameBadFcs 112) MD_ELE_T.zero).2.1 =
      { numRcv := 0, numCrcErr := 2, numProtErr := 0, numTopoErr := 0, numNoListener := 0 } ∧
    (trdp_mdRecv exParams exStats (exEnvSized exFrameBadBoth 120) MD_ELE_T.zero).1 =
      TRDP_CRC_ERR ∧
    (trdp_mdRecv exParams exStats (exEnvSized exFrameBadBoth 120) MD_ELE_T.zero).2.1 =
      { numRcv := 0, numCrcErr := 3, numProtErr := 0, numTopoErr := 0, numNoListener := 0 } ∧
    (trdp_mdRecv exParams exStats (exEnvSized exFrameBadType 112) MD_ELE_T.zero).1 =
      TRDP_WIRE_ERR ∧
    (trdp_mdRecv exParams exStats (exEnvSized exFrameBadType 112) MD_ELE_T.zero).2.1 =
      { numRcv := 0, numCrcErr := 0, numProtErr := 2, numTopoErr := 0, numNoListener := 0 } ∧
    (trdp_mdRecv exParams exStats (exEnvSized exFrameMp 112) MD_ELE_T.zero).1 =
      TRDP_NO_ERR ∧
    (trdp_mdRecv exParams exStats (exEnvSized exFrameMp 112) MD_ELE_T.zero).2.1 =
      { numRcv := 1, numCrcErr := 0, numProtErr := 0, numTopoErr := 0, numNoListener := 0 } ∧
    (∀ (k : TRDP_PARAMS) (stats : TRDP_MD_STATISTICS_T) (env : MD_RX_ENV) (pPacket : MD_ELE_T),
      env.rcvErr = TRDP_NO_ERR →
      (pPacket.pktFlags &&& k.TRDP_FLAGS_TCP ≠ 0 → env.rcvErr2 = TRDP_NO_ERR) →
      ((trdp_mdRecv k stats env pPacket).1 = TRDP_NO_ERR ∧
        (trdp_mdRecv k stats env pPacket).2.1 = { stats with numRcv := inc32 stats.numRcv }) ∨
      ((trdp_mdRecv k stats env pPacket).1 = TRDP_WIRE_ERR ∧
        (trdp_mdRecv k stats env pPacket).2.1 =
          { stats with numProtErr := inc32 (inc32 stats.numProtErr) }) ∨
      ((trdp_mdRecv k stats env pPacket).1 = TRDP_CRC_ERR ∧
        ((trdp_mdRecv k stats env pPacket).2.1 =
            { stats with numCrcErr := inc32 (inc32 stats.numCrcErr) } ∨
          (trdp_mdRecv k stats env pPacket).2.1 =
            { stats with numCrcErr := inc32 (inc32 (inc32 stats.numCrcErr)) }))) := by
  refine ⟨by decide!, by decide!, by decide!, by decide!, by decide!, by decide!, by decide!,
    by decide!, ?_⟩
  intro k stats env pPacket h1 h2
  exact trdp_mdRecv_counts k stats env pPacket h1 h2

end TRDP
